import Mathlib

/-!
Iridescent microfacet / glittery BSDF: a shallow embedding

Source files embedded here:

* `src/bsdfs/IridescentMicrofacet.h`  (Fresnel terms, sensitivity functions, thin-film term)
* `src/bsdfs/glint/glittery.cpp`      (the `Glittery` BSDF and its adaptive quadrature)

Conventions of the embedding.

* `Float` is read as a real number (`ℝ`); rounding is not modelled.
* An operation that has no real value returns `none`: a quotient whose divisor
  is zero (`fdiv`), a `std::sqrt` of a negative number (`fsqrt`), a read outside
  an array.  In C++ the first two produce an infinity or a NaN and the
  computation goes on; `none` stands for "no real number was produced".
  Divisions by a non-zero literal and roots of a positive literal are written
  with the total operations.
* A value that is computed and not used afterwards has no effect on the result,
  whether it is a real number or not; such a value is computed in the branch
  that uses it.
* `SPECTRUM_SAMPLES == 3`: a `Spectrum` is a triple of reals and the operators
  of `Spectrum` act channel by channel.
* A record is declared over the types of its fields, in the way of the renderer's
  `TVector3<T>`, and carries the name of the source at the types of the renderer:
  `Vector3` is `TVector3 ℝ`, `Glittery P` is `TGlittery (Texture P) Spectrum ℝ`.
-/

namespace Mitsuba

/-! ## Checked real arithmetic -/

/-- Quotient `x / y` of two `Float`s read over the reals; no value when `y = 0`. -/
noncomputable def fdiv (x y : ℝ) : Option ℝ :=
  if y = 0 then none else some (x / y)

/-- The call `std::sqrt(x)` read over the reals; no value when `x < 0`. -/
noncomputable def fsqrt (x : ℝ) : Option ℝ :=
  if x < 0 then none else some (Real.sqrt x)

/-- Modelled from the spec: `math::safe_sqrt` of the renderer core (not in the
two source files): "square roots of potentially negative radicands are floored
at zero before the root". -/
noncomputable def safe_sqrt (x : ℝ) : ℝ :=
  Real.sqrt (max 0 x)

/-- The scalar helper `sqr` of `IridescentMicrofacet.h`. -/
def sqr (s : ℝ) : ℝ := s * s

/-! ## Fresnel reflectance of a conductor (`fresnelConductorExact`) -/

/-- The two outputs `Rp2`, `Rs2` of `fresnelConductorExact`. -/
structure TFresnelR (Float : Type) where
  Rp2 : Float
  Rs2 : Float

/-- The record `TFresnelR` at the types of the renderer, `Float` read as `ℝ`. -/
abbrev FresnelR := TFresnelR ℝ

/-- The function `fresnelConductorExact(cosThetaI, eta, k, Rp2, Rs2)`,
`IridescentMicrofacet.h` lines 104-127. -/
noncomputable def fresnelConductorExact (cosThetaI eta k : ℝ) : Option FresnelR := do
  let cosThetaI2 := cosThetaI * cosThetaI
  let sinThetaI2 := 1 - cosThetaI2
  let sinThetaI4 := sinThetaI2 * sinThetaI2
  let temp1 := eta * eta - k * k - sinThetaI2
  let a2pb2 := safe_sqrt (temp1 * temp1 + 4 * k * k * eta * eta)
  let a := safe_sqrt (0.5 * (a2pb2 + temp1))
  let term1 := a2pb2 + cosThetaI2
  let term2 := 2 * a * cosThetaI
  let Rs2 ← fdiv (term1 - term2) (term1 + term2)
  let term3 := a2pb2 * cosThetaI2 + sinThetaI4
  let term4 := term2 * sinThetaI2
  let Rp2 ← fdiv (Rs2 * (term3 - term4)) (term3 + term4)
  pure ⟨Rp2, Rs2⟩

/-! ## Spectra (`SPECTRUM_SAMPLES == 3`) -/

/-- A `Spectrum` with three samples; `+`, `-`, `*` and scalar multiples act
channel by channel (the pointwise structure on functions). -/
abbrev Spectrum := Fin 3 → ℝ

/-- Gather the results of the three channels; no value as soon as one channel
has none. -/
def collectChannels {α : Type} (f : Fin 3 → Option α) : Option (Fin 3 → α) := do
  let x ← f 0
  let y ← f 1
  let z ← f 2
  pure ![x, y, z]

/-- The operator `a / b` on spectra: channel by channel, checked. -/
noncomputable def Spectrum.cdiv (a b : Spectrum) : Option Spectrum :=
  collectChannels fun i => fdiv (a i) (b i)

/-- The helper `sqrt(const Spectrum &)` (line 18): `std::sqrt` on every channel. -/
noncomputable def Spectrum.csqrt (a : Spectrum) : Option Spectrum :=
  collectChannels fun i => fsqrt (a i)

/-- Modelled from the spec: `Spectrum::clampNegative` of the renderer core (not
in the two source files), "clamp-negative-to-zero" on every channel. -/
noncomputable def Spectrum.clampNegative (s : Spectrum) : Spectrum :=
  fun i => max 0 (s i)

/-- The call `std::atan2(y, x)`: the argument of `x + i y`, in `(-π, π]`, with
`atan2(0, 0) = 0`. -/
noncomputable def atan2 (y x : ℝ) : ℝ := Complex.arg ⟨x, y⟩

/-! ## Phase shift at an interface (`fresnelPhaseExact`) -/

/-- The outputs `phiP`, `phiS` of `fresnelPhaseExact` in one channel. -/
structure TPhaseShift (Float : Type) where
  phiP : Float
  phiS : Float

/-- The record `TPhaseShift` at the types of the renderer, `Float` read as `ℝ`. -/
abbrev PhaseShift := TPhaseShift ℝ

/-- One channel of `fresnelPhaseExact`, lines 86-100. -/
noncomputable def fresnelPhaseExact1 (cost eta1 eta2 kappa2 : ℝ) : Option PhaseShift := do
  let sinThetaSqr := 1 - sqr cost
  let A := sqr eta2 * (1 - sqr kappa2) - sqr eta1 * sinThetaSqr
  let B ← fsqrt (sqr A + sqr (2 * sqr eta2 * kappa2))
  let U ← fsqrt ((A + B) / 2.0)
  let V ← fsqrt ((B - A) / 2.0)
  let phiS := atan2 (2 * eta1 * V * cost) (sqr U + sqr V - sqr (eta1 * cost))
  let phiP := atan2 (2 * eta1 * sqr eta2 * cost * (2 * kappa2 * U - (1 - sqr kappa2) * V))
    (sqr (sqr eta2 * (1 + sqr kappa2) * cost) - sqr eta1 * (sqr U + sqr V))
  pure ⟨phiP, phiS⟩

/-- The call `fresnelPhaseExact(cost, eta1, eta2, kappa2, phiP, phiS)` on spectra:
returns `(phiP, phiS)`. -/
noncomputable def fresnelPhaseExact (cost eta1 eta2 kappa2 : Spectrum) :
    Option (Spectrum × Spectrum) := do
  let p0 ← fresnelPhaseExact1 (cost 0) (eta1 0) (eta2 0) (kappa2 0)
  let p1 ← fresnelPhaseExact1 (cost 1) (eta1 1) (eta2 1) (kappa2 1)
  let p2 ← fresnelPhaseExact1 (cost 2) (eta1 2) (eta2 2) (kappa2 2)
  pure (![p0.phiP, p1.phiP, p2.phiP], ![p0.phiS, p1.phiS, p2.phiS])

/-! ## Sensitivity functions (`evalSensitivity`) -/

/-- Gaussian fit, amplitudes: `_val` (line 133).  `fromLinearRGB(r, g, b)` of the
three-sample build stores `r, g, b` in channels 0, 1, 2. -/
noncomputable def _val : Spectrum := ![3.8789e-13, 3.1255e-13, 3.7110e-13]

/-- Gaussian fit, positions: `_pos` (line 134). -/
noncomputable def _pos : Spectrum := ![1.6810e+06, 1.7953e+06, 2.2084e+06]

/-- Gaussian fit, variances: `_var` (line 136). -/
noncomputable def _var : Spectrum := ![8.6556e+09, 1.8609e+10, 1.3224e+10]

/-- The macro `nCMFs` (line 142). -/
def nCMFs : ℕ := 512

/-- The table `rShX` of `IridescentMicrofacet.h` (line 593), 512 entries. -/
def rShX : List ℚ := [
    (1 : ℚ), (0.9940450157203137 : ℚ), (0.9772224263826175 : ℚ), (0.9497385496264387 : ℚ),
    (0.9119207996601364 : ℚ), (0.8642135529984489 : ℚ), (0.80717264318441 : ℚ),
    (0.7414585554565463 : ℚ), (0.6678284075551504 : ℚ), (0.587126817015461 : ℚ),
    (0.5002757682193087 : ℚ), (0.4082636040312175 : ℚ), (0.3121332769051595 : ℚ),
    (0.2129700028041266 : ℚ), (0.1118523353186993 : ℚ), (0.01011393829168318 : ℚ),
    (-0.09106300768793081 : ℚ), (-0.1905649434248358 : ℚ), (-0.2873071559426191 : ℚ),
    (-0.3802460007414552 : ℚ), (-0.4683905087801271 : ℚ), (-0.5508132467840576 : ℚ),
    (-0.6266603098893443 : ℚ), (-0.6951603373480476 : ℚ), (-0.7556324548985469 : ℚ),
    (-0.8074930612927199 : ℚ), (-0.8502613912058101 : ℚ), (-0.8832576820935848 : ℚ),
    (-0.905953624434137 : ℚ), (-0.9187724676150826 : ℚ), (-0.921709569557586 : ℚ),
    (-0.9148697272002244 : ℚ), (-0.8984640621179378 : ℚ), (-0.8728057267158251 : ℚ),
    (-0.838304505352824 : ℚ), (-0.7954603965808853 : ℚ), (-0.7448562732738022 : ℚ),
    (-0.6871497266666596 : ℚ), (-0.6230642081474611 : ℚ), (-0.5533795889678754 : ℚ),
    (-0.4789109721939761 : ℚ), (-0.4002953837927593 : ℚ), (-0.3188335304506267 : ℚ),
    (-0.2354293386916529 : ℚ), (-0.1509868786693581 : ℚ), (-0.06640038508079547 : ℚ),
    (0.01745532161108804 : ℚ), (0.09973391163065114 : ℚ), (0.1796260271449828 : ℚ),
    (0.2563670854772856 : ℚ), (0.3292443322116229 : ℚ), (0.3976030835040103 : ℚ),
    (0.4608521087526135 : ℚ), (0.5184681169242846 : ℚ), (0.5695904289751799 : ℚ),
    (0.614037955484585 : ℚ), (0.6516892441687734 : ℚ), (0.6823433789180652 : ℚ),
    (0.7058751084255925 : ℚ), (0.7222333560388162 : ℚ), (0.731438970595242 : ℚ),
    (0.7335817795926693 : ℚ), (0.7288170122798454 : ℚ), (0.7173611653702741 : ℚ),
    (0.6994873880491244 : ℚ), (0.675520465743993 : ℚ), (0.6458314837611751 : ℚ),
    (0.6106673423820206 : ℚ), (0.5704456173338581 : ℚ), (0.5259351022464303 : ℚ),
    (0.4776396371904227 : ℚ), (0.4260780903990151 : ℚ), (0.3717789252073649 : ℚ),
    (0.3152750103542828 : ℚ), (0.2570987199832807 : ℚ), (0.1977773624211835 : ℚ),
    (0.1378289693473261 : ℚ), (0.07775846940844101 : ℚ), (0.01805426279558881 : ℚ),
    (-0.04081479411111402 : ℚ), (-0.09839168173097784 : ℚ), (-0.154080258752472 : ℚ),
    (-0.2075990020952878 : ℚ), (-0.2585885644372103 : ℚ), (-0.3067184940609013 : ℚ),
    (-0.3516877919821043 : ℚ), (-0.393225204672231 : ℚ), (-0.431089287565006 : ℚ),
    (-0.465068275361727 : ℚ), (-0.4949797951906427 : ℚ), (-0.5206704579592919 : ℚ),
    (-0.5420153618003649 : ℚ), (-0.5589175393969866 : ℚ), (-0.5713073782363104 : ℚ),
    (-0.5788415048447443 : ℚ), (-0.5817035960808339 : ℚ), (-0.5800135123377278 : ℚ),
    (-0.5738134348660033 : ℚ), (-0.5631702133601519 : ℚ), (-0.548175052161749 : ℚ),
    (-0.528943246598566 : ℚ), (-0.5056139580089486 : ℚ), (-0.4783500120377696 : ℚ),
    (-0.4473377012452166 : ℚ), (-0.4127865700085532 : ℚ), (-0.3749291571783975 : ℚ),
    (-0.3340206700266061 : ℚ), (-0.290247885309481 : ℚ), (-0.2439215397652292 : ℚ),
    (-0.1955089893122244 : ℚ), (-0.1453563034332072 : ℚ), (-0.09382784008514605 : ℚ),
    (-0.04130474765535064 : ℚ), (0.01181679401117986 : ℚ), (0.06512760437666276 : ℚ),
    (0.118207810804339 : ℚ), (0.1706294358346956 : ℚ), (0.2219592585378614 : ℚ),
    (0.2717619396833859 : ℚ), (0.3196033947100501 : ℚ), (0.3650290908601219 : ℚ),
    (0.4073739209390264 : ℚ), (0.4464256129154297 : ℚ), (0.4818003347251554 : ℚ),
    (0.5131371332305563 : ℚ), (0.540102096366093 : ℚ), (0.5623924464916041 : ℚ),
    (0.5797405086258389 : ℚ), (0.5919174961339159 : ℚ), (0.5987370561660189 : ℚ),
    (0.6000585177123294 : ℚ), (0.5957897865622104 : ℚ), (0.5858898337351707 : ℚ),
    (0.5703707270781356 : ℚ), (0.5489282423160149 : ℚ), (0.5219834294259184 : ℚ),
    (0.4898409697698257 : ℚ), (0.4527521807708229 : ℚ), (0.411022312730395 : ℚ),
    (0.3650086193227926 : ℚ), (0.3151177849015706 : ℚ), (0.2618027205039055 : ℚ),
    (0.205558748889499 : ℚ), (0.1469192073230383 : ℚ), (0.08645050499685218 : ℚ),
    (0.0247466798893002 : ℚ), (-0.03757649263803533 : ℚ), (-0.09985788562337768 : ℚ),
    (-0.1613613718163499 : ℚ), (-0.2214489025319487 : ℚ), (-0.2794889351752338 : ℚ),
    (-0.3348654521600775 : ℚ), (-0.3869849799474913 : ℚ), (-0.4352834523855242 : ℚ),
    (-0.4792328336231982 : ℚ), (-0.5183474176457381 : ℚ), (-0.5521897242876594 : ℚ),
    (-0.580375915398921 : ℚ), (-0.6025806596319727 : ℚ), (-0.6185413800378575 : ℚ),
    (-0.6279841470455865 : ℚ), (-0.6303524983805743 : ℚ), (-0.6261066353799146 : ℚ),
    (-0.6152865290915355 : ℚ), (-0.5980045885930976 : ℚ), (-0.5744446734566627 : ℚ),
    (-0.5448602696171849 : ℚ), (-0.5095718463553141 : ℚ), (-0.4689634220092846 : ℚ),
    (-0.4234783756317745 : ℚ), (-0.3736145509970382 : ℚ), (-0.3199187080371331 : ℚ),
    (-0.2629803848452415 : ℚ), (-0.2034252407349984 : ℚ), (-0.1418244671421427 : ℚ),
    (-0.07903966320724665 : ℚ), (-0.01579357970042743 : ℚ), (0.04722067560573527 : ℚ),
    (0.1093158195983951 : ℚ), (0.1698182326402622 : ℚ), (0.228075608151158 : ℚ),
    (0.2834643230637407 : ℚ), (0.3353964429304845 : ℚ), (0.3833262801163121 : ℚ),
    (0.4267564291006053 : ℚ), (0.4652432093685429 : ℚ), (0.4984014536215302 : ℚ),
    (0.5256521317632625 : ℚ), (0.546703101621166 : ℚ), (0.5616440456331906 : ℚ),
    (0.5703797061525724 : ℚ), (0.572885538681438 : ℚ), (0.5692071941799961 : ℚ),
    (0.5594591870658885 : ℚ), (0.5438227738731551 : ℚ), (0.5225430765864634 : ℚ),
    (0.4959254932174385 : ℚ), (0.4643314461574845 : ℚ), (0.4281735261435133 : ℚ),
    (0.3879100962346896 : ℚ), (0.3439949282235598 : ℚ), (0.2968466133944477 : ℚ),
    (0.2472951532964469 : ℚ), (0.1959228109156719 : ℚ), (0.1433218053872979 : ℚ),
    (0.09008735633622054 : ℚ), (0.03681082374745498 : ℚ), (-0.01592697732912523 : ℚ),
    (-0.06756221147269496 : ℚ), (-0.1175541355710993 : ℚ), (-0.1653908231822407 : ℚ),
    (-0.2105944400689915 : ℚ), (-0.2527260168075847 : ℚ), (-0.2913896713108883 : ℚ),
    (-0.3259258979993139 : ℚ), (-0.3562474671092355 : ℚ), (-0.382176964187641 : ℚ),
    (-0.4035385341611737 : ℚ), (-0.4202110135921436 : ℚ), (-0.4321278679705688 : ℚ),
    (-0.4392764957000309 : ℚ), (-0.4416969240885015 : ℚ), (-0.4394799292563241 : ℚ),
    (-0.432764617937844 : ℚ), (-0.4217355146247949 : ℚ), (-0.4066192023289221 : ℚ),
    (-0.3876805693869864 : ℚ), (-0.3650736352184952 : ℚ), (-0.3391930618931658 : ℚ),
    (-0.3105470068878832 : ℚ), (-0.2795140689062947 : ℚ), (-0.2464861956936646 : ℚ),
    (-0.2118638673266235 : ℚ), (-0.1760513563699503 : ℚ), (-0.1394521186707035 : ℚ),
    (-0.1024643650770962 : ℚ), (-0.0654768603920465 : ℚ), (-0.02886499145914754 : ℚ),
    (0.007012858505306671 : ℚ), (0.04181859731076149 : ℚ), (0.07520710402821219 : ℚ),
    (0.1067695189412498 : ℚ), (0.1363524122961763 : ℚ), (0.1637342203454024 : ℚ),
    (0.1887245766790503 : ℚ), (0.211164936536629 : ℚ), (0.2309288086635791 : ℚ),
    (0.2479216113713476 : ℚ), (0.2620801734284563 : ℚ), (0.2733719039490914 : ℚ),
    (0.281793658527543 : ℚ), (0.2873703314693913 : ℚ), (0.2901532060775718 : ℚ),
    (0.2902180965530518 : ℚ), (0.2874712386715068 : ℚ), (0.2822225019946816 : ℚ),
    (0.2746413065705643 : ℚ), (0.2648836660349568 : ℚ), (0.2531178132771449 : ℚ),
    (0.2395218651781889 : ℚ), (0.2242815398268889 : ℚ), (0.2075879513493583 : ℚ),
    (0.189635504742693 : ℚ), (0.1706199101859361 : ℚ), (0.1507363332589153 : ℚ),
    (0.1301776943779931 : ℚ), (0.1091331276034999 : ℚ), (0.08778173910165689 : ℚ),
    (0.06632743421474957 : ℚ), (0.0449491792599129 : ℚ), (0.02380591791667974 : ℚ),
    (0.003047432475124512 : ℚ), (-0.0171861059495994 : ℚ), (-0.03676445077189201 : ℚ),
    (-0.05556746931921007 : ℚ), (-0.0734852217623307 : ℚ), (-0.09041794385829538 : ℚ),
    (-0.106275948211559 : ℚ), (-0.120979458895727 : ℚ), (-0.1344583941218846 : ℚ),
    (-0.1466243607896111 : ℚ), (-0.1573580356155605 : ℚ), (-0.1667065637003596 : ℚ),
    (-0.1746385327801716 : ℚ), (-0.1811307123240239 : ℚ), (-0.1861678105834717 : ℚ),
    (-0.1897422596150171 : ℚ), (-0.1918540311219773 : ℚ), (-0.1925104842242397 : ℚ),
    (-0.1917262445726234 : ℚ), (-0.1895231126083933 : ℚ), (-0.1859299972553591 : ℚ),
    (-0.1809828699473228 : ℚ), (-0.1747247326608464 : ℚ), (-0.1671095924853419 : ℚ),
    (-0.1582934105461101 : ℚ), (-0.1483520692826716 : ℚ), (-0.1373585193883645 : ℚ),
    (-0.1253924194620277 : ℚ), (-0.1125399703396845 : ℚ), (-0.0988936943380664 : ℚ),
    (-0.08455215202964761 : ℚ), (-0.06961959018414435 : ℚ), (-0.05420551569128178 : ℚ),
    (-0.0384241916041237 : ℚ), (-0.02239405288942865 : ℚ), (-0.006237041017877361 : ℚ),
    (0.009914633926088367 : ℚ), (0.0259169710615275 : ℚ), (0.04164254943388465 : ℚ),
    (0.05696419361229037 : ℚ), (0.0717562126072727 : ℚ), (0.08589549549971742 : ℚ),
    (0.09926263561587931 : ℚ), (0.1117430702782357 : ℚ), (0.123228222304165 : ℚ),
    (0.1336166287648992 : ℚ), (0.1428150420675123 : ℚ), (0.1507394881918723 : ℚ),
    (0.1573162669086508 : ℚ), (0.1624482495657187 : ℚ), (0.1660206361400796 : ℚ),
    (0.1680913576593078 : ℚ), (0.1686406676851687 : ℚ), (0.1676628384185918 : ℚ),
    (0.1651664196885201 : ℚ), (0.1611743481421558 : ℚ), (0.1557239018982277 : ℚ),
    (0.148866497863769 : ℚ), (0.1406673309145774 : ℚ), (0.1312048561743105 : ℚ),
    (0.1205701176709137 : ℚ), (0.1088659286755651 : ℚ), (0.09620591101252786 : ℚ),
    (0.08265710662428319 : ℚ), (0.0684309083304553 : ℚ), (0.05367192076449746 : ℚ),
    (0.03852583310613839 : ℚ), (0.02314184558296361 : ℚ), (0.007671102144385855 : ℚ),
    (-0.007734902319463648 : ℚ), (-0.02292592149558805 : ℚ), (-0.03775454506617615 : ℚ),
    (-0.05207775530728299 : ℚ), (-0.06575843449871671 : ℚ), (-0.0786668053542611 : ℚ),
    (-0.09068178748107422 : ℚ), (-0.1016307184403159 : ℚ), (-0.1114246713163246 : ℚ),
    (-0.120013570237251 : ℚ), (-0.1273270108292745 : ℚ), (-0.1333084920758517 : ℚ),
    (-0.1379158682366723 : ℚ), (-0.1411216352189106 : ℚ), (-0.1429130498243814 : ℚ),
    (-0.1432920823281884 : ℚ), (-0.1422752048471245 : ℚ), (-0.1398930199064656 : ℚ),
    (-0.1361897354894225 : ℚ), (-0.1312224946330756 : ℚ), (-0.125031247222586 : ℚ),
    (-0.1176694186978399 : ℚ), (-0.1093040715233986 : ℚ), (-0.1000370905132877 : ℚ),
    (-0.08997751755471282 : ℚ), (-0.07924023770560344 : ℚ), (-0.06794462985231958 : ℚ),
    (-0.0562131984340879 : ℚ), (-0.04417020258487164 : ℚ), (-0.03194029869302458 : ℚ),
    (-0.01964721184233579 : ℚ), (-0.007412450884982232 : ℚ), (0.004645918980828325 : ℚ),
    (0.01641443328474094 : ℚ), (0.02774067246775069 : ℚ), (0.03854975996065596 : ℚ),
    (0.04875162402598104 : ℚ), (0.05826402447490616 : ℚ), (0.06701388525047562 : ℚ),
    (0.07493774954726382 : ℚ), (0.08198211394955987 : ℚ), (0.08810364226004586 : ℚ),
    (0.09326926113120768 : ℚ), (0.09745614097643172 : ℚ), (0.100651566912532 : ℚ),
    (0.1028527056572934 : ℚ), (0.1040662753628179 : ℚ), (0.104253502683029 : ℚ),
    (0.1034704948107789 : ℚ), (0.1017815231868133 : ℚ), (0.09922854419133909 : ℚ),
    (0.09585990300912811 : ℚ), (0.09172959789872018 : ℚ), (0.08689652380869897 : ℚ),
    (0.08142370519853154 : ℚ), (0.07537752750486644 : ℚ), (0.0688269761715349 : ℚ),
    (0.0618428915439613 : ℚ), (0.05449724722813724 : ℚ), (0.0468624587432479 : ℚ),
    (0.03900669230131588 : ℚ), (0.03100631261744332 : ℚ), (0.02294328250604689 : ℚ),
    (0.01488482197130333 : ℚ), (0.006895590881326833 : ℚ), (-0.0009626902007970829 : ℚ),
    (-0.008631566894789519 : ℚ), (-0.01605612668574975 : ℚ), (-0.02318522516034824 : ℚ),
    (-0.02997166512286821 : ℚ), (-0.03637233141393236 : ℚ), (-0.04234828466668295 : ℚ),
    (-0.04786481755974646 : ℚ), (-0.052890910152942 : ℚ), (-0.05735365813768503 : ℚ),
    (-0.06127514030192378 : ℚ), (-0.06463882597471193 : ℚ), (-0.06743222679118163 : ℚ),
    (-0.06964680399463367 : ℚ), (-0.07127786732197962 : ℚ), (-0.07232446801883283 : ℚ),
    (-0.07278928811191521 : ℚ), (-0.07267852762636805 : ℚ), (-0.07200179098353261 : ℚ),
    (-0.07077197336030887 : ℚ), (-0.06900514734363074 : ℚ), (-0.06672044978197611 : ℚ),
    (-0.06391154739804047 : ℚ), (-0.06062367526001065 : ℚ), (-0.05689881682839509 : ℚ),
    (-0.05276797168107501 : ℚ), (-0.04826454138910108 : ℚ), (-0.04342418736760212 : ℚ),
    (-0.03828467745425625 : ℚ), (-0.0328857193711385 : ℚ), (-0.0272687793652273 : ℚ),
    (-0.02147688452268086 : ℚ), (-0.01555440750852847 : ℚ), (-0.009546832792206328 : ℚ),
    (-0.003500503775119075 : ℚ), (0.002535645648454881 : ℚ), (0.008506711843627328 : ℚ),
    (0.0143661630682418 : ℚ), (0.02006742430136935 : ℚ), (0.02556477731417328 : ℚ),
    (0.03081372088437002 : ℚ), (0.03577133830300099 : ℚ), (0.04039666863175954 : ℚ),
    (0.04465107782721101 : ℚ), (0.04849862555747343 : ℚ), (0.05190642330322 : ℚ),
    (0.05484497916339857 : ℚ), (0.05728852468129091 : ℚ), (0.05921315080264011 : ℚ),
    (0.0605572719568326 : ℚ), (0.06135308090058447 : ℚ), (0.06159404773654277 : ℚ),
    (0.06127861100736932 : ℚ), (0.06041026764617031 : ℚ), (0.05899761337446189 : ℚ),
    (0.05705433146203878 : ℚ), (0.05459912837212554 : ℚ), (0.05165561546024773 : ℚ),
    (0.04825213656809472 : ℚ), (0.04442154204561539 : ℚ), (0.04020091043668472 : ℚ),
    (0.03563121976680716 : ℚ), (0.03074108967058573 : ℚ), (0.02559642326266332 : ℚ),
    (0.02025544395887706 : ℚ), (0.01477090882640944 : ℚ), (0.009196917804560629 : ℚ),
    (0.003588353053235289 : ℚ), (-0.001999694344503621 : ℚ), (-0.007512503678985425 : ℚ),
    (-0.01289630311832312 : ℚ), (-0.01809884057056305 : ℚ), (-0.02306994008152143 : ℚ),
    (-0.02776203706131781 : ℚ), (-0.0321306858340019 : ℚ), (-0.03612065907022888 : ℚ),
    (-0.03968384557518716 : ℚ), (-0.04280870593800514 : ℚ), (-0.04546924679539362 : ℚ),
    (-0.04764459662213322 : ℚ), (-0.04931918961502475 : ℚ), (-0.05048288765576057 : ℚ),
    (-0.05113103919332472 : ℚ), (-0.05126447467292062 : ℚ), (-0.05088943892644827 : ℚ),
    (-0.05001746171968502 : ℚ), (-0.04866516841413924 : ℚ), (-0.04685403343784574 : ℚ),
    (-0.04460728530678813 : ℚ), (-0.0419291299109855 : ℚ), (-0.03888984530958663 : ℚ),
    (-0.03552767361973286 : ℚ), (-0.03188351177982434 : ℚ), (-0.02800040381375384 : ℚ),
    (-0.02392301770744531 : ℚ), (-0.01969711355286261 : ℚ), (-0.01536900961641498 : ℚ),
    (-0.01098505290657599 : ℚ), (-0.006591100651658522 : ℚ), (-0.002232018855971855 : ℚ),
    (0.00204879621517387 : ℚ), (0.006209868159380842 : ℚ), (0.01019862840878762 : ℚ),
    (0.01398226595757954 : ℚ), (0.01753197254038925 : ℚ), (0.02081892280301346 : ℚ),
    (0.02381794863981729 : ℚ)]

/-- The table `iShX` of `IridescentMicrofacet.h` (line 595), 512 entries. -/
def iShX : List ℚ := [
    (0 : ℚ), (-0.1039265251057171 : ℚ), (-0.2065800881652519 : ℚ), (-0.3068169175447939 : ℚ),
    (-0.4035232749710411 : ℚ), (-0.4956283326432087 : ℚ), (-0.5821165010554308 : ℚ),
    (-0.6620390621357937 : ℚ), (-0.7345249712176964 : ℚ), (-0.7987907018246247 : ℚ),
    (-0.8541490191476078 : ℚ), (-0.9000165812883885 : ℚ), (-0.935920281680925 : ℚ),
    (-0.9615022614283765 : ℚ), (-0.9758846187690258 : ℚ), (-0.9792909095236924 : ℚ),
    (-0.9720643738512703 : ℚ), (-0.9543673358128768 : ℚ), (-0.9264788514596765 : ℚ),
    (-0.8887903238279093 : ℚ), (-0.841799844223976 : ℚ), (-0.7861053416458816 : ℚ),
    (-0.722396635496359 : ℚ), (-0.6514464987902822 : ℚ), (-0.5741008497226986 : ℚ),
    (-0.491268198636791 : ℚ), (-0.4039084850217542 : ℚ), (-0.3129472285593854 : ℚ),
    (-0.2194887288786206 : ℚ), (-0.124775533430921 : ℚ), (-0.02984930145713428 : ℚ),
    (0.06426227655387436 : ℚ), (0.1565569015393633 : ℚ), (0.2460685754330408 : ℚ),
    (0.3318778779226862 : ℚ), (0.4131215006274416 : ℚ), (0.4890009399901625 : ℚ),
    (0.5587902622211787 : ℚ), (0.6218428664965197 : ℚ), (0.6775971861479539 : ℚ),
    (0.7255571230881924 : ℚ), (0.7646437891066055 : ℚ), (0.7952680332396781 : ℚ),
    (0.8172736469902422 : ℚ), (0.8306000304446685 : ℚ), (0.8352803582041592 : ℚ),
    (0.8314387228924249 : ℚ), (0.8192863209640207 : ℚ), (0.7991167553302759 : ℚ),
    (0.7713005379353173 : ℚ), (0.7362788827800911 : ℚ), (0.694556885948524 : ℚ),
    (0.6466961938939703 : ℚ), (0.5933072645661417 : ℚ), (0.5347853132845889 : ℚ),
    (0.4720841711165213 : ℚ), (0.4060392413680439 : ℚ), (0.3373748291071983 : ℚ),
    (0.2668193034649554 : ℚ), (0.1950973904115439 : ℚ), (0.1229228339475449 : ℚ),
    (0.05099149699177323 : ℚ), (-0.02002503547406873 : ℚ), (-0.08948529765230037 : ℚ),
    (-0.1567831847799329 : ℚ), (-0.2213525615825705 : ℚ), (-0.2826712132104462 : ℚ),
    (-0.3401198092475141 : ℚ), (-0.3931424399938337 : ℚ), (-0.4415845268436324 : ℚ),
    (-0.4851428145777457 : ℚ), (-0.5235674933413822 : ℚ), (-0.5566618781769419 : ℚ),
    (-0.5842815660899802 : ℚ), (-0.6063331185311567 : ℚ), (-0.6227723207636833 : ℚ),
    (-0.6336020722130135 : ℚ), (-0.6388699635615807 : ℚ), (-0.6386655970663906 : ℚ),
    (-0.6331177063629009 : ℚ), (-0.6223618361654154 : ℚ), (-0.606240729651279 : ℚ),
    (-0.5854172951567668 : ℚ), (-0.5601529631378043 : ℚ), (-0.5307313270691141 : ℚ),
    (-0.4974552173246956 : ℚ), (-0.4606439123543703 : ℚ), (-0.4206305067861361 : ℚ),
    (-0.3777594503301892 : ℚ), (-0.3323842656826388 : ℚ), (-0.2848654481187974 : ℚ),
    (-0.2355685442169461 : ℚ), (-0.1848624022478914 : ℚ), (-0.1331175822820824 : ℚ),
    (-0.08068937626730259 : ℚ), (-0.02801968565189546 : ℚ), (0.02451076146624515 : ℚ),
    (0.0765396343014686 : ℚ), (0.1277096289737798 : ℚ), (0.1776695520338551 : ℚ),
    (0.2260754255670441 : ℚ), (0.2725916361145054 : ℚ), (0.3168921471578391 : ℚ),
    (0.3586617918695834 : ℚ), (0.397597659295593 : ℚ), (0.4334105831725086 : ℚ),
    (0.4658267382665237 : ℚ), (0.494443025856113 : ℚ), (0.518938797835423 : ℚ),
    (0.5392911553906423 : ℚ), (0.5553140895926627 : ℚ), (0.5668473577214119 : ℚ),
    (0.5737585404579088 : ℚ), (0.5759450735406395 : ℚ), (0.5733362185606445 : ℚ),
    (0.5658949351549878 : ℚ), (0.5536196150824503 : ℚ), (0.5365456375717161 : ℚ),
    (0.5147467049547395 : ℚ), (0.4883359179614676 : ℚ), (0.4574289743247147 : ℚ),
    (0.4219465051093571 : ℚ), (0.3824901014419413 : ℚ), (0.339347140927066 : ℚ),
    (0.2928438166495982 : ℚ), (0.2433435893043553 : ℚ), (0.1912451658574032 : ℚ),
    (0.13698000245967 : ℚ), (0.08100933617149957 : ℚ), (0.02382075707339 : ℚ),
    (-0.03407566056131679 : ℚ), (-0.09215164226863169 : ℚ), (-0.1498653798313914 : ℚ),
    (-0.2066665406452572 : ℚ), (-0.2618565462451132 : ℚ), (-0.3148951547170942 : ℚ),
    (-0.3652739397790236 : ℚ), (-0.4124716978075438 : ℚ), (-0.4559898510728575 : ℚ),
    (-0.4953582354310223 : ℚ), (-0.5301407327754077 : ℚ), (-0.5599406748937066 : ℚ),
    (-0.5844059462872755 : ℚ), (-0.6032337153828805 : ℚ), (-0.6161747263944892 : ℚ),
    (-0.6230370878553483 : ℚ), (-0.6236894985085464 : ℚ), (-0.6178113436226361 : ℚ),
    (-0.605362371441044 : ℚ), (-0.5867290542138515 : ℚ), (-0.5620628422118088 : ℚ),
    (-0.5315810030135164 : ℚ), (-0.4955650675080551 : ℚ), (-0.4543585107919907 : ℚ),
    (-0.4083636840824629 : ℚ), (-0.3580380231914673 : ℚ), (-0.3038895683215953 : ℚ),
    (-0.2464718388412832 : ℚ), (-0.1863781151715681 : ℚ), (-0.1242351878634685 : ℚ),
    (-0.06068899357484055 : ℚ), (0.003553701913867125 : ℚ), (0.06769991787386895 : ℚ),
    (0.1310618762362039 : ℚ), (0.1929586804285803 : ℚ), (0.2527240518618398 : ℚ),
    (0.3097139329987797 : ℚ), (0.3633138658769553 : ℚ), (0.4129460572928231 : ℚ),
    (0.4580760452480311 : ℚ), (0.4982188856725362 : ℚ), (0.5329447838250672 : ℚ),
    (0.5618841010716017 : ℚ), (0.5847316748902006 : ℚ), (0.6007838895019431 : ℚ),
    (0.6102202417844304 : ℚ), (0.6130765042351221 : ℚ), (0.6093567758484228 : ℚ),
    (0.5991386325952303 : ℚ), (0.5825719379825882 : ℚ), (0.5598768138531263 : ℚ),
    (0.5313407985991097 : ℚ), (0.4973152294992407 : ℚ), (0.4582108949504631 : ℚ),
    (0.4144930108636701 : ℚ), (0.3666755833297232 : ℚ), (0.3153152267551851 : ℚ),
    (0.2609078633944011 : ℚ), (0.2041640338823222 : ℚ), (0.1458624490628295 : ℚ),
    (0.08666046650271714 : ℚ), (0.02721813554638386 : ℚ), (-0.03180940341031013 : ℚ),
    (-0.08977937624072471 : ℚ), (-0.1460686024703748 : ℚ), (-0.2000804098844442 : ℚ),
    (-0.2512511581351344 : ℚ), (-0.2990562985947227 : ℚ), (-0.3430159039599755 : ℚ),
    (-0.3826996080870612 : ℚ), (-0.4176570422780628 : ℚ), (-0.4472477700521048 : ℚ),
    (-0.4715757132921549 : ℚ), (-0.4904653036314112 : ℚ), (-0.5038048852430721 : ℚ),
    (-0.5115468139576667 : ℚ), (-0.5137068077199443 : ℚ), (-0.5103625701449259 : ℚ),
    (-0.5016517171326531 : ℚ), (-0.4877690442066163 : ℚ), (-0.4689631793752672 : ℚ),
    (-0.4455326728096056 : ℚ), (-0.4178215804200299 : ℚ), (-0.3862146034477533 : ℚ),
    (-0.3509123866145928 : ℚ), (-0.3126297150314452 : ℚ), (-0.2718927354154068 : ℚ),
    (-0.2291958073507898 : ℚ), (-0.1850425471038233 : ℚ), (-0.1399398826336042 : ℚ),
    (-0.09439223037122518 : ℚ), (-0.04889585953906431 : ℚ), (-0.003933505827245167 : ℚ),
    (0.04003070834159386 : ℚ), (0.0825559948801399 : ℚ), (0.1232292160063061 : ℚ),
    (0.1616687547555863 : ℚ), (0.1973927079380603 : ℚ), (0.2300660613933512 : ℚ),
    (0.2595429789541496 : ℚ), (0.2856107093934108 : ℚ), (0.3080998645024339 : ℚ),
    (0.3268847908180463 : ℚ), (0.3418834230185853 : ℚ), (0.3530566397071842 : ℚ),
    (0.3604071476257875 : ℚ), (0.3639779251805091 : ℚ), (0.3638502604670185 : ℚ),
    (0.3601414227279392 : ℚ), (0.3530020093240032 : ℚ), (0.3425595767108683 : ℚ),
    (0.3288905510193589 : ℚ), (0.3124625910007948 : ℚ), (0.2935329243857703 : ℚ),
    (0.2723738653805693 : ℚ), (0.2492692283262223 : ℚ), (0.224510785382862 : ℚ),
    (0.1983948089859366 : ℚ), (0.1712187368274344 : ℚ), (0.143277993767607 : ℚ),
    (0.114863001434127 : ℚ), (0.08625640237131495 : ℚ), (0.0577305215183043 : ℚ),
    (0.02954508357878966 : ℚ), (0.002011284618971753 : ℚ), (-0.02466174548310762 : ℚ),
    (-0.05027570559450584 : ℚ), (-0.0746450991687386 : ℚ), (-0.09760441264021352 : ℚ),
    (-0.119008542106138 : ℚ), (-0.1387329675708805 : ℚ), (-0.1566736907923878 : ℚ),
    (-0.1727469550241789 : ℚ), (-0.1868887668177279 : ℚ), (-0.1990542415292142 : ℚ),
    (-0.2092167952572792 : ℚ), (-0.2173672066248627 : ℚ), (-0.2234154311256872 : ℚ),
    (-0.2274094224473073 : ℚ), (-0.2294679875198243 : ℚ), (-0.2296436130094213 : ℚ),
    (-0.2279997437192199 : ℚ), (-0.2246095714408544 : ℚ), (-0.2195548578689778 : ℚ),
    (-0.2129248048504279 : ℚ), (-0.204814983036384 : ℚ), (-0.1953263277482088 : ℚ),
    (-0.1845642085934312 : ℚ), (-0.1726375771142166 : ℚ), (-0.1596581945519677 : ℚ),
    (-0.1457231935388141 : ℚ), (-0.130923866874206 : ℚ), (-0.1154400373732613 : ℚ),
    (-0.09938850529019183 : ℚ), (-0.0828859964065122 : ℚ), (-0.06604882953463898 : ℚ),
    (-0.04899261899816969 : ℚ), (-0.03183200219472587 : ℚ), (-0.01468038233303557 : ℚ),
    (0.002350323335580487 : ℚ), (0.01914993901078943 : ℚ), (0.03561029810294321 : ℚ),
    (0.05162553092037431 : ℚ), (0.06709237888410943 : ℚ), (0.08184910750068521 : ℚ),
    (0.09583725574672307 : ℚ), (0.1089701595114357 : ℚ), (0.1211605173415831 : ℚ),
    (0.1323260173695737 : ℚ), (0.1423898889660335 : ℚ), (0.1512814800629161 : ℚ),
    (0.1589368531475024 : ℚ), (0.1652993917009507 : ℚ), (0.1703204077761807 : ℚ),
    (0.1739597404977573 : ℚ), (0.1761863345376893 : ℚ), (0.1769787870897273 : ℚ),
    (0.1762506273988877 : ℚ), (0.1740262078664946 : ℚ), (0.1703718717937829 : ℚ),
    (0.1653129695645401 : ℚ), (0.1588863589412387 : ℚ), (0.1511404406652313 : ℚ),
    (0.1421350804438272 : ℚ), (0.1319414115832799 : ℚ), (0.1206415141141488 : ℚ),
    (0.1083279679505394 : ℚ), (0.09510327940345698 : ℚ), (0.08107918220584799 : ℚ),
    (0.0663758160771728 : ℚ), (0.05111132148217794 : ℚ), (0.0354204983939171 : ℚ),
    (0.01947932767094064 : ℚ), (0.003431710542162042 : ℚ), (-0.01257643678870651 : ℚ),
    (-0.02839859686841653 : ℚ), (-0.04388910047896586 : ℚ), (-0.05890459515878611 : ℚ),
    (-0.07330551546491507 : ℚ), (-0.08695753733532985 : ℚ), (-0.09973299879736178 : ℚ),
    (-0.1115122693898487 : ℚ), (-0.1221850510233273 : ℚ), (-0.1316515935914515 : ℚ),
    (-0.1397085235342838 : ℚ), (-0.1463782483611373 : ℚ), (-0.1516097908563745 : ℚ),
    (-0.1553603904148464 : ℚ), (-0.157602230237365 : ℚ), (-0.1583227348838655 : ℚ),
    (-0.1575246987737026 : ℚ), (-0.1552262436051728 : ℚ), (-0.151460604770373 : ℚ),
    (-0.1462757489434419 : ℚ), (-0.1397338270947354 : ℚ), (-0.1319104692054737 : ℚ),
    (-0.1228939289027118 : ℚ), (-0.1127310312598613 : ℚ), (-0.1015722935692858 : ℚ),
    (-0.08957592861106894 : ℚ), (-0.07687123077388056 : ℚ), (-0.06359326809282866 : ℚ),
    (-0.0498813739612102 : ℚ), (-0.03587760713943419 : ℚ), (-0.02172519839946329 : ℚ),
    (-0.00756700210063695 : ℚ), (0.006456029271196332 : ℚ), (0.02020633004910886 : ℚ),
    (0.03355114895060032 : ℚ), (0.04636390328406547 : ℚ), (0.05850485626209335 : ℚ),
    (0.06982388049145603 : ℚ), (0.08026388886763058 : ℚ), (0.08973832619845404 : ℚ),
    (0.09817225615015748 : ℚ), (0.1055029095881887 : ℚ), (0.1116800851254743 : ℚ),
    (0.1166664006506898 : ℚ), (0.120437396426549 : ℚ), (0.1229814921175281 : ℚ),
    (0.124299801808147 : ℚ), (0.1244058126882059 : ℚ), (0.1233249345927645 : ℚ),
    (0.1210939289760358 : ℚ), (0.1176709817609913 : ℚ), (0.1132139204236313 : ℚ),
    (0.107793566749829 : ℚ), (0.1014862806001392 : ℚ), (0.09437497013495638 : ℚ),
    (0.08654802579006807 : ℚ), (0.07809823260782234 : ℚ), (0.0691216743225042 : ℚ),
    (0.05971664220242291 : ℚ), (0.04998256110662756 : ℚ), (0.04001894453210059 : ℚ),
    (0.02992438961991639 : ℚ), (0.01979562216965206 : ℚ), (0.00973609470779495 : ℚ),
    (-0.0001547982604725594 : ℚ), (-0.009794697656072661 : ℚ), (-0.01910454990323682 : ℚ),
    (-0.02801112395763952 : ℚ), (-0.03644745725476572 : ℚ), (-0.04435321428071813 : ℚ),
    (-0.0516749585889676 : ℚ), (-0.05836634014183888 : ℚ), (-0.06438820083320732 : ℚ),
    (-0.06970860193911409 : ℚ), (-0.07430277803744366 : ℚ), (-0.07815302262931041 : ℚ),
    (-0.08122609855334124 : ℚ), (-0.08349614121218284 : ℚ), (-0.08501162909740372 : ℚ),
    (-0.08578253991223583 : ℚ), (-0.08582433766433614 : ℚ), (-0.08515757267961266 : ℚ),
    (-0.08380746562034189 : ℚ), (-0.0818034816326523 : ℚ), (-0.07917890032617164 : ℚ),
    (-0.07597038680372473 : ℚ), (-0.07221756842198847 : ℚ), (-0.06796262138593454 : ℚ),
    (-0.06324987067178832 : ℚ), (-0.05812501266141471 : ℚ), (-0.05260935051449735 : ℚ),
    (-0.04678757363118992 : ℚ), (-0.04070905015483542 : ℚ), (-0.03442344580497218 : ℚ),
    (-0.02798045524301572 : ℚ), (-0.02142955261613071 : ℚ), (-0.01481975979949499 : ℚ),
    (-0.008199430590513668 : ℚ), (-0.001616048912249777 : ℚ), (0.004883961041589292 : ℚ),
    (0.01125541484148888 : ℚ), (0.01745454014184372 : ℚ), (0.02343914330654685 : ℚ),
    (0.02915052101368197 : ℚ), (0.0345543165226494 : ℚ), (0.03962182036807972 : ℚ),
    (0.04431957690228185 : ℚ), (0.04861659236151323 : ℚ), (0.05248449761584465 : ℚ),
    (0.0558977111817703 : ℚ), (0.05883360148182183 : ℚ), (0.061272646943236 : ℚ),
    (0.06319859215854119 : ℚ), (0.06459859799257747 : ℚ), (0.0654633832202228 : ℚ),
    (0.06578735502370538 : ℚ), (0.06555118747287952 : ℚ), (0.06474536418105958 : ℚ),
    (0.06340756420288027 : ℚ), (0.06154923304174559 : ℚ), (0.05918587201096314 : ℚ),
    (0.05633701509633693 : ℚ), (0.05302617185087854 : ℚ), (0.04928073433986642 : ℚ),
    (0.04513184656591998 : ℚ), (0.04061423526360632 : ℚ), (0.03576600145499627 : ℚ),
    (0.03062837269457226 : ℚ), (0.02524541649641339 : ℚ), (0.0196631293639768 : ℚ),
    (0.01392377097641206 : ℚ), (0.00809499646138292 : ℚ), (0.002228847013059287 : ℚ),
    (-0.003621986415868009 : ℚ), (-0.009404648710656164 : ℚ), (-0.01506662012488621 : ℚ),
    (-0.02055622439478808 : ℚ), (-0.02582313979976917 : ℚ), (-0.03081890731498076 : ℚ),
    (-0.03549742986074143 : ℚ), (-0.0398154565911541 : ℚ), (-0.04373304618254162 : ℚ),
    (-0.04721400318260005 : ℚ), (-0.05019433981605383 : ℚ), (-0.05266273402396591 : ℚ),
    (-0.05460963932990846 : ℚ), (-0.05601922702996789 : ℚ), (-0.05688105268639888 : ℚ),
    (-0.05719018049347527 : ℚ), (-0.05694724754595282 : ℚ), (-0.05615846665248399 : ℚ),
    (-0.05483556708900784 : ℚ), (-0.05299567345403915 : ℚ), (-0.05066112355943862 : ℚ),
    (-0.04785922705706767 : ℚ), (-0.04462196725416225 : ℚ), (-0.04097313874198653 : ℚ),
    (-0.03695285775972873 : ℚ), (-0.03262676117201262 : ℚ), (-0.02804220667578243 : ℚ),
    (-0.02324874670413859 : ℚ), (-0.01829756929124106 : ℚ), (-0.01324092385452967 : ℚ),
    (-0.008131538848673316 : ℚ), (-0.003022038318819222 : ℚ), (0.002035635634265798 : ℚ),
    (0.006990787567166966 : ℚ), (0.01179451386358603 : ℚ), (0.01640022191191123 : ℚ),
    (0.02076211297950676 : ℚ), (0.0248146158509399 : ℚ), (0.02854181291441787 : ℚ),
    (0.03191224998723572 : ℚ), (0.03489889434182123 : ℚ), (0.03747934748553171 : ℚ),
    (0.03963599974741036 : ℚ), (0.04135612582249755 : ℚ), (0.04263192117923556 : ℚ),
    (0.04346047998067694 : ℚ), (0.04384371589667994 : ℚ), (0.04378822788345482 : ℚ),
    (0.04330511367047119 : ℚ), (0.04240973431505356 : ℚ), (0.04109700574245626 : ℚ),
    (0.0394111419945488 : ℚ), (0.03738773503600762 : ℚ), (0.03505670199953677 : ℚ),
    (0.03245025513992951 : ℚ)]

/-- The table `rShY` of `IridescentMicrofacet.h` (line 597), 512 entries. -/
def rShY : List ℚ := [
    (1 : ℚ), (0.9939681908588384 : ℚ), (0.9769257745415467 : ℚ), (0.9490742060664386 : ℚ),
    (0.91073346660262 : ℚ), (0.8623383958384605 : ℚ), (0.8044337971112357 : ℚ),
    (0.7376683692039616 : ℚ), (0.662787530553207 : ℚ), (0.5806252127809923 : ℚ),
    (0.4920947108665695 : ℚ), (0.3981786868176719 : ℚ), (0.2999184323004336 : ℚ),
    (0.1984025032647205 : ℚ), (0.09470714318118786 : ℚ), (-0.009807712592017123 : ℚ),
    (-0.1139277827358336 : ℚ), (-0.2165053074309497 : ℚ), (-0.3164129885381666 : ℚ),
    (-0.4125561788508392 : ℚ), (-0.503884679247279 : ℚ), (-0.5894040213464216 : ℚ),
    (-0.6681861189683883 : ℚ), (-0.7393791785080135 : ℚ), (-0.8022167661786055 : ℚ),
    (-0.8560259389019303 : ℚ), (-0.9002343553278552 : ℚ), (-0.9340481077187019 : ℚ),
    (-0.9568190270530976 : ℚ), (-0.9689193179840726 : ℚ), (-0.9702654865214695 : ℚ),
    (-0.9608921845283125 : ℚ), (-0.9409512294691103 : ℚ), (-0.9107093765803181 : ℚ),
    (-0.8705448737726208 : ℚ), (-0.8209428417401743 : ℚ), (-0.7624895334337329 : ℚ),
    (-0.6958655381512304 : ℚ), (-0.6218380059147777 : ℚ), (-0.5412519774469094 : ℚ),
    (-0.4550074075946234 : ℚ), (-0.3638020799930355 : ℚ), (-0.2691484502742754 : ℚ),
    (-0.1721080349091897 : ℚ), (-0.07376134225683421 : ℚ), (0.02480394211421128 : ℚ),
    (0.1225047612411296 : ℚ), (0.2182743606543135 : ℚ), (0.3110737095684418 : ℚ),
    (0.3999025520468554 : ℚ), (0.4838099753506594 : ℚ), (0.5619043882798729 : ℚ),
    (0.6333628089078185 : ℚ), (0.6974393686392223 : ℚ), (0.752927277813553 : ℚ),
    (0.7995076500563965 : ℚ), (0.8369469995829014 : ℚ), (0.8649088871235996 : ℚ),
    (0.8831627174457297 : ℚ), (0.8915853181685034 : ℚ), (0.8901613650213676 : ℚ),
    (0.8789826595827657 : ℚ), (0.8582462770103874 : ℚ), (0.8282516124727404 : ℚ),
    (0.7893963658188595 : ℚ), (0.742171514385679 : ℚ), (0.687155333652361 : ℚ),
    (0.6247902958231671 : ℚ), (0.5557934832529084 : ℚ), (0.4813613102299619 : ℚ),
    (0.4023575571204762 : ℚ), (0.319686924285144 : ℚ), (0.2342849154009426 : ℚ),
    (0.1471075023014966 : ℚ), (0.05912068040383164 : ℚ), (-0.02870997632993097 : ℚ),
    (-0.1154296531006083 : ℚ), (-0.200104419019916 : ℚ), (-0.2818310364168947 : ℚ),
    (-0.3597463563160726 : ℚ), (-0.4330039837089845 : ℚ), (-0.5003600759704064 : ℚ),
    (-0.5615272355039118 : ℚ), (-0.6159110037169275 : ℚ), (-0.6629969020905294 : ℚ),
    (-0.7023549703209631 : ℚ), (-0.7336433617143232 : ℚ), (-0.7566109707593651 : ℚ),
    (-0.7710990777290672 : ℚ), (-0.7770420050999632 : ℚ), (-0.7744667904427898 : ℚ),
    (-0.7634918901435417 : ℚ), (-0.7443249377777027 : ℚ), (-0.7172595901021939 : ℚ),
    (-0.6822124992215217 : ℚ), (-0.6400298630462042 : ℚ), (-0.591425030469501 : ℚ),
    (-0.5370042813006268 : ℚ), (-0.4774284142178543 : ℚ), (-0.4134050182066673 : ℚ),
    (-0.3456803602080031 : ℚ), (-0.2750309769302536 : ℚ), (-0.2022550604629843 : ℚ),
    (-0.1281637281527514 : ℚ), (-0.05357226716619741 : ℚ), (0.02070855671588333 : ℚ),
    (0.09388103823929544 : ℚ), (0.1650670278944715 : ℚ), (0.2333860188922082 : ℚ),
    (0.2982401292193746 : ℚ), (0.3589808721585189 : ℚ), (0.4150129684988107 : ℚ),
    (0.4657998447823488 : ℚ), (0.5108684406664096 : ℚ), (0.5498132872480502 : ℚ),
    (0.5822998259093923 : ℚ), (0.6080669451156233 : ℚ), (0.626928720564438 : ℚ),
    (0.6387753520756017 : ℚ), (0.6435732985537002 : ℚ), (0.6413037282392421 : ℚ),
    (0.6316196808934106 : ℚ), (0.6152880995092679 : ℚ), (0.5925865691530664 : ℚ),
    (0.5638559462342667 : ℚ), (0.5294957716417007 : ℚ), (0.4899591534419357 : ℚ),
    (0.4457471793263933 : ℚ), (0.3974029225478323 : ℚ), (0.3455051079953156 : ℚ),
    (0.2906615073061324 : ℚ), (0.2335021334944855 : ℚ), (0.1746723064864651 : ℚ),
    (0.1148256611901814 : ℚ), (0.05464440191391343 : ℚ), (-0.005132878568965389 : ℚ),
    (-0.0638696952669003 : ℚ), (-0.1209574090748379 : ℚ), (-0.1758150734452499 : ℚ),
    (-0.2278950266663034 : ℚ), (-0.2766880470070707 : ℚ), (-0.3217280267783136 : ℚ),
    (-0.3625961267465546 : ℚ), (-0.3989243779872491 : ℚ), (-0.4303987041182856 : ℚ),
    (-0.4567613428654042 : ℚ), (-0.4778126520237994 : ℚ), (-0.4931894485016712 : ℚ),
    (-0.5027675070082548 : ℚ), (-0.5068070814568441 : ℚ), (-0.5053647124855335 : ℚ),
    (-0.4985536515599789 : ℚ), (-0.4865416530875731 : ℚ), (-0.4695482504980824 : ℚ),
    (-0.4478415527761659 : ℚ), (-0.4217346018556176 : ℚ), (-0.3915813347734665 : ℚ),
    (-0.3577721975130545 : ℚ), (-0.3207294600211571 : ℚ), (-0.2809022839508172 : ℚ),
    (-0.2387406600734582 : ℚ), (-0.1946723081756267 : ℚ), (-0.1493740767262194 : ℚ),
    (-0.1033495252345427 : ℚ), (-0.05710014263737376 : ℚ), (-0.01112018605979023 : ℚ),
    (0.03410830761257411 : ℚ), (0.0781202912333186 : ℚ), (0.1204722148105261 : ℚ),
    (0.1607462309738862 : ℚ), (0.1985540622233709 : ℚ), (0.2335404975476471 : ℚ),
    (0.2653864900879974 : ℚ), (0.2938118318033506 : ℚ), (0.3182992126900088 : ℚ),
    (0.3388416414345541 : ℚ), (0.3553625770297736 : ℚ), (0.3677693729739466 : ℚ),
    (0.3760144487612307 : ℚ), (0.3800948740433573 : ℚ), (0.3800515068489276 : ℚ),
    (0.3759677031204938 : ℚ), (0.367967618582131 : ℚ), (0.3562141274449442 : ℚ),
    (0.3409063856703304 : ℚ), (0.3222770694191202 : ℚ), (0.300589321899439 : ℚ),
    (0.276029453368387 : ℚ), (0.2489556489584998 : ℚ), (0.2198307781323001 : ℚ),
    (0.189007744098907 : ℚ), (0.1568496585105438 : ℚ), (0.1237258553240216 : ℚ),
    (0.0900079246643524 : ℚ), (0.05606580563623959 : ℚ), (0.0222639756971989 : ℚ),
    (-0.01104222743967856 : ℚ), (-0.04351011734570545 : ℚ), (-0.07481297204573968 : ℚ),
    (-0.1046431194681109 : ℚ), (-0.1326845439709606 : ℚ), (-0.158529892304585 : ℚ),
    (-0.1820833407428039 : ℚ), (-0.2031487682490108 : ℚ), (-0.2215607697352188 : ℚ),
    (-0.23718568472133 : ℚ), (-0.2499222783878022 : ℚ), (-0.2597020756507648 : ℚ),
    (-0.2664893522065585 : ℚ), (-0.2702807897102097 : ℚ), (-0.271104805344642 : ℚ),
    (-0.269020568980866 : ℚ), (-0.2641167239017489 : ℚ), (-0.2565098296427363 : ℚ),
    (-0.2461664691986244 : ℚ), (-0.2334318509443001 : ℚ), (-0.2185352049631993 : ℚ),
    (-0.2016890083122531 : ℚ), (-0.183121160056417 : ℚ), (-0.1630722233343206 : ℚ),
    (-0.1417926004200845 : ℚ), (-0.1195396707012361 : ℚ), (-0.09657492122667069 : ℚ),
    (-0.0731610989457923 : ℚ), (-0.04955941296931107 : ℚ), (-0.0260268141445458 : ℚ),
    (-0.002813377966465623 : ℚ), (0.01980231389058841 : ℚ), (0.04156349322445071 : ℚ),
    (0.06228431089767503 : ℚ), (0.08177148559093286 : ℚ), (0.09984999199421705 : ℚ),
    (0.1163644440263878 : ℚ), (0.1311802392691375 : ℚ), (0.1441844585572301 : ℚ),
    (0.1552865172067159 : ℚ), (0.1644185668833238 : ℚ), (0.1715356495934695 : ℚ),
    (0.1766156076996928 : ℚ), (0.1796587562009869 : ℚ), (0.1806525157574978 : ℚ),
    (0.1795443694021465 : ℚ), (0.1765460483336899 : ℚ), (0.171745449115216 : ℚ),
    (0.1652473357047022 : ℚ), (0.1571717520983067 : ℚ), (0.1476523155358822 : ℚ),
    (0.1368344108995743 : ℚ), (0.1248733074391872 : ℚ), (0.1119322192498233 : ℚ),
    (0.09818033100976004 : ℚ), (0.08379081036275189 : ℚ), (0.06893882800358016 : ℚ),
    (0.05379960600482305 : ℚ), (0.03855313055133823 : ℚ), (0.02339283528397695 : ℚ),
    (0.008481553504529806 : ℚ), (-0.006026733850123303 : ℚ), (-0.019987268614142 : ℚ),
    (-0.03326581314067525 : ℚ), (-0.04573979799289703 : ℚ), (-0.0572993114637636 : ℚ),
    (-0.06784792462253475 : ℚ), (-0.07730334741902092 : ℚ), (-0.08559791321314876 : ℚ),
    (-0.09267889092136007 : ℚ), (-0.09850862576639074 : ℚ), (-0.1030016101736107 : ℚ),
    (-0.106164427756163 : ℚ), (-0.1080581950472024 : ℚ), (-0.1087077745530493 : ℚ),
    (-0.1081509714766913 : ℚ), (-0.1064376886402523 : ℚ), (-0.1036289744186825 : ℚ),
    (-0.09979597701775561 : ℚ), (-0.09501881905512868 : ℚ), (-0.0893854068757596 : ℚ),
    (-0.08299018935137888 : ℚ), (-0.0759328810781533 : ℚ), (-0.06831716489845648 : ℚ),
    (-0.06024253143748921 : ℚ), (-0.05181398020833086 : ℚ), (-0.04316933968449398 : ℚ),
    (-0.03441433275835372 : ℚ), (-0.0256518465258018 : ℚ), (-0.0169808618685762 : ℚ),
    (-0.008495463173396752 : ℚ), (-0.0002839366963369731 : ℚ), (0.007572035107996071 : ℚ),
    (0.01499807720583021 : ℚ), (0.02192771872991397 : ℚ), (0.0283028793126941 : ℚ),
    (0.03407424275822313 : ℚ), (0.03920151708834404 : ℚ), (0.04359727683349487 : ℚ),
    (0.04728862075454274 : ℚ), (0.05027085825707135 : ℚ), (0.05254282953379308 : ℚ),
    (0.05411182701557619 : ℚ), (0.05499316946360908 : ℚ), (0.05520969690174127 : ℚ),
    (0.05479119478305571 : ℚ), (0.05377375632420051 : ℚ), (0.05219909237303354 : ℚ),
    (0.05011379849803205 : ℚ), (0.04756858920091731 : ℚ), (0.04461750925721056 : ℚ),
    (0.04130244709440997 : ℚ), (0.03769528841981392 : ℚ), (0.03386777284739473 : ℚ),
    (0.02987889827463035 : ℚ), (0.02578672336006873 : ℚ), (0.02164767729433402 : ℚ),
    (0.01751591651948347 : ℚ), (0.01344273453290262 : ℚ), (0.009476030117783436 : ℚ),
    (0.005659838511713966 : ℚ), (0.0020339291670238 : ℚ), (-0.001366527119689695 : ℚ),
    (-0.004511219816904536 : ℚ), (-0.007367729871474806 : ℚ), (-0.009901861550492311 : ℚ),
    (-0.01211859984281217 : ℚ), (-0.01400985201938325 : ℚ), (-0.01557252278049112 : ℚ),
    (-0.01680831923508257 : ℚ), (-0.01772349997493578 : ℚ), (-0.01832857332032899 : ℚ),
    (-0.0186379502689717 : ℚ), (-0.01866955806169344 : ℚ), (-0.01844442058462725 : ℚ),
    (-0.01798621205697519 : ℚ), (-0.01732079060517056 : ℚ), (-0.01647571839833739 : ℚ),
    (-0.01547010684523858 : ℚ), (-0.01434816073608636 : ℚ), (-0.01314022094787925 : ℚ),
    (-0.01187548976028698 : ℚ), (-0.01058231389629135 : ℚ), (-0.009287782309770584 : ℚ),
    (-0.008017356663036716 : ℚ), (-0.006794538429417281 : ℚ), (-0.005640575996588376 : ℚ),
    (-0.00457421456190775 : ℚ), (-0.003611491007959849 : ℚ), (-0.002765575331476396 : ℚ),
    (-0.002046659578307503 : ℚ), (-0.001469507359562305 : ℚ), (-0.001035241075342001 : ℚ),
    (-0.0007395248899375738 : ℚ), (-0.0005796106435392562 : ℚ), (-0.0005500126651351602 : ℚ),
    (-0.0006426905573889731 : ℚ), (-0.0008472659506793363 : ℚ), (-0.001151269400397902 : ℚ),
    (-0.001540413306381637 : ℚ), (-0.001998886491976192 : ℚ), (-0.002509665894128177 : ℚ),
    (-0.003054840686015736 : ℚ), (-0.003615944080452104 : ℚ), (-0.004173660523772592 : ℚ),
    (-0.004706325358489177 : ℚ), (-0.005196257331795073 : ℚ), (-0.005626464945564855 : ℚ),
    (-0.005981135743103662 : ℚ), (-0.00624589949888101 : ℚ), (-0.006408065706624307 : ℚ),
    (-0.006456832497095437 : ℚ), (-0.006383464528305579 : ℚ), (-0.006181437823437308 : ℚ),
    (-0.005846549980523641 : ℚ), (-0.005376994638100455 : ℚ), (-0.004773399547690802 : ℚ),
    (-0.004038828072190172 : ℚ), (-0.0031687430101222 : ℚ), (-0.002182768802998294 : ℚ),
    (-0.001091801816840697 : ℚ), (9.149438846438936e-05 : ℚ), (0.001352642604016473 : ℚ),
    (0.002675562999744606 : ℚ), (0.00404280653584551 : ℚ), (0.005435807459716977 : ℚ),
    (0.006835151391745014 : ℚ), (0.008220855347019008 : ℚ), (0.009572655927029695 : ℚ),
    (0.01087030184628287 : ℚ), (0.01209384693376114 : ℚ), (0.0132172900399709 : ℚ),
    (0.01422261939087458 : ℚ), (0.01509585219275619 : ℚ), (0.01582165264556101 : ℚ),
    (0.01638642434653658 : ℚ), (0.01677851122246396 : ℚ), (0.01698837287703214 : ℚ),
    (0.01700873224871682 : ℚ), (0.01683469382207408 : ℚ), (0.01646383099864786 : ℚ),
    (0.01589624160891694 : ℚ), (0.01513457093003053 : ℚ), (0.01418400196160332 : ℚ),
    (0.01304720586885398 : ℚ), (0.01173100396795205 : ℚ), (0.01025913219194152 : ℚ),
    (0.008646792466628393 : ℚ), (0.006911102932615302 : ℚ), (0.005070893441630774 : ℚ),
    (0.003146479657808526 : ℚ), (0.001159418561862167 : ℚ), (-0.0008677516490630938 : ℚ),
    (-0.002911784112122845 : ℚ), (-0.004949005020445043 : ℚ), (-0.006955601146148806 : ℚ),
    (-0.008907909741745689 : ℚ), (-0.01078259562316814 : ℚ), (-0.01254628565590196 : ℚ),
    (-0.01418464832758821 : ℚ), (-0.01567797210834128 : ℚ), (-0.01700816734617024 : ℚ),
    (-0.01815898508324077 : ℚ), (-0.01911621377265355 : ℚ), (-0.01986785170614643 : ℚ),
    (-0.02040425324742173 : ℚ), (-0.02071824726765 : ℚ), (-0.02080522649605138 : ℚ),
    (-0.0206632068261885 : ℚ), (-0.02029285595453149 : ℚ), (-0.01969749106874409 : ℚ),
    (-0.01887032333949126 : ℚ), (-0.0178287502509513 : ℚ), (-0.01659042861190782 : ℚ),
    (-0.01516929631589021 : ℚ), (-0.01358138463892434 : ℚ), (-0.01184462908832521 : ℚ),
    (-0.009978659003526938 : ℚ), (-0.008004568381767708 : ℚ), (-0.005944670589750726 : ℚ),
    (-0.003822239782104063 : ℚ), (-0.001661241977287212 : ℚ), (0.00051394115946856 : ℚ),
    (0.002678792709312009 : ℚ), (0.004806936569313566 : ℚ), (0.00686994428143983 : ℚ),
    (0.008846877191963216 : ℚ), (0.01071589621373403 : ℚ), (0.01245648985218492 : ℚ),
    (0.01404970136492851 : ℚ), (0.0154783370453054 : ℚ), (0.0167271534404842 : ℚ),
    (0.01778302155568584 : ℚ), (0.01863506635495082 : ℚ), (0.01927478014305973 : ℚ),
    (0.01969610870011399 : ℚ), (0.01989550933717429 : ℚ), (0.01987108565876816 : ℚ),
    (0.01960711886024268 : ℚ), (0.01912723538655214 : ℚ), (0.0184386889196778 : ℚ),
    (0.01755104492770126 : ℚ), (0.01647605386482175 : ℚ), (0.01522750078185147 : ℚ),
    (0.01382103319253205 : ℚ), (0.01227396925759296 : ℚ), (0.01060508854251793 : ℚ),
    (0.008834407774894512 : ℚ), (0.006982944171591036 : ℚ), (0.005072469023626815 : ℚ),
    (0.003125254316538516 : ℚ), (0.001164579408309537 : ℚ), (-0.0007838476924446568 : ℚ),
    (-0.00269768635790953 : ℚ), (-0.004555544644619493 : ℚ), (-0.006336907754929609 : ℚ),
    (-0.008022363036967285 : ℚ), (-0.009593810381396808 : ℚ), (-0.01103465582470173 : ℚ),
    (-0.01232998636664659 : ℚ), (-0.01346672422603686 : ℚ), (-0.01443375899173061 : ℚ),
    (-0.01522205637281123 : ℚ), (-0.01582474251054044 : ℚ), (-0.01623033309104573 : ℚ),
    (-0.01643313355526369 : ℚ), (-0.01644378096447758 : ℚ), (-0.01626506647292855 : ℚ),
    (-0.01590193706130939 : ℚ), (-0.01536141145705188 : ℚ), (-0.01465247344404166 : ℚ),
    (-0.01378594398858882 : ℚ), (-0.01277433382195874 : ℚ), (-0.01163167831464821 : ℚ),
    (-0.01037335665220944 : ℚ), (-0.009015897475290736 : ℚ), (-0.007576773276364373 : ℚ),
    (-0.006073886377628722 : ℚ), (-0.004524754665110819 : ℚ), (-0.002953538678451534 : ℚ),
    (-0.001379201229685315 : ℚ), (0.0001795647216894178 : ℚ), (0.001704551063514076 : ℚ),
    (0.00317824110036806 : ℚ), (0.004584005472952154 : ℚ), (0.005906285342788432 : ℚ),
    (0.007130760917519917 : ℚ), (0.008244503570363175 : ℚ), (0.009236110002038622 : ℚ),
    (0.01009581710282004 : ℚ), (0.01081559639414924 : ℚ), (0.01137914051782371 : ℚ),
    (0.01178861228074839 : ℚ), (0.01204528432186032 : ℚ), (0.01214916835103653 : ℚ),
    (0.01210212581208079 : ℚ)]

/-- The table `iShY` of `IridescentMicrofacet.h` (line 599), 512 entries. -/
def iShY : List ℚ := [
    (0 : ℚ), (-0.1292114954114609 : ℚ), (-0.256075757415927 : ℚ), (-0.3784956151631083 : ℚ),
    (-0.4944503350568962 : ℚ), (-0.6020280149695963 : ℚ), (-0.6994561922107971 : ℚ),
    (-0.7851302003733032 : ℚ), (-0.8576388445967151 : ℚ), (-0.9157870051001227 : ℚ),
    (-0.9586148245050755 : ℚ), (-0.9854131849064285 : ℚ), (-0.9957352352075171 : ℚ),
    (-0.9894037872262597 : ℚ), (-0.96555204513834 : ℚ), (-0.9251668313971924 : ℚ),
    (-0.869432660072939 : ℚ), (-0.7993125405484989 : ℚ), (-0.716002074440196 : ℚ),
    (-0.6209095497644533 : ℚ), (-0.5156327424361922 : ℚ), (-0.4019327905243273 : ℚ),
    (-0.2817055486460274 : ℚ), (-0.1569508660336397 : ℚ), (-0.0297402617127973 : ℚ),
    (0.09781650648627153 : ℚ), (0.2236054660000621 : ℚ), (0.3453502713837453 : ℚ),
    (0.4606261349475921 : ℚ), (0.5677740651061467 : ℚ), (0.6650527661674767 : ℚ),
    (0.7508891889401269 : ℚ), (0.823903153972962 : ℚ), (0.882928833247614 : ℚ),
    (0.9270327749574337 : ℚ), (0.9555282082978966 : ℚ), (0.9679854209068846 : ℚ),
    (0.9642380600024596 : ℚ), (0.9443852686170832 : ℚ), (0.9087896298477397 : ℚ),
    (0.858029164713678 : ℚ), (0.7919197890390489 : ℚ), (0.7129205184598609 : ℚ),
    (0.6224039682093042 : ℚ), (0.5219238822451825 : ℚ), (0.4131891806722102 : ℚ),
    (0.2980357035738437 : ℚ), (0.1783960965980639 : ℚ), (0.05626830844649156 : ℚ),
    (-0.06631681146339945 : ℚ), (-0.1873283156499338 : ℚ), (-0.3047678577660267 : ℚ),
    (-0.4167017873498224 : ℚ), (-0.5212921488891429 : ℚ), (-0.6161453785350176 : ℚ),
    (-0.6998863155320247 : ℚ), (-0.7714317006448205 : ℚ), (-0.8296724003186529 : ℚ),
    (-0.873723526499117 : ℚ), (-0.9029372888372423 : ℚ), (-0.9169120339424477 : ℚ),
    (-0.91549735694613 : ℚ), (-0.8987952291308505 : ℚ), (-0.8671571443004218 : ℚ),
    (-0.8211773451595382 : ℚ), (-0.7616822484917969 : ℚ), (-0.6897162436390172 : ℚ),
    (-0.6061946975074877 : ℚ), (-0.5125710331143969 : ℚ), (-0.4110686688800241 : ℚ),
    (-0.3034247710987056 : ℚ), (-0.191464190773831 : ℚ), (-0.0770694642528055 : ℚ),
    (0.03784987348054181 : ℚ), (0.1513881881459749 : ℚ), (0.261674383817201 : ℚ),
    (0.3669018115390187 : ℚ), (0.465356995000429 : ℚ), (0.555446739032698 : ℚ),
    (0.6357232123535722 : ℚ), (0.7048341018914758 : ℚ), (0.760662206749663 : ℚ),
    (0.8033052669145021 : ℚ), (0.8321690388227566 : ℚ), (0.8468896612917467 : ℚ),
    (0.8473375504471936 : ℚ), (0.8336175710522897 : ℚ), (0.8060655135800392 : ℚ),
    (0.7652409604699841 : ℚ), (0.7119166774811408 : ℚ), (0.6470647162404695 : ℚ),
    (0.5718394613662785 : ℚ), (0.4875578993299108 : ℚ), (0.395677425959239 : ℚ),
    (0.2975039029973983 : ℚ), (0.1951696910778097 : ℚ), (0.09054207398300801 : ℚ),
    (-0.01462397176183999 : ℚ), (-0.1185811086462839 : ℚ), (-0.2196176980651272 : ℚ),
    (-0.3160850381893273 : ℚ), (-0.4064233703163854 : ℚ), (-0.4891862660134684 : ℚ),
    (-0.5630630343782994 : ℚ), (-0.6268988205661091 : ℚ), (-0.6797121029269971 : ℚ),
    (-0.720709336182514 : ℚ), (-0.7488183637321908 : ℚ), (-0.7634615921604984 : ℚ),
    (-0.7651680715550333 : ℚ), (-0.754046167306046 : ℚ), (-0.7304131846602031 : ℚ),
    (-0.6947880752756983 : ℚ), (-0.6478810400003654 : ℚ), (-0.5905802191100985 : ℚ),
    (-0.523935702171364 : ℚ), (-0.4491411269800162 : ℚ), (-0.3675131702391835 : ℚ),
    (-0.2804692613792342 : ℚ), (-0.1895038748539656 : ℚ), (-0.09615815464505112 : ℚ),
    (-0.002128064642871876 : ℚ), (0.09083211491133256 : ℚ), (0.1811917214000258 : ℚ),
    (0.2674804919806911 : ℚ), (0.3483115754765903 : ℚ), (0.4224029637178752 : ℚ),
    (0.488597031847151 : ℚ), (0.545877908481136 : ℚ), (0.5933864315281032 : ℚ),
    (0.6304324834156839 : ℚ), (0.656504539972957 : ℚ), (0.6712763096976987 : ℚ),
    (0.6746103840681926 : ℚ), (0.6657983339210897 : ℚ), (0.6457042882809135 : ℚ),
    (0.6150261975778881 : ℚ), (0.5744070502936928 : ℚ), (0.524645021549044 : ℚ),
    (0.4666786802302523 : ℚ), (0.4015701573507344 : ℚ), (0.330486558233452 : ℚ),
    (0.2546799237013073 : ℚ), (0.175466063559538 : ℚ), (0.09420259906363809 : ℚ),
    (0.01226655965844866 : ℚ), (-0.06896811702716463 : ℚ), (-0.1480109782785373 : ℚ),
    (-0.2233625107237471 : ℚ), (-0.2939191633336361 : ℚ), (-0.3585715576500209 : ℚ),
    (-0.4163223488219156 : ℚ), (-0.4663008561689404 : ℚ), (-0.5077754971486659 : ℚ),
    (-0.5401638622284189 : ℚ), (-0.5630403050563967 : ℚ), (-0.5761409605138317 : ℚ),
    (-0.5793661422061248 : ℚ), (-0.572780110210184 : ℚ), (-0.5566082389313994 : ℚ),
    (-0.5311300075444779 : ℚ), (-0.4963945608065448 : ℚ), (-0.4538124954533618 : ℚ),
    (-0.4042095027982753 : ℚ), (-0.3485148848799123 : ℚ), (-0.2877450125727687 : ℚ),
    (-0.2229856394588894 : ℚ), (-0.1553733596872143 : ℚ), (-0.08607650671113022 : ℚ),
    (-0.01627579419789019 : ℚ), (0.05285499945519906 : ℚ), (0.1201680056364502 : ℚ),
    (0.1845596099007786 : ℚ), (0.2449878892286096 : ℚ), (0.3000640446249813 : ℚ),
    (0.349115313449841 : ℚ), (0.3914984304786701 : ℚ), (0.4266084101336042 : ℚ),
    (0.4539695721199625 : ℚ), (0.4732413131912202 : ℚ), (0.4842216487317894 : ℚ),
    (0.4868485018522736 : ℚ), (0.4811987513676749 : ℚ), (0.4674850830909559 : ℚ),
    (0.4460507209056566 : ℚ), (0.4173621446821619 : ℚ), (0.381999930891777 : ℚ),
    (0.3404278253642017 : ℚ), (0.2935360211292384 : ℚ), (0.2424634680725181 : ℚ),
    (0.1881353917555302 : ℚ), (0.1315157535374714 : ℚ), (0.07359094564482749 : ℚ),
    (0.01535338728057109 : ℚ), (-0.04221472320970214 : ℚ), (-0.09815725127369947 : ℚ),
    (-0.1515593249222962 : ℚ), (-0.2015616628646026 : ℚ), (-0.2473738213615038 : ℚ),
    (-0.2882861677603631 : ℚ), (-0.3235905832376889 : ℚ), (-0.3523683177236021 : ℚ),
    (-0.3746514781304462 : ℚ), (-0.390180041173639 : ℚ), (-0.3988105381461771 : ℚ),
    (-0.4005164003214035 : ℚ), (-0.3953864334449462 : ℚ), (-0.3836214758879907 : ℚ),
    (-0.3655293211765607 : ℚ), (-0.3415180102088095 : ℚ), (-0.3120876212312559 : ℚ),
    (-0.2778207062966294 : ℚ), (-0.2393715412283519 : ℚ), (-0.1974543718560736 : ℚ),
    (-0.152699151318721 : ℚ), (-0.1061553499125537 : ℚ), (-0.05867619120488202 : ℚ),
    (-0.01107929589456277 : ℚ), (0.0358305736017983 : ℚ), (0.08127445306555175 : ℚ),
    (0.1245114783858299 : ℚ), (0.1648503690676139 : ℚ), (0.2016599281176045 : ℚ),
    (0.2343784103536616 : ℚ), (0.2625216302876605 : ℚ), (0.285689701402415 : ℚ),
    (0.3035723205948275 : ℚ), (0.3156927951885631 : ℚ), (0.3219525341487866 : ℚ),
    (0.3225887102857271 : ℚ), (0.3177001820966727 : ℚ), (0.307476150740337 : ℚ),
    (0.2921913546264507 : ℚ), (0.272199978735212 : ℚ), (0.2479283967513978 : ℚ),
    (0.2198668795214204 : ℚ), (0.1885604166186888 : ℚ), (0.1545988087953438 : ℚ),
    (0.1186061976957015 : ℚ), (0.08123020532635619 : ℚ), (0.04313109180305592 : ℚ),
    (0.005046013348670195 : ℚ), (-0.03232998541828506 : ℚ), (-0.06837711546110109 : ℚ),
    (-0.1025103894252113 : ℚ), (-0.1341885707835724 : ℚ), (-0.1629222435295497 : ℚ),
    (-0.1882808928028344 : ℚ), (-0.2098989037340295 : ℚ), (-0.227480403707688 : ℚ),
    (-0.2408028919217243 : ℚ), (-0.2497196193083036 : ℚ), (-0.2541607013201733 : ℚ),
    (-0.2541329655192111 : ℚ), (-0.2493936077218674 : ℚ), (-0.2404216930906825 : ℚ),
    (-0.2275077170957802 : ℚ), (-0.2109564105129734 : ℚ), (-0.191127312363099 : ℚ),
    (-0.1684276897187501 : ℚ), (-0.1433048263771529 : ℚ), (-0.1162378139935951 : ℚ),
    (-0.08772898428756148 : ℚ), (-0.05829512388421468 : ℚ), (-0.02845861423261976 : ℚ),
    (0.001261362132080256 : ℚ), (0.03035741090041843 : ℚ), (0.058261930559709 : ℚ),
    (0.08446946524481989 : ℚ), (0.1086137843474659 : ℚ), (0.130328252943658 : ℚ),
    (0.1492954541676588 : ℚ), (0.1652514011739375 : ℚ), (0.1779887902323883 : ℚ),
    (0.1873592632129905 : ℚ), (0.1932746633924735 : ℚ), (0.1957072841258792 : ℚ),
    (0.1946891252662124 : ℚ), (0.1903101870880022 : ℚ), (0.1827158456854726 : ℚ),
    (0.172046733127502 : ℚ), (0.1584545466135108 : ℚ), (0.1424422007508331 : ℚ),
    (0.1243428864976271 : ℚ), (0.1045174640936887 : ℚ), (0.08334779470382073 : ℚ),
    (0.06122987699301322 : ℚ), (0.03856690201503864 : ℚ), (0.01576233867176881 : ℚ),
    (-0.006786840720962338 : ℚ), (-0.02869668947737269 : ℚ), (-0.04960247061246364 : ℚ),
    (-0.06916440340739852 : ℚ), (-0.08707288822638222 : ℚ), (-0.1028761160931553 : ℚ),
    (-0.1164646916788045 : ℚ), (-0.127674255825862 : ℚ), (-0.1363704142726455 : ℚ),
    (-0.1424650497636416 : ℚ), (-0.1459167046934408 : ℚ), (-0.1467301854647339 : ℚ),
    (-0.1449554121823936 : ℚ), (-0.1406855484265582 : ℚ), (-0.1340544562409099 : ℚ),
    (-0.1252335310128742 : ℚ), (-0.1144279794968174 : ℚ), (-0.1018726117387704 : ℚ),
    (-0.08776655907006731 : ℚ), (-0.07245383902139876 : ℚ), (-0.05628512832114022 : ℚ),
    (-0.03956466645294461 : ℚ), (-0.02259831312293738 : ℚ), (-0.005688317419405343 : ℚ),
    (0.01087172566996683 : ℚ), (0.02680165428157259 : ℚ), (0.04183918296942596 : ℚ),
    (0.05574394575097774 : ℚ), (0.06830108195328825 : ℚ), (0.07932431617030369 : ℚ),
    (0.08865849247854453 : ℚ), (0.09613651709281179 : ℚ), (0.1015872042430567 : ℚ),
    (0.1050866722255972 : ℚ), (0.106628767488658 : ℚ), (0.1062415106660555 : ℚ),
    (0.1039857048011442 : ℚ), (0.09995302908557599 : ℚ), (0.09426366191756601 : ℚ),
    (0.08706348343527689 : ℚ), (0.0785209131479313 : ℚ), (0.06882344281452329 : ℚ),
    (0.05817392826370327 : ℚ), (0.04678670637699588 : ℚ), (0.03488360495193706 : ℚ),
    (0.02268783445800119 : ℚ), (0.01046704601738935 : ℚ), (-0.001560272165034802 : ℚ),
    (-0.01318672187406148 : ℚ), (-0.02421801108134798 : ℚ), (-0.03447595793267484 : ℚ),
    (-0.04380114031354235 : ℚ), (-0.05205515613277014 : ℚ), (-0.05912246648223947 : ℚ),
    (-0.06491180111221481 : ℚ), (-0.06935711310067427 : ℚ), (-0.07241807708627966 : ℚ),
    (-0.07408013287350891 : ℚ), (-0.07428017016965463 : ℚ), (-0.07309290499656965 : ℚ),
    (-0.07062983007539642 : ℚ), (-0.06697700711689622 : ℚ), (-0.06223903239094868 : ℚ),
    (-0.05653663885009984 : ℚ), (-0.0500040869596879 : ℚ), (-0.04278639370906394 : ℚ),
    (-0.03503645066193947 : ℚ), (-0.02691208248164788 : ℚ), (-0.01857309714780742 : ℚ),
    (-0.0101783780826435 : ℚ), (-0.001883066655384124 : ℚ), (0.006153382488903103 : ℚ),
    (0.01376121675349466 : ℚ), (0.02083171663102371 : ℚ), (0.02725461487556679 : ℚ),
    (0.03293519323822836 : ℚ), (0.03779549395846774 : ℚ), (0.04177519914808908 : ℚ),
    (0.04483217216883102 : ℚ), (0.0469426608151302 : ℚ), (0.04810116769216225 : ℚ),
    (0.04831999854977075 : ℚ), (0.04762850442333334 : ℚ), (0.0460720381755064 : ℚ),
    (0.04371065036579317 : ℚ), (0.04056320147514345 : ℚ), (0.03678596177517503 : ℚ),
    (0.03247653156103247 : ℚ), (0.02773764047305458 : ℚ), (0.02267636696890906 : ℚ),
    (0.01740199854003413 : ℚ), (0.01202391668262556 : ℚ), (0.006649543251172933 : ℚ),
    (0.001382382872420094 : ℚ), (-0.003679806357520793 : ℚ), (-0.008446684584968852 : ℚ),
    (-0.01283681833563024 : ℚ), (-0.01677896277170907 : ℚ), (-0.02018057869842182 : ℚ),
    (-0.02300419438289468 : ℚ), (-0.02523415348108214 : ℚ), (-0.02685223711852038 : ℚ),
    (-0.02785305270172234 : ℚ), (-0.02824369578732477 : ℚ), (-0.0280431861519786 : ℚ),
    (-0.02728169448938801 : ℚ), (-0.02599957938395585 : ℚ), (-0.02424625704515353 : ℚ),
    (-0.0220789286989429 : ℚ), (-0.01956119249414504 : ℚ), (-0.01676156827037698 : ℚ),
    (-0.01374821949031762 : ℚ), (-0.01060068823354806 : ℚ), (-0.007404712644501177 : ℚ),
    (-0.004231888477267297 : ℚ), (-0.001150470399004466 : ℚ), (0.001775919693772389 : ℚ),
    (0.004489455457129635 : ℚ), (0.006939121339567379 : ℚ), (0.00908156468568638 : ℚ),
    (0.01088177235153647 : ℚ), (0.0123135628651866 : ℚ), (0.01335988864251886 : ℚ),
    (0.01401294628204903 : ℚ), (0.01427368085966075 : ℚ), (0.01412164637823022 : ℚ),
    (0.01361225007597743 : ℚ), (0.01277418493313557 : ℚ), (0.01164277010083822 : ℚ),
    (0.01025899230583827 : ℚ), (0.008668453360210599 : ℚ), (0.006920246228035578 : ℚ),
    (0.0050657829695381 : ℚ), (0.003157598344038191 : ℚ), (0.001248152906089098 : ℚ),
    (-0.0006113409206880091 : ℚ), (-0.002372047050203928 : ℚ), (-0.003988566599384504 : ℚ),
    (-0.005406169095344735 : ℚ), (-0.006592178700293475 : ℚ), (-0.007524205282636448 : ℚ),
    (-0.008181542569964121 : ℚ), (-0.008550653605418197 : ℚ), (-0.00862536904888252 : ℚ),
    (-0.008406926614968962 : ℚ), (-0.007903853035137288 : ℚ), (-0.007131692815801075 : ℚ),
    (-0.006112590840144569 : ℚ), (-0.004874738487591709 : ℚ), (-0.003451695382772929 : ℚ),
    (-0.001881601099482853 : ℚ), (-0.0002045218430383534 : ℚ), (0.001530090059604219 : ℚ),
    (0.003269987852534888 : ℚ), (0.004968538734122515 : ℚ), (0.006579992241455741 : ℚ),
    (0.008060506921828491 : ℚ), (0.009369131719184428 : ℚ), (0.01046872308409488 : ℚ),
    (0.01132678014996793 : ℚ), (0.01191618193917762 : ℚ), (0.01221581244338012 : ℚ),
    (0.01221106153205527 : ℚ), (0.01189419194910989 : ℚ), (0.01126333123560479 : ℚ),
    (0.01030210976659108 : ℚ), (0.009052732046518313 : ℚ), (0.007537755355949699 : ℚ),
    (0.005785995676776658 : ℚ), (0.003831951900675842 : ℚ), (0.001715113852957567 : ℚ),
    (-0.0005208323836528928 : ℚ), (-0.002828886564684954 : ℚ), (-0.005159686988093509 : ℚ),
    (-0.007462515752498414 : ℚ), (-0.009686337575711711 : ℚ), (-0.01178085255788247 : ℚ),
    (-0.01369754297831878 : ℚ), (-0.01537334668912553 : ℚ), (-0.01677111535263819 : ℚ),
    (-0.01786097371714779 : ℚ), (-0.01861335789750272 : ℚ), (-0.01900518939358994 : ℚ),
    (-0.01902040036657458 : ℚ), (-0.01865032616932766 : ℚ), (-0.01789395759246054 : ℚ),
    (-0.01675804775277993 : ℚ), (-0.01525707109330021 : ℚ), (-0.01341303454532871 : ℚ),
    (-0.01125514348530985 : ℚ), (-0.008819327663846976 : ℚ), (-0.006141206821007653 : ℚ),
    (-0.003272233441963601 : ℚ), (-0.0002778602049940807 : ℚ), (0.002785710511498461 : ℚ),
    (0.005860204336195678 : ℚ), (0.008886366532946716 : ℚ), (0.01180507800298343 : ℚ),
    (0.01455847572467559 : ℚ), (0.01709105761244659 : ℚ), (0.01935075201510101 : ℚ),
    (0.02128993262840939 : ℚ), (0.02286636045893148 : ℚ), (0.02404403563351998 : ℚ),
    (0.02479078859162535 : ℚ), (0.02505055523720454 : ℚ), (0.02484753726111765 : ℚ),
    (0.02417966953201595 : ℚ), (0.02305351441186026 : ℚ), (0.02148420320927729 : ℚ),
    (0.01949522329735267 : ℚ), (0.01711805426114388 : ℚ), (0.01439165895931132 : ℚ),
    (0.01136183780670968 : ℚ), (0.008080456876266441 : ℚ), (0.004604562546444316 : ℚ),
    (0.0009953973545557924 : ℚ), (-0.002682666571994776 : ℚ), (-0.006358181061584057 : ℚ),
    (-0.009956135641150402 : ℚ), (-0.01341041423476542 : ℚ), (-0.01665699458205973 : ℚ),
    (-0.01963515531970875 : ℚ)]

/-- The table `rShZ` of `IridescentMicrofacet.h` (line 601), 512 entries. -/
def rShZ : List ℚ := [
    (1 : ℚ), (0.9909053923078116 : ℚ), (0.9652637904600097 : ℚ), (0.9235264025840351 : ℚ),
    (0.8664070035151712 : ℚ), (0.7948699259650923 : ℚ), (0.7101141265330139 : ℚ),
    (0.6135535802050038 : ℚ), (0.5067943104217086 : ℚ), (0.3916084107925215 : ℚ),
    (0.269905458483958 : ℚ), (0.1437017576582019 : ℚ), (0.01508788359354928 : ℚ),
    (-0.1138049761426015 : ℚ), (-0.2405822242415946 : ℚ), (-0.3629419555000865 : ℚ),
    (-0.4789279722698351 : ℚ), (-0.5866375598046702 : ℚ), (-0.6843085650751415 : ℚ),
    (-0.7703473562825227 : ℚ), (-0.8433540439461378 : ℚ), (-0.9021445856506642 : ℚ),
    (-0.9457694436259358 : ℚ), (-0.9735285158717859 : ℚ), (-0.9849821168626923 : ℚ),
    (-0.9799578422595412 : ℚ), (-0.9585532127726879 : ℚ), (-0.9206546336926464 : ℚ),
    (-0.8666244683741575 : ℚ), (-0.7983288783449659 : ℚ), (-0.716953117015202 : ℚ),
    (-0.6238915524917779 : ℚ), (-0.5207243809002242 : ℚ), (-0.4091915099115547 : ℚ),
    (-0.2911640245712225 : ℚ), (-0.168613681290205 : ℚ), (-0.04358090326455677 : ℚ),
    (0.08185822868151091 : ℚ), (0.2056254820278691 : ℚ), (0.3256739607502954 : ℚ),
    (0.4399981294782062 : ℚ), (0.5458994338947658 : ℚ), (0.6421548626453049 : ℚ),
    (0.7272211702036838 : ℚ), (0.7997459971947826 : ℚ), (0.85858861523021 : ℚ),
    (0.9028372262314843 : ℚ), (0.9318225705516601 : ℚ), (0.9451276539365514 : ℚ),
    (0.9425934614106677 : ℚ), (0.9243205857770765 : ℚ), (0.8906667588159822 : ℚ),
    (0.8422403336818484 : ℚ), (0.7798898266592406 : ℚ), (0.7039787884246269 : ℚ),
    (0.61646305769696 : ℚ), (0.519187045002367 : ℚ), (0.4138196278794133 : ℚ),
    (0.3021516950707344 : ℚ), (0.1860665902977194 : ℚ), (0.06750928279044056 : ℚ),
    (-0.05154525574119512 : ℚ), (-0.1691239792907537 : ℚ), (-0.2832875106139776 : ℚ),
    (-0.3921612138368577 : ℚ), (-0.4939651229761172 : ℚ), (-0.587042270995904 : ℚ),
    (-0.6694823969620917 : ℚ), (-0.7395755381723244 : ℚ), (-0.796805005237615 : ℚ),
    (-0.8403176642076102 : ℚ), (-0.8694908523285215 : ℚ), (-0.8839407025575614 : ℚ),
    (-0.8835266461508675 : ℚ), (-0.8683520526853353 : ℚ), (-0.8387610239991944 : ℚ),
    (-0.795331415010443 : ℚ), (-0.7388642094809177 : ℚ), (-0.6703694318413262 : ℚ),
    (-0.5910488265089969 : ℚ), (-0.5022297272868745 : ℚ), (-0.405012290050373 : ℚ),
    (-0.3018504443620207 : ℚ), (-0.1945024928165446 : ℚ), (-0.08478027434720453 : ℚ),
    (0.02548044699457643 : ℚ), (0.1344497171841247 : ℚ), (0.2403327950886522 : ℚ),
    (0.3413987756735733 : ℚ), (0.436008001138613 : ℚ), (0.5226378484386617 : ℚ),
    (0.5999065081025001 : ℚ), (0.6665944009457436 : ℚ), (0.7216629157589317 : ℚ),
    (0.7634050615213042 : ℚ), (0.7916981128068531 : ℚ), (0.8064820755084666 : ℚ),
    (0.8076393934648517 : ℚ), (0.7952765833428386 : ℚ), (0.769720432523044 : ℚ),
    (0.7315107611627297 : ℚ), (0.6813898907129463 : ℚ), (0.6202890083491011 : ℚ),
    (0.5493116609086878 : ℚ), (0.4697146524794602 : ℚ), (0.3828866562512894 : ℚ),
    (0.2903248831902291 : ℚ), (0.1935249068838533 : ℚ), (0.0943236148637953 : ℚ),
    (-0.005402077957055487 : ℚ), (-0.1039930093211654 : ℚ), (-0.1998260227977608 : ℚ),
    (-0.2913397422503501 : ℚ), (-0.3770591047371465 : ℚ), (-0.4556182888264104 : ℚ),
    (-0.5257817026300842 : ℚ), (-0.5864627275738065 : ℚ), (-0.6367399495843249 : ℚ),
    (-0.6758706484999545 : ℚ), (-0.7033013585737485 : ℚ), (-0.7185671792432355 : ℚ),
    (-0.7206607431937723 : ℚ), (-0.710650573116128 : ℚ), (-0.6888442038327593 : ℚ),
    (-0.6557389725067633 : ℚ), (-0.6120118075011476 : ℚ), (-0.5585063004328009 : ℚ),
    (-0.4962172906292395 : ℚ), (-0.426273225239424 : ℚ), (-0.3499165882483939 : ℚ),
    (-0.2684827172613402 : ℚ), (-0.1833773478694724 : ℚ), (-0.09605324145522402 : ℚ),
    (-0.007986263260733281 : ℚ), (0.07918243068322457 : ℚ), (0.1638843752705857 : ℚ),
    (0.2447593785307698 : ℚ), (0.3205110744761741 : ℚ), (0.3899433046692961 : ℚ),
    (0.4519782002400718 : ℚ), (0.505672176020721 : ℚ), (0.5502296162414877 : ℚ),
    (0.5850140678362749 : ℚ), (0.6095567961624555 : ℚ), (0.6235625983265186 : ℚ),
    (0.6269128107959022 : ℚ), (0.619665490027836 : ℚ), (0.6016548642279381 : ℚ),
    (0.5732896203776288 : ℚ), (0.5356756884698679 : ℚ), (0.489565532049401 : ℚ),
    (0.4358411311472696 : ℚ), (0.3754979936786421 : ℚ), (0.3096275816417243 : ℚ),
    (0.239398442723435 : ℚ), (0.1660363533196353 : ℚ), (0.09080378992323225 : ℚ),
    (0.01497905223570828 : ℚ), (-0.06016463681970152 : ℚ), (-0.1333797317470329 : ℚ),
    (-0.2034125682701987 : ℚ), (-0.2687294144493267 : ℚ), (-0.3285481860691869 : ℚ),
    (-0.3819518869807256 : ℚ), (-0.4281425069729634 : ℚ), (-0.4664522339070706 : ℚ),
    (-0.4963524433504596 : ℚ), (-0.5174603586072709 : ℚ), (-0.5295433099594408 : ℚ),
    (-0.532520558356576 : ℚ), (-0.5264626852510204 : ℚ), (-0.5115885862990072 : ℚ),
    (-0.488260141782424 : ℚ), (-0.4569746704031906 : ℚ), (-0.4178932735367027 : ℚ),
    (-0.3722595023432862 : ℚ), (-0.3210585061784104 : ℚ), (-0.265232820276373 : ℚ),
    (-0.2057868755458442 : ℚ), (-0.1437697631732237 : ℚ), (-0.08025754522442143 : ℚ),
    (-0.01633539057471859 : ℚ), (0.046920185849789 : ℚ), (0.1084587077515013 : ℚ),
    (0.1672724822631907 : ℚ), (0.2224124536410542 : ℚ), (0.2730029305871871 : ℚ),
    (0.3179909116773948 : ℚ), (0.3565953566087695 : ℚ), (0.3885147125080189 : ℚ),
    (0.413324881105598 : ℚ), (0.4307263044487036 : ℚ), (0.4405468336544414 : ℚ),
    (0.4427425247500993 : ℚ), (0.4373963814611929 : ℚ), (0.4247150949789694 : ℚ),
    (0.4050238597676317 : ℚ), (0.3787593720005716 : ℚ), (0.3464611429086273 : ℚ),
    (0.3087612828696678 : ℚ), (0.2663166162306931 : ℚ), (0.219780033551352 : ℚ),
    (0.1703440790123612 : ℚ), (0.1188905189132973 : ℚ), (0.0663192692308299 : ℚ),
    (0.01353340711086838 : ℚ), (-0.03857561567839648 : ℚ), (-0.08914233160010079 : ℚ),
    (-0.1373409727936253 : ℚ), (-0.1823983402849041 : ℚ), (-0.2236056396887781 : ℚ),
    (-0.2603291141098585 : ℚ), (-0.2920193250948586 : ℚ), (-0.3182189545202295 : ℚ),
    (-0.3381117145492951 : ℚ), (-0.3517939292509942 : ℚ), (-0.3592296726715029 : ℚ),
    (-0.3604087847823619 : ℚ), (-0.3554254028658956 : ℚ), (-0.344474566943767 : ℚ),
    (-0.3278472691286743 : ℚ), (-0.3059240502150628 : ℚ), (-0.2791672668188249 : ℚ),
    (-0.2481121703190559 : ℚ), (-0.213356954545037 : ℚ), (-0.1755519424141613 : ℚ),
    (-0.1353880924171469 : ℚ), (-0.09354831427537955 : ℚ), (-0.05088045006006382 : ℚ),
    (-0.008188403120087799 : ℚ), (0.03380533483825209 : ℚ), (0.07440377569041878 : ℚ),
    (0.112946398258656 : ℚ), (0.1488193240910796 : ℚ), (0.1814645611154687 : ℚ),
    (0.2103881871118154 : ℚ), (0.2351673629651825 : ℚ), (0.2554560849549578 : ℚ),
    (0.2709896056398384 : ℚ), (0.2815874739329076 : ℚ), (0.2870660288628287 : ℚ),
    (0.2871622565218552 : ℚ), (0.2823340856536493 : ℚ), (0.2727647417989447 : ℚ),
    (0.2587131906249059 : ℚ), (0.2405083664584051 : ℚ), (0.2185423850993267 : ℚ),
    (0.1932628664799186 : ℚ), (0.1651645037987447 : ℚ), (0.1347800246831891 : ℚ),
    (0.1026706966430395 : ℚ), (0.06941653351580709 : ℚ), (0.03560636174474743 : ℚ),
    (0.001827905171911956 : ℚ), (-0.03124426775463644 : ℚ), (-0.06304402371107756 : ℚ),
    (-0.09306398172011628 : ℚ), (-0.1208306412851515 : ℚ), (-0.145918391457861 : ℚ),
    (-0.1679555715508333 : ℚ), (-0.1866295363758698 : ℚ), (-0.2016906656840152 : ℚ),
    (-0.2129552745691247 : ℚ), (-0.2203073989956682 : ℚ), (-0.2236994480906942 : ℚ),
    (-0.2231517321691823 : ℚ), (-0.2187508924153451 : ℚ), (-0.2104777236334274 : ℚ),
    (-0.1986190753968218 : ℚ), (-0.1836010697287454 : ℚ), (-0.165752285866502 : ℚ),
    (-0.1454418748066625 : ℚ), (-0.1230725383542642 : ℚ), (-0.09907311054963804 : ℚ),
    (-0.07389086693973335 : ℚ), (-0.04798368880897039 : ℚ), (-0.02181220927853774 : ℚ),
    (0.004167933841770255 : ℚ), (0.02951361735311396 : ℚ), (0.05380140849904894 : ℚ),
    (0.07659587432142548 : ℚ), (0.09740764117115358 : ℚ), (0.1160231941957806 : ℚ),
    (0.1321747644104553 : ℚ), (0.145642723297715 : ℚ), (0.1562581544596216 : ℚ),
    (0.1639045377127038 : ℚ), (0.1685185380663419 : ℚ), (0.1700899058608486 : ℚ),
    (0.1686605078093076 : ℚ), (0.1643225216158797 : ℚ), (0.1572158390710483 : ℚ),
    (0.1475247338993451 : ℚ), (0.1354738610174358 : ℚ), (0.1211828058176793 : ℚ),
    (0.1051295071946116 : ℚ), (0.08765172915973278 : ℚ), (0.06908752689526529 : ℚ),
    (0.049785270818508 : ℚ), (0.03009753421802411 : ℚ), (0.01037505249518476 : ℚ),
    (-0.009039150772724158 : ℚ), (-0.02781538032039452 : ℚ), (-0.04564254342104937 : ℚ),
    (-0.06223300398064303 : ℚ), (-0.07732694658496299 : ℚ), (-0.09069618943429146 : ℚ),
    (-0.1020385039089121 : ℚ), (-0.1112149055719974 : ℚ), (-0.1181915635915529 : ℚ),
    (-0.1229054302586474 : ℚ), (-0.1253340667888303 : ℚ), (-0.1254950018308012 : ℚ),
    (-0.1234444412191034 : ℚ), (-0.1192753650100822 : ℚ), (-0.1131150565483084 : ℚ),
    (-0.1051221161785381 : ℚ), (-0.09548301915680725 : ℚ), (-0.08440828324641146 : ℚ),
    (-0.072128316346234 : ℚ), (-0.05887317444109465 : ℚ), (-0.04490448042198855 : ℚ),
    (-0.03054729568238579 : ℚ), (-0.01606448533063227 : ℚ), (-0.001713854928086525 : ℚ),
    (0.01225613001062542 : ℚ), (0.02561035763141453 : ℚ), (0.03813075755438913 : ℚ),
    (0.04961961046931666 : ℚ), (0.05990243422256791 : ℚ), (0.06883040875469576 : ℚ),
    (0.07628231030532578 : ℚ), (0.08216593365070744 : ℚ), (0.08641898966033394 : ℚ),
    (0.08887105188706827 : ℚ), (0.08965751700703237 : ℚ), (0.08882280617293446 : ℚ),
    (0.08643073920585818 : ℚ), (0.08257065565352531 : ℚ), (0.0773551492709324 : ℚ),
    (0.07091746738795066 : ℚ), (0.06340862667885425 : ℚ), (0.05499430013153169 : ℚ),
    (0.04585153240232059 : ℚ), (0.03616534222095679 : ℚ), (0.0261252710750528 : ℚ),
    (0.01592193706203196 : ℚ), (0.005756566923157176 : ℚ), (-0.00416639083775322 : ℚ),
    (-0.01367798574881198 : ℚ), (-0.02262077920662858 : ℚ), (-0.03085242944382167 : ℚ),
    (-0.03824775006306567 : ℚ), (-0.04470041374350564 : ℚ), (-0.0501242819090367 : ℚ),
    (-0.05445434766263776 : ℚ), (-0.05764728584906705 : ℚ), (-0.0596816106177695 : ℚ),
    (-0.06055744722879147 : ℚ), (-0.06029593098992195 : ℚ), (-0.05891096444005019 : ℚ),
    (-0.05643663567719096 : ℚ), (-0.05302245822040044 : ℚ), (-0.04876470074703465 : ℚ),
    (-0.04377174625939083 : ℚ), (-0.03816175337041186 : ℚ), (-0.03206021443775436 : ℚ),
    (-0.02559745528660434 : ℚ), (-0.01890612107522585 : ℚ), (-0.01211869198551687 : ℚ),
    (-0.005365070890849473 : ℚ), (0.001229717000254786 : ℚ), (0.007547675261918345 : ℚ),
    (0.01347980413717826 : ℚ), (0.01887744329360085 : ℚ), (0.02369094692968705 : ℚ),
    (0.0278535051155215 : ℚ), (0.03131212373265254 : ℚ), (0.03402902689834856 : ℚ),
    (0.03598185256984435 : ℚ), (0.03716356135851154 : ℚ), (0.03758206807407902 : ℚ),
    (0.037259609956664 : ℚ), (0.03623186967146597 : ℚ), (0.03454687488453278 : ℚ),
    (0.03226369956050625 : ℚ), (0.02945099498304928 : ℚ), (0.02616473435147456 : ℚ),
    (0.02251174644351727 : ℚ), (0.01859359981782471 : ℚ), (0.0145000571776622 : ℚ),
    (0.01032084406269125 : ℚ), (0.006143905273230965 : ℚ), (0.002053748339719942 : ℚ),
    (-0.001870098182736241 : ℚ), (-0.005554486481509179 : ℚ), (-0.008933889216559316 : ℚ),
    (-0.01195145842610353 : ℚ), (-0.01455988837475038 : ℚ), (-0.01672207085211092 : ℚ),
    (-0.01839709679956895 : ℚ), (-0.01955480072545824 : ℚ), (-0.02022162559407757 : ℚ),
    (-0.02040662063494272 : ℚ), (-0.02012870811367224 : ℚ), (-0.01941596253062464 : ℚ),
    (-0.01830472979081881 : ℚ), (-0.01683860700427138 : ℚ), (-0.01506730558771189 : ℚ),
    (-0.0130454219348254 : ℚ), (-0.01083114108650605 : ℚ), (-0.008484899554637569 : ℚ),
    (-0.006068033727911746 : ℚ), (-0.003641500150788778 : ℚ), (-0.001274591056311301 : ℚ),
    (0.0009769926193654629 : ℚ), (0.003063013286528747 : ℚ), (0.004938812150039658 : ℚ),
    (0.006566128152549319 : ℚ), (0.007913765267886433 : ℚ), (0.008958098391919047 : ℚ),
    (0.009683411203845669 : ℚ), (0.01008206255258066 : ℚ), (0.01015448111158035 : ℚ),
    (0.009908991192716933 : ℚ), (0.009361475668341375 : ℚ), (0.008534884874717786 : ℚ),
    (0.007445926270237812 : ℚ), (0.006143328442534334 : ℚ), (0.004674831427165644 : ℚ),
    (0.003084733077679933 : ℚ), (0.001419591735865177 : ℚ), (-0.0002728684097802925 : ℚ),
    (-0.001944860980227558 : ℚ), (-0.003549628116360557 : ℚ), (-0.005042496809570114 : ℚ),
    (-0.006381880301868748 : ℚ), (-0.007530205227948004 : ℚ), (-0.008454746712351965 : ℚ),
    (-0.009128355467563194 : ℚ), (-0.009520735640506938 : ℚ), (-0.009610150664524624 : ℚ),
    (-0.00940675872923177 : ℚ), (-0.008912661786945912 : ℚ), (-0.008137035348572026 : ℚ),
    (-0.007095906838542512 : ℚ), (-0.005811791178754432 : ℚ), (-0.004313191756502464 : ℚ),
    (-0.002633977335837745 : ℚ), (-0.0008126476761698427 : ℚ), (0.001108497405379428 : ℚ),
    (0.003084269078731194 : ℚ), (0.005067562775871413 : ℚ), (0.007009998001884457 : ℚ),
    (0.008851576825604734 : ℚ), (0.01054975704370273 : ℚ), (0.01206123971075896 : ℚ),
    (0.01334634182218813 : ℚ), (0.01436986657134984 : ℚ), (0.01510188399811964 : ℚ),
    (0.01551840719877291 : ℚ), (0.01560195121156967 : ℚ), (0.01534196384064136 : ℚ),
    (0.01473511999889282 : ℚ), (0.0137854736029681 : ℚ), (0.01250446360262534 : ℚ),
    (0.01091077333469931 : ℚ), (0.009014177628605831 : ℚ), (0.006863270076393271 : ℚ),
    (0.004504752495181326 : ℚ), (0.001983263826878375 : ℚ), (-0.0006525243348943289 : ℚ),
    (-0.003350843018069575 : ℚ), (-0.006057826083480508 : ℚ), (-0.00871855698155484 : ℚ),
    (-0.01127814285491161 : ℚ), (-0.01368279629650705 : ℚ), (-0.01588090490400074 : ℚ),
    (-0.01782406892599915 : ℚ), (-0.01946808777267401 : ℚ), (-0.02076058987786918 : ℚ),
    (-0.02165858373214535 : ℚ), (-0.02215590605542558 : ℚ), (-0.02223593190116548 : ℚ),
    (-0.02188990308010527 : ℚ), (-0.02111716653807134 : ℚ), (-0.01992526354866243 : ℚ),
    (-0.01832986771502027 : ℚ), (-0.01635457235767356 : ℚ), (-0.01403053043467508 : ℚ),
    (-0.01139595265862053 : ℚ), (-0.008495471906119028 : ℚ), (-0.00537938432345599 : ℚ),
    (-0.002102113396859601 : ℚ), (0.001278011404083152 : ℚ), (0.004685749695129356 : ℚ),
    (0.00805775451492465 : ℚ), (0.01133071548394139 : ℚ), (0.01444252190161439 : ℚ),
    (0.0173334096243558 : ℚ), (0.01994707169953802 : ℚ), (0.02223171333284784 : ℚ),
    (0.02414103267223284 : ℚ), (0.02563511008700669 : ℚ), (0.02668119008811821 : ℚ),
    (0.02725434175434219 : ℚ), (0.02733798547531899 : ℚ), (0.0268912375781862 : ℚ),
    (0.02593983192715625 : ℚ), (0.02450743159749482 : ℚ), (0.02261583273414464 : ℚ),
    (0.02029528247893199 : ℚ)]

/-- The table `iShZ` of `IridescentMicrofacet.h` (line 603), 512 entries. -/
def iShZ : List ℚ := [
    (0 : ℚ), (-0.1292114954114609 : ℚ), (-0.256075757415927 : ℚ), (-0.3784956151631083 : ℚ),
    (-0.4944503350568962 : ℚ), (-0.6020280149695963 : ℚ), (-0.6994561922107971 : ℚ),
    (-0.7851302003733032 : ℚ), (-0.8576388445967151 : ℚ), (-0.9157870051001227 : ℚ),
    (-0.9586148245050755 : ℚ), (-0.9854131849064285 : ℚ), (-0.9957352352075171 : ℚ),
    (-0.9894037872262597 : ℚ), (-0.96555204513834 : ℚ), (-0.9251668313971924 : ℚ),
    (-0.869432660072939 : ℚ), (-0.7993125405484989 : ℚ), (-0.716002074440196 : ℚ),
    (-0.6209095497644533 : ℚ), (-0.5156327424361922 : ℚ), (-0.4019327905243273 : ℚ),
    (-0.2817055486460274 : ℚ), (-0.1569508660336397 : ℚ), (-0.0297402617127973 : ℚ),
    (0.09781650648627153 : ℚ), (0.2236054660000621 : ℚ), (0.3453502713837453 : ℚ),
    (0.4606261349475921 : ℚ), (0.5677740651061467 : ℚ), (0.6650527661674767 : ℚ),
    (0.7508891889401269 : ℚ), (0.823903153972962 : ℚ), (0.882928833247614 : ℚ),
    (0.9270327749574337 : ℚ), (0.9555282082978966 : ℚ), (0.9679854209068846 : ℚ),
    (0.9642380600024596 : ℚ), (0.9443852686170832 : ℚ), (0.9087896298477397 : ℚ),
    (0.858029164713678 : ℚ), (0.7919197890390489 : ℚ), (0.7129205184598609 : ℚ),
    (0.6224039682093042 : ℚ), (0.5219238822451825 : ℚ), (0.4131891806722102 : ℚ),
    (0.2980357035738437 : ℚ), (0.1783960965980639 : ℚ), (0.05626830844649156 : ℚ),
    (-0.06631681146339945 : ℚ), (-0.1873283156499338 : ℚ), (-0.3047678577660267 : ℚ),
    (-0.4167017873498224 : ℚ), (-0.5212921488891429 : ℚ), (-0.6161453785350176 : ℚ),
    (-0.6998863155320247 : ℚ), (-0.7714317006448205 : ℚ), (-0.8296724003186529 : ℚ),
    (-0.873723526499117 : ℚ), (-0.9029372888372423 : ℚ), (-0.9169120339424477 : ℚ),
    (-0.91549735694613 : ℚ), (-0.8987952291308505 : ℚ), (-0.8671571443004218 : ℚ),
    (-0.8211773451595382 : ℚ), (-0.7616822484917969 : ℚ), (-0.6897162436390172 : ℚ),
    (-0.6061946975074877 : ℚ), (-0.5125710331143969 : ℚ), (-0.4110686688800241 : ℚ),
    (-0.3034247710987056 : ℚ), (-0.191464190773831 : ℚ), (-0.0770694642528055 : ℚ),
    (0.03784987348054181 : ℚ), (0.1513881881459749 : ℚ), (0.261674383817201 : ℚ),
    (0.3669018115390187 : ℚ), (0.465356995000429 : ℚ), (0.555446739032698 : ℚ),
    (0.6357232123535722 : ℚ), (0.7048341018914758 : ℚ), (0.760662206749663 : ℚ),
    (0.8033052669145021 : ℚ), (0.8321690388227566 : ℚ), (0.8468896612917467 : ℚ),
    (0.8473375504471936 : ℚ), (0.8336175710522897 : ℚ), (0.8060655135800392 : ℚ),
    (0.7652409604699841 : ℚ), (0.7119166774811408 : ℚ), (0.6470647162404695 : ℚ),
    (0.5718394613662785 : ℚ), (0.4875578993299108 : ℚ), (0.395677425959239 : ℚ),
    (0.2975039029973983 : ℚ), (0.1951696910778097 : ℚ), (0.09054207398300801 : ℚ),
    (-0.01462397176183999 : ℚ), (-0.1185811086462839 : ℚ), (-0.2196176980651272 : ℚ),
    (-0.3160850381893273 : ℚ), (-0.4064233703163854 : ℚ), (-0.4891862660134684 : ℚ),
    (-0.5630630343782994 : ℚ), (-0.6268988205661091 : ℚ), (-0.6797121029269971 : ℚ),
    (-0.720709336182514 : ℚ), (-0.7488183637321908 : ℚ), (-0.7634615921604984 : ℚ),
    (-0.7651680715550333 : ℚ), (-0.754046167306046 : ℚ), (-0.7304131846602031 : ℚ),
    (-0.6947880752756983 : ℚ), (-0.6478810400003654 : ℚ), (-0.5905802191100985 : ℚ),
    (-0.523935702171364 : ℚ), (-0.4491411269800162 : ℚ), (-0.3675131702391835 : ℚ),
    (-0.2804692613792342 : ℚ), (-0.1895038748539656 : ℚ), (-0.09615815464505112 : ℚ),
    (-0.002128064642871876 : ℚ), (0.09083211491133256 : ℚ), (0.1811917214000258 : ℚ),
    (0.2674804919806911 : ℚ), (0.3483115754765903 : ℚ), (0.4224029637178752 : ℚ),
    (0.488597031847151 : ℚ), (0.545877908481136 : ℚ), (0.5933864315281032 : ℚ),
    (0.6304324834156839 : ℚ), (0.656504539972957 : ℚ), (0.6712763096976987 : ℚ),
    (0.6746103840681926 : ℚ), (0.6657983339210897 : ℚ), (0.6457042882809135 : ℚ),
    (0.6150261975778881 : ℚ), (0.5744070502936928 : ℚ), (0.524645021549044 : ℚ),
    (0.4666786802302523 : ℚ), (0.4015701573507344 : ℚ), (0.330486558233452 : ℚ),
    (0.2546799237013073 : ℚ), (0.175466063559538 : ℚ), (0.09420259906363809 : ℚ),
    (0.01226655965844866 : ℚ), (-0.06896811702716463 : ℚ), (-0.1480109782785373 : ℚ),
    (-0.2233625107237471 : ℚ), (-0.2939191633336361 : ℚ), (-0.3585715576500209 : ℚ),
    (-0.4163223488219156 : ℚ), (-0.4663008561689404 : ℚ), (-0.5077754971486659 : ℚ),
    (-0.5401638622284189 : ℚ), (-0.5630403050563967 : ℚ), (-0.5761409605138317 : ℚ),
    (-0.5793661422061248 : ℚ), (-0.572780110210184 : ℚ), (-0.5566082389313994 : ℚ),
    (-0.5311300075444779 : ℚ), (-0.4963945608065448 : ℚ), (-0.4538124954533618 : ℚ),
    (-0.4042095027982753 : ℚ), (-0.3485148848799123 : ℚ), (-0.2877450125727687 : ℚ),
    (-0.2229856394588894 : ℚ), (-0.1553733596872143 : ℚ), (-0.08607650671113022 : ℚ),
    (-0.01627579419789019 : ℚ), (0.05285499945519906 : ℚ), (0.1201680056364502 : ℚ),
    (0.1845596099007786 : ℚ), (0.2449878892286096 : ℚ), (0.3000640446249813 : ℚ),
    (0.349115313449841 : ℚ), (0.3914984304786701 : ℚ), (0.4266084101336042 : ℚ),
    (0.4539695721199625 : ℚ), (0.4732413131912202 : ℚ), (0.4842216487317894 : ℚ),
    (0.4868485018522736 : ℚ), (0.4811987513676749 : ℚ), (0.4674850830909559 : ℚ),
    (0.4460507209056566 : ℚ), (0.4173621446821619 : ℚ), (0.381999930891777 : ℚ),
    (0.3404278253642017 : ℚ), (0.2935360211292384 : ℚ), (0.2424634680725181 : ℚ),
    (0.1881353917555302 : ℚ), (0.1315157535374714 : ℚ), (0.07359094564482749 : ℚ),
    (0.01535338728057109 : ℚ), (-0.04221472320970214 : ℚ), (-0.09815725127369947 : ℚ),
    (-0.1515593249222962 : ℚ), (-0.2015616628646026 : ℚ), (-0.2473738213615038 : ℚ),
    (-0.2882861677603631 : ℚ), (-0.3235905832376889 : ℚ), (-0.3523683177236021 : ℚ),
    (-0.3746514781304462 : ℚ), (-0.390180041173639 : ℚ), (-0.3988105381461771 : ℚ),
    (-0.4005164003214035 : ℚ), (-0.3953864334449462 : ℚ), (-0.3836214758879907 : ℚ),
    (-0.3655293211765607 : ℚ), (-0.3415180102088095 : ℚ), (-0.3120876212312559 : ℚ),
    (-0.2778207062966294 : ℚ), (-0.2393715412283519 : ℚ), (-0.1974543718560736 : ℚ),
    (-0.152699151318721 : ℚ), (-0.1061553499125537 : ℚ), (-0.05867619120488202 : ℚ),
    (-0.01107929589456277 : ℚ), (0.0358305736017983 : ℚ), (0.08127445306555175 : ℚ),
    (0.1245114783858299 : ℚ), (0.1648503690676139 : ℚ), (0.2016599281176045 : ℚ),
    (0.2343784103536616 : ℚ), (0.2625216302876605 : ℚ), (0.285689701402415 : ℚ),
    (0.3035723205948275 : ℚ), (0.3156927951885631 : ℚ), (0.3219525341487866 : ℚ),
    (0.3225887102857271 : ℚ), (0.3177001820966727 : ℚ), (0.307476150740337 : ℚ),
    (0.2921913546264507 : ℚ), (0.272199978735212 : ℚ), (0.2479283967513978 : ℚ),
    (0.2198668795214204 : ℚ), (0.1885604166186888 : ℚ), (0.1545988087953438 : ℚ),
    (0.1186061976957015 : ℚ), (0.08123020532635619 : ℚ), (0.04313109180305592 : ℚ),
    (0.005046013348670195 : ℚ), (-0.03232998541828506 : ℚ), (-0.06837711546110109 : ℚ),
    (-0.1025103894252113 : ℚ), (-0.1341885707835724 : ℚ), (-0.1629222435295497 : ℚ),
    (-0.1882808928028344 : ℚ), (-0.2098989037340295 : ℚ), (-0.227480403707688 : ℚ),
    (-0.2408028919217243 : ℚ), (-0.2497196193083036 : ℚ), (-0.2541607013201733 : ℚ),
    (-0.2541329655192111 : ℚ), (-0.2493936077218674 : ℚ), (-0.2404216930906825 : ℚ),
    (-0.2275077170957802 : ℚ), (-0.2109564105129734 : ℚ), (-0.191127312363099 : ℚ),
    (-0.1684276897187501 : ℚ), (-0.1433048263771529 : ℚ), (-0.1162378139935951 : ℚ),
    (-0.08772898428756148 : ℚ), (-0.05829512388421468 : ℚ), (-0.02845861423261976 : ℚ),
    (0.001261362132080256 : ℚ), (0.03035741090041843 : ℚ), (0.058261930559709 : ℚ),
    (0.08446946524481989 : ℚ), (0.1086137843474659 : ℚ), (0.130328252943658 : ℚ),
    (0.1492954541676588 : ℚ), (0.1652514011739375 : ℚ), (0.1779887902323883 : ℚ),
    (0.1873592632129905 : ℚ), (0.1932746633924735 : ℚ), (0.1957072841258792 : ℚ),
    (0.1946891252662124 : ℚ), (0.1903101870880022 : ℚ), (0.1827158456854726 : ℚ),
    (0.172046733127502 : ℚ), (0.1584545466135108 : ℚ), (0.1424422007508331 : ℚ),
    (0.1243428864976271 : ℚ), (0.1045174640936887 : ℚ), (0.08334779470382073 : ℚ),
    (0.06122987699301322 : ℚ), (0.03856690201503864 : ℚ), (0.01576233867176881 : ℚ),
    (-0.006786840720962338 : ℚ), (-0.02869668947737269 : ℚ), (-0.04960247061246364 : ℚ),
    (-0.06916440340739852 : ℚ), (-0.08707288822638222 : ℚ), (-0.1028761160931553 : ℚ),
    (-0.1164646916788045 : ℚ), (-0.127674255825862 : ℚ), (-0.1363704142726455 : ℚ),
    (-0.1424650497636416 : ℚ), (-0.1459167046934408 : ℚ), (-0.1467301854647339 : ℚ),
    (-0.1449554121823936 : ℚ), (-0.1406855484265582 : ℚ), (-0.1340544562409099 : ℚ),
    (-0.1252335310128742 : ℚ), (-0.1144279794968174 : ℚ), (-0.1018726117387704 : ℚ),
    (-0.08776655907006731 : ℚ), (-0.07245383902139876 : ℚ), (-0.05628512832114022 : ℚ),
    (-0.03956466645294461 : ℚ), (-0.02259831312293738 : ℚ), (-0.005688317419405343 : ℚ),
    (0.01087172566996683 : ℚ), (0.02680165428157259 : ℚ), (0.04183918296942596 : ℚ),
    (0.05574394575097774 : ℚ), (0.06830108195328825 : ℚ), (0.07932431617030369 : ℚ),
    (0.08865849247854453 : ℚ), (0.09613651709281179 : ℚ), (0.1015872042430567 : ℚ),
    (0.1050866722255972 : ℚ), (0.106628767488658 : ℚ), (0.1062415106660555 : ℚ),
    (0.1039857048011442 : ℚ), (0.09995302908557599 : ℚ), (0.09426366191756601 : ℚ),
    (0.08706348343527689 : ℚ), (0.0785209131479313 : ℚ), (0.06882344281452329 : ℚ),
    (0.05817392826370327 : ℚ), (0.04678670637699588 : ℚ), (0.03488360495193706 : ℚ),
    (0.02268783445800119 : ℚ), (0.01046704601738935 : ℚ), (-0.001560272165034802 : ℚ),
    (-0.01318672187406148 : ℚ), (-0.02421801108134798 : ℚ), (-0.03447595793267484 : ℚ),
    (-0.04380114031354235 : ℚ), (-0.05205515613277014 : ℚ), (-0.05912246648223947 : ℚ),
    (-0.06491180111221481 : ℚ), (-0.06935711310067427 : ℚ), (-0.07241807708627966 : ℚ),
    (-0.07408013287350891 : ℚ), (-0.07428017016965463 : ℚ), (-0.07309290499656965 : ℚ),
    (-0.07062983007539642 : ℚ), (-0.06697700711689622 : ℚ), (-0.06223903239094868 : ℚ),
    (-0.05653663885009984 : ℚ), (-0.0500040869596879 : ℚ), (-0.04278639370906394 : ℚ),
    (-0.03503645066193947 : ℚ), (-0.02691208248164788 : ℚ), (-0.01857309714780742 : ℚ),
    (-0.0101783780826435 : ℚ), (-0.001883066655384124 : ℚ), (0.006153382488903103 : ℚ),
    (0.01376121675349466 : ℚ), (0.02083171663102371 : ℚ), (0.02725461487556679 : ℚ),
    (0.03293519323822836 : ℚ), (0.03779549395846774 : ℚ), (0.04177519914808908 : ℚ),
    (0.04483217216883102 : ℚ), (0.0469426608151302 : ℚ), (0.04810116769216225 : ℚ),
    (0.04831999854977075 : ℚ), (0.04762850442333334 : ℚ), (0.0460720381755064 : ℚ),
    (0.04371065036579317 : ℚ), (0.04056320147514345 : ℚ), (0.03678596177517503 : ℚ),
    (0.03247653156103247 : ℚ), (0.02773764047305458 : ℚ), (0.02267636696890906 : ℚ),
    (0.01740199854003413 : ℚ), (0.01202391668262556 : ℚ), (0.006649543251172933 : ℚ),
    (0.001382382872420094 : ℚ), (-0.003679806357520793 : ℚ), (-0.008446684584968852 : ℚ),
    (-0.01283681833563024 : ℚ), (-0.01677896277170907 : ℚ), (-0.02018057869842182 : ℚ),
    (-0.02300419438289468 : ℚ), (-0.02523415348108214 : ℚ), (-0.02685223711852038 : ℚ),
    (-0.02785305270172234 : ℚ), (-0.02824369578732477 : ℚ), (-0.0280431861519786 : ℚ),
    (-0.02728169448938801 : ℚ), (-0.02599957938395585 : ℚ), (-0.02424625704515353 : ℚ),
    (-0.0220789286989429 : ℚ), (-0.01956119249414504 : ℚ), (-0.01676156827037698 : ℚ),
    (-0.01374821949031762 : ℚ), (-0.01060068823354806 : ℚ), (-0.007404712644501177 : ℚ),
    (-0.004231888477267297 : ℚ), (-0.001150470399004466 : ℚ), (0.001775919693772389 : ℚ),
    (0.004489455457129635 : ℚ), (0.006939121339567379 : ℚ), (0.00908156468568638 : ℚ),
    (0.01088177235153647 : ℚ), (0.0123135628651866 : ℚ), (0.01335988864251886 : ℚ),
    (0.01401294628204903 : ℚ), (0.01427368085966075 : ℚ), (0.01412164637823022 : ℚ),
    (0.01361225007597743 : ℚ), (0.01277418493313557 : ℚ), (0.01164277010083822 : ℚ),
    (0.01025899230583827 : ℚ), (0.008668453360210599 : ℚ), (0.006920246228035578 : ℚ),
    (0.0050657829695381 : ℚ), (0.003157598344038191 : ℚ), (0.001248152906089098 : ℚ),
    (-0.0006113409206880091 : ℚ), (-0.002372047050203928 : ℚ), (-0.003988566599384504 : ℚ),
    (-0.005406169095344735 : ℚ), (-0.006592178700293475 : ℚ), (-0.007524205282636448 : ℚ),
    (-0.008181542569964121 : ℚ), (-0.008550653605418197 : ℚ), (-0.00862536904888252 : ℚ),
    (-0.008406926614968962 : ℚ), (-0.007903853035137288 : ℚ), (-0.007131692815801075 : ℚ),
    (-0.006112590840144569 : ℚ), (-0.004874738487591709 : ℚ), (-0.003451695382772929 : ℚ),
    (-0.001881601099482853 : ℚ), (-0.0002045218430383534 : ℚ), (0.001530090059604219 : ℚ),
    (0.003269987852534888 : ℚ), (0.004968538734122515 : ℚ), (0.006579992241455741 : ℚ),
    (0.008060506921828491 : ℚ), (0.009369131719184428 : ℚ), (0.01046872308409488 : ℚ),
    (0.01132678014996793 : ℚ), (0.01191618193917762 : ℚ), (0.01221581244338012 : ℚ),
    (0.01221106153205527 : ℚ), (0.01189419194910989 : ℚ), (0.01126333123560479 : ℚ),
    (0.01030210976659108 : ℚ), (0.009052732046518313 : ℚ), (0.007537755355949699 : ℚ),
    (0.005785995676776658 : ℚ), (0.003831951900675842 : ℚ), (0.001715113852957567 : ℚ),
    (-0.0005208323836528928 : ℚ), (-0.002828886564684954 : ℚ), (-0.005159686988093509 : ℚ),
    (-0.007462515752498414 : ℚ), (-0.009686337575711711 : ℚ), (-0.01178085255788247 : ℚ),
    (-0.01369754297831878 : ℚ), (-0.01537334668912553 : ℚ), (-0.01677111535263819 : ℚ),
    (-0.01786097371714779 : ℚ), (-0.01861335789750272 : ℚ), (-0.01900518939358994 : ℚ),
    (-0.01902040036657458 : ℚ), (-0.01865032616932766 : ℚ), (-0.01789395759246054 : ℚ),
    (-0.01675804775277993 : ℚ), (-0.01525707109330021 : ℚ), (-0.01341303454532871 : ℚ),
    (-0.01125514348530985 : ℚ), (-0.008819327663846976 : ℚ), (-0.006141206821007653 : ℚ),
    (-0.003272233441963601 : ℚ), (-0.0002778602049940807 : ℚ), (0.002785710511498461 : ℚ),
    (0.005860204336195678 : ℚ), (0.008886366532946716 : ℚ), (0.01180507800298343 : ℚ),
    (0.01455847572467559 : ℚ), (0.01709105761244659 : ℚ), (0.01935075201510101 : ℚ),
    (0.02128993262840939 : ℚ), (0.02286636045893148 : ℚ), (0.02404403563351998 : ℚ),
    (0.02479078859162535 : ℚ), (0.02505055523720454 : ℚ), (0.02484753726111765 : ℚ),
    (0.02417966953201595 : ℚ), (0.02305351441186026 : ℚ), (0.02148420320927729 : ℚ),
    (0.01949522329735267 : ℚ), (0.01711805426114388 : ℚ), (0.01439165895931132 : ℚ),
    (0.01136183780670968 : ℚ), (0.008080456876266441 : ℚ), (0.004604562546444316 : ℚ),
    (0.0009953973545557924 : ℚ), (-0.002682666571994776 : ℚ), (-0.006358181061584057 : ℚ),
    (-0.009956135641150402 : ℚ), (-0.01341041423476542 : ℚ), (-0.01665699458205973 : ℚ),
    (-0.01963515531970875 : ℚ)]

/-- The read `t[idx]` of a table by an `int` index; no value outside the array. -/
noncomputable def readTable (t : List ℚ) (idx : ℤ) : Option ℝ :=
  if 0 ≤ idx then (t[idx.toNat]?).map (fun q => (q : ℝ)) else none

/-- One channel of the tabulated branch of `evalSensitivity` (lines 179-187,
190-198, 201-209): `u` is the channel of `u`, `s` the channel of `shift`, `re` and
`im` the two tables of the channel. -/
noncomputable def tabulatedChannel (re im : List ℚ) (u s : ℝ) : Option ℝ :=
  if u ≥ (nCMFs : ℝ) then
    some 0.0
  else do
    let idx : ℤ := Int.floor u
    let r ← readTable re idx
    let i ← readTable im idx
    pure (Real.cos s * r + Real.sin s * i)

/-- The function `evalSensitivity(OPD, shift, useGaussianFit)`, lines 152-213. -/
noncomputable def evalSensitivity (OPD shift : Spectrum) (useGaussianFit : Bool) :
    Option Spectrum :=
  if useGaussianFit then
    let phase : Spectrum := fun i => 2 * Real.pi * OPD i * 1.0e-9
    let xyz : Spectrum := fun i =>
      _val i * Real.sqrt (2 * Real.pi * _var i) * Real.cos (_pos i * phase i + shift i) *
        Real.exp (-phase i * phase i * _var i / 2)
    let xyz : Spectrum := Function.update xyz 0
      (xyz 0 + 6.8922e-14 * Real.sqrt (2 * Real.pi * 9.0564e+09) *
        Real.cos (2.2399e+06 * phase 0 + shift 0) *
        Real.exp (-9.0564e+09 * phase 0 * phase 0 / 2))
    some (fun i => xyz i / 1.0685e-7)
  else do
    let mD : Spectrum := fun i => 2 * Real.pi * OPD i
    let u : Spectrum := fun i => (mD i / 30000.0) * ((nCMFs : ℝ) - 1)
    let x ← tabulatedChannel rShX iShX (u 0) (shift 0)
    let y ← tabulatedChannel rShY iShY (u 1) (shift 1)
    let z ← tabulatedChannel rShZ iShZ (u 2) (shift 2)
    pure ![x, y, z]

/-- The value that the tabulated branch is claimed to give in one channel: with
`u = (2π·opd/30000)·511`, it is `0` when `u ≥ 512`, and otherwise
`cos s · re[⌊u⌋] + sin s · im[⌊u⌋]` with `⌊u⌋` an index of both tables. -/
def tabulatedChannelSpec (re im : List ℚ) (opd s v : ℝ) : Prop :=
  (2 * Real.pi * opd / 30000 * 511 ≥ 512 → v = 0) ∧
  (2 * Real.pi * opd / 30000 * 511 < 512 →
    0 ≤ Int.floor (2 * Real.pi * opd / 30000 * 511) ∧
    (Int.floor (2 * Real.pi * opd / 30000 * 511)).toNat < 512 ∧
    ∃ r i : ℚ, re[(Int.floor (2 * Real.pi * opd / 30000 * 511)).toNat]? = some r ∧
      im[(Int.floor (2 * Real.pi * opd / 30000 * 511)).toNat]? = some i ∧
      v = Real.cos s * r + Real.sin s * i)

/-! ## The iridescence term (`IridescenceTerm`) -/

/-- The record `struct IridescenceParams`, lines 319-338. -/
structure TIridescenceParams (Spectrum : Type) where
  height : Spectrum
  eta1 : Spectrum
  eta2 : Spectrum
  eta3 : Spectrum
  kappa3 : Spectrum
  wavelengths : Spectrum
  spectralAntialiasing : Bool
  useGaussianFit : Bool

/-- The record `TIridescenceParams` at the types of the renderer, `Float` read as `ℝ`. -/
abbrev IridescenceParams := TIridescenceParams Spectrum

/-- One channel of the seven spectra `R12p, T121p, R23p, R12s, T121s, R23s, ct2`
declared at line 356 (and at line 497). -/
structure TInterfaceSample (Float : Type) where
  R12p : Float
  T121p : Float
  R23p : Float
  R12s : Float
  T121s : Float
  R23s : Float
  ct2 : Float

/-- The record `TInterfaceSample` at the types of the renderer, `Float` read as `ℝ`. -/
abbrev InterfaceSample := TInterfaceSample ℝ

/-- The body of the loop of lines 357-387 (and 498-519) for one channel.  The
seven spectra are declared without an initial value: `u` is what their channel
holds before the loop, and the total-internal-reflection branch leaves `R23p`,
`R23s` and `ct2` as they are. -/
noncomputable def interfaceChannel (ct1 eta1 eta2 eta3 kappa3 : ℝ) (u : InterfaceSample) :
    Option InterfaceSample := do
  let scale ← fdiv eta1 eta2
  let cosThetaTSqr := 1 - (1 - sqr ct1) * sqr scale
  if cosThetaTSqr ≤ 0 then
    pure { u with R12s := 1, R12p := 1, T121p := 0, T121s := 0 }
  else do
    let ct2 ← fsqrt cosThetaTSqr
    let e21 ← fdiv eta2 eta1
    let r12 ← fresnelConductorExact ct1 e21 0
    let e32 ← fdiv eta3 eta2
    let k32 ← fdiv kappa3 eta2
    let r23 ← fresnelConductorExact ct2 e32 k32
    pure { R12p := r12.Rp2, R12s := r12.Rs2, R23p := r23.Rp2, R23s := r23.Rs2,
           T121p := 1 - r12.Rp2, T121s := 1 - r12.Rs2, ct2 := ct2 }

/-- Lines 415-426 (parallel polarization) and 430-441 (perpendicular, the same
statements on the `s` spectra): the DC term and the harmonics `m = 1, 2` of one
polarization are added to `I`. -/
noncomputable def harmonicTerm (R12 T121 R23 r123 D phi : Spectrum) (useGaussianFit : Bool)
    (I : Spectrum) : Option Spectrum := do
  let S0 : Spectrum := 1
  let Rs ← Spectrum.cdiv (fun i => sqr (T121 i) * R23 i) (1 - R12 * R23)
  let C0 := R12 + Rs
  let I := I + C0 * S0
  let Cm := Rs - T121
  -- m = 1
  let Cm := Cm * r123
  let S ← evalSensitivity (fun i => 1 * D i) (fun i => 1 * phi i) useGaussianFit
  let Sm : Spectrum := fun i => 2 * S i
  let I := I + Cm * Sm
  -- m = 2
  let Cm := Cm * r123
  let S ← evalSensitivity (fun i => 2 * D i) (fun i => 2 * phi i) useGaussianFit
  let Sm : Spectrum := fun i => 2 * S i
  let I := I + Cm * Sm
  pure I

/-- Lines 463-466 (parallel polarization) and 469-472 (perpendicular): the Airy
summation of one polarization; `phase` is `Dphi + phi23 + phi21`. -/
noncomputable def airyTerm (R12 T121 R23 r123 phase : Spectrum) : Option Spectrum := do
  let Rs ← Spectrum.cdiv (fun i => sqr (T121 i) * R23 i) (1 - R12 * R23)
  let cosP : Spectrum := fun i => Real.cos (phase i)
  let irid ← Spectrum.cdiv (fun i => r123 i * cosP i - sqr (r123 i))
    (fun i => 1 - 2 * r123 i * cosP i + sqr (r123 i))
  pure (R12 + Rs + 2 * (Rs - T121) * irid)

/-- The function `IridescenceTerm(ct1, params)`, lines 343-481.  `uninit` is the content of the
seven uninitialised spectra of line 356.  `Dphi` (line 391) is only used by the
Airy branch and is computed there. -/
noncomputable def IridescenceTerm (ct1 : ℝ) (params : IridescenceParams)
    (uninit : Fin 3 → InterfaceSample) : Option Spectrum := do
  let ifc ← collectChannels fun i =>
    interfaceChannel ct1 (params.eta1 i) (params.eta2 i) (params.eta3 i) (params.kappa3 i)
      (uninit i)
  let R12p : Spectrum := fun i => (ifc i).R12p
  let T121p : Spectrum := fun i => (ifc i).T121p
  let R23p : Spectrum := fun i => (ifc i).R23p
  let R12s : Spectrum := fun i => (ifc i).R12s
  let T121s : Spectrum := fun i => (ifc i).T121s
  let R23s : Spectrum := fun i => (ifc i).R23s
  let ct2 : Spectrum := fun i => (ifc i).ct2
  let D : Spectrum := fun i => 2 * params.eta2 i * params.height 0 * ct2 i
  let ph21 ← fresnelPhaseExact (fun _ => ct1) (fun _ => 1) params.eta2 (fun _ => 0)
  let ph23 ← fresnelPhaseExact ct2 params.eta2 params.eta3 params.kappa3
  let phi23p := ph23.1
  let phi23s := ph23.2
  let phi21p : Spectrum := fun i => Real.pi - ph21.1 i
  let phi21s : Spectrum := fun i => Real.pi - ph21.2 i
  let r123p ← Spectrum.csqrt (R12p * R23p)
  let r123s ← Spectrum.csqrt (R12s * R23s)
  if params.spectralAntialiasing then do
    let I ← harmonicTerm R12p T121p R23p r123p D (phi23p + phi21p) params.useGaussianFit 0
    let I ← harmonicTerm R12s T121s R23s r123s D (phi23s + phi21s) params.useGaussianFit I
    let r := 2.3646381 * I 0 - 0.8965361 * I 1 - 0.4680737 * I 2
    let g := -0.5151664 * I 0 + 1.4264000 * I 1 + 0.0887608 * I 2
    let b := 0.0052037 * I 0 - 0.0144081 * I 1 + 1.0092106 * I 2
    let I : Spectrum := ![r, g, b]
    let I := Spectrum.clampNegative I
    pure (fun i => 0.5 * I i)
  else do
    let Dphi ← Spectrum.cdiv (fun i => 2 * Real.pi * D i) params.wavelengths
    let Ip ← airyTerm R12p T121p R23p r123p (Dphi + phi23p + phi21p)
    let Is ← airyTerm R12s T121s R23s r123s (Dphi + phi23s + phi21s)
    let I := Ip + Is
    let I := Spectrum.clampNegative I
    pure (fun i => 0.5 * I i)

/-! ## Moments of the sensitivity function (`evalSensitivityMean`, `evalSensitivitySquare`) -/

/-- The closure `integrate` of `evalSensitivityMean` (lines 228-235) in one
channel, which is also the closure `integrateX` (lines 246-253) on `Ax`, `Bx`,
`Cx`, `CB2x` and `shift[0]`. -/
noncomputable def evalSensitivityMean.integrate (A B C CB2 shift d : ℝ) : Option ℝ := do
  let sinv := Real.sin (B * d + shift)
  let cosv := Real.cos (B * d + shift)
  let Cd2 := C * sqr d
  let cos_term := 2 * CB2 * d * cosv * (Cd2 - 6 * CB2 - 1)
  let sin_term ← fdiv (sinv * (1 + 2 * CB2 + 12 * sqr CB2 + 0.5 * sqr Cd2 - Cd2 - 6 * CB2 * Cd2)) B
  pure (A * (sin_term + cos_term))

/-- The function `evalSensitivityMean(m, tao, shift, minHeight, maxHeight)`, lines
215-261. -/
noncomputable def evalSensitivityMean (m : ℤ) (tao shift : Spectrum) (minHeight maxHeight : ℝ) :
    Option Spectrum := do
  let A : Spectrum := fun i => _val i * Real.sqrt (2 * Real.pi * _var i) / 1.0685e-7
  let B : Spectrum := fun i => 2 * Real.pi * m * tao i * _pos i
  let C : Spectrum := fun i => Real.pi * m * tao i
  let C : Spectrum := fun i => C i * (2 * C i * _var i)
  let CB2 : Spectrum := fun i => _var i / (2 * sqr (_pos i))
  let hi ← collectChannels fun i =>
    evalSensitivityMean.integrate (A i) (B i) (C i) (CB2 i) (shift i) (maxHeight * 1.0e-9)
  let lo ← collectChannels fun i =>
    evalSensitivityMean.integrate (A i) (B i) (C i) (CB2 i) (shift i) (minHeight * 1.0e-9)
  let res : Spectrum := hi - lo
  -- second part of x
  let Ax : ℝ := 6.8922e-14 * Real.sqrt (2 * Real.pi * 9.0564e+09) / 1.0685e-7
  let Bx : ℝ := 2 * Real.pi * m * tao 0 * 2.2399e+06
  let Cx : ℝ := Real.pi * m * tao 0
  let Cx : ℝ := Cx * (2 * Cx * 9.0564e+09)
  let CB2x : ℝ := 9.0564e+09 / (2 * sqr 2.2399e+06)
  let hiX ← evalSensitivityMean.integrate Ax Bx Cx CB2x (shift 0) (maxHeight * 1.0e-9)
  let loX ← evalSensitivityMean.integrate Ax Bx Cx CB2x (shift 0) (minHeight * 1.0e-9)
  let res : Spectrum := Function.update res 0 (res 0 + (hiX - loX))
  -- Multiply P(d)
  let P ← fdiv 1e9 (maxHeight - minHeight)
  pure (fun i => res i * P)

/-- The closure `integrate` of `evalSensitivitySquare` (lines 278-286) in one
channel, which is also the closure `integrateX1` (lines 297-305). -/
noncomputable def evalSensitivitySquare.integrate (A B C CB2 shift d : ℝ) : Option ℝ := do
  let sinv := Real.sin (2 * (B * d + shift))
  let cosv := Real.cos (2 * (B * d + shift))
  let Cd2 := C * sqr d
  let q ← fdiv shift (2 * B)
  let poly_term := d / 2 - Cd2 * d / 6 + sqr Cd2 * d / 20 + q
  let cos_term := 0.25 * CB2 * d * cosv * (Cd2 - 1.5 * CB2 - 1)
  let sin_term ← fdiv
    (sinv * (1 + 0.5 * CB2 + 0.75 * sqr CB2 + 0.5 * sqr Cd2 - Cd2 - 1.5 * CB2 * Cd2)) (4 * B)
  pure (A * (poly_term + sin_term + cos_term))

/-- The function `evalSensitivitySquare(tao, shift, minHeight, maxHeight)`, lines
263-315. -/
noncomputable def evalSensitivitySquare (tao shift : Spectrum) (minHeight maxHeight : ℝ) :
    Option Spectrum := do
  let A : Spectrum := fun i =>
    2 * Real.pi * _var i * (_val i / 1.0685e-7) * (_val i / 1.0685e-7)
  let B : Spectrum := fun i => 2 * Real.pi * tao i * _pos i
  let C : Spectrum := fun i => Real.pi * tao i
  let C : Spectrum := fun i => C i * (4 * C i * _var i)
  let CB2 : Spectrum := fun i => _var i / sqr (_pos i)
  let hi ← collectChannels fun i =>
    evalSensitivitySquare.integrate (A i) (B i) (C i) (CB2 i) (shift i) (maxHeight * 1.0e-9)
  let lo ← collectChannels fun i =>
    evalSensitivitySquare.integrate (A i) (B i) (C i) (CB2 i) (shift i) (minHeight * 1.0e-9)
  let res : Spectrum := hi - lo
  -- second part of x
  let Ax : ℝ := 2 * Real.pi * 9.0564e+09 * (6.8922e-14 / 1.0685e-7) * (6.8922e-14 / 1.0685e-7)
  let Bx : ℝ := 2 * Real.pi * tao 0 * 2.2399e+06
  let Cx : ℝ := Real.pi * tao 0
  let Cx : ℝ := Cx * (4 * Cx * 9.0564e+09)
  let CB2x : ℝ := 9.0564e+09 / sqr 2.2399e+06
  let hiX ← evalSensitivitySquare.integrate Ax Bx Cx CB2x (shift 0) (maxHeight * 1.0e-9)
  let loX ← evalSensitivitySquare.integrate Ax Bx Cx CB2x (shift 0) (minHeight * 1.0e-9)
  let res : Spectrum := Function.update res 0 (res 0 + (hiX - loX))
  -- ignore cross term
  -- Multiply P(d)
  let P ← fdiv 1e9 (maxHeight - minHeight)
  pure (fun i => res i * P)

/-! ## Mean and variance of the iridescence term (`IridescenceMean`) -/

/-- Lines 544-556 (parallel polarization) and 560-572 (perpendicular): the DC
term and the first harmonic of one polarization are added to `I`, and the
variance of the first harmonic to `V`. -/
noncomputable def meanVarianceTerm (R12 T121 R23 r123 tao phi : Spectrum)
    (minHeight maxHeight : ℝ) (I V : Spectrum) : Option (Spectrum × Spectrum) := do
  let S0 : Spectrum := 1
  let Rs ← Spectrum.cdiv (fun i => sqr (T121 i) * R23 i) (1 - R12 * R23)
  let C0 := R12 + Rs
  let I := I + C0 * S0
  let C1 := (Rs - T121) * r123
  let mean ← evalSensitivityMean 1 tao phi minHeight maxHeight
  let S1 : Spectrum := fun i => 2 * mean i
  let I := I + C1 * S1
  let meanSquare ← evalSensitivitySquare tao phi minHeight maxHeight
  let V := V + 4 * C1 * C1 * (meanSquare - mean * mean)
  pure (I, V)

/-- The function `IridescenceMean(ct1, params, minHeight, maxHeight)`, lines
483-586; returns
`(0.5 * I, 0.5 * V)`.  In the branch marked `TODO` nothing that was computed
before it is used, and `I` and `V` are returned as initialised; the set-up
of lines 497-532 is therefore computed in the branch that uses it. -/
noncomputable def IridescenceMean (ct1 : ℝ) (params : IridescenceParams)
    (minHeight maxHeight : ℝ) (uninit : Fin 3 → InterfaceSample) :
    Option (Spectrum × Spectrum) :=
  let I : Spectrum := 0
  let V : Spectrum := 0
  if params.spectralAntialiasing then do
    let ifc ← collectChannels fun i =>
      interfaceChannel ct1 (params.eta1 i) (params.eta2 i) (params.eta3 i) (params.kappa3 i)
        (uninit i)
    let R12p : Spectrum := fun i => (ifc i).R12p
    let T121p : Spectrum := fun i => (ifc i).T121p
    let R23p : Spectrum := fun i => (ifc i).R23p
    let R12s : Spectrum := fun i => (ifc i).R12s
    let T121s : Spectrum := fun i => (ifc i).T121s
    let R23s : Spectrum := fun i => (ifc i).R23s
    let ct2 : Spectrum := fun i => (ifc i).ct2
    let ph21 ← fresnelPhaseExact (fun _ => ct1) (fun _ => 1) params.eta2 (fun _ => 0)
    let ph23 ← fresnelPhaseExact ct2 params.eta2 params.eta3 params.kappa3
    let phi23p := ph23.1
    let phi23s := ph23.2
    let phi21p : Spectrum := fun i => Real.pi - ph21.1 i
    let phi21s : Spectrum := fun i => Real.pi - ph21.2 i
    let r123p ← Spectrum.csqrt (R12p * R23p)
    let r123s ← Spectrum.csqrt (R12s * R23s)
    let tao : Spectrum := fun i => 2 * params.eta2 i * ct2 i
    let IV ← meanVarianceTerm R12p T121p R23p r123p tao (phi23p + phi21p) minHeight maxHeight I V
    let IV ← meanVarianceTerm R12s T121s R23s r123s tao (phi23s + phi21s) minHeight maxHeight
      IV.1 IV.2
    let I := Spectrum.clampNegative IV.1
    let V := Spectrum.clampNegative IV.2
    pure (fun i => 0.5 * I i, fun i => 0.5 * V i)
  else
    -- TODO
    pure (fun i => 0.5 * I i, fun i => 0.5 * V i)

/-! ## Adaptive quadrature over spherical triangles (`Glittery::integrate`) -/

/-- The member `integrations` of `Glittery` (line 498): from the id of a spherical
triangle to its pre-computed integral. -/
abbrev Cache (α : Type) := String → Option α

/-- The assignment `integrations[id] = v`. -/
def Cache.set {α : Type} (c : Cache α) (id : String) (v : α) : Cache α :=
  fun k => if k = id then some v else c k

/-- What `integrate` uses of `SphericalTriangle` (declared in
`microfacet_discrete.h`, which is not among the source files): `excess()`,
`center()`, the vertices `tri[0..2]` and the four children of `split()`.  `T` is
the type of triangles, `V` of directions, `α` of `Float`. -/
structure TriangleOps (T V α : Type) where
  excess : T → α
  center : T → V
  vertex : T → Fin 3 → V
  split : T → Fin 4 → T

/-- Line 507: `rule1 = excess * distr.eval(tri.center())`. -/
def integrate.rule1 {T V α : Type} [LinearOrderedField α] (ops : TriangleOps T V α)
    (distr : V → α) (tri : T) : α :=
  ops.excess tri * distr (ops.center tri)

/-- Line 508: `rule2 = excess * (distr.eval(tri[0]) + distr.eval(tri[1]) +
distr.eval(tri[2])) / 3`. -/
def integrate.rule2 {T V α : Type} [LinearOrderedField α] (ops : TriangleOps T V α)
    (distr : V → α) (tri : T) : α :=
  ops.excess tri *
    (distr (ops.vertex tri 0) + distr (ops.vertex tri 1) + distr (ops.vertex tri 2)) / 3

/-- Lines 509-510: the test `error < 1e-5 || error / rule2 < 1e-5`.  The quotient
is only evaluated when `error ≥ 1e-5`; for `rule2 = 0` it is then `+∞` in floating
point and the comparison is false, which is how the test reads here. -/
def integrate.accepts {T V α : Type} [LinearOrderedField α] (ops : TriangleOps T V α)
    (distr : V → α) (tri : T) : Prop :=
  |integrate.rule1 ops distr tri - integrate.rule2 ops distr tri| < 1e-5 ∨
    (integrate.rule2 ops distr tri ≠ 0 ∧
      |integrate.rule1 ops distr tri - integrate.rule2 ops distr tri| /
        integrate.rule2 ops distr tri < 1e-5)

instance integrate.accepts_decidable {T V α : Type} [LinearOrderedField α]
    (ops : TriangleOps T V α) (distr : V → α) (tri : T) :
    Decidable (integrate.accepts ops distr tri) := by
  unfold integrate.accepts
  infer_instance

/-- The member `Glittery::integrate(distr, tri, parentID, splitNumber)`, lines
501-528, with
the map `integrations` passed in and out.  The C++ recursion has no bound; the
first argument bounds the depth of the calls, and `none` means that the bound was
reached. -/
def integrate {T V α : Type} [LinearOrderedField α] (ops : TriangleOps T V α) (distr : V → α) :
    ℕ → T → String → Int → Cache α → Option (α × Cache α)
  | 0, _, _, _, _ => none
  | fuel + 1, tri, parentID, splitNumber, integrations =>
    let id := parentID ++ toString splitNumber
    let rule2 := integrate.rule2 ops distr tri
    if integrate.accepts ops distr tri then
      some (rule2, integrations.set id rule2)
    else do
      let rule3 : α := 0
      let children := ops.split tri
      let r0 ← integrate ops distr fuel (children 0) id 0 integrations
      let rule3 := rule3 + r0.1
      let r1 ← integrate ops distr fuel (children 1) id 1 r0.2
      let rule3 := rule3 + r1.1
      let r2 ← integrate ops distr fuel (children 2) id 2 r1.2
      let rule3 := rule3 + r2.1
      let r3 ← integrate ops distr fuel (children 3) id 3 r2.2
      let rule3 := rule3 + r3.1
      some (rule3, r3.2.set id rule3)

/-- The key `key` lies under `id`: it is `id` followed by some string. -/
def KeyUnder (id key : String) : Prop := ∃ s : String, key = id ++ s

/-- The error test accepts on every branch of the subdivision tree of `tri`
within `n` levels of splitting. -/
def ConvergesWithin {T V α : Type} [LinearOrderedField α] (ops : TriangleOps T V α)
    (distr : V → α) : ℕ → T → Prop
  | 0, tri => integrate.accepts ops distr tri
  | n + 1, tri => integrate.accepts ops distr tri ∨
      ∀ i : Fin 4, ConvergesWithin ops distr n (ops.split tri i)

/-- Lines 106-115 of the constructor: the four quadrant triangles are integrated
in turn, from the empty map, under the root id `"0"`. -/
def Glittery.integrateHemisphere {T V α : Type} [LinearOrderedField α]
    (ops : TriangleOps T V α) (distr : V → α) (fuel : ℕ) (tri0 tri1 tri2 tri3 : T) :
    Option (Cache α) := do
  let r0 ← integrate ops distr fuel tri0 "0" 0 (fun _ => none)
  let r1 ← integrate ops distr fuel tri1 "0" 1 r0.2
  let r2 ← integrate ops distr fuel tri2 "0" 2 r1.2
  let r3 ← integrate ops distr fuel tri3 "0" 3 r2.2
  some r3.2

/-- A spike: the triangle `(n, true)` is the level-`n` triangle around a point
where the distribution grows without bound, `(n, false)` any other level-`n`
triangle.  The excess is divided by four at every split. -/
def spikeOps : TriangleOps (ℕ × Bool) (Option (ℕ × Bool)) ℚ where
  excess := fun t => (1 / 4) ^ t.1
  center := fun t => if t.2 then some (t.1, true) else none
  vertex := fun t _ => if t.2 then some (t.1, false) else none
  split := fun t i => (t.1 + 1, t.2 && decide (i = 0))

/-- The distribution of the spike: `2·4ⁿ` at the centre of the level-`n` spike
triangle, `4ⁿ` at its vertices, `0` elsewhere. -/
def spikeDistr : Option (ℕ × Bool) → ℚ
  | some (n, true) => 2 * 4 ^ n
  | some (n, false) => 4 ^ n
  | none => 0

/-- A bump: triangles are numbered by their level, every excess is 1, and the
distribution is 1 everywhere except at the centre of the level-0 triangle. -/
def bumpOps : TriangleOps ℕ (ℕ × Bool) ℚ where
  excess := fun _ => 1
  center := fun n => (n, true)
  vertex := fun n _ => (n, false)
  split := fun n _ => n + 1

/-- The distribution of the bump: 2 at the centre of the level-0 triangle, 1 at
every other point. -/
def bumpDistr : ℕ × Bool → ℚ :=
  fun p => if p = (0, true) then 2 else 1

/-! ## The `Glittery` BSDF (`glittery.cpp`) -/

/-- A `Vector`, `Normal` or direction of the shading frame. -/
structure TVector3 (Float : Type) where
  x : Float
  y : Float
  z : Float

/-- The record `TVector3` at the types of the renderer, `Float` read as `ℝ`. -/
abbrev Vector3 := TVector3 ℝ

/-- A `Vector2` or `Point2`. -/
structure TVector2 (Float : Type) where
  x : Float
  y : Float

/-- The record `TVector2` at the types of the renderer, `Float` read as `ℝ`. -/
abbrev Vector2 := TVector2 ℝ

/-- The sum of two vectors. -/
def Vector3.add (a b : Vector3) : Vector3 := ⟨a.x + b.x, a.y + b.y, a.z + b.z⟩

/-- The function `dot`. -/
def dot (a b : Vector3) : ℝ := a.x * b.x + a.y * b.y + a.z * b.z

/-- The function `absDot`. -/
def absDot (a b : Vector3) : ℝ := |dot a b|

/-- Modelled from the spec: `normalize` of the renderer core, the vector divided
by its length ("all directions are unit vectors"); no value for a vector of
length zero. -/
noncomputable def normalize (v : Vector3) : Option Vector3 := do
  let x ← fdiv v.x (Real.sqrt (dot v v))
  let y ← fdiv v.y (Real.sqrt (dot v v))
  let z ← fdiv v.z (Real.sqrt (dot v v))
  pure ⟨x, y, z⟩

/-- Modelled from the spec: `Frame::cosTheta` of the renderer core; directions
live in "a local shading frame where the z-axis is the surface normal", so the
cosine of the angle to the normal is the z-component. -/
def Frame.cosTheta (v : Vector3) : ℝ := v.z

/-- Modelled from the spec: `Spectrum::average` of the renderer core, the
"reduction (average)" of the channels. -/
noncomputable def Spectrum.average (s : Spectrum) : ℝ := (s 0 + s 1 + s 2) / 3

/-- The enumeration `EMeasure` of the renderer core. -/
inductive EMeasure where
  | EInvalidMeasure
  | ESolidAngle
  | ELength
  | EArea
  | EDiscrete
  deriving DecidableEq

/-- What the BSDF reads of `Intersection`: the flag `hasUVPartials`, the
coordinates `uv` and the four partial derivatives.  `P` stands for the rest of
the record, on which textures are evaluated. -/
structure TIntersection (P Vector2 Float : Type) where
  point : P
  hasUVPartials : Bool
  uv : Vector2
  dudx : Float
  dudy : Float
  dvdx : Float
  dvdy : Float

/-- The record `TIntersection` at the types of the renderer, `Float` read as `ℝ`. -/
abbrev Intersection (P : Type) := TIntersection P Vector2 ℝ

/-- A texture, evaluated at an intersection (`Texture::eval`). -/
abbrev Texture (P : Type) := Intersection P → Spectrum

/-- What the BSDF reads and writes of `BSDFSamplingRecord`.  `sampler` is the
sample count of the sampler, `none` when the pointer is null. -/
structure TBSDFSamplingRecord (Intersection Vector3 Float : Type) where
  its : Intersection
  wi : Vector3
  wo : Vector3
  component : ℤ
  typeMask : ℕ
  sampler : Option ℕ
  eta : Float
  sampledComponent : ℤ
  sampledType : ℕ

/-- The record `TBSDFSamplingRecord` at the types of the renderer, `Float` read as `ℝ`. -/
abbrev BSDFSamplingRecord (P : Type) := TBSDFSamplingRecord (Intersection P) Vector3 ℝ

/-- The type `Parallelogram`: four points, `points[0]` to `points[3]`. -/
abbrev Parallelogram := Fin 4 → Vector2

/-- The arguments of the constructor `SphericalConicSection(wi, wo, queryRadius)`. -/
structure TSphericalConicSection (Vector3 Float : Type) where
  wi : Vector3
  wo : Vector3
  queryRadius : Float

/-- The record `TSphericalConicSection` at the types of the renderer, `Float` read as `ℝ`. -/
abbrev SphericalConicSection := TSphericalConicSection Vector3 ℝ

/-- What `glittery.cpp` uses of the renderer and of `microfacet_discrete.h`, none
of which is among the source files: the flag `EGlossyReflection`, the class
`DiscreteMicrofacetDistribution` (`D` is the type of its objects) with its
constructor and member functions, and the standard normal deviate that
`std::normal_distribution` draws from the generator (`G` is the type of the
generator's state). -/
structure THost (D G Vector3 Vector2 Parallelogram SphericalConicSection Float : Type) where
  EGlossyReflection : ℕ
  distribution : ℕ → Float → Float → ℕ → Bool → D
  eval : D → Vector3 → Float
  evalFootprint : D → Vector3 → Parallelogram → SphericalConicSection → Cache Float → ℕ → Float
  smithG : D → Vector3 → Vector3 → Vector3 → Float
  smithG1 : D → Vector3 → Vector3 → Float
  pdf : D → Vector3 → Vector3 → Float
  sample : D → Vector3 → Vector2 → Vector3 × Float
  standardNormal : G → Float × G

/-- The record `THost` at the types of the renderer, `Float` read as `ℝ`. -/
abbrev Host (D G : Type) := THost D G Vector3 Vector2 Parallelogram SphericalConicSection ℝ

/-- The data members of `Glittery`, lines 476-498. -/
structure TGlittery (Texture Spectrum Float : Type) where
  m_type : ℕ
  m_specularReflectance : Texture
  m_alphaU : Texture
  m_alphaV : Texture
  m_totalFacets : ℕ
  m_queryRadius : Float
  m_sampleVisible : Bool
  m_eta : Spectrum
  m_k : Texture
  m_height : Texture
  m_eta1 : Spectrum
  m_eta2 : Spectrum
  m_wavelengths : Spectrum
  m_heightRange : Texture
  m_spectralAntialiasing : Bool
  m_useGaussianFit : Bool
  integrations : Cache Float

/-- The record `TGlittery` at the types of the renderer, `Float` read as `ℝ`. -/
abbrev Glittery (P : Type) := TGlittery (Texture P) Spectrum ℝ

/-- The macro `triangleArea(p0, p1, p2)`, line 11. -/
noncomputable def triangleArea (p0 p1 p2 : Vector2) : ℝ :=
  |p0.x * (p1.y - p2.y) + p1.x * (p2.y - p0.y) + p2.x * (p0.y - p1.y)| / 2.0

/-- The member `Glittery::extentsToPoint(center, extentU, extentV)`, lines 531-548;
`winding.z` is the z-component of the cross product of the two extents. -/
noncomputable def Glittery.extentsToPoint (center extentU extentV : Vector2) : Parallelogram :=
  let p1 := center
  let p3 : Vector2 := ⟨center.x + extentU.x + extentV.x, center.y + extentU.y + extentV.y⟩
  let windingZ := extentU.x * extentV.y - extentU.y * extentV.x
  let cU : Vector2 := ⟨center.x + extentU.x, center.y + extentU.y⟩
  let cV : Vector2 := ⟨center.x + extentV.x, center.y + extentV.y⟩
  if windingZ < 0 then ![cU, p1, cV, p3] else ![cV, p1, cU, p3]

/-- The conversion of a `Float` to `int`: truncation towards zero. -/
noncomputable def truncToInt (x : ℝ) : ℤ :=
  if 0 ≤ x then Int.floor x else Int.ceil x

/-- The member `Glittery::evaluateD(distr, bRec, value, pixelArea)`, lines 551-575:
returns
the flag, `value` and `pixelArea`; `pixelArea0` is what the caller's
uninitialised `pixelArea` holds, left as it is when there are no partials. -/
noncomputable def Glittery.evaluateD {P D G : Type} (host : Host D G) (self : Glittery P)
    (distr : D) (bRec : BSDFSamplingRecord P) (pixelArea0 : ℝ) : Option (Bool × ℝ × ℝ) := do
  let H ← normalize (bRec.wo.add bRec.wi)
  let its := bRec.its
  if !its.hasUVPartials then
    pure (false, host.eval distr H, pixelArea0)
  else
    let center : Vector2 := ⟨its.uv.x, its.uv.y⟩
    let extentU : Vector2 := ⟨its.dudx, its.dvdx⟩
    let extentV : Vector2 := ⟨its.dudy, its.dvdy⟩
    let pixel := Glittery.extentsToPoint center extentU extentV
    let pixelArea := 2 * triangleArea (pixel 0) (pixel 2) (pixel 1)
    let sampleCount : ℕ := match bRec.sampler with
      | none => 1
      | some n => n
    let scs : SphericalConicSection := ⟨bRec.wi, bRec.wo, self.m_queryRadius⟩
    pure (true, host.evalFootprint distr H pixel scs self.integrations sampleCount, pixelArea)

/-- The member `Glittery::sampleF(n, mean, variance)`, lines 578-600.  The static
generator
is passed in and out; a draw of `std::normal_distribution(m, s)` is `m + s * z`
with `z` the standard normal deviate taken from the generator. -/
noncomputable def Glittery.sampleF {D G : Type} (host : Host D G) (n : ℤ)
    (mean variance : Spectrum) (gen : G) : Option (Spectrum × G) := do
  let sx ← (fdiv (variance 0) n).bind fsqrt
  let sy ← (fdiv (variance 1) n).bind fsqrt
  let sz ← (fdiv (variance 2) n).bind fsqrt
  let zx := host.standardNormal gen
  let F0 := mean 0 + sx * zx.1
  let zy := host.standardNormal zx.2
  let F1 := mean 1 + sy * zy.1
  let zz := host.standardNormal zy.2
  let F2 := mean 2 + sz * zz.1
  -- convert to RGB
  let r := 2.3646381 * F0 - 0.8965361 * F1 - 0.4680737 * F2
  let g := -0.5151664 * F0 + 1.4264000 * F1 + 0.0887608 * F2
  let b := 0.0052037 * F0 - 0.0144081 * F1 + 1.0092106 * F2
  let F : Spectrum := ![r, g, b]
  pure (Spectrum.clampNegative F, zz.2)

/-- The test that opens `eval` and `pdf` (lines 184-188 and 248-252). -/
def Glittery.rejects {P D G : Type} (host : Host D G) (bRec : BSDFSamplingRecord P)
    (measure : EMeasure) : Prop :=
  measure ≠ EMeasure.ESolidAngle ∨ Frame.cosTheta bRec.wi ≤ 0 ∨ Frame.cosTheta bRec.wo ≤ 0 ∨
    ((bRec.component ≠ -1 ∧ bRec.component ≠ 0) ∨ ¬ (bRec.typeMask &&& host.EGlossyReflection ≠ 0))

/-- The member `Glittery::eval(bRec, measure)`, lines 181-244.  `I` is used by the
smooth
branch only and `mean`, `variance` by the discrete branch only; each is computed
in the branch that uses it.  `uninit` is the content of the uninitialised spectra
of `IridescenceTerm` and `IridescenceMean`, `pixelArea0` of `pixelArea`. -/
noncomputable def Glittery.eval {P D G : Type} (host : Host D G) (self : Glittery P)
    (bRec : BSDFSamplingRecord P) (measure : EMeasure) (gen : G)
    (uninit : Fin 3 → InterfaceSample) (pixelArea0 : ℝ) : Option (Spectrum × G) := by
  classical
  exact
    if Glittery.rejects host bRec measure then
      pure ((0 : Spectrum), gen)
    else do
      let H ← normalize (bRec.wo.add bRec.wi)
      let distr := host.distribution self.m_type (self.m_alphaU bRec.its).average
        (self.m_alphaV bRec.its).average self.m_totalFacets self.m_sampleVisible
      let dv ← Glittery.evaluateD host self distr bRec pixelArea0
      let discrete := dv.1
      let D := dv.2.1
      let pixelArea := dv.2.2
      if D = 0 then
        pure ((0 : Spectrum), gen)
      else do
        let h := self.m_height bRec.its
        let hr := self.m_heightRange bRec.its
        let k := self.m_k bRec.its
        let params : IridescenceParams :=
          ⟨h, self.m_eta1, self.m_eta2, self.m_eta, k, self.m_wavelengths,
            self.m_spectralAntialiasing, self.m_useGaussianFit⟩
        let G := host.smithG distr bRec.wi bRec.wo H
        if discrete then do
          let mv ← IridescenceMean (dot bRec.wi H) params (h 0 - hr 0) (h 0 + hr 0) uninit
          let F ← Glittery.sampleF host (truncToInt (D * self.m_totalFacets)) mv.1 mv.2 gen
          let F' : Spectrum := F.1 * self.m_specularReflectance bRec.its
          let den := pixelArea * (Real.pi * (1 - Real.cos self.m_queryRadius)) *
            Frame.cosTheta bRec.wi
          let r ← collectChannels fun i => fdiv (dot bRec.wi H * F' i * D * G) den
          pure (r, F.2)
        else do
          let I0 ← IridescenceTerm (dot bRec.wi H) params uninit
          let I : Spectrum := I0 * self.m_specularReflectance bRec.its
          let r ← collectChannels fun i => fdiv (I i * D * G) (4.0 * Frame.cosTheta bRec.wi)
          pure (r, gen)

/-- The member `Glittery::pdf(bRec, measure)`, lines 246-271. -/
noncomputable def Glittery.pdf {P D G : Type} (host : Host D G) (self : Glittery P)
    (bRec : BSDFSamplingRecord P) (measure : EMeasure) : Option ℝ := by
  classical
  exact
    if Glittery.rejects host bRec measure then
      pure 0.0
    else do
      let H ← normalize (bRec.wo.add bRec.wi)
      let distr := host.distribution self.m_type (self.m_alphaU bRec.its).average
        (self.m_alphaV bRec.its).average self.m_totalFacets self.m_sampleVisible
      if self.m_sampleVisible then
        fdiv (host.eval distr H * host.smithG1 distr bRec.wi H) (4.0 * Frame.cosTheta bRec.wi)
      else
        fdiv (host.pdf distr bRec.wi H) (4 * absDot bRec.wo H)

/-! ## The mean of the sensitivity over an interval of heights -/

/-- The value that the closure `integrate` of `evalSensitivityMean` returns when
`B ≠ 0` (lines 229-234). -/
noncomputable def evalSensitivityMean.primitive (A B C CB2 shift d : ℝ) : ℝ :=
  A * (Real.sin (B * d + shift) *
      (1 + 2 * CB2 + 12 * sqr CB2 + 0.5 * sqr (C * sqr d) - C * sqr d - 6 * CB2 * (C * sqr d)) / B +
    2 * CB2 * d * Real.cos (B * d + shift) * (C * sqr d - 6 * CB2 - 1))

/-- The value of the Gaussian-fit branch of `evalSensitivity` (lines 157-168),
which has no checked operation. -/
noncomputable def evalSensitivity.gaussian (OPD shift : Spectrum) : Spectrum :=
  let phase : Spectrum := fun i => 2 * Real.pi * OPD i * 1.0e-9
  let xyz : Spectrum := fun i =>
    _val i * Real.sqrt (2 * Real.pi * _var i) * Real.cos (_pos i * phase i + shift i) *
      Real.exp (-phase i * phase i * _var i / 2)
  let xyz : Spectrum := Function.update xyz 0
    (xyz 0 + 6.8922e-14 * Real.sqrt (2 * Real.pi * 9.0564e+09) *
      Real.cos (2.2399e+06 * phase 0 + shift 0) *
      Real.exp (-9.0564e+09 * phase 0 * phase 0 / 2))
  fun i => xyz i / 1.0685e-7

/-- The Gaussian-fit branch of `evalSensitivity` (lines 157-168) in which every
envelope `exp(-x)` is replaced by its Taylor polynomial `1 - x + x²/2`, with
`x = phase² · var / 2`. -/
noncomputable def evalSensitivityTaylor (OPD shift : Spectrum) : Spectrum :=
  let phase : Spectrum := fun i => 2 * Real.pi * OPD i * 1.0e-9
  let xyz : Spectrum := fun i =>
    _val i * Real.sqrt (2 * Real.pi * _var i) * Real.cos (_pos i * phase i + shift i) *
      (1 - phase i * phase i * _var i / 2 +
        (phase i * phase i * _var i / 2) * (phase i * phase i * _var i / 2) / 2)
  let xyz : Spectrum := Function.update xyz 0
    (xyz 0 + 6.8922e-14 * Real.sqrt (2 * Real.pi * 9.0564e+09) *
      Real.cos (2.2399e+06 * phase 0 + shift 0) *
      (1 - 9.0564e+09 * phase 0 * phase 0 / 2 +
        (9.0564e+09 * phase 0 * phase 0 / 2) * (9.0564e+09 * phase 0 * phase 0 / 2) / 2))
  fun i => xyz i / 1.0685e-7

/-- The mean of `f` over the heights of `[a, b]`: `1 / (b - a)` times the integral
of `f` over `[a, b]` (the expected value under a uniform height distribution). -/
noncomputable def heightAverage (f : ℝ → ℝ) (a b : ℝ) : ℝ :=
  (1 / (b - a)) * ∫ h in a..b, f h

/-! ## The two polarizations of the iridescence term -/

/-- The quantities of one polarization that `IridescenceTerm` combines: `R12`,
`T121`, `R23` and the phase shifts `phi21` (after line 400 or 401) and `phi23`. -/
structure TPolarization (Spectrum : Type) where
  R12 : Spectrum
  T121 : Spectrum
  R23 : Spectrum
  phi21 : Spectrum
  phi23 : Spectrum

/-- The record `TPolarization` at the types of the renderer, `Float` read as `ℝ`. -/
abbrev Polarization := TPolarization Spectrum

/-- Lines 403-480 of `IridescenceTerm`, as a function of the path difference `D`
and of the quantities `p` of the parallel and `s` of the perpendicular
polarization. -/
noncomputable def IridescenceTerm.combine (params : IridescenceParams) (D : Spectrum)
    (p s : Polarization) : Option Spectrum := do
  let r123p ← Spectrum.csqrt (p.R12 * p.R23)
  let r123s ← Spectrum.csqrt (s.R12 * s.R23)
  if params.spectralAntialiasing then do
    let I ← harmonicTerm p.R12 p.T121 p.R23 r123p D (p.phi23 + p.phi21) params.useGaussianFit 0
    let I ← harmonicTerm s.R12 s.T121 s.R23 r123s D (s.phi23 + s.phi21) params.useGaussianFit I
    let r := 2.3646381 * I 0 - 0.8965361 * I 1 - 0.4680737 * I 2
    let g := -0.5151664 * I 0 + 1.4264000 * I 1 + 0.0887608 * I 2
    let b := 0.0052037 * I 0 - 0.0144081 * I 1 + 1.0092106 * I 2
    let I : Spectrum := ![r, g, b]
    let I := Spectrum.clampNegative I
    pure (fun i => 0.5 * I i)
  else do
    let Dphi ← Spectrum.cdiv (fun i => 2 * Real.pi * D i) params.wavelengths
    let Ip ← airyTerm p.R12 p.T121 p.R23 r123p (Dphi + p.phi23 + p.phi21)
    let Is ← airyTerm s.R12 s.T121 s.R23 r123s (Dphi + s.phi23 + s.phi21)
    let I := Ip + Is
    let I := Spectrum.clampNegative I
    pure (fun i => 0.5 * I i)

/-! ## Sampling (`Glittery::sample`) -/

/-- The difference of two vectors. -/
def Vector3.sub (a b : Vector3) : Vector3 := ⟨a.x - b.x, a.y - b.y, a.z - b.z⟩

/-- The product of a vector by a scalar. -/
def Vector3.smul (c : ℝ) (a : Vector3) : Vector3 := ⟨c * a.x, c * a.y, c * a.z⟩

/-- The member `Glittery::reflect(wi, m)`, lines 176-179. -/
def Glittery.reflect (wi m : Vector3) : Vector3 :=
  (Vector3.smul (2 * dot wi m) m).sub wi

/-- What `sample` uses of the renderer core besides `Host`: the warping function
`warp::squareToUniformCone(cosCutoff, sample)` and `Frame(n).toWorld(v)`. -/
structure TWarp (Vector3 Vector2 Float : Type) where
  squareToUniformCone : Float → Vector2 → Vector3
  toWorld : Vector3 → Vector3 → Vector3

/-- The record `TWarp` at the types of the renderer, `Float` read as `ℝ`. -/
abbrev Warp := TWarp Vector3 Vector2 ℝ

/-- The test that opens both overloads of `sample` (lines 275-277 and 349-351). -/
def Glittery.sampleRejects {P D G : Type} (host : Host D G) (bRec : BSDFSamplingRecord P) :
    Prop :=
  Frame.cosTheta bRec.wi < 0 ∨
    ((bRec.component ≠ -1 ∧ bRec.component ≠ 0) ∨ ¬ (bRec.typeMask &&& host.EGlossyReflection ≠ 0))

/-- The member `Glittery::sample(bRec, sample)`, lines 273-345: returns the
spectrum, the record as the function leaves it and the generator.  As in `eval`,
`I` is computed in the smooth branch and `mean`, `variance` in the discrete one. -/
noncomputable def Glittery.sample {P D G : Type} (host : Host D G) (warp : Warp)
    (self : Glittery P) (bRec : BSDFSamplingRecord P) (sample : Vector2) (gen : G)
    (uninit : Fin 3 → InterfaceSample) (pixelArea0 : ℝ) :
    Option (Spectrum × BSDFSamplingRecord P × G) := by
  classical
  exact
    if Glittery.sampleRejects host bRec then
      pure ((0 : Spectrum), bRec, gen)
    else
      let distr := host.distribution self.m_type (2.0 * (self.m_alphaU bRec.its).average)
        (2.0 * (self.m_alphaV bRec.its).average) self.m_totalFacets self.m_sampleVisible
      let m := (host.sample distr bRec.wi sample).1
      let pdf := (host.sample distr bRec.wi sample).2
      if pdf = 0 then
        pure ((0 : Spectrum), bRec, gen)
      else
        let bRec : BSDFSamplingRecord P :=
          { bRec with wo := Glittery.reflect bRec.wi m, eta := 1.0, sampledComponent := 0,
                      sampledType := host.EGlossyReflection }
        let cone := warp.squareToUniformCone (Real.cos self.m_queryRadius) sample
        let bRec : BSDFSamplingRecord P := { bRec with wo := warp.toWorld bRec.wo cone }
        if Frame.cosTheta bRec.wo ≤ 0 then
          pure ((0 : Spectrum), bRec, gen)
        else do
          let h := self.m_height bRec.its
          let hr := self.m_heightRange bRec.its
          let k := self.m_k bRec.its
          let params : IridescenceParams :=
            ⟨h, self.m_eta1, self.m_eta2, self.m_eta, k, self.m_wavelengths,
              self.m_spectralAntialiasing, self.m_useGaussianFit⟩
          let dv ← Glittery.evaluateD host self distr bRec pixelArea0
          let discrete := dv.1
          let D := dv.2.1
          let pixelArea := dv.2.2
          if discrete then do
            let mv ← IridescenceMean (dot bRec.wi m) params (h 0 - hr 0) (h 0 + hr 0) uninit
            let F ← Glittery.sampleF host (truncToInt (D * self.m_totalFacets)) mv.1 mv.2 gen
            let F' : Spectrum := F.1 * self.m_specularReflectance bRec.its
            let iDotm := dot bRec.wi m
            let weight ← fdiv (D * host.smithG distr bRec.wi bRec.wo m * iDotm * iDotm)
              (pdf * pixelArea * (Real.pi * (1 - Real.cos self.m_queryRadius)) *
                Frame.cosTheta bRec.wi)
            pure (fun i => F' i * weight, bRec, F.2)
          else do
            let I0 ← IridescenceTerm (dot bRec.wi m) params uninit
            let I : Spectrum := I0 * self.m_specularReflectance bRec.its
            let weight ← fdiv (D * host.smithG distr bRec.wi bRec.wo m * dot bRec.wi m)
              (pdf * Frame.cosTheta bRec.wi)
            pure (fun i => I i * weight, bRec, gen)

/-- The member `Glittery::sample(bRec, pdf, sample)`, lines 347-422: returns the
spectrum, the record, the generator and the value left in `pdf` (`pdf0` is what
the caller's `pdf` holds beforehand; `none` when the last division has a zero
divisor). -/
noncomputable def Glittery.sampleWithPdf {P D G : Type} (host : Host D G) (warp : Warp)
    (self : Glittery P) (bRec : BSDFSamplingRecord P) (pdf0 : ℝ) (sample : Vector2) (gen : G)
    (uninit : Fin 3 → InterfaceSample) (pixelArea0 : ℝ) :
    Option (Spectrum × BSDFSamplingRecord P × G × Option ℝ) := by
  classical
  exact
    if Glittery.sampleRejects host bRec then
      pure ((0 : Spectrum), bRec, gen, some pdf0)
    else
      let distr := host.distribution self.m_type (2.0 * (self.m_alphaU bRec.its).average)
        (2.0 * (self.m_alphaV bRec.its).average) self.m_totalFacets self.m_sampleVisible
      let m := (host.sample distr bRec.wi sample).1
      let pdf := (host.sample distr bRec.wi sample).2
      if pdf = 0 then
        pure ((0 : Spectrum), bRec, gen, some pdf)
      else
        let bRec : BSDFSamplingRecord P :=
          { bRec with wo := Glittery.reflect bRec.wi m, eta := 1.0, sampledComponent := 0,
                      sampledType := host.EGlossyReflection }
        let cone := warp.squareToUniformCone (Real.cos self.m_queryRadius) sample
        let bRec : BSDFSamplingRecord P := { bRec with wo := warp.toWorld bRec.wo cone }
        if Frame.cosTheta bRec.wo ≤ 0 then
          pure ((0 : Spectrum), bRec, gen, some pdf)
        else do
          let h := self.m_height bRec.its
          let hr := self.m_heightRange bRec.its
          let k := self.m_k bRec.its
          let params : IridescenceParams :=
            ⟨h, self.m_eta1, self.m_eta2, self.m_eta, k, self.m_wavelengths,
              self.m_spectralAntialiasing, self.m_useGaussianFit⟩
          let dv ← Glittery.evaluateD host self distr bRec pixelArea0
          let discrete := dv.1
          let D := dv.2.1
          let pixelArea := dv.2.2
          if discrete then do
            let mv ← IridescenceMean (dot bRec.wi m) params (h 0 - hr 0) (h 0 + hr 0) uninit
            let F ← Glittery.sampleF host (truncToInt (D * self.m_totalFacets)) mv.1 mv.2 gen
            let F' : Spectrum := F.1 * self.m_specularReflectance bRec.its
            let iDotm := dot bRec.wi m
            let weight ← fdiv (D * host.smithG distr bRec.wi bRec.wo m * iDotm * iDotm)
              (pdf * pixelArea * (Real.pi * (1 - Real.cos self.m_queryRadius)) *
                Frame.cosTheta bRec.wi)
            /- Jacobian of the half-direction mapping -/
            let pdf' := fdiv pdf (4.0 * dot bRec.wo m)
            pure (fun i => F' i * weight, bRec, F.2, pdf')
          else do
            let I0 ← IridescenceTerm (dot bRec.wi m) params uninit
            let I : Spectrum := I0 * self.m_specularReflectance bRec.its
            let weight ← fdiv (D * host.smithG distr bRec.wi bRec.wo m * dot bRec.wi m)
              (pdf * Frame.cosTheta bRec.wi)
            /- Jacobian of the half-direction mapping -/
            let pdf' := fdiv pdf (4.0 * dot bRec.wo m)
            pure (fun i => I i * weight, bRec, gen, pdf')

/-! ## The second moment of the sensitivity and the identifiers of the subdivision tree -/

/-- The value that the closure `integrate` of `evalSensitivitySquare` returns when
`B ≠ 0` (lines 279-285). -/
noncomputable def evalSensitivitySquare.primitive (A B C CB2 shift d : ℝ) : ℝ :=
  A * (d / 2 - C * sqr d * d / 6 + sqr (C * sqr d) * d / 20 + shift / (2 * B) +
    Real.sin (2 * (B * d + shift)) *
      (1 + 0.5 * CB2 + 0.75 * sqr CB2 + 0.5 * sqr (C * sqr d) - C * sqr d -
        1.5 * CB2 * (C * sqr d)) / (4 * B) +
    0.25 * CB2 * d * Real.cos (2 * (B * d + shift)) * (C * sqr d - 1.5 * CB2 - 1))

/-- The `id` that `integrate` builds (line 504) on the call for the node reached
from the node with identifier `id` through the child indices `path`: the call
for `children[i]` is given the identifier of its parent and the split number
`i`, and appends `std::to_string(i)`. -/
def integrate.nodeId (id : String) : List (Fin 4) → String
  | [] => id
  | i :: path => integrate.nodeId (id ++ toString ((i : ℕ) : Int)) path

/-- The triangle reached from `tri` through the child indices `path`:
`children[i]` of `tri.split()` at every step. -/
def integrate.node {T V α : Type} (ops : TriangleOps T V α) (tri : T) : List (Fin 4) → T
  | [] => tri
  | i :: path => integrate.node ops (ops.split tri i) path

/-! ## Theorems

The lemmas on one topic are stated together, as the parts of one conjunction, and
proved one after the other under their names; a proof that uses some of them
takes these parts with `obtain`. -/

open Filter Topology

theorem vec3_eta {α : Type} (s : Fin 3 → α) : ![s 0, s 1, s 2] = s := by
  funext i
  fin_cases i <;> rfl

theorem collectChannels_eq_some {α : Type} {f : Fin 3 → Option α} {s : Fin 3 → α} :
    collectChannels f = some s ↔ ∀ i, f i = some (s i) := by
  constructor
  · intro h
    simp only [collectChannels, Option.bind_eq_bind, Option.bind_eq_some, pure,
      Option.some.injEq] at h
    obtain ⟨x, hx, y, hy, z, hz, rfl⟩ := h
    intro i
    fin_cases i
    · exact hx
    · exact hy
    · exact hz
  · intro h
    simp only [collectChannels, h 0, h 1, h 2, Option.bind_eq_bind, Option.some_bind, pure,
      vec3_eta]

set_option maxHeartbeats 1000000 in
/-- Checked arithmetic: when the checked division, the checked square root and the
channel-wise operations built on them return, what they return, the bounds of the
table index and of the truncation to an integer, and that the fitted positions are not zero. -/
theorem checked_arithmetic :
    (∀ {x y : ℝ} (_ : y ≠ 0), fdiv x y = some (x / y)) ∧
    (∀ {x : ℝ} (_ : 0 ≤ x), fsqrt x = some (Real.sqrt x)) ∧
    (∀ {a b : Spectrum} (_ : ∀ i, b i ≠ 0),
      Spectrum.cdiv a b = some (fun i => a i / b i)) ∧
    (∀ {a : Spectrum} (_ : ∀ i, 0 ≤ a i),
      Spectrum.csqrt a = some (fun i => Real.sqrt (a i))) ∧
    (∀ (t : List ℚ) (idx : ℤ) (_ : 0 ≤ idx) (_ : idx.toNat < t.length),
      ∃ q : ℚ, t[idx.toNat]? = some q ∧ readTable t idx = some (q : ℝ)) ∧
    (∀ {u : ℝ} (_ : 0 ≤ u) (_ : u < 512),
      0 ≤ Int.floor u ∧ (Int.floor u).toNat < 512) ∧
    (∀ (i : Fin 3), _pos i ≠ 0) ∧
    (∀ {x y z : ℝ}, fdiv x y = some z ↔ y ≠ 0 ∧ z = x / y) ∧
    (∀ {x z : ℝ}, fsqrt x = some z ↔ 0 ≤ x ∧ z = Real.sqrt x) ∧
    (∀ {a b c : Spectrum},
      Spectrum.cdiv a b = some c ↔ ∀ i, b i ≠ 0 ∧ c i = a i / b i) ∧
    (∀ {a c : Spectrum},
      Spectrum.csqrt a = some c ↔ ∀ i, 0 ≤ a i ∧ c i = Real.sqrt (a i)) ∧
    (∀ (x : ℝ), 1 ≤ truncToInt x ↔ 1 ≤ x) ∧
    (∀ {x : ℝ} (_ : 0 ≤ x) (_ : x < 1), truncToInt x = 0) := by
  have fdiv_eq_some {x y : ℝ} (h : y ≠ 0) : fdiv x y = some (x / y) := by
    dsimp only [fdiv]
    simp [h]
  have fsqrt_eq_some {x : ℝ} (h : 0 ≤ x) : fsqrt x = some (Real.sqrt x) := by
    unfold fsqrt
    simp [not_lt.2 h]
  have Spectrum_cdiv_eq_some {a b : Spectrum} (h : ∀ i, b i ≠ 0) :
      Spectrum.cdiv a b = some (fun i => a i / b i) :=
    collectChannels_eq_some.2 fun i => fdiv_eq_some (h i)
  have Spectrum_csqrt_eq_some {a : Spectrum} (h : ∀ i, 0 ≤ a i) :
      Spectrum.csqrt a = some (fun i => Real.sqrt (a i)) :=
    collectChannels_eq_some.2 fun i => fsqrt_eq_some (h i)
  have readTable_of_lt (t : List ℚ) (idx : ℤ) (h0 : 0 ≤ idx) (h1 : idx.toNat < t.length) :
      ∃ q : ℚ, t[idx.toNat]? = some q ∧ readTable t idx = some (q : ℝ) := by
    refine ⟨t[idx.toNat], List.getElem?_eq_getElem h1, ?_⟩
    dsimp only [readTable]
    simp [h0, List.getElem?_eq_getElem h1]
  have floor_toNat_lt_nCMFs {u : ℝ} (h0 : 0 ≤ u) (h1 : u < 512) :
      0 ≤ Int.floor u ∧ (Int.floor u).toNat < 512 := by
    have hf0 : 0 ≤ Int.floor u := Int.floor_nonneg.2 h0
    have hf1 : Int.floor u < 512 := Int.floor_lt.2 (by exact_mod_cast h1)
    refine ⟨hf0, ?_⟩
    omega
  have _pos_ne_zero (i : Fin 3) : _pos i ≠ 0 := by
    fin_cases i <;> norm_num [_pos]
  have fdiv_eq_some_iff {x y z : ℝ} : fdiv x y = some z ↔ y ≠ 0 ∧ z = x / y := by
    unfold fdiv
    by_cases h : y = 0
    · simp [h]
    · simp only [h, if_false, Option.some.injEq, ne_eq, not_false_eq_true, true_and]
      exact eq_comm
  have fsqrt_eq_some_iff {x z : ℝ} : fsqrt x = some z ↔ 0 ≤ x ∧ z = Real.sqrt x := by
    unfold fsqrt
    by_cases h : x < 0
    · simp only [h, if_true, false_iff, not_and, reduceCtorEq]
      intro h2; exact absurd h (not_lt.2 h2)
    · simp only [h, if_false, Option.some.injEq, not_lt.1 h, true_and]
      exact eq_comm
  have Spectrum_cdiv_eq_some_iff {a b c : Spectrum} :
      Spectrum.cdiv a b = some c ↔ ∀ i, b i ≠ 0 ∧ c i = a i / b i := by
    unfold Spectrum.cdiv
    rw [collectChannels_eq_some]
    exact forall_congr' fun i => fdiv_eq_some_iff
  have Spectrum_csqrt_eq_some_iff {a c : Spectrum} :
      Spectrum.csqrt a = some c ↔ ∀ i, 0 ≤ a i ∧ c i = Real.sqrt (a i) := by
    unfold Spectrum.csqrt
    rw [collectChannels_eq_some]
    exact forall_congr' fun i => fsqrt_eq_some_iff
  -- The facet count is at least one exactly when the product `D * m_totalFacets`
  -- is.
  have one_le_truncToInt_iff (x : ℝ) : 1 ≤ truncToInt x ↔ 1 ≤ x := by
    unfold truncToInt
    split_ifs with h
    · rw [Int.le_floor]
      simp
    · push_neg at h
      constructor
      · intro h1
        have : Int.ceil x ≤ 0 := Int.ceil_le.2 (by simpa using h.le)
        omega
      · intro h1
        linarith
  -- A product in `[0, 1)` is truncated to the facet count `0`.
  have truncToInt_eq_zero {x : ℝ} (h0 : 0 ≤ x) (h1 : x < 1) : truncToInt x = 0 := by
    unfold truncToInt
    rw [if_pos h0, Int.floor_eq_iff]
    exact ⟨by simpa using h0, by simpa using h1⟩
  exact ⟨@fdiv_eq_some, @fsqrt_eq_some, @Spectrum_cdiv_eq_some, @Spectrum_csqrt_eq_some,
    @readTable_of_lt, @floor_toNat_lt_nCMFs, @_pos_ne_zero, @fdiv_eq_some_iff, @fsqrt_eq_some_iff,
    @Spectrum_cdiv_eq_some_iff, @Spectrum_csqrt_eq_some_iff, @one_le_truncToInt_iff,
    @truncToInt_eq_zero⟩

set_option maxHeartbeats 1000000 in
/-- Square roots: the clamped square root, the quantities a² and b² of
fresnelConductorExact with the quotients formed from them, the closed form of
Glittery.sampleF and the limit of its scale. -/
theorem sqrt_lemmas :
    (∀ (x : ℝ), 0 ≤ safe_sqrt x) ∧
    (∀ {x : ℝ} (_ : 0 ≤ x), safe_sqrt x = Real.sqrt x) ∧
    (∀ {x : ℝ} (_ : 0 ≤ x), safe_sqrt x * safe_sqrt x = x) ∧
    (∀ (t q : ℝ) (_ : 0 ≤ q),
      0 ≤ safe_sqrt (t * t + q) ∧ 0 ≤ safe_sqrt (0.5 * (safe_sqrt (t * t + q) + t)) ∧
      safe_sqrt (t * t + q) * safe_sqrt (t * t + q) = t * t + q ∧
      safe_sqrt (0.5 * (safe_sqrt (t * t + q) + t)) * safe_sqrt (0.5 * (safe_sqrt (t * t + q) + t))
        = 0.5 * (safe_sqrt (t * t + q) + t) ∧
      safe_sqrt (0.5 * (safe_sqrt (t * t + q) + t)) * safe_sqrt (0.5 * (safe_sqrt (t * t + q) + t))
        ≤ safe_sqrt (t * t + q)) ∧
    (∀ (c P a : ℝ) (_ : 0 ≤ c) (_ : c ≤ 1) (_ : 0 ≤ P)
      (_ : 0 ≤ a) (_ : a * a ≤ P) (_ : 0 < P ∨ (0 < c ∧ c < 1)),
      0 < P + c * c + 2 * a * c ∧
      0 < P * (c * c) + (1 - c * c) * (1 - c * c) + 2 * a * c * (1 - c * c) ∧
      0 ≤ (P + c * c - 2 * a * c) / (P + c * c + 2 * a * c) ∧
      (P + c * c - 2 * a * c) / (P + c * c + 2 * a * c) ≤ 1 ∧
      0 ≤ (P + c * c - 2 * a * c) / (P + c * c + 2 * a * c) *
          (P * (c * c) + (1 - c * c) * (1 - c * c) - 2 * a * c * (1 - c * c)) /
          (P * (c * c) + (1 - c * c) * (1 - c * c) + 2 * a * c * (1 - c * c)) ∧
      (P + c * c - 2 * a * c) / (P + c * c + 2 * a * c) *
          (P * (c * c) + (1 - c * c) * (1 - c * c) - 2 * a * c * (1 - c * c)) /
          (P * (c * c) + (1 - c * c) * (1 - c * c) + 2 * a * c * (1 - c * c)) ≤ 1) ∧
    (∀ (c eta k : ℝ) (_ : 0 < eta) (_ : eta * eta ≠ 1 - c * c ∨ k ≠ 0),
      0 < safe_sqrt ((eta * eta - k * k - (1 - c * c)) * (eta * eta - k * k - (1 - c * c)) +
        4 * k * k * eta * eta)) ∧
    (∀ {D G : Type} (host : Host D G) (n : ℤ) (mean variance : Spectrum)
      (gen : G) (_ : 0 < n) (_ : ∀ i, 0 ≤ variance i),
      Glittery.sampleF host n mean variance gen = some
        (Spectrum.clampNegative
          ![2.3646381 * (mean 0 + Real.sqrt (variance 0 / n) * (host.standardNormal gen).1) -
              0.8965361 * (mean 1 + Real.sqrt (variance 1 / n) *
                (host.standardNormal (host.standardNormal gen).2).1) -
              0.4680737 * (mean 2 + Real.sqrt (variance 2 / n) *
                (host.standardNormal (host.standardNormal (host.standardNormal gen).2).2).1),
            -0.5151664 * (mean 0 + Real.sqrt (variance 0 / n) * (host.standardNormal gen).1) +
              1.4264000 * (mean 1 + Real.sqrt (variance 1 / n) *
                (host.standardNormal (host.standardNormal gen).2).1) +
              0.0887608 * (mean 2 + Real.sqrt (variance 2 / n) *
                (host.standardNormal (host.standardNormal (host.standardNormal gen).2).2).1),
            0.0052037 * (mean 0 + Real.sqrt (variance 0 / n) * (host.standardNormal gen).1) -
              0.0144081 * (mean 1 + Real.sqrt (variance 1 / n) *
                (host.standardNormal (host.standardNormal gen).2).1) +
              1.0092106 * (mean 2 + Real.sqrt (variance 2 / n) *
                (host.standardNormal (host.standardNormal (host.standardNormal gen).2).2).1)],
          (host.standardNormal (host.standardNormal (host.standardNormal gen).2).2).2)) ∧
    (∀ (v : ℝ),
      Tendsto (fun n : ℕ => Real.sqrt (v / (((n + 1 : ℕ) : ℤ) : ℝ))) atTop (𝓝 0)) := by
  obtain ⟨fdiv_eq_some, fsqrt_eq_some, -, -, -, -, -, -, -, -, -, -, -⟩ := checked_arithmetic
  have safe_sqrt_nonneg (x : ℝ) : 0 ≤ safe_sqrt x := Real.sqrt_nonneg _
  have safe_sqrt_of_nonneg {x : ℝ} (h : 0 ≤ x) : safe_sqrt x = Real.sqrt x := by
    unfold safe_sqrt
    simp [h]
  have safe_sqrt_mul_self {x : ℝ} (h : 0 ≤ x) : safe_sqrt x * safe_sqrt x = x := by
    rw [safe_sqrt_of_nonneg h, Real.mul_self_sqrt h]
  have fresnel_aux (t q : ℝ) (hq : 0 ≤ q) :
      0 ≤ safe_sqrt (t * t + q) ∧ 0 ≤ safe_sqrt (0.5 * (safe_sqrt (t * t + q) + t)) ∧
      safe_sqrt (t * t + q) * safe_sqrt (t * t + q) = t * t + q ∧
      safe_sqrt (0.5 * (safe_sqrt (t * t + q) + t)) * safe_sqrt (0.5 * (safe_sqrt (t * t + q) + t))
        = 0.5 * (safe_sqrt (t * t + q) + t) ∧
      safe_sqrt (0.5 * (safe_sqrt (t * t + q) + t)) * safe_sqrt (0.5 * (safe_sqrt (t * t + q) + t))
        ≤ safe_sqrt (t * t + q) := by
    set P := safe_sqrt (t * t + q) with hP
    set a := safe_sqrt (0.5 * (P + t)) with ha
    have hrad : 0 ≤ t * t + q := by nlinarith [mul_self_nonneg t]
    have hP0 : 0 ≤ P := safe_sqrt_nonneg _
    have hPP : P * P = t * t + q := safe_sqrt_mul_self hrad
    have h2 := abs_le_of_sq_le_sq' (by nlinarith : t ^ 2 ≤ P ^ 2) hP0
    have haa : a * a = 0.5 * (P + t) := safe_sqrt_mul_self (by linarith [h2.1])
    refine ⟨hP0, safe_sqrt_nonneg _, hPP, haa, ?_⟩
    rw [haa]; linarith [h2.2]
  -- The two quotients of `fresnelConductorExact`, for any `P = a2pb2 ≥ a * a`:
  -- both divisors are positive and both results lie in `[0, 1]`.
  have fresnel_quotients (c P a : ℝ) (hc0 : 0 ≤ c) (hc1 : c ≤ 1) (hP0 : 0 ≤ P)
      (ha0 : 0 ≤ a) (haP : a * a ≤ P) (hPc : 0 < P ∨ (0 < c ∧ c < 1)) :
      0 < P + c * c + 2 * a * c ∧
      0 < P * (c * c) + (1 - c * c) * (1 - c * c) + 2 * a * c * (1 - c * c) ∧
      0 ≤ (P + c * c - 2 * a * c) / (P + c * c + 2 * a * c) ∧
      (P + c * c - 2 * a * c) / (P + c * c + 2 * a * c) ≤ 1 ∧
      0 ≤ (P + c * c - 2 * a * c) / (P + c * c + 2 * a * c) *
          (P * (c * c) + (1 - c * c) * (1 - c * c) - 2 * a * c * (1 - c * c)) /
          (P * (c * c) + (1 - c * c) * (1 - c * c) + 2 * a * c * (1 - c * c)) ∧
      (P + c * c - 2 * a * c) / (P + c * c + 2 * a * c) *
          (P * (c * c) + (1 - c * c) * (1 - c * c) - 2 * a * c * (1 - c * c)) /
          (P * (c * c) + (1 - c * c) * (1 - c * c) + 2 * a * c * (1 - c * c)) ≤ 1 := by
    have hac : 0 ≤ a * c := mul_nonneg ha0 hc0
    have hcc : 0 ≤ c * c := mul_self_nonneg c
    have hs : 0 ≤ 1 - c * c := by nlinarith
    have hPcc : 0 ≤ P * (c * c) := mul_nonneg hP0 hcc
    have hacs : 0 ≤ a * c * (1 - c * c) := mul_nonneg hac hs
    have hss : 0 ≤ (1 - c * c) * (1 - c * c) := mul_self_nonneg _
    have hD1 : 0 < P + c * c + 2 * a * c := by
      rcases hPc with h | ⟨h, _⟩
      · linarith
      · have := mul_pos h h
        linarith
    have hD2 : 0 < P * (c * c) + (1 - c * c) * (1 - c * c) + 2 * a * c * (1 - c * c) := by
      rcases hs.lt_or_eq with h | h
      · have := mul_pos h h
        linarith
      · rcases hPc with h' | ⟨_, h'⟩
        · have hcc1 : c * c = 1 := by linarith
          rw [hcc1]; linarith
        · exfalso; nlinarith
    have hN1 : 0 ≤ P + c * c - 2 * a * c := by nlinarith [mul_self_nonneg (a - c)]
    have hN2 : 0 ≤ P * (c * c) + (1 - c * c) * (1 - c * c) - 2 * a * c * (1 - c * c) := by
      nlinarith [mul_self_nonneg (a * c - (1 - c * c)), mul_nonneg (sub_nonneg.2 haP) hcc]
    have hRs0 : 0 ≤ (P + c * c - 2 * a * c) / (P + c * c + 2 * a * c) := div_nonneg hN1 hD1.le
    have hRs1 : (P + c * c - 2 * a * c) / (P + c * c + 2 * a * c) ≤ 1 := by
      rw [div_le_one hD1]; linarith
    refine ⟨hD1, hD2, hRs0, hRs1, div_nonneg (mul_nonneg hRs0 hN2) hD2.le, ?_⟩
    rw [div_le_one hD2]
    calc _ ≤ 1 * (P * (c * c) + (1 - c * c) * (1 - c * c) - 2 * a * c * (1 - c * c)) :=
          mul_le_mul_of_nonneg_right hRs1 hN2
      _ ≤ _ := by linarith
  -- The radicand under `a2pb2` vanishes only for a non-absorbing interface
  -- (`k = 0`) whose index satisfies `eta² = 1 - c²`.
  have fresnel_a2pb2_pos (c eta k : ℝ) (heta : 0 < eta) (h : eta * eta ≠ 1 - c * c ∨ k ≠ 0) :
      0 < safe_sqrt ((eta * eta - k * k - (1 - c * c)) * (eta * eta - k * k - (1 - c * c)) +
        4 * k * k * eta * eta) := by
    have hq : 0 ≤ 4 * k * k * eta * eta := by nlinarith [mul_self_nonneg (k * eta)]
    obtain ⟨hP0, -, hPP, -, -⟩ := fresnel_aux (eta * eta - k * k - (1 - c * c)) _ hq
    rcases hP0.lt_or_eq with h' | h'
    · exact h'
    · exfalso
      rw [← h'] at hPP
      have h1 : (eta * eta - k * k - (1 - c * c)) * (eta * eta - k * k - (1 - c * c)) = 0 := by
        nlinarith [mul_self_nonneg (eta * eta - k * k - (1 - c * c)), mul_self_nonneg (k * eta)]
      have h2 : (k * eta) * (k * eta) = 0 := by
        nlinarith [mul_self_nonneg (eta * eta - k * k - (1 - c * c)), mul_self_nonneg (k * eta)]
      have h3 : k * eta = 0 := mul_self_eq_zero.1 h2
      have hk0 : k = 0 := by
        rcases mul_eq_zero.1 h3 with h4 | h4
        · exact h4
        · exact absurd h4 heta.ne'
      have h5 := mul_self_eq_zero.1 h1
      rcases h with h | h
      · apply h; rw [hk0] at h5; linarith
      · exact h hk0
  -- For `n ≠ 0` and variances `≥ 0` over `n`, `sampleF` returns the clamped
  -- conversion of the three draws `mean[i] + sqrt(variance[i] / n) * z_i`, the `z_i`
  -- being the successive standard normal deviates of the generator.
  have Glittery_sampleF_eq {D G : Type} (host : Host D G) (n : ℤ) (mean variance : Spectrum)
      (gen : G) (hn : 0 < n) (hv : ∀ i, 0 ≤ variance i) :
      Glittery.sampleF host n mean variance gen = some
        (Spectrum.clampNegative
          ![2.3646381 * (mean 0 + Real.sqrt (variance 0 / n) * (host.standardNormal gen).1) -
              0.8965361 * (mean 1 + Real.sqrt (variance 1 / n) *
                (host.standardNormal (host.standardNormal gen).2).1) -
              0.4680737 * (mean 2 + Real.sqrt (variance 2 / n) *
                (host.standardNormal (host.standardNormal (host.standardNormal gen).2).2).1),
            -0.5151664 * (mean 0 + Real.sqrt (variance 0 / n) * (host.standardNormal gen).1) +
              1.4264000 * (mean 1 + Real.sqrt (variance 1 / n) *
                (host.standardNormal (host.standardNormal gen).2).1) +
              0.0887608 * (mean 2 + Real.sqrt (variance 2 / n) *
                (host.standardNormal (host.standardNormal (host.standardNormal gen).2).2).1),
            0.0052037 * (mean 0 + Real.sqrt (variance 0 / n) * (host.standardNormal gen).1) -
              0.0144081 * (mean 1 + Real.sqrt (variance 1 / n) *
                (host.standardNormal (host.standardNormal gen).2).1) +
              1.0092106 * (mean 2 + Real.sqrt (variance 2 / n) *
                (host.standardNormal (host.standardNormal (host.standardNormal gen).2).2).1)],
          (host.standardNormal (host.standardNormal (host.standardNormal gen).2).2).2) := by
    have hnR : (0 : ℝ) < (n : ℝ) := by exact_mod_cast hn
    have hs : ∀ i, (fdiv (variance i) n).bind fsqrt = some (Real.sqrt (variance i / n)) := by
      intro i
      rw [fdiv_eq_some hnR.ne', Option.some_bind, fsqrt_eq_some (div_nonneg (hv i) hnR.le)]
    unfold Glittery.sampleF
    simp only [hs, Option.bind_eq_bind, Option.some_bind, pure]
  -- The standard deviation `sqrt (v / (n + 1))` tends to `0`.
  have sqrt_div_tendsto_zero (v : ℝ) :
      Tendsto (fun n : ℕ => Real.sqrt (v / (((n + 1 : ℕ) : ℤ) : ℝ))) atTop (𝓝 0) := by
    have h1 : Tendsto (fun n : ℕ => v / (((n + 1 : ℕ) : ℤ) : ℝ)) atTop (𝓝 0) := by
      have := (tendsto_const_div_atTop_nhds_zero_nat v).comp (tendsto_add_atTop_nat 1)
      refine this.congr fun n => ?_
      simp
    have h2 := (Real.continuous_sqrt.tendsto 0).comp h1
    simpa using h2
  exact ⟨@safe_sqrt_nonneg, @safe_sqrt_of_nonneg, @safe_sqrt_mul_self, @fresnel_aux,
    @fresnel_quotients, @fresnel_a2pb2_pos, @Glittery_sampleF_eq, @sqrt_div_tendsto_zero⟩

/-- Claim C2, as the code has it: for every `cosThetaI` in `[0, 1]`, every
`eta > 0` and every `k ≥ 0`, the point `cosThetaI = 0`, `eta = 1`, `k = 0` apart,
`fresnelConductorExact` returns `Rs2` and `Rp2` that both lie in `[0, 1]`. -/
theorem fresnelConductorExact_bounds (c eta k : ℝ) (hc0 : 0 ≤ c) (hc1 : c ≤ 1)
    (heta : 0 < eta) (_hk : 0 ≤ k) (hns : ¬ (c = 0 ∧ eta = 1 ∧ k = 0)) :
    ∃ r, fresnelConductorExact c eta k = some r ∧
      0 ≤ r.Rs2 ∧ r.Rs2 ≤ 1 ∧ 0 ≤ r.Rp2 ∧ r.Rp2 ≤ 1 := by
  obtain ⟨fdiv_eq_some, -, -, -, -, -, -, -, -, -, -, -, -⟩ := checked_arithmetic
  obtain ⟨-, -, -, fresnel_aux, fresnel_quotients, fresnel_a2pb2_pos, -, -⟩ := sqrt_lemmas
  obtain ⟨hP0, ha0, -, -, haP⟩ :=
    fresnel_aux (eta * eta - k * k - (1 - c * c)) (4 * k * k * eta * eta)
      (by nlinarith [mul_self_nonneg (k * eta)])
  have hPc : 0 < safe_sqrt ((eta * eta - k * k - (1 - c * c)) * (eta * eta - k * k - (1 - c * c)) +
      4 * k * k * eta * eta) ∨ (0 < c ∧ c < 1) := by
    by_cases hk0 : k = 0
    · by_cases he : eta * eta = 1 - c * c
      · right
        constructor
        · rcases hc0.lt_or_eq with h | h
          · exact h
          · exfalso
            rw [← h] at he
            have : eta = 1 := by nlinarith
            exact hns ⟨h.symm, this, hk0⟩
        · rcases hc1.lt_or_eq with h | h
          · exact h
          · exfalso
            rw [h] at he
            nlinarith [mul_pos heta heta]
      · exact Or.inl (fresnel_a2pb2_pos c eta k heta (Or.inl he))
    · exact Or.inl (fresnel_a2pb2_pos c eta k heta (Or.inr hk0))
  obtain ⟨hD1, hD2, h1, h2, h3, h4⟩ := fresnel_quotients c _ _ hc0 hc1 hP0 ha0 haP hPc
  unfold fresnelConductorExact
  simp only []
  rw [fdiv_eq_some hD1.ne']
  simp only [Option.bind_eq_bind, Option.some_bind]
  rw [fdiv_eq_some hD2.ne']
  exact ⟨_, rfl, h1, h2, h3, h4⟩

/-- Claim C3: for `c = cosThetaI` in `(0, 1]`, `eta > 0` with `eta² ≥ 1 - c²` and
`k = 0`, `fresnelConductorExact` returns the dielectric Fresnel reflectances
`Rs2 = ((c - g)/(c + g))²` and `Rp2 = ((eta²·c - g)/(eta²·c + g))²`, where
`g = sqrt(eta² - (1 - c²))`. -/
theorem fresnelConductorExact_dielectric (c eta : ℝ) (hc0 : 0 < c) (hc1 : c ≤ 1)
    (heta : 0 < eta) (hrad : 1 - c ^ 2 ≤ eta ^ 2) :
    fresnelConductorExact c eta 0 = some
      { Rp2 := ((eta ^ 2 * c - Real.sqrt (eta ^ 2 - (1 - c ^ 2))) /
                (eta ^ 2 * c + Real.sqrt (eta ^ 2 - (1 - c ^ 2)))) ^ 2
        Rs2 := ((c - Real.sqrt (eta ^ 2 - (1 - c ^ 2))) /
                (c + Real.sqrt (eta ^ 2 - (1 - c ^ 2)))) ^ 2 } := by
  obtain ⟨fdiv_eq_some, -, -, -, -, -, -, -, -, -, -, -, -⟩ := checked_arithmetic
  obtain ⟨-, safe_sqrt_of_nonneg, -, -, -, -, -, -⟩ := sqrt_lemmas
  have ht : 0 ≤ eta ^ 2 - (1 - c ^ 2) := by linarith
  set g := Real.sqrt (eta ^ 2 - (1 - c ^ 2)) with hg
  have hg0 : 0 ≤ g := Real.sqrt_nonneg _
  have hgg : g * g = eta ^ 2 - (1 - c ^ 2) := Real.mul_self_sqrt ht
  have hT : eta * eta - 0 * 0 - (1 - c * c) = g * g := by rw [hgg]; ring
  have hP : safe_sqrt ((eta * eta - 0 * 0 - (1 - c * c)) * (eta * eta - 0 * 0 - (1 - c * c)) +
      4 * 0 * 0 * eta * eta) = g * g := by
    rw [hT, safe_sqrt_of_nonneg (by positivity)]
    have : g * g * (g * g) + 4 * 0 * 0 * eta * eta = (g * g) * (g * g) := by ring
    rw [this, Real.sqrt_mul_self (mul_self_nonneg g)]
  have ha : safe_sqrt (0.5 * (g * g + g * g)) = g := by
    have : 0.5 * (g * g + g * g) = g * g := by ring
    rw [this, safe_sqrt_of_nonneg (mul_self_nonneg g), Real.sqrt_mul_self hg0]
  have hs : 0 ≤ 1 - c * c := by nlinarith
  have hcg : 0 < c + g := by linarith
  have hgs : 0 < g * c + (1 - c * c) := by
    rcases hs.lt_or_eq with h | h
    · have := mul_nonneg hg0 hc0.le
      linarith
    · have hgpos : 0 < g := by
        rcases hg0.lt_or_eq with h' | h'
        · exact h'
        · exfalso
          rw [← h'] at hgg
          nlinarith [pow_pos heta 2]
      have := mul_pos hgpos hc0
      linarith
  have hD1 : g * g + c * c + 2 * g * c ≠ 0 := by
    have : g * g + c * c + 2 * g * c = (c + g) * (c + g) := by ring
    rw [this]; positivity
  have hD2 : g * g * (c * c) + (1 - c * c) * (1 - c * c) + 2 * g * c * (1 - c * c) ≠ 0 := by
    have : g * g * (c * c) + (1 - c * c) * (1 - c * c) + 2 * g * c * (1 - c * c) =
        (g * c + (1 - c * c)) * (g * c + (1 - c * c)) := by ring
    rw [this]; positivity
  have h1 : eta ^ 2 * c - g = -((c - g) * (g * c - (1 - c * c))) := by
    linear_combination (-c) * hgg
  have h2 : eta ^ 2 * c + g = (c + g) * (g * c + (1 - c * c)) := by
    linear_combination (-c) * hgg
  unfold fresnelConductorExact
  simp only []
  rw [hP, hT, ha, fdiv_eq_some hD1]
  simp only [Option.bind_eq_bind, Option.some_bind]
  rw [fdiv_eq_some hD2, h1, h2]
  simp only [Option.some_bind, pure, Option.some.injEq, TFresnelR.mk.injEq]
  have hgs' := hgs.ne'
  have hcg' := hcg.ne'
  constructor
  · field_simp
    ring
  · field_simp
    ring

/-- Claim C2 fails at `cosThetaI = 0`, `eta = 1`, `k = 0`, a point of the claimed
domain: `term1 + term2 = 0`, the quotient `Rs2` is `0/0`, and no reflectance in
`[0, 1]` is returned. -/
theorem fresnelConductorExact_grazing_matched :
    (0 : ℝ) ≤ 0 ∧ (0 : ℝ) ≤ 1 ∧ (0 : ℝ) < 1 ∧ (0 : ℝ) ≤ 0 ∧
    fresnelConductorExact 0 1 0 = none ∧
    ¬ ∃ r, fresnelConductorExact 0 1 0 = some r ∧
      0 ≤ r.Rs2 ∧ r.Rs2 ≤ 1 ∧ 0 ≤ r.Rp2 ∧ r.Rp2 ≤ 1 := by
  have h : fresnelConductorExact 0 1 0 = none := by
    unfold fresnelConductorExact safe_sqrt
    dsimp only [fdiv]
    simp
  refine ⟨le_refl _, zero_le_one, zero_lt_one, le_refl _, h, ?_⟩
  rintro ⟨r, hr, -⟩
  rw [h] at hr
  exact Option.noConfusion hr

theorem fresnelConductorExact_bounds_witness :
    ∃ r, fresnelConductorExact (1 / 2) (3 / 2) 1 = some r ∧
      0 ≤ r.Rs2 ∧ r.Rs2 ≤ 1 ∧ 0 ≤ r.Rp2 ∧ r.Rp2 ≤ 1 :=
  fresnelConductorExact_bounds (1 / 2) (3 / 2) 1 (by norm_num) (by norm_num) (by norm_num)
    (by norm_num) (by norm_num)

theorem fresnelConductorExact_dielectric_witness :
    fresnelConductorExact 1 2 0 = some
      { Rp2 := (((2 : ℝ) ^ 2 * 1 - Real.sqrt (2 ^ 2 - (1 - 1 ^ 2))) /
                (2 ^ 2 * 1 + Real.sqrt (2 ^ 2 - (1 - 1 ^ 2)))) ^ 2
        Rs2 := (((1 : ℝ) - Real.sqrt (2 ^ 2 - (1 - 1 ^ 2))) /
                (1 + Real.sqrt (2 ^ 2 - (1 - 1 ^ 2)))) ^ 2 } :=
  fresnelConductorExact_dielectric 1 2 (by norm_num) (by norm_num) (by norm_num) (by norm_num)

/-! ### Spectra -/

set_option maxHeartbeats 1000000 in
/-- Phase shifts: atan2 on the non-negative real axis, the result of fresnelPhaseExact
and fresnelPhaseExact1 in closed form, the principal square root, and the values at
normal incidence. -/
theorem phase_lemmas :
    (∀ {x : ℝ} (_ : 0 ≤ x), atan2 0 x = 0) ∧
    (∀ {cost eta1 eta2 kappa2 : Spectrum} {p : Fin 3 → PhaseShift}
      (_ : ∀ i, fresnelPhaseExact1 (cost i) (eta1 i) (eta2 i) (kappa2 i) = some (p i)),
      fresnelPhaseExact cost eta1 eta2 kappa2 =
        some (fun i => (p i).phiP, fun i => (p i).phiS)) ∧
    (fresnelPhaseExact1 0 1 1 0 = some ⟨0, 0⟩) ∧
    (fresnelPhaseExact1 1 1 1 0 = some ⟨0, 0⟩) ∧
    (∀ (t q : ℝ),
      0 ≤ sqr t + sqr q ∧
      0 ≤ (t + Real.sqrt (sqr t + sqr q)) / 2.0 ∧
      0 ≤ (Real.sqrt (sqr t + sqr q) - t) / 2.0 ∧
      sqr (Real.sqrt ((t + Real.sqrt (sqr t + sqr q)) / 2.0)) -
        sqr (Real.sqrt ((Real.sqrt (sqr t + sqr q) - t) / 2.0)) = t ∧
      Real.sqrt ((t + Real.sqrt (sqr t + sqr q)) / 2.0) *
        Real.sqrt ((Real.sqrt (sqr t + sqr q) - t) / 2.0) = |q| / 2) ∧
    (∀ (cost eta1 eta2 kappa2 : ℝ),
      ∃ B U V : ℝ,
        fsqrt (sqr (sqr eta2 * (1 - sqr kappa2) - sqr eta1 * (1 - sqr cost)) +
          sqr (2 * sqr eta2 * kappa2)) = some B ∧
        fsqrt ((sqr eta2 * (1 - sqr kappa2) - sqr eta1 * (1 - sqr cost) + B) / 2.0) = some U ∧
        fsqrt ((B - (sqr eta2 * (1 - sqr kappa2) - sqr eta1 * (1 - sqr cost))) / 2.0) = some V ∧
        0 ≤ B ∧ 0 ≤ U ∧ 0 ≤ V ∧
        sqr U - sqr V = sqr eta2 * (1 - sqr kappa2) - sqr eta1 * (1 - sqr cost) ∧
        U * V = sqr eta2 * |kappa2| ∧
        fresnelPhaseExact1 cost eta1 eta2 kappa2 = some
          ⟨atan2 (2 * eta1 * sqr eta2 * cost * (2 * kappa2 * U - (1 - sqr kappa2) * V))
              (sqr (sqr eta2 * (1 + sqr kappa2) * cost) - sqr eta1 * (sqr U + sqr V)),
            atan2 (2 * eta1 * V * cost) (sqr U + sqr V - sqr (eta1 * cost))⟩) ∧
    (∀ (x : ℝ), atan2 0 x = 0 ∨ atan2 0 x = Real.pi) ∧
    (∀ (U V : ℝ) (_ : 0 ≤ U) (_ : 0 ≤ V),
      (((U : ℂ) + (V : ℂ) * Complex.I) ^ 2) ^ ((2 : ℂ)⁻¹) = (U : ℂ) + (V : ℂ) * Complex.I) ∧
    (∀ (cost eta1 eta2 kappa2 : Spectrum),
      ∃ ph, fresnelPhaseExact cost eta1 eta2 kappa2 = some ph) ∧
    (fresnelConductorExact 1 2 0 = some ⟨1 / 9, 1 / 9⟩) ∧
    (∀ (eta1 : ℝ) (_ : 0 < eta1),
      fresnelPhaseExact1 1 eta1 (2 * eta1) 0 = some ⟨0, 0⟩) := by
  obtain ⟨fdiv_eq_some, fsqrt_eq_some, -, -, -, -, -, -, -, -, -, -, -⟩ := checked_arithmetic
  have atan2_zero_of_nonneg {x : ℝ} (hx : 0 ≤ x) : atan2 0 x = 0 :=
    Complex.arg_ofReal_of_nonneg hx
  have fresnelPhaseExact_eq_some {cost eta1 eta2 kappa2 : Spectrum} {p : Fin 3 → PhaseShift}
      (h : ∀ i, fresnelPhaseExact1 (cost i) (eta1 i) (eta2 i) (kappa2 i) = some (p i)) :
      fresnelPhaseExact cost eta1 eta2 kappa2 =
        some (fun i => (p i).phiP, fun i => (p i).phiS) := by
    have e1 : ![(p 0).phiP, (p 1).phiP, (p 2).phiP] = fun i => (p i).phiP :=
      vec3_eta fun i => (p i).phiP
    have e2 : ![(p 0).phiS, (p 1).phiS, (p 2).phiS] = fun i => (p i).phiS :=
      vec3_eta fun i => (p i).phiS
    unfold fresnelPhaseExact
    simp only [h 0, h 1, h 2, Option.bind_eq_bind, Option.some_bind, pure, e1, e2]
  have fresnelPhaseExact1_zero : fresnelPhaseExact1 0 1 1 0 = some ⟨0, 0⟩ := by
    have h0 : fsqrt 0 = some 0 := by unfold fsqrt; simp
    unfold fresnelPhaseExact1
    dsimp only [sqr]
    simp [h0, atan2_zero_of_nonneg]
  have fresnelPhaseExact1_one : fresnelPhaseExact1 1 1 1 0 = some ⟨0, 0⟩ := by
    have h0 : fsqrt 0 = some 0 := by unfold fsqrt; simp
    have h1 : fsqrt 1 = some 1 := by unfold fsqrt; simp
    have e1 : ((1 : ℝ) + 1) / 2.0 = 1 := by norm_num
    have e2 : ((1 : ℝ) - 1) / 2.0 = 0 := by norm_num
    unfold fresnelPhaseExact1
    dsimp only [sqr]
    simp [h0, h1, e1, e2, atan2_zero_of_nonneg]
  -- For a radicand `t ^ 2 + q ^ 2` the root `B` dominates `|t|`: the three roots of
  -- `fresnelPhaseExact` are roots of non-negative numbers, and `U`, `V` satisfy
  -- `U ^ 2 - V ^ 2 = t` and `U * V = |q| / 2`.
  have phase_roots (t q : ℝ) :
      0 ≤ sqr t + sqr q ∧
      0 ≤ (t + Real.sqrt (sqr t + sqr q)) / 2.0 ∧
      0 ≤ (Real.sqrt (sqr t + sqr q) - t) / 2.0 ∧
      sqr (Real.sqrt ((t + Real.sqrt (sqr t + sqr q)) / 2.0)) -
        sqr (Real.sqrt ((Real.sqrt (sqr t + sqr q) - t) / 2.0)) = t ∧
      Real.sqrt ((t + Real.sqrt (sqr t + sqr q)) / 2.0) *
        Real.sqrt ((Real.sqrt (sqr t + sqr q) - t) / 2.0) = |q| / 2 := by
    have hrad : 0 ≤ sqr t + sqr q := by unfold sqr; nlinarith [mul_self_nonneg t, mul_self_nonneg q]
    set B := Real.sqrt (sqr t + sqr q) with hB
    have hB0 : 0 ≤ B := Real.sqrt_nonneg _
    have hBB : B * B = sqr t + sqr q := Real.mul_self_sqrt hrad
    have habs := abs_le_of_sq_le_sq' (by unfold sqr at hBB; nlinarith [mul_self_nonneg q] : t ^ 2 ≤ B ^ 2) hB0
    have h1 : 0 ≤ (t + B) / 2.0 := by linarith [habs.1]
    have h2 : 0 ≤ (B - t) / 2.0 := by linarith [habs.2]
    refine ⟨hrad, h1, h2, ?_, ?_⟩
    · unfold sqr
      rw [Real.mul_self_sqrt h1, Real.mul_self_sqrt h2]
      ring
    · rw [← Real.sqrt_mul h1]
      have e : (t + B) / 2.0 * ((B - t) / 2.0) = (|q| / 2) ^ 2 := by
        have : (|q|) ^ 2 = q * q := by rw [sq_abs]; ring
        unfold sqr at hBB
        nlinarith
      rw [e, Real.sqrt_sq (by positivity)]
  -- The function `fresnelPhaseExact` takes no root of a negative number: in
  -- every channel it returns the two arguments `atan2` computed from the roots
  -- `B`, `U`, `V`.
  have fresnelPhaseExact1_eq (cost eta1 eta2 kappa2 : ℝ) :
      ∃ B U V : ℝ,
        fsqrt (sqr (sqr eta2 * (1 - sqr kappa2) - sqr eta1 * (1 - sqr cost)) +
          sqr (2 * sqr eta2 * kappa2)) = some B ∧
        fsqrt ((sqr eta2 * (1 - sqr kappa2) - sqr eta1 * (1 - sqr cost) + B) / 2.0) = some U ∧
        fsqrt ((B - (sqr eta2 * (1 - sqr kappa2) - sqr eta1 * (1 - sqr cost))) / 2.0) = some V ∧
        0 ≤ B ∧ 0 ≤ U ∧ 0 ≤ V ∧
        sqr U - sqr V = sqr eta2 * (1 - sqr kappa2) - sqr eta1 * (1 - sqr cost) ∧
        U * V = sqr eta2 * |kappa2| ∧
        fresnelPhaseExact1 cost eta1 eta2 kappa2 = some
          ⟨atan2 (2 * eta1 * sqr eta2 * cost * (2 * kappa2 * U - (1 - sqr kappa2) * V))
              (sqr (sqr eta2 * (1 + sqr kappa2) * cost) - sqr eta1 * (sqr U + sqr V)),
            atan2 (2 * eta1 * V * cost) (sqr U + sqr V - sqr (eta1 * cost))⟩ := by
    obtain ⟨hrad, h1, h2, hsub, hmul⟩ := phase_roots
      (sqr eta2 * (1 - sqr kappa2) - sqr eta1 * (1 - sqr cost)) (2 * sqr eta2 * kappa2)
    refine ⟨_, _, _, fsqrt_eq_some hrad, fsqrt_eq_some h1, fsqrt_eq_some h2, Real.sqrt_nonneg _,
      Real.sqrt_nonneg _, Real.sqrt_nonneg _, hsub, ?_, ?_⟩
    · rw [hmul]
      have : |2 * sqr eta2 * kappa2| = 2 * sqr eta2 * |kappa2| := by
        have h0 : (0 : ℝ) ≤ sqr eta2 := mul_self_nonneg eta2
        rw [abs_mul, abs_mul, abs_of_nonneg (by norm_num : (0:ℝ) ≤ 2), abs_of_nonneg h0]
      rw [this]; ring
    · unfold fresnelPhaseExact1
      simp only [fsqrt_eq_some hrad, fsqrt_eq_some h1, fsqrt_eq_some h2, Option.bind_eq_bind,
        Option.some_bind, pure]
  have atan2_zero_left (x : ℝ) : atan2 0 x = 0 ∨ atan2 0 x = Real.pi := by
    rcases le_or_lt 0 x with h | h
    · exact Or.inl (atan2_zero_of_nonneg h)
    · exact Or.inr (Complex.arg_ofReal_of_neg h)
  -- A complex number with non-negative real and imaginary parts is the principal
  -- square root of its square.
  have principal_sqrt_of_nonneg (U V : ℝ) (hU : 0 ≤ U) (hV : 0 ≤ V) :
      (((U : ℂ) + (V : ℂ) * Complex.I) ^ 2) ^ ((2 : ℂ)⁻¹) = (U : ℂ) + (V : ℂ) * Complex.I := by
    have h := @Complex.pow_cpow_nat_inv ((U : ℂ) + (V : ℂ) * Complex.I) 2 (by norm_num)
      (by
        have h0 : 0 ≤ Complex.arg ((U : ℂ) + (V : ℂ) * Complex.I) :=
          Complex.arg_nonneg_iff.2 (by simpa using hV)
        have : (0 : ℝ) < Real.pi / (2 : ℕ) := by positivity
        linarith)
      (by
        have h1 : Complex.arg ((U : ℂ) + (V : ℂ) * Complex.I) ≤ Real.pi / 2 :=
          Complex.arg_le_pi_div_two_iff.2 (Or.inl (by simpa using hU))
        simpa using h1)
    simpa using h
  -- The function `fresnelPhaseExact` returns a value on all spectra.
  have fresnelPhaseExact_isSome (cost eta1 eta2 kappa2 : Spectrum) :
      ∃ ph, fresnelPhaseExact cost eta1 eta2 kappa2 = some ph := by
    choose B U V _ _ _ _ _ _ _ _ h using
      fun i : Fin 3 => fresnelPhaseExact1_eq (cost i) (eta1 i) (eta2 i) (kappa2 i)
    exact ⟨_, fresnelPhaseExact_eq_some h⟩
  -- At normal incidence on a non-absorbing boundary of relative index `2` both
  -- reflectances are `1/9`.
  have fresnelConductorExact_normal : fresnelConductorExact 1 2 0 = some ⟨1 / 9, 1 / 9⟩ := by
    have e1 : safe_sqrt ((2 * 2 - 0 * 0 - (1 - 1 * 1)) * (2 * 2 - 0 * 0 - (1 - 1 * 1)) +
        4 * 0 * 0 * 2 * 2) = 4 := by
      have : ((2 * 2 - 0 * 0 - (1 - 1 * 1)) * (2 * 2 - 0 * 0 - (1 - 1 * 1)) +
        4 * 0 * 0 * 2 * 2 : ℝ) = 4 ^ 2 := by norm_num
      unfold safe_sqrt
      rw [this, max_eq_right (by norm_num), Real.sqrt_sq (by norm_num)]
    have e2 : safe_sqrt (0.5 * (4 + (2 * 2 - 0 * 0 - (1 - 1 * 1)))) = 2 := by
      have : (0.5 * (4 + (2 * 2 - 0 * 0 - (1 - 1 * 1))) : ℝ) = 2 ^ 2 := by norm_num
      unfold safe_sqrt
      rw [this, max_eq_right (by norm_num), Real.sqrt_sq (by norm_num)]
    unfold fresnelConductorExact
    simp only [e1, e2]
    rw [fdiv_eq_some (by norm_num)]
    simp only [Option.bind_eq_bind, Option.some_bind]
    rw [fdiv_eq_some (by norm_num)]
    simp only [Option.some_bind, pure, Option.some.injEq, TFresnelR.mk.injEq]
    constructor <;> norm_num
  -- At normal incidence on a non-absorbing boundary with `eta2 = 2 eta1 > 0` both
  -- phase shifts are `0`.
  have fresnelPhaseExact1_normal (eta1 : ℝ) (h : 0 < eta1) :
      fresnelPhaseExact1 1 eta1 (2 * eta1) 0 = some ⟨0, 0⟩ := by
    have hB : fsqrt (sqr (sqr (2 * eta1) * (1 - sqr 0) - sqr eta1 * (1 - sqr 1)) +
        sqr (2 * sqr (2 * eta1) * 0)) = some (4 * eta1 ^ 2) := by
      have : sqr (sqr (2 * eta1) * (1 - sqr 0) - sqr eta1 * (1 - sqr 1)) +
          sqr (2 * sqr (2 * eta1) * 0) = (4 * eta1 ^ 2) ^ 2 := by dsimp only [sqr]; ring
      unfold fsqrt
      rw [this, if_neg (not_lt.2 (by positivity)), Real.sqrt_sq (by positivity)]
    have hU : fsqrt ((sqr (2 * eta1) * (1 - sqr 0) - sqr eta1 * (1 - sqr 1) + 4 * eta1 ^ 2) / 2.0) =
        some (2 * eta1) := by
      have : (sqr (2 * eta1) * (1 - sqr 0) - sqr eta1 * (1 - sqr 1) + 4 * eta1 ^ 2) / 2.0 =
          (2 * eta1) ^ 2 := by dsimp only [sqr]; ring
      unfold fsqrt
      rw [this, if_neg (not_lt.2 (by positivity)), Real.sqrt_sq (by positivity)]
    have hV : fsqrt ((4 * eta1 ^ 2 - (sqr (2 * eta1) * (1 - sqr 0) - sqr eta1 * (1 - sqr 1))) / 2.0) =
        some 0 := by
      have : (4 * eta1 ^ 2 - (sqr (2 * eta1) * (1 - sqr 0) - sqr eta1 * (1 - sqr 1))) / 2.0 =
          0 := by dsimp only [sqr]; ring
      unfold fsqrt
      rw [this, if_neg (by norm_num), Real.sqrt_zero]
    unfold fresnelPhaseExact1
    simp only [hB, hU, hV, Option.bind_eq_bind, Option.some_bind, pure, Option.some.injEq,
      TPhaseShift.mk.injEq]
    constructor
    · have e : 2 * eta1 * sqr (2 * eta1) * 1 * (2 * 0 * (2 * eta1) - (1 - sqr 0) * 0) = 0 := by
        ring
      rw [e]
      exact atan2_zero_of_nonneg (by dsimp only [sqr]; nlinarith [sq_nonneg (eta1 ^ 2)])
    · have e : 2 * eta1 * 0 * 1 = 0 := by ring
      rw [e]
      exact atan2_zero_of_nonneg (by dsimp only [sqr]; nlinarith [sq_nonneg eta1])
  exact ⟨@atan2_zero_of_nonneg, @fresnelPhaseExact_eq_some, @fresnelPhaseExact1_zero,
    @fresnelPhaseExact1_one, @phase_roots, @fresnelPhaseExact1_eq, @atan2_zero_left,
    @principal_sqrt_of_nonneg, @fresnelPhaseExact_isSome, @fresnelConductorExact_normal,
    @fresnelPhaseExact1_normal⟩

/-! ### The tables and the tabulated sensitivity -/

set_option maxRecDepth 100000 in
theorem table_lengths :
    rShX.length = 512 ∧ iShX.length = 512 ∧ rShY.length = 512 ∧ iShY.length = 512 ∧
    rShZ.length = 512 ∧ iShZ.length = 512 :=
  ⟨rfl, rfl, rfl, rfl, rfl, rfl⟩

set_option maxRecDepth 100000 in
theorem table_heads :
    rShX[0]? = some 1 ∧ iShX[0]? = some 0 ∧ rShY[0]? = some 1 ∧ iShY[0]? = some 0 ∧
    rShZ[0]? = some 1 ∧ iShZ[0]? = some 0 :=
  ⟨rfl, rfl, rfl, rfl, rfl, rfl⟩

theorem bind_const_none {α β : Type} (x : Option α) :
    x.bind (fun _ => (none : Option β)) = none := by
  cases x <;> rfl

set_option maxHeartbeats 1000000 in
/-- Spectral sensitivity: the tabulated channel, the Gaussian fit and its value at zero,
continuity of the fit and of its Taylor envelope, the strict inequality between the
two, and the degenerate calls of the mean and of the second moment. -/
theorem sensitivity_lemmas :
    (∀ (re im : List ℚ) (_ : re.length = 512) (_ : im.length = 512)
      (opd s : ℝ) (_ : 0 ≤ opd),
      ∃ v, tabulatedChannel re im (2 * Real.pi * opd / 30000.0 * ((nCMFs : ℝ) - 1)) s = some v ∧
        tabulatedChannelSpec re im opd s v) ∧
    ((233205 ≤ Real.sqrt (2 * Real.pi * 8.6556e+09) ∧
        Real.sqrt (2 * Real.pi * 8.6556e+09) ≤ 233206) ∧
      (238543 ≤ Real.sqrt (2 * Real.pi * 9.0564e+09) ∧
        Real.sqrt (2 * Real.pi * 9.0564e+09) ≤ 238544) ∧
      (341941 ≤ Real.sqrt (2 * Real.pi * 1.8609e+10) ∧
        Real.sqrt (2 * Real.pi * 1.8609e+10) ≤ 341942) ∧
      (288251 ≤ Real.sqrt (2 * Real.pi * 1.3224e+10) ∧
        Real.sqrt (2 * Real.pi * 1.3224e+10) ≤ 288252)) ∧
    (evalSensitivity 0 0 true = some
        ![(3.8789e-13 * Real.sqrt (2 * Real.pi * 8.6556e+09) +
            6.8922e-14 * Real.sqrt (2 * Real.pi * 9.0564e+09)) / 1.0685e-7,
          3.1255e-13 * Real.sqrt (2 * Real.pi * 1.8609e+10) / 1.0685e-7,
          3.7110e-13 * Real.sqrt (2 * Real.pi * 1.3224e+10) / 1.0685e-7]) ∧
    (evalSensitivity 0 0 false = some ![1, 1, 1]) ∧
    (∀ (OPD shift : Spectrum),
      evalSensitivity OPD shift true = some (evalSensitivity.gaussian OPD shift)) ∧
    (∀ (k shift : Spectrum) (i : Fin 3),
      Continuous fun h : ℝ => evalSensitivityTaylor (fun j => k j * h) shift i) ∧
    (∀ (k shift : Spectrum) (i : Fin 3),
      Continuous fun h : ℝ => evalSensitivity.gaussian (fun j => k j * h) shift i) ∧
    (∀ (x : ℝ) (_ : 0 < x), Real.exp (-x) < 1 - x + x * x / 2) ∧
    (∀ (h : ℝ) (_ : 0 < h) (_ : h ≤ 100),
      evalSensitivity.gaussian (fun _ => h) (fun _ => 0) 1 <
        evalSensitivityTaylor (fun _ => h) (fun _ => 0) 1) ∧
    (∀ (m : ℤ) (tao shift : Spectrum) (h : ℝ),
      evalSensitivityMean m tao shift h h = none) ∧
    (∀ (m : ℤ) (tao shift : Spectrum) (a b : ℝ) (_ : m ≠ 0)
      (_ : ∀ i, tao i ≠ 0) (_ : a ≠ b), ∃ v, evalSensitivityMean m tao shift a b = some v) ∧
    (∀ (tao shift : Spectrum) (a b : ℝ) (_ : ∀ i, tao i ≠ 0)
      (_ : a ≠ b), ∃ v, evalSensitivitySquare tao shift a b = some v) := by
  obtain ⟨fdiv_eq_some, -, -, -, readTable_of_lt, floor_toNat_lt_nCMFs, _pos_ne_zero, -, -, -, -, -,
      -⟩ := checked_arithmetic
  have tabulatedChannel_eq (re im : List ℚ) (hre : re.length = 512) (him : im.length = 512)
      (opd s : ℝ) (h0 : 0 ≤ opd) :
      ∃ v, tabulatedChannel re im (2 * Real.pi * opd / 30000.0 * ((nCMFs : ℝ) - 1)) s = some v ∧
        tabulatedChannelSpec re im opd s v := by
    have hu0 : 0 ≤ 2 * Real.pi * opd / 30000 * 511 := by
      have := Real.pi_pos
      positivity
    have hn : ((nCMFs : ℝ) - 1) = 511 := by norm_num [nCMFs]
    have h3 : (30000.0 : ℝ) = 30000 := by norm_num
    rw [hn, h3]
    unfold tabulatedChannel tabulatedChannelSpec
    by_cases hu : 2 * Real.pi * opd / 30000 * 511 ≥ 512
    · refine ⟨0, ?_, fun _ => rfl, fun h => absurd hu (not_le.2 h)⟩
      have : 2 * Real.pi * opd / 30000 * 511 ≥ ((nCMFs : ℕ) : ℝ) := by
        norm_num [nCMFs]; linarith
      simp only [this, if_true, Option.some.injEq]
      norm_num
    · have hu' : 2 * Real.pi * opd / 30000 * 511 < 512 := not_le.1 hu
      obtain ⟨hf0, hf1⟩ := floor_toNat_lt_nCMFs hu0 hu'
      obtain ⟨r, hr, hr'⟩ := readTable_of_lt re _ hf0 (hre ▸ hf1)
      obtain ⟨i, hi, hi'⟩ := readTable_of_lt im _ hf0 (him ▸ hf1)
      have hnot : ¬ (2 * Real.pi * opd / 30000 * 511 ≥ ((nCMFs : ℕ) : ℝ)) := by
        norm_num [nCMFs]; linarith
      refine ⟨Real.cos s * r + Real.sin s * i, ?_, fun h => absurd h hu, fun _ => ?_⟩
      · simp only [hnot, if_false, hr', hi', Option.bind_eq_bind, Option.some_bind, pure]
      · exact ⟨hf0, hf1, r, i, hr, hi, rfl⟩
  have sqrt_two_pi_var_bounds :
      (233205 ≤ Real.sqrt (2 * Real.pi * 8.6556e+09) ∧
        Real.sqrt (2 * Real.pi * 8.6556e+09) ≤ 233206) ∧
      (238543 ≤ Real.sqrt (2 * Real.pi * 9.0564e+09) ∧
        Real.sqrt (2 * Real.pi * 9.0564e+09) ≤ 238544) ∧
      (341941 ≤ Real.sqrt (2 * Real.pi * 1.8609e+10) ∧
        Real.sqrt (2 * Real.pi * 1.8609e+10) ≤ 341942) ∧
      (288251 ≤ Real.sqrt (2 * Real.pi * 1.3224e+10) ∧
        Real.sqrt (2 * Real.pi * 1.3224e+10) ≤ 288252) := by
    have hlo := Real.pi_gt_d6
    have hhi := Real.pi_lt_d6
    refine ⟨⟨?_, ?_⟩, ⟨?_, ?_⟩, ⟨?_, ?_⟩, ⟨?_, ?_⟩⟩
    · rw [Real.le_sqrt' (by norm_num)]; norm_num at hlo ⊢; linarith
    · rw [Real.sqrt_le_left (by norm_num)]; norm_num at hhi ⊢; linarith
    · rw [Real.le_sqrt' (by norm_num)]; norm_num at hlo ⊢; linarith
    · rw [Real.sqrt_le_left (by norm_num)]; norm_num at hhi ⊢; linarith
    · rw [Real.le_sqrt' (by norm_num)]; norm_num at hlo ⊢; linarith
    · rw [Real.sqrt_le_left (by norm_num)]; norm_num at hhi ⊢; linarith
    · rw [Real.le_sqrt' (by norm_num)]; norm_num at hlo ⊢; linarith
    · rw [Real.sqrt_le_left (by norm_num)]; norm_num at hhi ⊢; linarith
  -- Gaussian-fit mode at `OPD = 0`, `shift = 0`: each channel is
  -- `val·sqrt(2π·var)/1.0685e-7`, plus the second lobe in the first channel.
  have evalSensitivity_gaussian_zero :
      evalSensitivity 0 0 true = some
        ![(3.8789e-13 * Real.sqrt (2 * Real.pi * 8.6556e+09) +
            6.8922e-14 * Real.sqrt (2 * Real.pi * 9.0564e+09)) / 1.0685e-7,
          3.1255e-13 * Real.sqrt (2 * Real.pi * 1.8609e+10) / 1.0685e-7,
          3.7110e-13 * Real.sqrt (2 * Real.pi * 1.3224e+10) / 1.0685e-7] := by
    unfold evalSensitivity
    simp only [if_true, Option.some.injEq]
    funext i
    fin_cases i <;> simp [_val, _var, _pos, Function.update]
  -- Tabulated mode at `OPD = 0`, `shift = 0`: entry 0 of every table is read,
  -- real part 1 and imaginary part 0, so every channel is 1.
  have evalSensitivity_tabulated_zero :
      evalSensitivity 0 0 false = some ![1, 1, 1] := by
    obtain ⟨hrx, hix, hry, hiy, hrz, hiz⟩ := table_heads
    have hn : ¬ ((0 : ℝ) ≥ ((nCMFs : ℕ) : ℝ)) := by norm_num [nCMFs]
    unfold evalSensitivity tabulatedChannel
    dsimp only [readTable]
    simp [hn, hrx, hix, hry, hiy, hrz, hiz]
  have evalSensitivity_gaussian (OPD shift : Spectrum) :
      evalSensitivity OPD shift true = some (evalSensitivity.gaussian OPD shift) := rfl
  -- The Taylor-truncated sensitivity is continuous in the height.
  have evalSensitivityTaylor_continuous (k shift : Spectrum) (i : Fin 3) :
      Continuous fun h : ℝ => evalSensitivityTaylor (fun j => k j * h) shift i := by
    unfold evalSensitivityTaylor
    fin_cases i
    · simp only [Fin.zero_eta, Function.update_same]
      fun_prop
    · simp only [Fin.mk_one, ne_eq, one_ne_zero, not_false_eq_true, Function.update_noteq]
      fun_prop
    · have h20 : (2 : Fin 3) ≠ 0 := by decide
      simp only [Fin.reduceFinMk, ne_eq, h20, not_false_eq_true, Function.update_noteq]
      fun_prop
  have evalSensitivity_gaussian_continuous (k shift : Spectrum) (i : Fin 3) :
      Continuous fun h : ℝ => evalSensitivity.gaussian (fun j => k j * h) shift i := by
    unfold evalSensitivity.gaussian
    fin_cases i
    · simp only [Fin.zero_eta, Function.update_same]
      fun_prop
    · simp only [Fin.mk_one, ne_eq, one_ne_zero, not_false_eq_true, Function.update_noteq]
      fun_prop
    · have h20 : (2 : Fin 3) ≠ 0 := by decide
      simp only [Fin.reduceFinMk, ne_eq, h20, not_false_eq_true, Function.update_noteq]
      fun_prop
  -- The Taylor polynomial `1 - x + x ^ 2 / 2` lies above `exp (-x)` for `x > 0`.
  have exp_neg_lt_taylor (x : ℝ) (hx : 0 < x) : Real.exp (-x) < 1 - x + x * x / 2 := by
    have h1 := Real.quadratic_le_exp_of_nonneg hx.le
    have hpos : 0 < 1 + x + x ^ 2 / 2 := by positivity
    rw [Real.exp_neg]
    have h2 : (Real.exp x)⁻¹ ≤ (1 + x + x ^ 2 / 2)⁻¹ := inv_anti₀ hpos h1
    refine lt_of_le_of_lt h2 ?_
    rw [inv_eq_one_div, div_lt_iff₀ hpos]
    have : 0 < x ^ 4 := by positivity
    nlinarith
  -- In the second channel, with no phase shift, the Taylor-truncated sensitivity
  -- lies above the Gaussian-fit sensitivity at every path difference in `(0, 100]`.
  have evalSensitivity_gaussian_lt_taylor (h : ℝ) (h0 : 0 < h) (h1 : h ≤ 100) :
      evalSensitivity.gaussian (fun _ => h) (fun _ => 0) 1 <
        evalSensitivityTaylor (fun _ => h) (fun _ => 0) 1 := by
    have hs := sqrt_two_pi_var_bounds.2.2.1
    have hpi := Real.pi_gt_d6
    have hpi2 := Real.pi_lt_d6
    have hpi0 := Real.pi_pos
    unfold evalSensitivity.gaussian evalSensitivityTaylor
    simp only [ne_eq, one_ne_zero, not_false_eq_true, Function.update_noteq, add_zero]
    have hval : _val 1 = 3.1255e-13 := by simp [_val]
    have hpos : _pos 1 = 1.7953e+06 := by simp [_pos]
    have hvar : _var 1 = 1.8609e+10 := by simp [_var]
    rw [hval, hpos, hvar]
    have hx : 0 < 2 * Real.pi * h * 1.0e-9 * (2 * Real.pi * h * 1.0e-9) * 1.8609e+10 / 2 := by
      positivity
    have hexp := exp_neg_lt_taylor _ hx
    have hcos : 0 < Real.cos (1.7953e+06 * (2 * Real.pi * h * 1.0e-9)) := by
      apply Real.cos_pos_of_mem_Ioo
      constructor
      · have : 0 < 1.7953e+06 * (2 * Real.pi * h * 1.0e-9) := by positivity
        linarith
      · have : 1.7953e+06 * (2 * Real.pi * h * 1.0e-9) ≤ 1.7953e+06 * (2 * Real.pi * 100 * 1.0e-9) := by
          have : Real.pi * h ≤ Real.pi * 100 := mul_le_mul_of_nonneg_left h1 hpi0.le
          nlinarith
        norm_num at this ⊢
        linarith
    have hA : 0 < 3.1255e-13 * Real.sqrt (2 * Real.pi * 1.8609e+10) := by
      have : (0 : ℝ) < Real.sqrt (2 * Real.pi * 1.8609e+10) := by linarith [hs.1]
      positivity
    have e : -(2 * Real.pi * h * 1.0e-9) * (2 * Real.pi * h * 1.0e-9) * 1.8609e+10 / 2 =
        -(2 * Real.pi * h * 1.0e-9 * (2 * Real.pi * h * 1.0e-9) * 1.8609e+10 / 2) := by ring
    rw [e]
    apply div_lt_div_of_pos_right _ (by norm_num)
    exact mul_lt_mul_of_pos_left hexp (mul_pos hA hcos)
  -- On an interval of length zero `evalSensitivityMean` has no value: `1e9` is
  -- divided by `maxHeight - minHeight = 0`.
  have evalSensitivityMean_degenerate (m : ℤ) (tao shift : Spectrum) (h : ℝ) :
      evalSensitivityMean m tao shift h h = none := by
    have h0 : fdiv 1e9 (h - h) = none := by dsimp only [fdiv]; simp
    unfold evalSensitivityMean
    simp only [h0, Option.bind_eq_bind, Option.none_bind, bind_const_none]
  -- The function `evalSensitivityMean` returns a value on an interval of length other
  -- than zero when the order `m` and every reduced thickness are other than zero.
  have evalSensitivityMean_isSome (m : ℤ) (tao shift : Spectrum) (a b : ℝ) (hm : m ≠ 0)
      (ht : ∀ i, tao i ≠ 0) (hab : a ≠ b) : ∃ v, evalSensitivityMean m tao shift a b = some v := by
    have hm' : (m : ℝ) ≠ 0 := Int.cast_ne_zero.2 hm
    have hB : ∀ i, 2 * Real.pi * m * tao i * _pos i ≠ 0 := fun i =>
      mul_ne_zero (mul_ne_zero (mul_ne_zero (mul_ne_zero two_ne_zero Real.pi_ne_zero) hm') (ht i))
        (_pos_ne_zero i)
    have hBx : 2 * Real.pi * m * tao 0 * 2.2399e+06 ≠ 0 :=
      mul_ne_zero (mul_ne_zero (mul_ne_zero (mul_ne_zero two_ne_zero Real.pi_ne_zero) hm') (ht 0))
        (by norm_num)
    have hint : ∀ A B C K s d : ℝ, B ≠ 0 →
        ∃ v, evalSensitivityMean.integrate A B C K s d = some v := by
      intro A B C K s d hB
      unfold evalSensitivityMean.integrate
      simp only [fdiv_eq_some hB, Option.bind_eq_bind, Option.some_bind, pure]
      exact ⟨_, rfl⟩
    have hch : ∀ d : ℝ, ∃ v : Spectrum, (collectChannels fun i => evalSensitivityMean.integrate
        (_val i * Real.sqrt (2 * Real.pi * _var i) / 1.0685e-7)
        (2 * Real.pi * m * tao i * _pos i)
        (Real.pi * m * tao i * (2 * (Real.pi * m * tao i) * _var i))
        (_var i / (2 * sqr (_pos i))) (shift i) d) = some v := by
      intro d
      choose v hv using fun i => hint (_val i * Real.sqrt (2 * Real.pi * _var i) / 1.0685e-7)
        (2 * Real.pi * m * tao i * _pos i)
        (Real.pi * m * tao i * (2 * (Real.pi * m * tao i) * _var i))
        (_var i / (2 * sqr (_pos i))) (shift i) d (hB i)
      exact ⟨v, collectChannels_eq_some.2 hv⟩
    obtain ⟨hi, hhi⟩ := hch (b * 1.0e-9)
    obtain ⟨lo, hlo⟩ := hch (a * 1.0e-9)
    obtain ⟨hiX, hhiX⟩ := hint (6.8922e-14 * Real.sqrt (2 * Real.pi * 9.0564e+09) / 1.0685e-7)
      (2 * Real.pi * m * tao 0 * 2.2399e+06)
      (Real.pi * m * tao 0 * (2 * (Real.pi * m * tao 0) * 9.0564e+09))
      (9.0564e+09 / (2 * sqr 2.2399e+06)) (shift 0) (b * 1.0e-9) hBx
    obtain ⟨loX, hloX⟩ := hint (6.8922e-14 * Real.sqrt (2 * Real.pi * 9.0564e+09) / 1.0685e-7)
      (2 * Real.pi * m * tao 0 * 2.2399e+06)
      (Real.pi * m * tao 0 * (2 * (Real.pi * m * tao 0) * 9.0564e+09))
      (9.0564e+09 / (2 * sqr 2.2399e+06)) (shift 0) (a * 1.0e-9) hBx
    unfold evalSensitivityMean
    simp only [hhi, hlo, hhiX, hloX, fdiv_eq_some (sub_ne_zero.2 hab.symm), Option.bind_eq_bind,
      Option.some_bind, pure]
    exact ⟨_, rfl⟩
  -- The function `evalSensitivitySquare` returns a value on an interval of length other
  -- than zero when no reduced thickness is zero.
  have evalSensitivitySquare_isSome (tao shift : Spectrum) (a b : ℝ) (ht : ∀ i, tao i ≠ 0)
      (hab : a ≠ b) : ∃ v, evalSensitivitySquare tao shift a b = some v := by
    have hB : ∀ i, 2 * Real.pi * tao i * _pos i ≠ 0 := fun i =>
      mul_ne_zero (mul_ne_zero (mul_ne_zero two_ne_zero Real.pi_ne_zero) (ht i)) (_pos_ne_zero i)
    have hBx : 2 * Real.pi * tao 0 * 2.2399e+06 ≠ 0 :=
      mul_ne_zero (mul_ne_zero (mul_ne_zero two_ne_zero Real.pi_ne_zero) (ht 0)) (by norm_num)
    have hint : ∀ A B C K s d : ℝ, B ≠ 0 →
        ∃ v, evalSensitivitySquare.integrate A B C K s d = some v := by
      intro A B C K s d hB
      unfold evalSensitivitySquare.integrate
      simp only [fdiv_eq_some (mul_ne_zero two_ne_zero hB),
        fdiv_eq_some (mul_ne_zero (four_ne_zero' ℝ) hB), Option.bind_eq_bind, Option.some_bind, pure]
      exact ⟨_, rfl⟩
    have hch : ∀ d : ℝ, ∃ v : Spectrum, (collectChannels fun i => evalSensitivitySquare.integrate
        (2 * Real.pi * _var i * (_val i / 1.0685e-7) * (_val i / 1.0685e-7))
        (2 * Real.pi * tao i * _pos i) (Real.pi * tao i * (4 * (Real.pi * tao i) * _var i))
        (_var i / sqr (_pos i)) (shift i) d) = some v := by
      intro d
      choose v hv using fun i => hint (2 * Real.pi * _var i * (_val i / 1.0685e-7) * (_val i / 1.0685e-7))
        (2 * Real.pi * tao i * _pos i) (Real.pi * tao i * (4 * (Real.pi * tao i) * _var i))
        (_var i / sqr (_pos i)) (shift i) d (hB i)
      exact ⟨v, collectChannels_eq_some.2 hv⟩
    obtain ⟨hi, hhi⟩ := hch (b * 1.0e-9)
    obtain ⟨lo, hlo⟩ := hch (a * 1.0e-9)
    obtain ⟨hiX, hhiX⟩ := hint
      (2 * Real.pi * 9.0564e+09 * (6.8922e-14 / 1.0685e-7) * (6.8922e-14 / 1.0685e-7))
      (2 * Real.pi * tao 0 * 2.2399e+06) (Real.pi * tao 0 * (4 * (Real.pi * tao 0) * 9.0564e+09))
      (9.0564e+09 / sqr 2.2399e+06) (shift 0) (b * 1.0e-9) hBx
    obtain ⟨loX, hloX⟩ := hint
      (2 * Real.pi * 9.0564e+09 * (6.8922e-14 / 1.0685e-7) * (6.8922e-14 / 1.0685e-7))
      (2 * Real.pi * tao 0 * 2.2399e+06) (Real.pi * tao 0 * (4 * (Real.pi * tao 0) * 9.0564e+09))
      (9.0564e+09 / sqr 2.2399e+06) (shift 0) (a * 1.0e-9) hBx
    unfold evalSensitivitySquare
    simp only [hhi, hlo, hhiX, hloX, fdiv_eq_some (sub_ne_zero.2 hab.symm), Option.bind_eq_bind,
      Option.some_bind, pure]
    exact ⟨_, rfl⟩
  exact ⟨@tabulatedChannel_eq, @sqrt_two_pi_var_bounds, @evalSensitivity_gaussian_zero,
    @evalSensitivity_tabulated_zero, @evalSensitivity_gaussian, @evalSensitivityTaylor_continuous,
    @evalSensitivity_gaussian_continuous, @exp_neg_lt_taylor, @evalSensitivity_gaussian_lt_taylor,
    @evalSensitivityMean_degenerate, @evalSensitivityMean_isSome, @evalSensitivitySquare_isSome⟩

/-- Claim C10: in tabulated mode, for every `OPD ≥ 0` and every channel, with
`u = (2π·OPD/30000)·511`: the channel is `0` when `u ≥ 512`, and otherwise it is
`cos(shift)·re[⌊u⌋] + sin(shift)·im[⌊u⌋]` read from the channel's own two tables
(X, Y, Z), the index `⌊u⌋` lying in `0..511`. -/
theorem evalSensitivity_tabulated (OPD shift : Spectrum) (hOPD : ∀ c, 0 ≤ OPD c) :
    ∃ xyz, evalSensitivity OPD shift false = some xyz ∧
      tabulatedChannelSpec rShX iShX (OPD 0) (shift 0) (xyz 0) ∧
      tabulatedChannelSpec rShY iShY (OPD 1) (shift 1) (xyz 1) ∧
      tabulatedChannelSpec rShZ iShZ (OPD 2) (shift 2) (xyz 2) := by
  obtain ⟨tabulatedChannel_eq, -, -, -, -, -, -, -, -, -, -, -⟩ := sensitivity_lemmas
  obtain ⟨hrx, hix, hry, hiy, hrz, hiz⟩ := table_lengths
  obtain ⟨x, hx, hx'⟩ := tabulatedChannel_eq rShX iShX hrx hix (OPD 0) (shift 0) (hOPD 0)
  obtain ⟨y, hy, hy'⟩ := tabulatedChannel_eq rShY iShY hry hiy (OPD 1) (shift 1) (hOPD 1)
  obtain ⟨z, hz, hz'⟩ := tabulatedChannel_eq rShZ iShZ hrz hiz (OPD 2) (shift 2) (hOPD 2)
  refine ⟨![x, y, z], ?_, hx', hy', hz'⟩
  unfold evalSensitivity
  simp only [Bool.false_eq_true, if_false, hx, hy, hz, Option.bind_eq_bind, Option.some_bind, pure]

theorem evalSensitivity_tabulated_witness :
    (∀ c, (0 : ℝ) ≤ (fun _ => 100 : Spectrum) c) ∧
    ∃ xyz, evalSensitivity (fun _ => 100) (fun _ => 0) false = some xyz ∧
      tabulatedChannelSpec rShX iShX 100 0 (xyz 0) ∧
      tabulatedChannelSpec rShY iShY 100 0 (xyz 1) ∧
      tabulatedChannelSpec rShZ iShZ 100 0 (xyz 2) :=
  ⟨fun _ => by norm_num,
    evalSensitivity_tabulated (fun _ => 100) (fun _ => 0) (fun _ => by norm_num)⟩

/-! ### The two sensitivity modes at zero path difference -/

/-- Claim C9, as the code has it: at `OPD = 0` and `shift = 0` the tabulated mode
gives 1 in every channel, and the Gaussian-fit mode, `val·sqrt(2π·var)/1.0685e-7`
plus the correction of the first channel, agrees with it within `1e-3` relative
error in the first two channels and within `1.2e-3` in the third. -/
theorem evalSensitivity_modes_at_zero :
    ∃ g t : Spectrum, evalSensitivity 0 0 true = some g ∧ evalSensitivity 0 0 false = some t ∧
      (∀ c, t c = 1) ∧
      g = ![(3.8789e-13 * Real.sqrt (2 * Real.pi * 8.6556e+09) +
              6.8922e-14 * Real.sqrt (2 * Real.pi * 9.0564e+09)) / 1.0685e-7,
            3.1255e-13 * Real.sqrt (2 * Real.pi * 1.8609e+10) / 1.0685e-7,
            3.7110e-13 * Real.sqrt (2 * Real.pi * 1.3224e+10) / 1.0685e-7] ∧
      |g 0 - t 0| ≤ 1e-3 * |t 0| ∧ |g 1 - t 1| ≤ 1e-3 * |t 1| ∧
      |g 2 - t 2| ≤ 1.2e-3 * |t 2| := by
  obtain ⟨-, sqrt_two_pi_var_bounds, evalSensitivity_gaussian_zero, evalSensitivity_tabulated_zero,
      -, -, -, -, -, -, -, -⟩ := sensitivity_lemmas
  obtain ⟨⟨a1, a2⟩, ⟨b1, b2⟩, ⟨c1, c2⟩, ⟨d1, d2⟩⟩ := sqrt_two_pi_var_bounds
  refine ⟨_, _, evalSensitivity_gaussian_zero, evalSensitivity_tabulated_zero, ?_, rfl,
    ?_, ?_, ?_⟩
  all_goals generalize Real.sqrt (2 * Real.pi * 8.6556e+09) = s1 at *
  all_goals generalize Real.sqrt (2 * Real.pi * 9.0564e+09) = s2 at *
  all_goals generalize Real.sqrt (2 * Real.pi * 1.8609e+10) = s3 at *
  all_goals generalize Real.sqrt (2 * Real.pi * 1.3224e+10) = s4 at *
  · intro c
    fin_cases c <;> rfl
  · simp only [Matrix.cons_val_zero, abs_one, mul_one]
    rw [abs_le]
    constructor
    · rw [le_sub_iff_add_le, le_div_iff₀ (by norm_num)]
      norm_num
      linarith
    · rw [sub_le_iff_le_add, div_le_iff₀ (by norm_num)]
      norm_num
      linarith
  · simp only [Matrix.cons_val_one, Matrix.head_cons, abs_one, mul_one]
    rw [abs_le]
    constructor
    · rw [le_sub_iff_add_le, le_div_iff₀ (by norm_num)]
      norm_num
      linarith
    · rw [sub_le_iff_le_add, div_le_iff₀ (by norm_num)]
      norm_num
      linarith
  · simp only [Matrix.cons_val_two, Matrix.tail_cons, Matrix.head_cons, abs_one, mul_one]
    rw [abs_le]
    constructor
    · rw [le_sub_iff_add_le, le_div_iff₀ (by norm_num)]
      norm_num
      linarith
    · rw [sub_le_iff_le_add, div_le_iff₀ (by norm_num)]
      norm_num
      linarith

/-- Claim C9 fails in the third channel: at `OPD = 0`, `shift = 0` the Gaussian-fit
value of channel Z exceeds the tabulated value 1 by more than `1e-3`, relative to
either of the two values. -/
theorem evalSensitivity_modes_Z_gap :
    ∃ g t : Spectrum, evalSensitivity 0 0 true = some g ∧ evalSensitivity 0 0 false = some t ∧
      1e-3 * |t 2| < |g 2 - t 2| ∧ 1e-3 * |g 2| < |g 2 - t 2| := by
  obtain ⟨-, sqrt_two_pi_var_bounds, evalSensitivity_gaussian_zero, evalSensitivity_tabulated_zero,
      -, -, -, -, -, -, -, -⟩ := sensitivity_lemmas
  obtain ⟨-, -, -, ⟨d1, d2⟩⟩ := sqrt_two_pi_var_bounds
  refine ⟨_, _, evalSensitivity_gaussian_zero, evalSensitivity_tabulated_zero, ?_, ?_⟩
  all_goals generalize Real.sqrt (2 * Real.pi * 1.3224e+10) = s4 at *
  · simp only [Matrix.cons_val_two, Matrix.tail_cons, Matrix.head_cons, abs_one, mul_one]
    have h : (1 : ℝ) + 1e-3 < 3.7110e-13 * s4 / 1.0685e-7 := by
      rw [lt_div_iff₀ (by norm_num)]
      norm_num
      linarith
    rw [abs_of_pos (by linarith)]
    linarith
  · simp only [Matrix.cons_val_two, Matrix.tail_cons, Matrix.head_cons]
    have h : (1 : ℝ) + 1.1e-3 < 3.7110e-13 * s4 / 1.0685e-7 := by
      rw [lt_div_iff₀ (by norm_num)]
      norm_num
      linarith
    have h' : 3.7110e-13 * s4 / 1.0685e-7 < (1 : ℝ) + 1.2e-3 := by
      rw [div_lt_iff₀ (by norm_num)]
      norm_num
      linarith
    rw [abs_of_pos (by linarith), abs_of_pos (by linarith)]
    linarith

/-! ### The iridescence term -/

/-- Claim C1: whatever the incidence cosine, the parameters, the mode (antialiased
harmonic sum or Airy sum) and the content of the uninitialised spectra, every
channel of the spectrum returned by `IridescenceTerm` is `≥ 0`. -/
theorem IridescenceTerm_nonneg (ct1 : ℝ) (params : IridescenceParams)
    (uninit : Fin 3 → InterfaceSample) (I : Spectrum)
    (h : IridescenceTerm ct1 params uninit = some I) (i : Fin 3) : 0 ≤ I i := by
  unfold IridescenceTerm at h
  simp only [Option.bind_eq_bind, Option.bind_eq_some] at h
  obtain ⟨ifc, -, ph21, -, ph23, -, r123p, -, r123s, -, h⟩ := h
  split at h
  · simp only [Option.bind_eq_bind, Option.bind_eq_some, pure, Option.some.injEq] at h
    obtain ⟨I1, -, I2, -, rfl⟩ := h
    exact mul_nonneg (by norm_num) (le_max_left _ _)
  · simp only [Option.bind_eq_bind, Option.bind_eq_some, pure, Option.some.injEq] at h
    obtain ⟨Dphi, -, Ip, -, Is, -, rfl⟩ := h
    exact mul_nonneg (by norm_num) (le_max_left _ _)

set_option maxHeartbeats 1000000 in
/-- The anti-aliased branch of IridescenceTerm and IridescenceMean: the harmonics, the
colour matrix with its clamp, the example under total internal reflection, and what
the two functions return. -/
theorem antialiased_lemmas :
    (IridescenceTerm 0
        { height := fun _ => 0, eta1 := fun _ => 2, eta2 := fun _ => 1, eta3 := fun _ => 1,
          kappa3 := fun _ => 0, wavelengths := fun _ => 1, spectralAntialiasing := false,
          useGaussianFit := false }
        (fun _ => ⟨0, 0, 0, 0, 0, 0, 0⟩) = some (fun _ => 1)) ∧
    (∀ (R12 T121 R23 r123 D phi : Spectrum) (g : Bool)
      (I J : Spectrum),
      harmonicTerm R12 T121 R23 r123 D phi g I = some J ↔
        ∃ Rs S1 S2 : Spectrum,
          Spectrum.cdiv (fun i => sqr (T121 i) * R23 i) (1 - R12 * R23) = some Rs ∧
          evalSensitivity (fun i => 1 * D i) (fun i => 1 * phi i) g = some S1 ∧
          evalSensitivity (fun i => 2 * D i) (fun i => 2 * phi i) g = some S2 ∧
          J = fun i => I i + (R12 i + Rs i) + (Rs i - T121 i) * r123 i ^ 1 * (2 * S1 i) +
            (Rs i - T121 i) * r123 i ^ 2 * (2 * S2 i)) ∧
    (∀ (I : Spectrum) (x y z : ℝ) (_ : x = I 0) (_ : y = I 1)
      (_ : z = I 2),
      (fun i => 0.5 * Spectrum.clampNegative
        ![2.3646381 * x - 0.8965361 * y - 0.4680737 * z,
          -0.5151664 * x + 1.4264000 * y + 0.0887608 * z,
          0.0052037 * x - 0.0144081 * y + 1.0092106 * z] i) =
      fun c => 0.5 * max 0 (Matrix.mulVec
            !![2.3646381, -0.8965361, -0.4680737;
               -0.5151664, 1.4264000, 0.0887608;
               0.0052037, -0.0144081, 1.0092106] I c)) ∧
    (∀ (ct1 : ℝ) (params : IridescenceParams)
      (uninit : Fin 3 → InterfaceSample) (v : Spectrum)
      (_ : params.spectralAntialiasing = true),
      IridescenceTerm ct1 params uninit = some v ↔
        ∃ (ifc : Fin 3 → InterfaceSample) (ph21 ph23 : Spectrum × Spectrum)
          (r123p r123s Rsp Rss S1p S2p S1s S2s : Spectrum),
          (collectChannels fun i => interfaceChannel ct1 (params.eta1 i) (params.eta2 i)
            (params.eta3 i) (params.kappa3 i) (uninit i)) = some ifc ∧
          fresnelPhaseExact (fun _ => ct1) (fun _ => 1) params.eta2 (fun _ => 0) = some ph21 ∧
          fresnelPhaseExact (fun i => (ifc i).ct2) params.eta2 params.eta3 params.kappa3 =
            some ph23 ∧
          (∀ i, 0 ≤ (ifc i).R12p * (ifc i).R23p ∧
            r123p i = Real.sqrt ((ifc i).R12p * (ifc i).R23p)) ∧
          (∀ i, 0 ≤ (ifc i).R12s * (ifc i).R23s ∧
            r123s i = Real.sqrt ((ifc i).R12s * (ifc i).R23s)) ∧
          (∀ i, 1 - (ifc i).R12p * (ifc i).R23p ≠ 0 ∧
            Rsp i = (ifc i).T121p ^ 2 * (ifc i).R23p / (1 - (ifc i).R12p * (ifc i).R23p)) ∧
          (∀ i, 1 - (ifc i).R12s * (ifc i).R23s ≠ 0 ∧
            Rss i = (ifc i).T121s ^ 2 * (ifc i).R23s / (1 - (ifc i).R12s * (ifc i).R23s)) ∧
          evalSensitivity (fun i => 1 * (2 * params.eta2 i * params.height 0 * (ifc i).ct2))
            (fun i => 1 * (ph23.1 i + (Real.pi - ph21.1 i))) params.useGaussianFit = some S1p ∧
          evalSensitivity (fun i => 2 * (2 * params.eta2 i * params.height 0 * (ifc i).ct2))
            (fun i => 2 * (ph23.1 i + (Real.pi - ph21.1 i))) params.useGaussianFit = some S2p ∧
          evalSensitivity (fun i => 1 * (2 * params.eta2 i * params.height 0 * (ifc i).ct2))
            (fun i => 1 * (ph23.2 i + (Real.pi - ph21.2 i))) params.useGaussianFit = some S1s ∧
          evalSensitivity (fun i => 2 * (2 * params.eta2 i * params.height 0 * (ifc i).ct2))
            (fun i => 2 * (ph23.2 i + (Real.pi - ph21.2 i))) params.useGaussianFit = some S2s ∧
          v = fun c => 0.5 * max 0 (Matrix.mulVec
            !![2.3646381, -0.8965361, -0.4680737;
               -0.5151664, 1.4264000, 0.0887608;
               0.0052037, -0.0144081, 1.0092106]
            (fun i =>
              (((ifc i).R12p + Rsp i) + (Rsp i - (ifc i).T121p) * r123p i ^ 1 * (2 * S1p i) +
                (Rsp i - (ifc i).T121p) * r123p i ^ 2 * (2 * S2p i)) +
              (((ifc i).R12s + Rss i) + (Rss i - (ifc i).T121s) * r123s i ^ 1 * (2 * S1s i) +
                (Rss i - (ifc i).T121s) * r123s i ^ 2 * (2 * S2s i))) c)) ∧
    (∀ (eta3 kappa3 : ℝ) (u : InterfaceSample),
      interfaceChannel 0 2 1 eta3 kappa3 u =
        some { u with R12s := 1, R12p := 1, T121p := 0, T121s := 0 }) ∧
    ((collectChannels fun i : Fin 3 => interfaceChannel 0 ((fun _ => 2 : Spectrum) i)
          ((fun _ => 1 : Spectrum) i) ((fun _ => 1 : Spectrum) i) ((fun _ => 0 : Spectrum) i)
          ((fun _ => ⟨0, 0, 0, 0, 0, 0, 1⟩ : Fin 3 → InterfaceSample) i)) =
        some (fun _ => ⟨1, 0, 0, 1, 0, 0, 1⟩) ∧
      fresnelPhaseExact (fun _ => 0) (fun _ => 1) (fun _ => 1) (fun _ => 0) =
        some (fun _ => 0, fun _ => 0) ∧
      fresnelPhaseExact (fun _ => 1) (fun _ => 1) (fun _ => 1) (fun _ => 0) =
        some (fun _ => 0, fun _ => 0)) ∧
    (IridescenceTerm 0
        { height := fun _ => 400, eta1 := fun _ => 2, eta2 := fun _ => 1, eta3 := fun _ => 1,
          kappa3 := fun _ => 0, wavelengths := fun _ => 1, spectralAntialiasing := true,
          useGaussianFit := true }
        (fun _ => ⟨0, 0, 0, 0, 0, 0, 1⟩) = some ![1.0000283, 0.9999944, 1.0000062]) ∧
    (∀ {R12 T121 R23 r123 tao phi : Spectrum} {a b : ℝ}
      {I V : Spectrum} {r : Spectrum × Spectrum},
      meanVarianceTerm R12 T121 R23 r123 tao phi a b I V = some r ↔
      ∃ Rs mean meanSquare : Spectrum,
        (∀ i, 1 - R12 i * R23 i ≠ 0 ∧ Rs i = sqr (T121 i) * R23 i / (1 - R12 i * R23 i)) ∧
        evalSensitivityMean 1 tao phi a b = some mean ∧
        evalSensitivitySquare tao phi a b = some meanSquare ∧
        r = (fun i => I i + (R12 i + Rs i) + (Rs i - T121 i) * r123 i * (2 * mean i),
          fun i => V i + 4 * ((Rs i - T121 i) * r123 i) * ((Rs i - T121 i) * r123 i) *
            (meanSquare i - mean i * mean i))) ∧
    (∀ (ct1 : ℝ) (params : IridescenceParams)
      (minHeight maxHeight : ℝ) (uninit : Fin 3 → InterfaceSample) (I V : Spectrum)
      (_ : params.spectralAntialiasing = true),
      IridescenceMean ct1 params minHeight maxHeight uninit = some (I, V) ↔
        ∃ (ifc : Fin 3 → InterfaceSample) (ph21 ph23 : Spectrum × Spectrum)
          (r123p r123s Rsp Rss meanp sqp means sqs : Spectrum),
          collectChannels (fun i => interfaceChannel ct1 (params.eta1 i) (params.eta2 i)
            (params.eta3 i) (params.kappa3 i) (uninit i)) = some ifc ∧
          fresnelPhaseExact (fun _ => ct1) (fun _ => 1) params.eta2 (fun _ => 0) = some ph21 ∧
          fresnelPhaseExact (fun i => (ifc i).ct2) params.eta2 params.eta3 params.kappa3
            = some ph23 ∧
          (∀ i, 0 ≤ (ifc i).R12p * (ifc i).R23p ∧
            r123p i = Real.sqrt ((ifc i).R12p * (ifc i).R23p)) ∧
          (∀ i, 0 ≤ (ifc i).R12s * (ifc i).R23s ∧
            r123s i = Real.sqrt ((ifc i).R12s * (ifc i).R23s)) ∧
          (∀ i, 1 - (ifc i).R12p * (ifc i).R23p ≠ 0 ∧
            Rsp i = sqr (ifc i).T121p * (ifc i).R23p / (1 - (ifc i).R12p * (ifc i).R23p)) ∧
          (∀ i, 1 - (ifc i).R12s * (ifc i).R23s ≠ 0 ∧
            Rss i = sqr (ifc i).T121s * (ifc i).R23s / (1 - (ifc i).R12s * (ifc i).R23s)) ∧
          evalSensitivityMean 1 (fun i => 2 * params.eta2 i * (ifc i).ct2)
            (fun i => ph23.1 i + (Real.pi - ph21.1 i)) minHeight maxHeight = some meanp ∧
          evalSensitivitySquare (fun i => 2 * params.eta2 i * (ifc i).ct2)
            (fun i => ph23.1 i + (Real.pi - ph21.1 i)) minHeight maxHeight = some sqp ∧
          evalSensitivityMean 1 (fun i => 2 * params.eta2 i * (ifc i).ct2)
            (fun i => ph23.2 i + (Real.pi - ph21.2 i)) minHeight maxHeight = some means ∧
          evalSensitivitySquare (fun i => 2 * params.eta2 i * (ifc i).ct2)
            (fun i => ph23.2 i + (Real.pi - ph21.2 i)) minHeight maxHeight = some sqs ∧
          I = (fun i => 0.5 * max 0
            ((((ifc i).R12p + Rsp i) + (Rsp i - (ifc i).T121p) * r123p i * (2 * meanp i)) +
              (((ifc i).R12s + Rss i) + (Rss i - (ifc i).T121s) * r123s i * (2 * means i)))) ∧
          V = fun i => 0.5 * max 0
            (4 * ((Rsp i - (ifc i).T121p) * r123p i) * ((Rsp i - (ifc i).T121p) * r123p i) *
                (sqp i - meanp i * meanp i) +
              4 * ((Rss i - (ifc i).T121s) * r123s i) * ((Rss i - (ifc i).T121s) * r123s i) *
                (sqs i - means i * means i))) ∧
    (∀ (ct1 : ℝ) (params : IridescenceParams) (h : ℝ)
      (uninit : Fin 3 → InterfaceSample) (_ : params.spectralAntialiasing = true),
      IridescenceMean ct1 params h h uninit = none) ∧
    (IridescenceMean 0
        { height := fun _ => 400, eta1 := fun _ => 2, eta2 := fun _ => 1, eta3 := fun _ => 1,
          kappa3 := fun _ => 0, wavelengths := fun _ => 1, spectralAntialiasing := true,
          useGaussianFit := true }
        380 420 (fun _ => ⟨0, 0, 0, 0, 0, 0, 1⟩) = some (fun _ => 1, fun _ => 0)) ∧
    (∀ (x y z : ℝ),
      (![2.3646381 * x - 0.8965361 * y - 0.4680737 * z,
          -0.5151664 * x + 1.4264000 * y + 0.0887608 * z,
          0.0052037 * x - 0.0144081 * y + 1.0092106 * z] : Spectrum) =
        Matrix.mulVec
          !![2.3646381, -0.8965361, -0.4680737;
             -0.5151664, 1.4264000, 0.0887608;
             0.0052037, -0.0144081, 1.0092106] ![x, y, z]) ∧
    (∀ (ct1 : ℝ) (params : IridescenceParams)
      (uninit : Fin 3 → InterfaceSample) (v : Spectrum)
      (_ : params.spectralAntialiasing = true)
      (_ : IridescenceTerm ct1 params uninit = some v),
      ∃ (ifc : Fin 3 → InterfaceSample) (ph21 ph23 : Spectrum × Spectrum)
        (r123p r123s Ip I : Spectrum),
        (collectChannels fun i => interfaceChannel ct1 (params.eta1 i) (params.eta2 i)
          (params.eta3 i) (params.kappa3 i) (uninit i)) = some ifc ∧
        fresnelPhaseExact (fun _ => ct1) (fun _ => 1) params.eta2 (fun _ => 0) = some ph21 ∧
        fresnelPhaseExact (fun i => (ifc i).ct2) params.eta2 params.eta3 params.kappa3 =
          some ph23 ∧
        Spectrum.csqrt ((fun i => (ifc i).R12p) * fun i => (ifc i).R23p) = some r123p ∧
        Spectrum.csqrt ((fun i => (ifc i).R12s) * fun i => (ifc i).R23s) = some r123s ∧
        harmonicTerm (fun i => (ifc i).R12p) (fun i => (ifc i).T121p) (fun i => (ifc i).R23p)
          r123p (fun i => 2 * params.eta2 i * params.height 0 * (ifc i).ct2)
          (ph23.1 + fun i => Real.pi - ph21.1 i) params.useGaussianFit 0 = some Ip ∧
        harmonicTerm (fun i => (ifc i).R12s) (fun i => (ifc i).T121s) (fun i => (ifc i).R23s)
          r123s (fun i => 2 * params.eta2 i * params.height 0 * (ifc i).ct2)
          (ph23.2 + fun i => Real.pi - ph21.2 i) params.useGaussianFit Ip = some I ∧
        v = fun c => 0.5 * Spectrum.clampNegative (Matrix.mulVec
          !![2.3646381, -0.8965361, -0.4680737;
             -0.5151664, 1.4264000, 0.0887608;
             0.0052037, -0.0144081, 1.0092106] ![I 0, I 1, I 2]) c) := by
  obtain ⟨-, -, Spectrum_cdiv_eq_some, Spectrum_csqrt_eq_some, -, -, -, -, -,
      Spectrum_cdiv_eq_some_iff, Spectrum_csqrt_eq_some_iff, -, -⟩ := checked_arithmetic
  obtain ⟨atan2_zero_of_nonneg, fresnelPhaseExact_eq_some, fresnelPhaseExact1_zero,
      fresnelPhaseExact1_one, -, -, -, -, -, -, -⟩ := phase_lemmas
  obtain ⟨-, -, -, -, evalSensitivity_gaussian, -, -, -, -, evalSensitivityMean_degenerate,
      evalSensitivityMean_isSome, evalSensitivitySquare_isSome⟩ := sensitivity_lemmas
  -- A total-internal-reflection input on which the Airy branch of
  -- `IridescenceTerm` returns the spectrum `(1, 1, 1)`.
  have IridescenceTerm_tir_example :
      IridescenceTerm 0
        { height := fun _ => 0, eta1 := fun _ => 2, eta2 := fun _ => 1, eta3 := fun _ => 1,
          kappa3 := fun _ => 0, wavelengths := fun _ => 1, spectralAntialiasing := false,
          useGaussianFit := false }
        (fun _ => ⟨0, 0, 0, 0, 0, 0, 0⟩) = some (fun _ => 1) := by
    have hchan : interfaceChannel 0 2 1 1 0 ⟨0, 0, 0, 0, 0, 0, 0⟩ = some ⟨1, 0, 0, 1, 0, 0, 0⟩ := by
      have h : fdiv 2 1 = some 2 := by dsimp only [fdiv]; simp
      have h2 : (1 : ℝ) - (1 - sqr 0) * sqr 2 ≤ 0 := by dsimp only [sqr]; norm_num
      unfold interfaceChannel
      simp only [h, Option.bind_eq_bind, Option.some_bind, h2, if_true, pure]
    have hph : fresnelPhaseExact1 0 1 1 0 = some ⟨0, 0⟩ := by
      have h0 : fsqrt 0 = some 0 := by unfold fsqrt; simp
      unfold fresnelPhaseExact1
      dsimp only [sqr]
      simp [h0, atan2_zero_of_nonneg]
    have hifc := collectChannels_eq_some.2 (fun (_ : Fin 3) => hchan)
    have hph1 := @fresnelPhaseExact_eq_some (fun _ => 0) (fun _ => 1) (fun _ => 1) (fun _ => 0)
      (fun _ => ⟨0, 0⟩) (fun _ => hph)
    unfold IridescenceTerm
    simp only [hifc, hph1, Option.bind_eq_bind, Option.some_bind]
    rw [Spectrum_csqrt_eq_some (by intro i; simp)]
    simp only [Option.some_bind, Bool.false_eq_true, if_false]
    rw [Spectrum_cdiv_eq_some (by intro i; norm_num)]
    unfold airyTerm
    simp only [Option.some_bind, Option.bind_eq_bind]
    rw [Spectrum_cdiv_eq_some (by intro i; simp)]
    simp only [Option.some_bind]
    rw [Spectrum_cdiv_eq_some (by intro i; dsimp only [sqr]; simp)]
    simp only [Option.some_bind, pure, Option.some.injEq]
    funext i
    dsimp only [sqr]
    simp [Spectrum.clampNegative]
    norm_num
  -- What one call of `harmonicTerm` adds to `I`: the harmonic 0 and the harmonics
  -- `m = 1` and `m = 2`.
  have harmonicTerm_eq_some (R12 T121 R23 r123 D phi : Spectrum) (g : Bool)
      (I J : Spectrum) :
      harmonicTerm R12 T121 R23 r123 D phi g I = some J ↔
        ∃ Rs S1 S2 : Spectrum,
          Spectrum.cdiv (fun i => sqr (T121 i) * R23 i) (1 - R12 * R23) = some Rs ∧
          evalSensitivity (fun i => 1 * D i) (fun i => 1 * phi i) g = some S1 ∧
          evalSensitivity (fun i => 2 * D i) (fun i => 2 * phi i) g = some S2 ∧
          J = fun i => I i + (R12 i + Rs i) + (Rs i - T121 i) * r123 i ^ 1 * (2 * S1 i) +
            (Rs i - T121 i) * r123 i ^ 2 * (2 * S2 i) := by
    unfold harmonicTerm
    simp only [Option.bind_eq_bind, Option.bind_eq_some, pure, Option.some.injEq]
    constructor
    · rintro ⟨Rs, hRs, S1, hS1, S2, hS2, rfl⟩
      refine ⟨Rs, S1, S2, hRs, hS1, hS2, ?_⟩
      funext i
      simp only [Pi.add_apply, Pi.mul_apply, Pi.sub_apply, Pi.one_apply]
      ring
    · rintro ⟨Rs, S1, S2, hRs, hS1, hS2, rfl⟩
      refine ⟨Rs, hRs, S1, hS1, S2, hS2, ?_⟩
      funext i
      simp only [Pi.add_apply, Pi.mul_apply, Pi.sub_apply, Pi.one_apply]
      ring
  -- Lines 444-450 are the product by the matrix of the conversion, followed by
  -- the clamp.
  have xyz_to_rgb_clamp (I : Spectrum) (x y z : ℝ) (hx : x = I 0) (hy : y = I 1)
      (hz : z = I 2) :
      (fun i => 0.5 * Spectrum.clampNegative
        ![2.3646381 * x - 0.8965361 * y - 0.4680737 * z,
          -0.5151664 * x + 1.4264000 * y + 0.0887608 * z,
          0.0052037 * x - 0.0144081 * y + 1.0092106 * z] i) =
      fun c => 0.5 * max 0 (Matrix.mulVec
            !![2.3646381, -0.8965361, -0.4680737;
               -0.5151664, 1.4264000, 0.0887608;
               0.0052037, -0.0144081, 1.0092106] I c) := by
    subst hx hy hz
    funext c
    have h : ∀ x y : ℝ, x = y → 0.5 * max 0 x = 0.5 * max 0 y := fun x y h => by rw [h]
    fin_cases c
    · apply h
      simp only [Matrix.mulVec, Matrix.dotProduct, Fin.sum_univ_three]
      simp
      ring
    · apply h
      simp only [Matrix.mulVec, Matrix.dotProduct, Fin.sum_univ_three]
      simp
    · apply h
      simp only [Matrix.mulVec, Matrix.dotProduct, Fin.sum_univ_three]
      simp
      ring
  -- What `IridescenceTerm` returns with `spectralAntialiasing` set.
  have IridescenceTerm_harmonics_iff (ct1 : ℝ) (params : IridescenceParams)
      (uninit : Fin 3 → InterfaceSample) (v : Spectrum)
      (hAA : params.spectralAntialiasing = true) :
      IridescenceTerm ct1 params uninit = some v ↔
        ∃ (ifc : Fin 3 → InterfaceSample) (ph21 ph23 : Spectrum × Spectrum)
          (r123p r123s Rsp Rss S1p S2p S1s S2s : Spectrum),
          (collectChannels fun i => interfaceChannel ct1 (params.eta1 i) (params.eta2 i)
            (params.eta3 i) (params.kappa3 i) (uninit i)) = some ifc ∧
          fresnelPhaseExact (fun _ => ct1) (fun _ => 1) params.eta2 (fun _ => 0) = some ph21 ∧
          fresnelPhaseExact (fun i => (ifc i).ct2) params.eta2 params.eta3 params.kappa3 =
            some ph23 ∧
          (∀ i, 0 ≤ (ifc i).R12p * (ifc i).R23p ∧
            r123p i = Real.sqrt ((ifc i).R12p * (ifc i).R23p)) ∧
          (∀ i, 0 ≤ (ifc i).R12s * (ifc i).R23s ∧
            r123s i = Real.sqrt ((ifc i).R12s * (ifc i).R23s)) ∧
          (∀ i, 1 - (ifc i).R12p * (ifc i).R23p ≠ 0 ∧
            Rsp i = (ifc i).T121p ^ 2 * (ifc i).R23p / (1 - (ifc i).R12p * (ifc i).R23p)) ∧
          (∀ i, 1 - (ifc i).R12s * (ifc i).R23s ≠ 0 ∧
            Rss i = (ifc i).T121s ^ 2 * (ifc i).R23s / (1 - (ifc i).R12s * (ifc i).R23s)) ∧
          evalSensitivity (fun i => 1 * (2 * params.eta2 i * params.height 0 * (ifc i).ct2))
            (fun i => 1 * (ph23.1 i + (Real.pi - ph21.1 i))) params.useGaussianFit = some S1p ∧
          evalSensitivity (fun i => 2 * (2 * params.eta2 i * params.height 0 * (ifc i).ct2))
            (fun i => 2 * (ph23.1 i + (Real.pi - ph21.1 i))) params.useGaussianFit = some S2p ∧
          evalSensitivity (fun i => 1 * (2 * params.eta2 i * params.height 0 * (ifc i).ct2))
            (fun i => 1 * (ph23.2 i + (Real.pi - ph21.2 i))) params.useGaussianFit = some S1s ∧
          evalSensitivity (fun i => 2 * (2 * params.eta2 i * params.height 0 * (ifc i).ct2))
            (fun i => 2 * (ph23.2 i + (Real.pi - ph21.2 i))) params.useGaussianFit = some S2s ∧
          v = fun c => 0.5 * max 0 (Matrix.mulVec
            !![2.3646381, -0.8965361, -0.4680737;
               -0.5151664, 1.4264000, 0.0887608;
               0.0052037, -0.0144081, 1.0092106]
            (fun i =>
              (((ifc i).R12p + Rsp i) + (Rsp i - (ifc i).T121p) * r123p i ^ 1 * (2 * S1p i) +
                (Rsp i - (ifc i).T121p) * r123p i ^ 2 * (2 * S2p i)) +
              (((ifc i).R12s + Rss i) + (Rss i - (ifc i).T121s) * r123s i ^ 1 * (2 * S1s i) +
                (Rss i - (ifc i).T121s) * r123s i ^ 2 * (2 * S2s i))) c) := by
    unfold IridescenceTerm
    simp only [hAA, if_true, Option.bind_eq_bind, Option.bind_eq_some, pure, Option.some.injEq,
      harmonicTerm_eq_some, Spectrum_cdiv_eq_some_iff, Spectrum_csqrt_eq_some_iff]
    constructor
    · rintro ⟨ifc, hifc, ph21, h21, ph23, h23, r123p, hrp, r123s, hrs, Ip,
        ⟨Rsp, S1p, S2p, hRsp, hS1p, hS2p, rfl⟩, Is, ⟨Rss, S1s, S2s, hRss, hS1s, hS2s, rfl⟩, rfl⟩
      refine ⟨ifc, ph21, ph23, r123p, r123s, Rsp, Rss, S1p, S2p, S1s, S2s, hifc, h21, h23,
        hrp, hrs, ?_, ?_, hS1p, hS2p, hS1s, hS2s, ?_⟩
      · intro i
        have := hRsp i
        dsimp only [sqr] at this ⊢
        simpa only [Pi.sub_apply, Pi.mul_apply, Pi.one_apply, pow_two] using this
      · intro i
        have := hRss i
        dsimp only [sqr] at this ⊢
        simpa only [Pi.sub_apply, Pi.mul_apply, Pi.one_apply, pow_two] using this
      · refine xyz_to_rgb_clamp _ _ _ _ ?_ ?_ ?_ <;> simp only [Pi.zero_apply, zero_add] <;> ring
    · rintro ⟨ifc, ph21, ph23, r123p, r123s, Rsp, Rss, S1p, S2p, S1s, S2s, hifc, h21, h23,
        hrp, hrs, hRsp, hRss, hS1p, hS2p, hS1s, hS2s, rfl⟩
      refine ⟨ifc, hifc, ph21, h21, ph23, h23, r123p, hrp, r123s, hrs, _,
        ⟨Rsp, S1p, S2p, ?_, hS1p, hS2p, rfl⟩, _, ⟨Rss, S1s, S2s, ?_, hS1s, hS2s, rfl⟩, ?_⟩
      · intro i
        have := hRsp i
        dsimp only [sqr] at this ⊢
        simpa only [Pi.sub_apply, Pi.mul_apply, Pi.one_apply, pow_two] using this
      · intro i
        have := hRss i
        dsimp only [sqr] at this ⊢
        simpa only [Pi.sub_apply, Pi.mul_apply, Pi.one_apply, pow_two] using this
      · refine xyz_to_rgb_clamp _ _ _ _ ?_ ?_ ?_ <;> simp only [Pi.zero_apply, zero_add] <;> ring
  -- Total internal reflection at `ct1 = 0`, `eta1 = 2`, `eta2 = 1`: the branch sets
  -- `R12 = 1`, `T121 = 0` and leaves `R23p`, `R23s`, `ct2` as they were.
  have interfaceChannel_tir (eta3 kappa3 : ℝ) (u : InterfaceSample) :
      interfaceChannel 0 2 1 eta3 kappa3 u =
        some { u with R12s := 1, R12p := 1, T121p := 0, T121s := 0 } := by
    have h : fdiv 2 1 = some 2 := by dsimp only [fdiv]; simp
    have h2 : (1 : ℝ) - (1 - sqr 0) * sqr 2 ≤ 0 := by dsimp only [sqr]; norm_num
    unfold interfaceChannel
    simp only [h, Option.bind_eq_bind, Option.some_bind, h2, if_true, pure]
  -- The set-up of `IridescenceTerm` and `IridescenceMean` on the input `ct1 = 0`,
  -- `eta1 = 2`, `eta2 = eta3 = 1`, `kappa3 = 0` where the uninitialised spectra hold
  -- `R23p = R23s = 0` and `ct2 = 1`.
  have tir_setup :
      (collectChannels fun i : Fin 3 => interfaceChannel 0 ((fun _ => 2 : Spectrum) i)
          ((fun _ => 1 : Spectrum) i) ((fun _ => 1 : Spectrum) i) ((fun _ => 0 : Spectrum) i)
          ((fun _ => ⟨0, 0, 0, 0, 0, 0, 1⟩ : Fin 3 → InterfaceSample) i)) =
        some (fun _ => ⟨1, 0, 0, 1, 0, 0, 1⟩) ∧
      fresnelPhaseExact (fun _ => 0) (fun _ => 1) (fun _ => 1) (fun _ => 0) =
        some (fun _ => 0, fun _ => 0) ∧
      fresnelPhaseExact (fun _ => 1) (fun _ => 1) (fun _ => 1) (fun _ => 0) =
        some (fun _ => 0, fun _ => 0) :=
    ⟨collectChannels_eq_some.2 fun _ => interfaceChannel_tir 1 0 _,
      @fresnelPhaseExact_eq_some (fun _ => 0) (fun _ => 1) (fun _ => 1) (fun _ => 0)
        (fun _ => ⟨0, 0⟩) (fun _ => fresnelPhaseExact1_zero),
      @fresnelPhaseExact_eq_some (fun _ => 1) (fun _ => 1) (fun _ => 1) (fun _ => 0)
        (fun _ => ⟨0, 0⟩) (fun _ => fresnelPhaseExact1_one)⟩
  -- On the total-internal-reflection input the antialiased Gaussian-fit
  -- `IridescenceTerm` returns a spectrum close to `(1, 1, 1)`.
  have IridescenceTerm_tir_antialiased :
      IridescenceTerm 0
        { height := fun _ => 400, eta1 := fun _ => 2, eta2 := fun _ => 1, eta3 := fun _ => 1,
          kappa3 := fun _ => 0, wavelengths := fun _ => 1, spectralAntialiasing := true,
          useGaussianFit := true }
        (fun _ => ⟨0, 0, 0, 0, 0, 0, 1⟩) = some ![1.0000283, 0.9999944, 1.0000062] := by
    obtain ⟨hifc, h21, h23⟩ := tir_setup
    refine (IridescenceTerm_harmonics_iff _ _ _ _ rfl).2
      ⟨fun _ => ⟨1, 0, 0, 1, 0, 0, 1⟩, (fun _ => 0, fun _ => 0), (fun _ => 0, fun _ => 0),
        fun _ => 0, fun _ => 0, fun _ => 0, fun _ => 0, _, _, _, _,
        hifc, h21, h23, ?_, ?_, ?_, ?_, evalSensitivity_gaussian _ _, evalSensitivity_gaussian _ _,
        evalSensitivity_gaussian _ _, evalSensitivity_gaussian _ _, ?_⟩
    · intro i; simp
    · intro i; simp
    · intro i; simp
    · intro i; simp
    · funext c
      fin_cases c <;>
        simp [Matrix.mulVec, Matrix.dotProduct, Fin.sum_univ_three] <;> norm_num
  have meanVarianceTerm_eq_some_iff {R12 T121 R23 r123 tao phi : Spectrum} {a b : ℝ}
      {I V : Spectrum} {r : Spectrum × Spectrum} :
      meanVarianceTerm R12 T121 R23 r123 tao phi a b I V = some r ↔
      ∃ Rs mean meanSquare : Spectrum,
        (∀ i, 1 - R12 i * R23 i ≠ 0 ∧ Rs i = sqr (T121 i) * R23 i / (1 - R12 i * R23 i)) ∧
        evalSensitivityMean 1 tao phi a b = some mean ∧
        evalSensitivitySquare tao phi a b = some meanSquare ∧
        r = (fun i => I i + (R12 i + Rs i) + (Rs i - T121 i) * r123 i * (2 * mean i),
          fun i => V i + 4 * ((Rs i - T121 i) * r123 i) * ((Rs i - T121 i) * r123 i) *
            (meanSquare i - mean i * mean i)) := by
    unfold meanVarianceTerm
    simp only [Option.bind_eq_bind, Option.bind_eq_some, pure, Option.some.injEq,
      Spectrum_cdiv_eq_some_iff, Pi.sub_apply, Pi.mul_apply, Pi.one_apply]
    constructor
    · rintro ⟨Rs, hRs, mean, hmean, sq, hsq, rfl⟩
      refine ⟨Rs, mean, sq, hRs, hmean, hsq, ?_⟩
      refine Prod.ext ?_ ?_ <;> funext i <;> simp
    · rintro ⟨Rs, mean, sq, hRs, hmean, hsq, rfl⟩
      refine ⟨Rs, hRs, mean, hmean, sq, hsq, ?_⟩
      refine Prod.ext ?_ ?_ <;> funext i <;> simp
  -- What `IridescenceMean` returns with `spectralAntialiasing` set.
  have IridescenceMean_antialiased_iff (ct1 : ℝ) (params : IridescenceParams)
      (minHeight maxHeight : ℝ) (uninit : Fin 3 → InterfaceSample) (I V : Spectrum)
      (hAA : params.spectralAntialiasing = true) :
      IridescenceMean ct1 params minHeight maxHeight uninit = some (I, V) ↔
        ∃ (ifc : Fin 3 → InterfaceSample) (ph21 ph23 : Spectrum × Spectrum)
          (r123p r123s Rsp Rss meanp sqp means sqs : Spectrum),
          collectChannels (fun i => interfaceChannel ct1 (params.eta1 i) (params.eta2 i)
            (params.eta3 i) (params.kappa3 i) (uninit i)) = some ifc ∧
          fresnelPhaseExact (fun _ => ct1) (fun _ => 1) params.eta2 (fun _ => 0) = some ph21 ∧
          fresnelPhaseExact (fun i => (ifc i).ct2) params.eta2 params.eta3 params.kappa3
            = some ph23 ∧
          (∀ i, 0 ≤ (ifc i).R12p * (ifc i).R23p ∧
            r123p i = Real.sqrt ((ifc i).R12p * (ifc i).R23p)) ∧
          (∀ i, 0 ≤ (ifc i).R12s * (ifc i).R23s ∧
            r123s i = Real.sqrt ((ifc i).R12s * (ifc i).R23s)) ∧
          (∀ i, 1 - (ifc i).R12p * (ifc i).R23p ≠ 0 ∧
            Rsp i = sqr (ifc i).T121p * (ifc i).R23p / (1 - (ifc i).R12p * (ifc i).R23p)) ∧
          (∀ i, 1 - (ifc i).R12s * (ifc i).R23s ≠ 0 ∧
            Rss i = sqr (ifc i).T121s * (ifc i).R23s / (1 - (ifc i).R12s * (ifc i).R23s)) ∧
          evalSensitivityMean 1 (fun i => 2 * params.eta2 i * (ifc i).ct2)
            (fun i => ph23.1 i + (Real.pi - ph21.1 i)) minHeight maxHeight = some meanp ∧
          evalSensitivitySquare (fun i => 2 * params.eta2 i * (ifc i).ct2)
            (fun i => ph23.1 i + (Real.pi - ph21.1 i)) minHeight maxHeight = some sqp ∧
          evalSensitivityMean 1 (fun i => 2 * params.eta2 i * (ifc i).ct2)
            (fun i => ph23.2 i + (Real.pi - ph21.2 i)) minHeight maxHeight = some means ∧
          evalSensitivitySquare (fun i => 2 * params.eta2 i * (ifc i).ct2)
            (fun i => ph23.2 i + (Real.pi - ph21.2 i)) minHeight maxHeight = some sqs ∧
          I = (fun i => 0.5 * max 0
            ((((ifc i).R12p + Rsp i) + (Rsp i - (ifc i).T121p) * r123p i * (2 * meanp i)) +
              (((ifc i).R12s + Rss i) + (Rss i - (ifc i).T121s) * r123s i * (2 * means i)))) ∧
          V = fun i => 0.5 * max 0
            (4 * ((Rsp i - (ifc i).T121p) * r123p i) * ((Rsp i - (ifc i).T121p) * r123p i) *
                (sqp i - meanp i * meanp i) +
              4 * ((Rss i - (ifc i).T121s) * r123s i) * ((Rss i - (ifc i).T121s) * r123s i) *
                (sqs i - means i * means i)) := by
    unfold IridescenceMean
    simp only [hAA, if_true, Option.bind_eq_bind, Option.bind_eq_some, pure, Option.some.injEq,
      Prod.mk.injEq, meanVarianceTerm_eq_some_iff, Spectrum_csqrt_eq_some_iff, Pi.mul_apply]
    constructor
    · rintro ⟨ifc, hifc, ph21, h21, ph23, h23, r123p, hrp, r123s, hrs, IVp,
        ⟨Rsp, meanp, sqp, hRsp, hmp, hsp, rfl⟩, IVs, ⟨Rss, means, sqs, hRss, hms, hss, rfl⟩,
        rfl, rfl⟩
      refine ⟨ifc, ph21, ph23, r123p, r123s, Rsp, Rss, meanp, sqp, means, sqs, hifc, h21, h23,
        hrp, hrs, hRsp, hRss, hmp, hsp, hms, hss, ?_, ?_⟩
      · funext i
        simp only [Spectrum.clampNegative, Pi.zero_apply, zero_add]
        congr 2
        ring
      · funext i
        simp only [Spectrum.clampNegative, Pi.zero_apply, zero_add]
    · rintro ⟨ifc, ph21, ph23, r123p, r123s, Rsp, Rss, meanp, sqp, means, sqs, hifc, h21, h23,
        hrp, hrs, hRsp, hRss, hmp, hsp, hms, hss, rfl, rfl⟩
      refine ⟨ifc, hifc, ph21, h21, ph23, h23, r123p, hrp, r123s, hrs, _,
        ⟨Rsp, meanp, sqp, hRsp, hmp, hsp, rfl⟩, _, ⟨Rss, means, sqs, hRss, hms, hss, rfl⟩,
        ?_, ?_⟩
      · funext i
        simp only [Spectrum.clampNegative, Pi.zero_apply, zero_add]
        congr 2
        ring
      · funext i
        simp only [Spectrum.clampNegative, Pi.zero_apply, zero_add]
  -- With `spectralAntialiasing` set, `IridescenceMean` has no value on an interval
  -- of length zero.
  have IridescenceMean_degenerate (ct1 : ℝ) (params : IridescenceParams) (h : ℝ)
      (uninit : Fin 3 → InterfaceSample) (hAA : params.spectralAntialiasing = true) :
      IridescenceMean ct1 params h h uninit = none := by
    cases hr : IridescenceMean ct1 params h h uninit with
    | none => rfl
    | some r =>
      obtain ⟨I, V⟩ := r
      obtain ⟨ifc, ph21, ph23, r123p, r123s, Rsp, Rss, meanp, sqp, means, sqs, -, -, -, -, -, -,
        -, hmp, -⟩ := (IridescenceMean_antialiased_iff ct1 params h h uninit I V hAA).1 hr
      rw [evalSensitivityMean_degenerate] at hmp
      exact absurd hmp (by simp)
  -- On the total-internal-reflection input `IridescenceMean` over `[380, 420]`
  -- returns the mean `1` and the variance `0` in every channel.
  have IridescenceMean_tir_example :
      IridescenceMean 0
        { height := fun _ => 400, eta1 := fun _ => 2, eta2 := fun _ => 1, eta3 := fun _ => 1,
          kappa3 := fun _ => 0, wavelengths := fun _ => 1, spectralAntialiasing := true,
          useGaussianFit := true }
        380 420 (fun _ => ⟨0, 0, 0, 0, 0, 0, 1⟩) = some (fun _ => 1, fun _ => 0) := by
    obtain ⟨hifc, h21, h23⟩ := tir_setup
    have htao : ∀ i : Fin 3, (fun _ => 2 * 1 * 1 : Spectrum) i ≠ 0 := fun _ => by norm_num
    obtain ⟨sqp, hsqp⟩ := evalSensitivitySquare_isSome (fun _ => 2 * 1 * 1)
      (fun _ => 0 + (Real.pi - 0)) 380 420 htao (by norm_num)
    obtain ⟨mp, hmp⟩ := evalSensitivityMean_isSome 1 (fun _ => 2 * 1 * 1)
      (fun _ => 0 + (Real.pi - 0)) 380 420 one_ne_zero htao (by norm_num)
    refine (IridescenceMean_antialiased_iff _ _ _ _ _ _ _ rfl).2
      ⟨fun _ => ⟨1, 0, 0, 1, 0, 0, 1⟩, (fun _ => 0, fun _ => 0), (fun _ => 0, fun _ => 0),
        fun _ => 0, fun _ => 0, fun _ => 0, fun _ => 0, mp, sqp, mp, sqp,
        hifc, h21, h23, ?_, ?_, ?_, ?_, hmp, hsqp, hmp, hsqp, ?_, ?_⟩
    · intro i; simp
    · intro i; simp
    · intro i; dsimp only [sqr]; simp
    · intro i; dsimp only [sqr]; simp
    · funext i; norm_num
    · funext i; norm_num
  -- The three lines `r = …`, `g = …`, `b = …` of the conversion are the product of
  -- a fixed matrix and the vector of the three channels.
  have xyz_to_rgb_mulVec (x y z : ℝ) :
      (![2.3646381 * x - 0.8965361 * y - 0.4680737 * z,
          -0.5151664 * x + 1.4264000 * y + 0.0887608 * z,
          0.0052037 * x - 0.0144081 * y + 1.0092106 * z] : Spectrum) =
        Matrix.mulVec
          !![2.3646381, -0.8965361, -0.4680737;
             -0.5151664, 1.4264000, 0.0887608;
             0.0052037, -0.0144081, 1.0092106] ![x, y, z] := by
    funext c
    fin_cases c
    · simp only [Matrix.mulVec, Matrix.dotProduct, Fin.sum_univ_three]
      simp
      ring
    · simp only [Matrix.mulVec, Matrix.dotProduct, Fin.sum_univ_three]
      simp
    · simp only [Matrix.mulVec, Matrix.dotProduct, Fin.sum_univ_three]
      simp
      ring
  -- In antialiased mode `IridescenceTerm` returns half the clamped product of the
  -- conversion matrix and the spectrum `I` that the two polarizations accumulate.
  have IridescenceTerm_matrix (ct1 : ℝ) (params : IridescenceParams)
      (uninit : Fin 3 → InterfaceSample) (v : Spectrum)
      (hAA : params.spectralAntialiasing = true)
      (hv : IridescenceTerm ct1 params uninit = some v) :
      ∃ (ifc : Fin 3 → InterfaceSample) (ph21 ph23 : Spectrum × Spectrum)
        (r123p r123s Ip I : Spectrum),
        (collectChannels fun i => interfaceChannel ct1 (params.eta1 i) (params.eta2 i)
          (params.eta3 i) (params.kappa3 i) (uninit i)) = some ifc ∧
        fresnelPhaseExact (fun _ => ct1) (fun _ => 1) params.eta2 (fun _ => 0) = some ph21 ∧
        fresnelPhaseExact (fun i => (ifc i).ct2) params.eta2 params.eta3 params.kappa3 =
          some ph23 ∧
        Spectrum.csqrt ((fun i => (ifc i).R12p) * fun i => (ifc i).R23p) = some r123p ∧
        Spectrum.csqrt ((fun i => (ifc i).R12s) * fun i => (ifc i).R23s) = some r123s ∧
        harmonicTerm (fun i => (ifc i).R12p) (fun i => (ifc i).T121p) (fun i => (ifc i).R23p)
          r123p (fun i => 2 * params.eta2 i * params.height 0 * (ifc i).ct2)
          (ph23.1 + fun i => Real.pi - ph21.1 i) params.useGaussianFit 0 = some Ip ∧
        harmonicTerm (fun i => (ifc i).R12s) (fun i => (ifc i).T121s) (fun i => (ifc i).R23s)
          r123s (fun i => 2 * params.eta2 i * params.height 0 * (ifc i).ct2)
          (ph23.2 + fun i => Real.pi - ph21.2 i) params.useGaussianFit Ip = some I ∧
        v = fun c => 0.5 * Spectrum.clampNegative (Matrix.mulVec
          !![2.3646381, -0.8965361, -0.4680737;
             -0.5151664, 1.4264000, 0.0887608;
             0.0052037, -0.0144081, 1.0092106] ![I 0, I 1, I 2]) c := by
    unfold IridescenceTerm at hv
    simp only [hAA, if_true, Option.bind_eq_bind, Option.bind_eq_some, pure,
      Option.some.injEq] at hv
    obtain ⟨ifc, hifc, ph21, h21, ph23, h23, r123p, hrp, r123s, hrs, Ip, hIp, I, hI, rfl⟩ := hv
    refine ⟨ifc, ph21, ph23, r123p, r123s, Ip, I, hifc, h21, h23, hrp, hrs, hIp, hI, ?_⟩
    rw [← xyz_to_rgb_mulVec]
  exact ⟨@IridescenceTerm_tir_example, @harmonicTerm_eq_some, @xyz_to_rgb_clamp,
    @IridescenceTerm_harmonics_iff, @interfaceChannel_tir, @tir_setup,
    @IridescenceTerm_tir_antialiased, @meanVarianceTerm_eq_some_iff,
    @IridescenceMean_antialiased_iff, @IridescenceMean_degenerate, @IridescenceMean_tir_example,
    @xyz_to_rgb_mulVec, @IridescenceTerm_matrix⟩

theorem IridescenceTerm_nonneg_witness :
    IridescenceTerm 0
      { height := fun _ => 0, eta1 := fun _ => 2, eta2 := fun _ => 1, eta3 := fun _ => 1,
        kappa3 := fun _ => 0, wavelengths := fun _ => 1, spectralAntialiasing := false,
        useGaussianFit := false }
      (fun _ => ⟨0, 0, 0, 0, 0, 0, 0⟩) = some (fun _ => 1) ∧
    (0 : ℝ) ≤ (fun _ => 1 : Spectrum) 0 := by
  obtain ⟨IridescenceTerm_tir_example, -, -, -, -, -, -, -, -, -, -, -, -⟩ := antialiased_lemmas
  exact
    ⟨IridescenceTerm_tir_example,
      IridescenceTerm_nonneg 0 _ _ (fun _ => 1) IridescenceTerm_tir_example 0⟩

/-! ### The integration cache -/

theorem Cache.set_self {α : Type} (c : Cache α) (id : String) (v : α) :
    c.set id v id = some v := by
  simp [Cache.set]

theorem Cache.set_of_ne {α : Type} (c : Cache α) {id key : String} (v : α) (h : key ≠ id) :
    c.set id v key = c key := by
  simp [Cache.set, h]

theorem KeyUnder.self (id : String) : KeyUnder id id :=
  ⟨"", (String.append_empty id).symm⟩

theorem KeyUnder.of_append {id key : String} (s : String) (h : KeyUnder (id ++ s) key) :
    KeyUnder id key := by
  obtain ⟨t, rfl⟩ := h
  exact ⟨s ++ t, String.append_assoc id s t⟩

theorem KeyUnder.append {id key : String} (s : String) (h : KeyUnder id key) :
    KeyUnder id (key ++ s) := by
  obtain ⟨t, rfl⟩ := h
  exact ⟨t ++ s, String.append_assoc id t s⟩

theorem String.append_left_cancel {a s t : String} (h : a ++ s = a ++ t) : s = t := by
  apply String.ext
  have := congrArg String.data h
  simpa using this

/-- Two keys that continue `id` with different characters have no common
extension. -/
theorem KeyUnder.siblings {id key : String} {a b : Char} (hab : a ≠ b)
    (h1 : KeyUnder (id ++ String.singleton a) key) : ¬ KeyUnder (id ++ String.singleton b) key := by
  rintro ⟨t, ht⟩
  obtain ⟨s, rfl⟩ := h1
  rw [String.append_assoc, String.append_assoc] at ht
  have := congrArg String.data (String.append_left_cancel ht)
  simp [String.singleton] at this
  exact hab this.1

theorem digit_strings :
    toString (0 : Int) = String.singleton '0' ∧ toString (1 : Int) = String.singleton '1' ∧
    toString (2 : Int) = String.singleton '2' ∧ toString (3 : Int) = String.singleton '3' :=
  ⟨rfl, rfl, rfl, rfl⟩

theorem KeyUnder.ne_of_child {id key : String} {a : Char}
    (h : KeyUnder (id ++ String.singleton a) key) : key ≠ id := by
  obtain ⟨t, rfl⟩ := h
  intro e
  have := congrArg String.data e
  simp [String.singleton] at this

/-- A key under `id`, other than `id`, whose extension by one character lies
under a child of `id`, lies under that child itself. -/
theorem KeyUnder.child_of_append {id key : String} {a b : Char}
    (h : KeyUnder (id ++ String.singleton a) (key ++ String.singleton b))
    (hid : KeyUnder id key) (hne : key ≠ id) : KeyUnder (id ++ String.singleton a) key := by
  obtain ⟨s, rfl⟩ := hid
  obtain ⟨t, ht⟩ := h
  rw [String.append_assoc, String.append_assoc] at ht
  have hd := congrArg String.data (String.append_left_cancel ht)
  simp only [String.data_append, String.singleton, String.push, List.nil_append,
    List.singleton_append] at hd
  obtain ⟨sd⟩ := s
  cases sd with
  | nil => exact absurd (String.append_empty id) hne
  | cons x xs =>
    simp only [List.cons_append, List.cons.injEq] at hd
    refine ⟨⟨xs⟩, ?_⟩
    rw [String.append_assoc]
    congr 1
    apply String.ext
    simp [String.singleton, hd.1]

/-! ### `integrate` -/

section Integrate

variable {T V α : Type} [LinearOrderedField α] (ops : TriangleOps T V α) (distr : V → α)

theorem integrate_succ_accepts (fuel : ℕ) (tri : T) (parentID : String) (k : Int) (c : Cache α)
    (h : integrate.accepts ops distr tri) :
    integrate ops distr (fuel + 1) tri parentID k c =
      some (integrate.rule2 ops distr tri,
        c.set (parentID ++ toString k) (integrate.rule2 ops distr tri)) := by
  simp only [integrate, h, if_true]

theorem integrate_succ_splits (fuel : ℕ) (tri : T) (parentID : String) (k : Int) (c : Cache α)
    (h : ¬ integrate.accepts ops distr tri) :
    integrate ops distr (fuel + 1) tri parentID k c =
      (integrate ops distr fuel (ops.split tri 0) (parentID ++ toString k) 0 c).bind fun r0 =>
      (integrate ops distr fuel (ops.split tri 1) (parentID ++ toString k) 1 r0.2).bind fun r1 =>
      (integrate ops distr fuel (ops.split tri 2) (parentID ++ toString k) 2 r1.2).bind fun r2 =>
      (integrate ops distr fuel (ops.split tri 3) (parentID ++ toString k) 3 r2.2).bind fun r3 =>
        some (0 + r0.1 + r1.1 + r2.1 + r3.1,
          r3.2.set (parentID ++ toString k) (0 + r0.1 + r1.1 + r2.1 + r3.1)) := by
  simp only [integrate, h, if_false, Option.bind_eq_bind]

/-- The four child calls of a node whose test fails, with the maps between them. -/
theorem integrate_split_calls {fuel : ℕ} {tri : T} {parentID : String} {k : Int} {c c' : Cache α}
    {v : α} (h : ¬ integrate.accepts ops distr tri)
    (hrun : integrate ops distr (fuel + 1) tri parentID k c = some (v, c')) :
    ∃ r0 r1 r2 r3 : α, ∃ c1 c2 c3 c4 : Cache α,
      integrate ops distr fuel (ops.split tri 0) (parentID ++ toString k) 0 c = some (r0, c1) ∧
      integrate ops distr fuel (ops.split tri 1) (parentID ++ toString k) 1 c1 = some (r1, c2) ∧
      integrate ops distr fuel (ops.split tri 2) (parentID ++ toString k) 2 c2 = some (r2, c3) ∧
      integrate ops distr fuel (ops.split tri 3) (parentID ++ toString k) 3 c3 = some (r3, c4) ∧
      v = r0 + r1 + r2 + r3 ∧ c' = c4.set (parentID ++ toString k) v := by
  rw [integrate_succ_splits ops distr fuel tri parentID k c h] at hrun
  simp only [Option.bind_eq_some, Option.some.injEq, Prod.mk.injEq] at hrun
  obtain ⟨⟨r0, c1⟩, h0, ⟨r1, c2⟩, h1, ⟨r2, c3⟩, h2, ⟨r3, c4⟩, h3, hv, hc⟩ := hrun
  have hv' : v = r0 + r1 + r2 + r3 := by rw [← hv]; simp
  refine ⟨r0, r1, r2, r3, c1, c2, c3, c4, h0, h1, h2, h3, hv', ?_⟩
  rw [← hc, hv]

/-- The value returned by a call is the value stored under its key. -/
theorem integrate_returns_cached {fuel : ℕ} {tri : T} {parentID : String} {k : Int}
    {c c' : Cache α} {v : α}
    (hrun : integrate ops distr fuel tri parentID k c = some (v, c')) :
    c' (parentID ++ toString k) = some v := by
  cases fuel with
  | zero => simp [integrate] at hrun
  | succ fuel =>
    by_cases h : integrate.accepts ops distr tri
    · rw [integrate_succ_accepts ops distr fuel tri parentID k c h] at hrun
      simp only [Option.some.injEq, Prod.mk.injEq] at hrun
      obtain ⟨rfl, rfl⟩ := hrun
      exact Cache.set_self _ _ _
    · obtain ⟨r0, r1, r2, r3, c1, c2, c3, c4, -, -, -, -, -, rfl⟩ :=
        integrate_split_calls ops distr h hrun
      exact Cache.set_self _ _ _

/-- A call writes only keys that lie under its own key. -/
theorem integrate_frame : ∀ (fuel : ℕ) (tri : T) (parentID : String) (k : Int)
    (c c' : Cache α) (v : α), integrate ops distr fuel tri parentID k c = some (v, c') →
    ∀ key, ¬ KeyUnder (parentID ++ toString k) key → c' key = c key := by
  intro fuel
  induction fuel with
  | zero => intro tri parentID k c c' v hrun; simp [integrate] at hrun
  | succ fuel ih =>
    intro tri parentID k c c' v hrun key hkey
    have hne : key ≠ parentID ++ toString k := fun e => hkey (e ▸ KeyUnder.self _)
    by_cases h : integrate.accepts ops distr tri
    · rw [integrate_succ_accepts ops distr fuel tri parentID k c h] at hrun
      simp only [Option.some.injEq, Prod.mk.injEq] at hrun
      obtain ⟨-, rfl⟩ := hrun
      exact Cache.set_of_ne _ _ hne
    · obtain ⟨r0, r1, r2, r3, c1, c2, c3, c4, h0, h1, h2, h3, -, rfl⟩ :=
        integrate_split_calls ops distr h hrun
      have hk : ∀ j : Int, ¬ KeyUnder (parentID ++ toString k ++ toString j) key :=
        fun j hj => hkey (KeyUnder.of_append _ hj)
      rw [Cache.set_of_ne _ _ hne, ih _ _ _ _ _ _ h3 key (hk 3), ih _ _ _ _ _ _ h2 key (hk 2),
        ih _ _ _ _ _ _ h1 key (hk 1), ih _ _ _ _ _ _ h0 key (hk 0)]

/-- A call never removes an entry of the map. -/
theorem integrate_keeps : ∀ (fuel : ℕ) (tri : T) (parentID : String) (k : Int)
    (c c' : Cache α) (v : α), integrate ops distr fuel tri parentID k c = some (v, c') →
    ∀ key, c key ≠ none → c' key ≠ none := by
  intro fuel
  induction fuel with
  | zero => intro tri parentID k c c' v hrun; simp [integrate] at hrun
  | succ fuel ih =>
    intro tri parentID k c c' v hrun key hkey
    have hset : ∀ (d : Cache α) (w : α), d key ≠ none →
        d.set (parentID ++ toString k) w key ≠ none := by
      intro d w hd
      unfold Cache.set
      split
      · simp
      · exact hd
    by_cases h : integrate.accepts ops distr tri
    · rw [integrate_succ_accepts ops distr fuel tri parentID k c h] at hrun
      simp only [Option.some.injEq, Prod.mk.injEq] at hrun
      obtain ⟨-, rfl⟩ := hrun
      exact hset _ _ hkey
    · obtain ⟨r0, r1, r2, r3, c1, c2, c3, c4, h0, h1, h2, h3, -, rfl⟩ :=
        integrate_split_calls ops distr h hrun
      exact hset _ _ (ih _ _ _ _ _ _ h3 key (ih _ _ _ _ _ _ h2 key (ih _ _ _ _ _ _ h1 key
        (ih _ _ _ _ _ _ h0 key hkey))))

/-- The sum property of a single map at a key: the four child keys hold values
and the key holds their sum. -/
theorem integrate_sums : ∀ (fuel : ℕ) (tri : T) (parentID : String) (k : Int)
    (c c' : Cache α) (v : α), integrate ops distr fuel tri parentID k c = some (v, c') →
    (∀ key, KeyUnder (parentID ++ toString k) key → c key = none) →
    ∀ key, KeyUnder (parentID ++ toString k) key → c' (key ++ String.singleton '0') ≠ none →
      ∃ v0 v1 v2 v3 : α, c' (key ++ String.singleton '0') = some v0 ∧
        c' (key ++ String.singleton '1') = some v1 ∧ c' (key ++ String.singleton '2') = some v2 ∧
        c' (key ++ String.singleton '3') = some v3 ∧ c' key = some (v0 + v1 + v2 + v3) := by
  intro fuel
  induction fuel with
  | zero => intro tri parentID k c c' v hrun; simp [integrate] at hrun
  | succ fuel ih =>
    intro tri parentID k c c' v hrun hclean key hkey hchild
    have hchild_under : KeyUnder (parentID ++ toString k) (key ++ String.singleton '0') :=
      KeyUnder.append _ hkey
    have hchild_ne : key ++ String.singleton '0' ≠ parentID ++ toString k := by
      obtain ⟨t, rfl⟩ := hkey
      intro e
      have := congrArg String.data e
      simp [String.singleton] at this
    by_cases h : integrate.accepts ops distr tri
    · exfalso
      rw [integrate_succ_accepts ops distr fuel tri parentID k c h] at hrun
      simp only [Option.some.injEq, Prod.mk.injEq] at hrun
      obtain ⟨-, rfl⟩ := hrun
      rw [Cache.set_of_ne _ _ hchild_ne] at hchild
      exact hchild (hclean _ hchild_under)
    · obtain ⟨r0, r1, r2, r3, c1, c2, c3, c4, h0, h1, h2, h3, hv, rfl⟩ :=
        integrate_split_calls ops distr h hrun
      obtain ⟨e0, e1, e2, e3⟩ := digit_strings
      have F0 := integrate_frame ops distr _ _ _ _ _ _ _ h0
      have F1 := integrate_frame ops distr _ _ _ _ _ _ _ h1
      have F2 := integrate_frame ops distr _ _ _ _ _ _ _ h2
      have F3 := integrate_frame ops distr _ _ _ _ _ _ _ h3
      have R0 := integrate_returns_cached ops distr h0
      have R1 := integrate_returns_cached ops distr h1
      have R2 := integrate_returns_cached ops distr h2
      have R3 := integrate_returns_cached ops distr h3
      have ih0 := ih _ _ _ _ _ _ h0
      have ih1 := ih _ _ _ _ _ _ h1
      have ih2 := ih _ _ _ _ _ _ h2
      have ih3 := ih _ _ _ _ _ _ h3
      rw [e0] at F0 R0 ih0
      rw [e1] at F1 R1 ih1
      rw [e2] at F2 R2 ih2
      rw [e3] at F3 R3 ih3
      clear ih e0 e1 e2 e3
      set id := parentID ++ toString k with hid
      -- the maps seen from a key under one child
      have U0 : ∀ q, KeyUnder (id ++ String.singleton '0') q →
          (c4.set id v) q = c1 q := by
        intro q hq
        rw [Cache.set_of_ne _ _ (KeyUnder.ne_of_child hq),
          F3 q (KeyUnder.siblings (by decide) hq), F2 q (KeyUnder.siblings (by decide) hq),
          F1 q (KeyUnder.siblings (by decide) hq)]
      have U1 : ∀ q, KeyUnder (id ++ String.singleton '1') q →
          (c4.set id v) q = c2 q ∧ c1 q = c q := by
        intro q hq
        rw [Cache.set_of_ne _ _ (KeyUnder.ne_of_child hq),
          F3 q (KeyUnder.siblings (by decide) hq), F2 q (KeyUnder.siblings (by decide) hq),
          F0 q (KeyUnder.siblings (by decide) hq)]
        exact ⟨rfl, rfl⟩
      have U2 : ∀ q, KeyUnder (id ++ String.singleton '2') q →
          (c4.set id v) q = c3 q ∧ c2 q = c q := by
        intro q hq
        rw [Cache.set_of_ne _ _ (KeyUnder.ne_of_child hq),
          F3 q (KeyUnder.siblings (by decide) hq), F1 q (KeyUnder.siblings (by decide) hq),
          F0 q (KeyUnder.siblings (by decide) hq)]
        exact ⟨rfl, rfl⟩
      have U3 : ∀ q, KeyUnder (id ++ String.singleton '3') q →
          (c4.set id v) q = c4 q ∧ c3 q = c q := by
        intro q hq
        rw [Cache.set_of_ne _ _ (KeyUnder.ne_of_child hq),
          F2 q (KeyUnder.siblings (by decide) hq), F1 q (KeyUnder.siblings (by decide) hq),
          F0 q (KeyUnder.siblings (by decide) hq)]
        exact ⟨rfl, rfl⟩
      by_cases hk : key = id
      · subst hk
        refine ⟨r0, r1, r2, r3, ?_, ?_, ?_, ?_, ?_⟩
        · rw [U0 _ (KeyUnder.self _)]; exact R0
        · rw [(U1 _ (KeyUnder.self _)).1]; exact R1
        · rw [(U2 _ (KeyUnder.self _)).1]; exact R2
        · rw [(U3 _ (KeyUnder.self _)).1]; exact R3
        · rw [Cache.set_self, hv]
      · -- the child key was written by one of the four calls
        have hwhich : KeyUnder (id ++ String.singleton '0') (key ++ String.singleton '0') ∨
            KeyUnder (id ++ String.singleton '1') (key ++ String.singleton '0') ∨
            KeyUnder (id ++ String.singleton '2') (key ++ String.singleton '0') ∨
            KeyUnder (id ++ String.singleton '3') (key ++ String.singleton '0') := by
          by_contra hnone
          push_neg at hnone
          obtain ⟨n0, n1, n2, n3⟩ := hnone
          apply hchild
          rw [Cache.set_of_ne _ _ hchild_ne, F3 _ n3, F2 _ n2, F1 _ n1, F0 _ n0]
          exact hclean _ hchild_under
        rcases hwhich with hw | hw | hw | hw
        · have hu := KeyUnder.child_of_append hw hkey hk
          have hcl : ∀ q, KeyUnder (id ++ String.singleton '0') q → c q = none :=
            fun q hq => hclean q (KeyUnder.of_append _ hq)
          have hch : c1 (key ++ String.singleton '0') ≠ none := by
            rw [← U0 _ hw]; exact hchild
          obtain ⟨v0, v1, v2, v3, a0, a1, a2, a3, a⟩ := ih0 hcl key hu hch
          refine ⟨v0, v1, v2, v3, ?_, ?_, ?_, ?_, ?_⟩
          · rw [U0 _ (KeyUnder.append _ hu)]; exact a0
          · rw [U0 _ (KeyUnder.append _ hu)]; exact a1
          · rw [U0 _ (KeyUnder.append _ hu)]; exact a2
          · rw [U0 _ (KeyUnder.append _ hu)]; exact a3
          · rw [U0 _ hu]; exact a
        · have hu := KeyUnder.child_of_append hw hkey hk
          have hcl : ∀ q, KeyUnder (id ++ String.singleton '1') q → c1 q = none :=
            fun q hq => (U1 q hq).2.trans (hclean q (KeyUnder.of_append _ hq))
          have hch : c2 (key ++ String.singleton '0') ≠ none := by
            rw [← (U1 _ hw).1]; exact hchild
          obtain ⟨v0, v1, v2, v3, a0, a1, a2, a3, a⟩ := ih1 hcl key hu hch
          refine ⟨v0, v1, v2, v3, ?_, ?_, ?_, ?_, ?_⟩
          · rw [(U1 _ (KeyUnder.append _ hu)).1]; exact a0
          · rw [(U1 _ (KeyUnder.append _ hu)).1]; exact a1
          · rw [(U1 _ (KeyUnder.append _ hu)).1]; exact a2
          · rw [(U1 _ (KeyUnder.append _ hu)).1]; exact a3
          · rw [(U1 _ hu).1]; exact a
        · have hu := KeyUnder.child_of_append hw hkey hk
          have hcl : ∀ q, KeyUnder (id ++ String.singleton '2') q → c2 q = none :=
            fun q hq => (U2 q hq).2.trans (hclean q (KeyUnder.of_append _ hq))
          have hch : c3 (key ++ String.singleton '0') ≠ none := by
            rw [← (U2 _ hw).1]; exact hchild
          obtain ⟨v0, v1, v2, v3, a0, a1, a2, a3, a⟩ := ih2 hcl key hu hch
          refine ⟨v0, v1, v2, v3, ?_, ?_, ?_, ?_, ?_⟩
          · rw [(U2 _ (KeyUnder.append _ hu)).1]; exact a0
          · rw [(U2 _ (KeyUnder.append _ hu)).1]; exact a1
          · rw [(U2 _ (KeyUnder.append _ hu)).1]; exact a2
          · rw [(U2 _ (KeyUnder.append _ hu)).1]; exact a3
          · rw [(U2 _ hu).1]; exact a
        · have hu := KeyUnder.child_of_append hw hkey hk
          have hcl : ∀ q, KeyUnder (id ++ String.singleton '3') q → c3 q = none :=
            fun q hq => (U3 q hq).2.trans (hclean q (KeyUnder.of_append _ hq))
          have hch : c4 (key ++ String.singleton '0') ≠ none := by
            rw [← (U3 _ hw).1]; exact hchild
          obtain ⟨v0, v1, v2, v3, a0, a1, a2, a3, a⟩ := ih3 hcl key hu hch
          refine ⟨v0, v1, v2, v3, ?_, ?_, ?_, ?_, ?_⟩
          · rw [(U3 _ (KeyUnder.append _ hu)).1]; exact a0
          · rw [(U3 _ (KeyUnder.append _ hu)).1]; exact a1
          · rw [(U3 _ (KeyUnder.append _ hu)).1]; exact a2
          · rw [(U3 _ (KeyUnder.append _ hu)).1]; exact a3
          · rw [(U3 _ hu).1]; exact a

end Integrate

section Hemisphere

variable {T V α : Type} [LinearOrderedField α] (ops : TriangleOps T V α) (distr : V → α)

/-- After the four construction-time calls, every cached key that has a cached
child `k0` holds the sum of its four children. -/
theorem integrateHemisphere_sums (fuel : ℕ) (tri0 tri1 tri2 tri3 : T) (cache : Cache α)
    (hrun : Glittery.integrateHemisphere ops distr fuel tri0 tri1 tri2 tri3 = some cache) :
    ∀ key, cache key ≠ none → cache (key ++ "0") ≠ none →
      ∃ v0 v1 v2 v3 : α, cache (key ++ "0") = some v0 ∧ cache (key ++ "1") = some v1 ∧
        cache (key ++ "2") = some v2 ∧ cache (key ++ "3") = some v3 ∧
        cache key = some (v0 + v1 + v2 + v3) := by
  simp only [Glittery.integrateHemisphere, Option.bind_eq_bind, Option.bind_eq_some,
    Option.some.injEq] at hrun
  obtain ⟨⟨r0, c1⟩, h0, ⟨r1, c2⟩, h1, ⟨r2, c3⟩, h2, ⟨r3, c4⟩, h3, rfl⟩ := hrun
  dsimp only at h1 h2 h3 ⊢
  have F0 := integrate_frame ops distr _ _ _ _ _ _ _ h0
  have F1 := integrate_frame ops distr _ _ _ _ _ _ _ h1
  have F2 := integrate_frame ops distr _ _ _ _ _ _ _ h2
  have F3 := integrate_frame ops distr _ _ _ _ _ _ _ h3
  have S0 := integrate_sums ops distr _ _ _ _ _ _ _ h0
  have S1 := integrate_sums ops distr _ _ _ _ _ _ _ h1
  have S2 := integrate_sums ops distr _ _ _ _ _ _ _ h2
  have S3 := integrate_sums ops distr _ _ _ _ _ _ _ h3
  obtain ⟨e0, e1, e2, e3⟩ := digit_strings
  rw [e0] at F0 S0
  rw [e1] at F1 S1
  rw [e2] at F2 S2
  rw [e3] at F3 S3
  intro key hkey hchild
  have hlit : key ++ "0" = key ++ String.singleton '0' := rfl
  have hlit1 : key ++ "1" = key ++ String.singleton '1' := rfl
  have hlit2 : key ++ "2" = key ++ String.singleton '2' := rfl
  have hlit3 : key ++ "3" = key ++ String.singleton '3' := rfl
  rw [hlit] at hchild
  rw [hlit, hlit1, hlit2, hlit3]
  have hwhich : KeyUnder ("0" ++ String.singleton '0') key ∨
      KeyUnder ("0" ++ String.singleton '1') key ∨
      KeyUnder ("0" ++ String.singleton '2') key ∨
      KeyUnder ("0" ++ String.singleton '3') key := by
    by_contra hnone
    push_neg at hnone
    obtain ⟨n0, n1, n2, n3⟩ := hnone
    apply hkey
    rw [F3 _ n3, F2 _ n2, F1 _ n1, F0 _ n0]
  rcases hwhich with hw | hw | hw | hw
  · have U : ∀ q, KeyUnder ("0" ++ String.singleton '0') q → c4 q = c1 q := by
      intro q hq
      rw [F3 q (KeyUnder.siblings (by decide) hq), F2 q (KeyUnder.siblings (by decide) hq),
        F1 q (KeyUnder.siblings (by decide) hq)]
    have hch : c1 (key ++ String.singleton '0') ≠ none := by
      rw [← U _ (KeyUnder.append _ hw)]; exact hchild
    obtain ⟨v0, v1, v2, v3, a0, a1, a2, a3, a⟩ := S0 (fun _ _ => rfl) key hw hch
    refine ⟨v0, v1, v2, v3, ?_, ?_, ?_, ?_, ?_⟩
    · exact (U _ (KeyUnder.append _ hw)).trans a0
    · exact (U _ (KeyUnder.append _ hw)).trans a1
    · exact (U _ (KeyUnder.append _ hw)).trans a2
    · exact (U _ (KeyUnder.append _ hw)).trans a3
    · exact (U _ hw).trans a
  · have U : ∀ q, KeyUnder ("0" ++ String.singleton '1') q → c4 q = c2 q ∧ c1 q = none := by
      intro q hq
      rw [F3 q (KeyUnder.siblings (by decide) hq), F2 q (KeyUnder.siblings (by decide) hq),
        F0 q (KeyUnder.siblings (by decide) hq)]
      exact ⟨rfl, rfl⟩
    have hch : c2 (key ++ String.singleton '0') ≠ none := by
      rw [← (U _ (KeyUnder.append _ hw)).1]; exact hchild
    obtain ⟨v0, v1, v2, v3, a0, a1, a2, a3, a⟩ := S1 (fun q hq => (U q hq).2) key hw hch
    refine ⟨v0, v1, v2, v3, ?_, ?_, ?_, ?_, ?_⟩
    · exact (U _ (KeyUnder.append _ hw)).1.trans a0
    · exact (U _ (KeyUnder.append _ hw)).1.trans a1
    · exact (U _ (KeyUnder.append _ hw)).1.trans a2
    · exact (U _ (KeyUnder.append _ hw)).1.trans a3
    · exact (U _ hw).1.trans a
  · have U : ∀ q, KeyUnder ("0" ++ String.singleton '2') q → c4 q = c3 q ∧ c2 q = none := by
      intro q hq
      rw [F3 q (KeyUnder.siblings (by decide) hq), F1 q (KeyUnder.siblings (by decide) hq),
        F0 q (KeyUnder.siblings (by decide) hq)]
      exact ⟨rfl, rfl⟩
    have hch : c3 (key ++ String.singleton '0') ≠ none := by
      rw [← (U _ (KeyUnder.append _ hw)).1]; exact hchild
    obtain ⟨v0, v1, v2, v3, a0, a1, a2, a3, a⟩ := S2 (fun q hq => (U q hq).2) key hw hch
    refine ⟨v0, v1, v2, v3, ?_, ?_, ?_, ?_, ?_⟩
    · exact (U _ (KeyUnder.append _ hw)).1.trans a0
    · exact (U _ (KeyUnder.append _ hw)).1.trans a1
    · exact (U _ (KeyUnder.append _ hw)).1.trans a2
    · exact (U _ (KeyUnder.append _ hw)).1.trans a3
    · exact (U _ hw).1.trans a
  · have U : ∀ q, KeyUnder ("0" ++ String.singleton '3') q → c3 q = none := by
      intro q hq
      rw [F2 q (KeyUnder.siblings (by decide) hq), F1 q (KeyUnder.siblings (by decide) hq),
        F0 q (KeyUnder.siblings (by decide) hq)]
    exact S3 U key hw hchild

/-- The entries that a construction-time call leaves under its key are still
there, unchanged, after the later calls. -/
theorem integrateHemisphere_entries (fuel : ℕ) (tri0 tri1 tri2 tri3 : T) (cache : Cache α)
    (hrun : Glittery.integrateHemisphere ops distr fuel tri0 tri1 tri2 tri3 = some cache) :
    ∃ r0 r1 r2 r3 : α, ∃ c1 c2 c3 : Cache α,
      integrate ops distr fuel tri0 "0" 0 (fun _ => none) = some (r0, c1) ∧
      integrate ops distr fuel tri1 "0" 1 c1 = some (r1, c2) ∧
      integrate ops distr fuel tri2 "0" 2 c2 = some (r2, c3) ∧
      integrate ops distr fuel tri3 "0" 3 c3 = some (r3, cache) ∧
      (∀ key, KeyUnder "00" key → cache key = c1 key) ∧
      (∀ key, KeyUnder "01" key → cache key = c2 key) ∧
      (∀ key, KeyUnder "02" key → cache key = c3 key) := by
  simp only [Glittery.integrateHemisphere, Option.bind_eq_bind, Option.bind_eq_some,
    Option.some.injEq] at hrun
  obtain ⟨⟨r0, c1⟩, h0, ⟨r1, c2⟩, h1, ⟨r2, c3⟩, h2, ⟨r3, c4⟩, h3, rfl⟩ := hrun
  dsimp only at h1 h2 h3 ⊢
  have F1 := integrate_frame ops distr _ _ _ _ _ _ _ h1
  have F2 := integrate_frame ops distr _ _ _ _ _ _ _ h2
  have F3 := integrate_frame ops distr _ _ _ _ _ _ _ h3
  obtain ⟨-, e1, e2, e3⟩ := digit_strings
  rw [e1] at F1
  rw [e2] at F2
  rw [e3] at F3
  have k0 : ("00" : String) = "0" ++ String.singleton '0' := rfl
  have k1 : ("01" : String) = "0" ++ String.singleton '1' := rfl
  have k2 : ("02" : String) = "0" ++ String.singleton '2' := rfl
  refine ⟨r0, r1, r2, r3, c1, c2, c3, h0, h1, h2, h3, ?_, ?_, ?_⟩
  · intro q hq
    rw [k0] at hq
    rw [F3 q (KeyUnder.siblings (by decide) hq), F2 q (KeyUnder.siblings (by decide) hq),
      F1 q (KeyUnder.siblings (by decide) hq)]
  · intro q hq
    rw [k1] at hq
    rw [F3 q (KeyUnder.siblings (by decide) hq), F2 q (KeyUnder.siblings (by decide) hq)]
  · intro q hq
    rw [k2] at hq
    rw [F3 q (KeyUnder.siblings (by decide) hq)]

end Hemisphere

section IntegrateClaims

variable {T V α : Type} [LinearOrderedField α] (ops : TriangleOps T V α) (distr : V → α)

/-- With one level of calls left, a node whose test fails does not return. -/
theorem integrate_one_splits (tri : T) (parentID : String) (k : Int) (c : Cache α)
    (h : ¬ integrate.accepts ops distr tri) :
    integrate ops distr 1 tri parentID k c = none := by
  rw [integrate_succ_splits ops distr 0 tri parentID k c h]
  simp [integrate]

/-- Claim C5: when `rule2 > 0` and `|rule1 - rule2|` is below `1e-5` or below
`1e-5 * rule2`, `integrate` returns `rule2` itself, without any recursive call
(one level of calls suffices and only the node's own key is written), and the
map then holds `rule2` under `parentID ++ decimal(splitNumber)`. -/
theorem integrate_accepts_rule2 (fuel : ℕ) (tri : T) (parentID : String) (splitNumber : Int)
    (cache : Cache α) (hpos : 0 < integrate.rule2 ops distr tri)
    (herr : |integrate.rule1 ops distr tri - integrate.rule2 ops distr tri| < 1e-5 ∨
      |integrate.rule1 ops distr tri - integrate.rule2 ops distr tri| <
        1e-5 * integrate.rule2 ops distr tri) :
    integrate ops distr (fuel + 1) tri parentID splitNumber cache =
      some (integrate.rule2 ops distr tri,
        cache.set (parentID ++ toString splitNumber) (integrate.rule2 ops distr tri)) ∧
    (cache.set (parentID ++ toString splitNumber) (integrate.rule2 ops distr tri))
      (parentID ++ toString splitNumber) = some (integrate.rule2 ops distr tri) ∧
    ∀ key, key ≠ parentID ++ toString splitNumber →
      (cache.set (parentID ++ toString splitNumber) (integrate.rule2 ops distr tri)) key =
        cache key := by
  have hacc : integrate.accepts ops distr tri := by
    rcases herr with h | h
    · exact Or.inl h
    · exact Or.inr ⟨hpos.ne', (div_lt_iff₀ hpos).2 h⟩
  exact ⟨integrate_succ_accepts ops distr fuel tri parentID splitNumber cache hacc,
    Cache.set_self _ _ _, fun key hkey => Cache.set_of_ne _ _ hkey⟩

/-- Claim C6: a terminating call stores the value it returns under its own key;
when the error test fails that value is the sum of the results of the four
recursive calls on the children of `tri.split()`, made with the node's key as
`parentID` and the child indices 0..3; the map holding no key under the node's
key beforehand, every key `k` under it that has a cached child `k0` satisfies
`cache[k] = cache[k0] + cache[k1] + cache[k2] + cache[k3]`; and so does every
cached key with a cached child `k0` in the map that the constructor builds. -/
theorem integrate_split_sums (fuel : ℕ) (tri : T) (parentID : String) (k : Int)
    (c c' : Cache α) (v : α)
    (hrun : integrate ops distr fuel tri parentID k c = some (v, c')) :
    c' (parentID ++ toString k) = some v ∧
    (¬ integrate.accepts ops distr tri →
      ∃ fuel' : ℕ, fuel = fuel' + 1 ∧ ∃ r0 r1 r2 r3 : α, ∃ c1 c2 c3 c4 : Cache α,
        integrate ops distr fuel' (ops.split tri 0) (parentID ++ toString k) 0 c = some (r0, c1) ∧
        integrate ops distr fuel' (ops.split tri 1) (parentID ++ toString k) 1 c1 = some (r1, c2) ∧
        integrate ops distr fuel' (ops.split tri 2) (parentID ++ toString k) 2 c2 = some (r2, c3) ∧
        integrate ops distr fuel' (ops.split tri 3) (parentID ++ toString k) 3 c3 = some (r3, c4) ∧
        v = r0 + r1 + r2 + r3 ∧ c' = c4.set (parentID ++ toString k) v) ∧
    ((∀ key, KeyUnder (parentID ++ toString k) key → c key = none) →
      ∀ key, KeyUnder (parentID ++ toString k) key → c' (key ++ "0") ≠ none →
        ∃ v0 v1 v2 v3 : α, c' (key ++ "0") = some v0 ∧ c' (key ++ "1") = some v1 ∧
          c' (key ++ "2") = some v2 ∧ c' (key ++ "3") = some v3 ∧
          c' key = some (v0 + v1 + v2 + v3)) ∧
    (∀ (fuel0 : ℕ) (tri0 tri1 tri2 tri3 : T) (cache : Cache α),
      Glittery.integrateHemisphere ops distr fuel0 tri0 tri1 tri2 tri3 = some cache →
      ∀ key, cache key ≠ none → cache (key ++ "0") ≠ none →
        ∃ v0 v1 v2 v3 : α, cache (key ++ "0") = some v0 ∧ cache (key ++ "1") = some v1 ∧
          cache (key ++ "2") = some v2 ∧ cache (key ++ "3") = some v3 ∧
          cache key = some (v0 + v1 + v2 + v3)) := by
  refine ⟨integrate_returns_cached ops distr hrun, ?_, ?_, ?_⟩
  · intro h
    cases fuel with
    | zero => simp [integrate] at hrun
    | succ fuel' => exact ⟨fuel', rfl, integrate_split_calls ops distr h hrun⟩
  · intro hclean key hkey hchild
    exact integrate_sums ops distr fuel tri parentID k c c' v hrun hclean key hkey hchild
  · intro fuel0 tri0 tri1 tri2 tri3 cache h
    exact integrateHemisphere_sums ops distr fuel0 tri0 tri1 tri2 tri3 cache h

theorem integrate_returns_iff_converges : ∀ (n : ℕ) (tri : T) (parentID : String) (k : Int) (c : Cache α),
    (∃ r, integrate ops distr (n + 1) tri parentID k c = some r) ↔
      ConvergesWithin ops distr n tri := by
  intro n
  induction n with
  | zero =>
    intro tri parentID k c
    by_cases h : integrate.accepts ops distr tri
    · simp [ConvergesWithin, h, integrate_succ_accepts ops distr 0 tri parentID k c h]
    · simp [ConvergesWithin, h, integrate_one_splits ops distr tri parentID k c h]
  | succ n ih =>
    intro tri parentID k c
    by_cases h : integrate.accepts ops distr tri
    · simp [ConvergesWithin, h, integrate_succ_accepts ops distr (n + 1) tri parentID k c h]
    · rw [integrate_succ_splits ops distr (n + 1) tri parentID k c h]
      simp only [ConvergesWithin, h, false_or]
      constructor
      · rintro ⟨r, hr⟩
        simp only [Option.bind_eq_some] at hr
        obtain ⟨r0, h0, r1, h1, r2, h2, r3, h3, -⟩ := hr
        intro i
        fin_cases i
        · exact (ih _ _ _ _).1 ⟨r0, h0⟩
        · exact (ih _ _ _ _).1 ⟨r1, h1⟩
        · exact (ih _ _ _ _).1 ⟨r2, h2⟩
        · exact (ih _ _ _ _).1 ⟨r3, h3⟩
      · intro hall
        obtain ⟨r0, h0⟩ := (ih (ops.split tri 0) (parentID ++ toString k) 0 c).2 (hall 0)
        obtain ⟨r1, h1⟩ := (ih (ops.split tri 1) (parentID ++ toString k) 1 r0.2).2 (hall 1)
        obtain ⟨r2, h2⟩ := (ih (ops.split tri 2) (parentID ++ toString k) 2 r1.2).2 (hall 2)
        obtain ⟨r3, h3⟩ := (ih (ops.split tri 3) (parentID ++ toString k) 3 r2.2).2 (hall 3)
        refine ⟨(0 + r0.1 + r1.1 + r2.1 + r3.1,
          r3.2.set (parentID ++ toString k) (0 + r0.1 + r1.1 + r2.1 + r3.1)), ?_⟩
        simp only [h0, h1, h2, h3, Option.some_bind]

/-- Claim C7, as the code has it: `integrate` has no depth bound of its own.
With `n + 1` levels of calls available it returns exactly when the error test
accepts on every branch of the subdivision tree within `n` splits. -/
theorem integrate_returns_iff (n : ℕ) (tri : T) (parentID : String) (k : Int) (c : Cache α) :
    (∃ r, integrate ops distr (n + 1) tri parentID k c = some r) ↔
      ConvergesWithin ops distr n tri :=
  integrate_returns_iff_converges ops distr n tri parentID k c

/-- Claim C8: a terminating call of `integrate` never removes an entry of the map
and changes no key outside those that extend its own key
`parentID ++ decimal(splitNumber)`; in particular a construction-time call (root id
`"0"`, index `k` in 0..3) leaves every entry under the key `"0j"` of another
construction-time call as it was, so that in the map built by the constructor the
entries under `"00"`, `"01"`, `"02"` are those left by the first, second and third
call. -/
theorem integrate_frame_effect (fuel : ℕ) (tri : T) (parentID : String) (k : Int)
    (c c' : Cache α) (v : α)
    (hrun : integrate ops distr fuel tri parentID k c = some (v, c')) :
    (∀ key, c key ≠ none → c' key ≠ none) ∧
    (∀ key, ¬ KeyUnder (parentID ++ toString k) key → c' key = c key) ∧
    (parentID = "0" → 0 ≤ k → k ≤ 3 → ∀ j : Int, 0 ≤ j → j ≤ 3 → j ≠ k →
      ∀ key, KeyUnder ("0" ++ toString j) key → c' key = c key) ∧
    (∀ (fuel0 : ℕ) (tri0 tri1 tri2 tri3 : T) (cache : Cache α),
      Glittery.integrateHemisphere ops distr fuel0 tri0 tri1 tri2 tri3 = some cache →
      ∃ r0 r1 r2 r3 : α, ∃ c1 c2 c3 : Cache α,
        integrate ops distr fuel0 tri0 "0" 0 (fun _ => none) = some (r0, c1) ∧
        integrate ops distr fuel0 tri1 "0" 1 c1 = some (r1, c2) ∧
        integrate ops distr fuel0 tri2 "0" 2 c2 = some (r2, c3) ∧
        integrate ops distr fuel0 tri3 "0" 3 c3 = some (r3, cache) ∧
        (∀ key, KeyUnder "00" key → cache key = c1 key) ∧
        (∀ key, KeyUnder "01" key → cache key = c2 key) ∧
        (∀ key, KeyUnder "02" key → cache key = c3 key)) := by
  have hframe := integrate_frame ops distr fuel tri parentID k c c' v hrun
  refine ⟨integrate_keeps ops distr fuel tri parentID k c c' v hrun, hframe, ?_,
    fun fuel0 tri0 tri1 tri2 tri3 cache h =>
      integrateHemisphere_entries ops distr fuel0 tri0 tri1 tri2 tri3 cache h⟩
  rintro rfl hk0 hk3 j hj0 hj3 hjk key hkey
  apply hframe
  obtain ⟨e0, e1, e2, e3⟩ := digit_strings
  interval_cases j <;> interval_cases k <;>
    first
    | exact absurd rfl hjk
    | (simp only [e0, e1, e2, e3] at hkey ⊢
       exact KeyUnder.siblings (by decide) hkey)

end IntegrateClaims

/-! ### A distribution on which `integrate` does not return -/

set_option maxHeartbeats 1000000 in
/-- The two example integrands: on the spike no level passes the test, on the bump
every triangle passes it at once. -/
theorem spike_bump_lemmas :
    (∀ (n : ℕ), ¬ integrate.accepts spikeOps spikeDistr (n, true)) ∧
    (∀ (fuel n : ℕ) (parentID : String) (k : Int) (c : Cache ℚ),
      integrate spikeOps spikeDistr fuel (n, true) parentID k c = none) ∧
    (integrate.rule1 bumpOps bumpDistr 0 = 2 ∧ integrate.rule2 bumpOps bumpDistr 0 = 1 ∧
      integrate.rule1 bumpOps bumpDistr 1 = 1 ∧ integrate.rule2 bumpOps bumpDistr 1 = 1) ∧
    (¬ integrate.accepts bumpOps bumpDistr 0 ∧ integrate.accepts bumpOps bumpDistr 1) ∧
    (∃ r, integrate bumpOps bumpDistr 2 0 "0" 0 (fun _ => none) = some r) := by
  have spike_not_accepted (n : ℕ) : ¬ integrate.accepts spikeOps spikeDistr (n, true) := by
    have h4 : ((1 : ℚ) / 4) ^ n * 4 ^ n = 1 := by
      rw [← mul_pow]; norm_num
    have h1 : integrate.rule1 spikeOps spikeDistr (n, true) = 2 := by
      simp only [integrate.rule1, spikeOps, spikeDistr, if_true]
      linear_combination 2 * h4
    have h2 : integrate.rule2 spikeOps spikeDistr (n, true) = 1 := by
      simp only [integrate.rule2, spikeOps, spikeDistr, if_true]
      linear_combination h4
    unfold integrate.accepts
    rw [h1, h2]
    norm_num
  have spike_diverges : ∀ (fuel n : ℕ) (parentID : String) (k : Int) (c : Cache ℚ),
      integrate spikeOps spikeDistr fuel (n, true) parentID k c = none := by
    intro fuel
    induction fuel with
    | zero => intro n parentID k c; rfl
    | succ fuel ih =>
      intro n parentID k c
      rw [integrate_succ_splits spikeOps spikeDistr fuel (n, true) parentID k c
        (spike_not_accepted n)]
      have : spikeOps.split (n, true) 0 = (n + 1, true) := rfl
      rw [this, ih]
      rfl
  have bump_rules :
      integrate.rule1 bumpOps bumpDistr 0 = 2 ∧ integrate.rule2 bumpOps bumpDistr 0 = 1 ∧
      integrate.rule1 bumpOps bumpDistr 1 = 1 ∧ integrate.rule2 bumpOps bumpDistr 1 = 1 := by
    refine ⟨?_, ?_, ?_, ?_⟩ <;>
      simp [integrate.rule1, integrate.rule2, bumpOps, bumpDistr] <;> norm_num
  have bump_accepts :
      ¬ integrate.accepts bumpOps bumpDistr 0 ∧ integrate.accepts bumpOps bumpDistr 1 := by
    obtain ⟨h1, h2, h3, h4⟩ := bump_rules
    unfold integrate.accepts
    rw [h1, h2, h3, h4]
    norm_num
  have bump_returns :
      ∃ r, integrate bumpOps bumpDistr 2 0 "0" 0 (fun _ => none) = some r := by
    rw [integrate_returns_iff_converges]
    exact Or.inr fun _ => bump_accepts.2
  exact ⟨@spike_not_accepted, @spike_diverges, @bump_rules, @bump_accepts, @bump_returns⟩

/-- Claim C7 fails: on the spike distribution, whose two rules differ by 1 at
every level, the call of `integrate` on the level-0 triangle returns with no
number of levels of calls, although the excess is divided by four at each split. -/
theorem integrate_spike_never_returns :
    (∀ n : ℕ, spikeOps.excess (spikeOps.split (n, true) 0) = spikeOps.excess (n, true) / 4) ∧
    ¬ ∃ (fuel : ℕ) (r : ℚ × Cache ℚ),
      integrate spikeOps spikeDistr fuel (0, true) "0" 0 (fun _ => none) = some r := by
  obtain ⟨-, spike_diverges, -, -, -⟩ := spike_bump_lemmas
  constructor
  · intro n
    simp only [spikeOps]
    rw [pow_succ]
    ring
  · rintro ⟨fuel, r, hr⟩
    rw [spike_diverges] at hr
    exact Option.noConfusion hr

/-! ### A run of `integrate` with one split -/

theorem integrate_accepts_rule2_witness :
    integrate bumpOps bumpDistr 1 1 "00" 0 (fun _ => none) =
      some (integrate.rule2 bumpOps bumpDistr 1,
        Cache.set (fun _ => none) ("00" ++ toString (0 : Int))
          (integrate.rule2 bumpOps bumpDistr 1)) ∧
    integrate.rule2 bumpOps bumpDistr 1 = 1 := by
  obtain ⟨-, -, bump_rules, -, -⟩ := spike_bump_lemmas
  exact
    ⟨(integrate_accepts_rule2 bumpOps bumpDistr 0 1 "00" 0 (fun _ => none)
        (by rw [bump_rules.2.2.2]; norm_num)
        (Or.inl (by rw [bump_rules.2.2.1, bump_rules.2.2.2]; norm_num))).1,
      bump_rules.2.2.2⟩

theorem integrate_split_sums_witness :
    ∃ (v : ℚ) (c' : Cache ℚ),
      integrate bumpOps bumpDistr 2 0 "0" 0 (fun _ => none) = some (v, c') ∧
      c' ("0" ++ toString (0 : Int)) = some v := by
  obtain ⟨-, -, -, -, bump_returns⟩ := spike_bump_lemmas
  obtain ⟨⟨v, c'⟩, h⟩ := bump_returns
  exact ⟨v, c', h, (integrate_split_sums bumpOps bumpDistr 2 0 "0" 0 _ c' v h).1⟩

theorem integrate_frame_effect_witness :
    ∃ (v : ℚ) (c' : Cache ℚ),
      integrate bumpOps bumpDistr 2 0 "0" 0 (fun _ => none) = some (v, c') ∧
      ∀ key, ¬ KeyUnder ("0" ++ toString (0 : Int)) key → c' key = none := by
  obtain ⟨-, -, -, -, bump_returns⟩ := spike_bump_lemmas
  obtain ⟨⟨v, c'⟩, h⟩ := bump_returns
  exact ⟨v, c', h, (integrate_frame_effect bumpOps bumpDistr 2 0 "0" 0 _ c' v h).2.1⟩

/-! ### The `Glittery` BSDF -/

/-- Claim C4: whenever the z-component of `wi` or of `wo` is `≤ 0`,
`Glittery::eval` returns the zero spectrum (leaving the random generator as it
was) and `Glittery::pdf` returns 0. -/
theorem Glittery.eval_pdf_below_horizon {P D G : Type} (host : Host D G) (self : Glittery P)
    (bRec : BSDFSamplingRecord P) (measure : EMeasure) (gen : G)
    (uninit : Fin 3 → InterfaceSample) (pixelArea0 : ℝ)
    (h : Frame.cosTheta bRec.wi ≤ 0 ∨ Frame.cosTheta bRec.wo ≤ 0) :
    Glittery.eval host self bRec measure gen uninit pixelArea0 = some (0, gen) ∧
    Glittery.pdf host self bRec measure = some 0 := by
  have hr : Glittery.rejects host bRec measure := by
    rcases h with h | h
    · exact Or.inr (Or.inl h)
    · exact Or.inr (Or.inr (Or.inl h))
  constructor
  · unfold Glittery.eval
    simp only [hr, if_true, pure]
  · unfold Glittery.pdf
    simp only [hr, if_true, pure, Option.some.injEq]
    norm_num

theorem Glittery.eval_pdf_below_horizon_witness :
    Frame.cosTheta (⟨0, 0, -1⟩ : Vector3) ≤ 0 ∧
    Glittery.pdf
      ({ EGlossyReflection := 8, distribution := fun _ _ _ _ _ => (), eval := fun _ _ => 1,
         evalFootprint := fun _ _ _ _ _ _ => 1, smithG := fun _ _ _ _ => 1,
         smithG1 := fun _ _ _ => 1, pdf := fun _ _ _ => 1,
         sample := fun _ _ _ => (⟨0, 0, 1⟩, 1), standardNormal := fun g => (0, g) } : Host Unit Unit)
      ({ m_type := 0, m_specularReflectance := fun _ => 1, m_alphaU := fun _ => 1,
         m_alphaV := fun _ => 1, m_totalFacets := 1, m_queryRadius := 1, m_sampleVisible := true,
         m_eta := 1, m_k := fun _ => 1, m_height := fun _ => 1, m_eta1 := 1, m_eta2 := 1,
         m_wavelengths := 1, m_heightRange := fun _ => 1, m_spectralAntialiasing := true,
         m_useGaussianFit := true, integrations := fun _ => none } : Glittery Unit)
      { its := ⟨(), false, ⟨0, 0⟩, 0, 0, 0, 0⟩, wi := ⟨0, 0, -1⟩, wo := ⟨0, 0, 1⟩,
        component := -1, typeMask := 8, sampler := none, eta := 1, sampledComponent := 0,
        sampledType := 0 }
      EMeasure.ESolidAngle = some 0 :=
  ⟨by dsimp only [Frame.cosTheta]; norm_num,
    (Glittery.eval_pdf_below_horizon _ _ _ EMeasure.ESolidAngle () (fun _ => ⟨0, 0, 0, 0, 0, 0, 0⟩) 0
      (Or.inl (by dsimp only [Frame.cosTheta]; norm_num))).2⟩

/-! ### The reads of the tabulated sensitivity -/

/-- Claim C11: each of the six tables has exactly 512 (`nCMFs`) entries, and for a
channel with `OPD ≥ 0` the index `⌊u⌋` used when a read is performed (that is,
when `u ≥ nCMFs` fails) satisfies `0 ≤ ⌊u⌋ ≤ 511`, so that the read of every
table at that index is inside the array and the channel has a value. -/
theorem tabulated_reads_in_bounds (opd : ℝ) (h0 : 0 ≤ opd) :
    (rShX.length = nCMFs ∧ iShX.length = nCMFs ∧ rShY.length = nCMFs ∧
      iShY.length = nCMFs ∧ rShZ.length = nCMFs ∧ iShZ.length = nCMFs ∧ nCMFs = 512) ∧
    (¬ (2 * Real.pi * opd / 30000.0 * ((nCMFs : ℝ) - 1) ≥ (nCMFs : ℝ)) →
      0 ≤ Int.floor (2 * Real.pi * opd / 30000.0 * ((nCMFs : ℝ) - 1)) ∧
      Int.floor (2 * Real.pi * opd / 30000.0 * ((nCMFs : ℝ) - 1)) ≤ 511 ∧
      ∀ t ∈ [rShX, iShX, rShY, iShY, rShZ, iShZ], ∃ q : ℚ,
        readTable t (Int.floor (2 * Real.pi * opd / 30000.0 * ((nCMFs : ℝ) - 1))) =
          some (q : ℝ)) ∧
    ∀ s : ℝ,
      (∃ v, tabulatedChannel rShX iShX (2 * Real.pi * opd / 30000.0 * ((nCMFs : ℝ) - 1)) s =
        some v) ∧
      (∃ v, tabulatedChannel rShY iShY (2 * Real.pi * opd / 30000.0 * ((nCMFs : ℝ) - 1)) s =
        some v) ∧
      (∃ v, tabulatedChannel rShZ iShZ (2 * Real.pi * opd / 30000.0 * ((nCMFs : ℝ) - 1)) s =
        some v) := by
  obtain ⟨-, -, -, -, readTable_of_lt, floor_toNat_lt_nCMFs, -, -, -, -, -, -,
      -⟩ := checked_arithmetic
  obtain ⟨tabulatedChannel_eq, -, -, -, -, -, -, -, -, -, -, -⟩ := sensitivity_lemmas
  obtain ⟨hrx, hix, hry, hiy, hrz, hiz⟩ := table_lengths
  refine ⟨⟨hrx, hix, hry, hiy, hrz, hiz, rfl⟩, ?_, ?_⟩
  · intro hu
    have hn : ((nCMFs : ℝ) - 1) = 511 := by norm_num [nCMFs]
    have hn' : ((nCMFs : ℕ) : ℝ) = 512 := by norm_num [nCMFs]
    have h3 : (30000.0 : ℝ) = 30000 := by norm_num
    rw [hn, h3] at hu ⊢
    rw [hn'] at hu
    have hu0 : 0 ≤ 2 * Real.pi * opd / 30000 * 511 := by
      have := Real.pi_pos
      positivity
    obtain ⟨hf0, hf1⟩ := floor_toNat_lt_nCMFs hu0 (not_le.1 hu)
    refine ⟨hf0, by omega, ?_⟩
    intro t ht
    have hlen : t.length = 512 := by
      simp only [List.mem_cons, List.mem_singleton, List.not_mem_nil, or_false] at ht
      rcases ht with h | h | h | h | h | h
      · rw [h]; exact hrx
      · rw [h]; exact hix
      · rw [h]; exact hry
      · rw [h]; exact hiy
      · rw [h]; exact hrz
      · rw [h]; exact hiz
    obtain ⟨q, -, hq⟩ := readTable_of_lt t _ hf0 (hlen ▸ hf1)
    exact ⟨q, hq⟩
  · intro s
    obtain ⟨x, hx, -⟩ := tabulatedChannel_eq rShX iShX hrx hix opd s h0
    obtain ⟨y, hy, -⟩ := tabulatedChannel_eq rShY iShY hry hiy opd s h0
    obtain ⟨z, hz, -⟩ := tabulatedChannel_eq rShZ iShZ hrz hiz opd s h0
    exact ⟨⟨x, hx⟩, ⟨y, hy⟩, ⟨z, hz⟩⟩

theorem tabulated_reads_in_bounds_witness :
    (0 : ℝ) ≤ 100 ∧ rShX.length = nCMFs :=
  ⟨by norm_num, (tabulated_reads_in_bounds 100 (by norm_num)).1.1⟩

/-! ### The mean of the sensitivity: the closed form and its derivative -/

set_option maxHeartbeats 1000000 in
/-- The primitives of evalSensitivityMean and evalSensitivitySquare: what the two
integrate functions return and the derivatives of the primitives. -/
theorem primitive_lemmas :
    (∀ (A B C CB2 shift d : ℝ) (_ : B ≠ 0),
      evalSensitivityMean.integrate A B C CB2 shift d =
        some (evalSensitivityMean.primitive A B C CB2 shift d)) ∧
    (∀ (A B C K s : ℝ) (_ : B ≠ 0)
      (_ : K * B ^ 2 = C) (d : ℝ),
      HasStrictDerivAt (fun d => evalSensitivityMean.primitive A B C K s d)
        (A * Real.cos (B * d + s) * (1 - C * (d * d) + (C * (d * d)) * (C * (d * d)) / 2)) d) ∧
    (∀ (V B C K s : ℝ) (_ : B ≠ 0)
      (_ : K * B ^ 2 = C) (h : ℝ),
      HasDerivAt (fun h => evalSensitivityMean.primitive V B C K s (h * 1.0e-9) * 1e9)
        (V * Real.cos (B * (h * 1.0e-9) + s) *
          (1 - C * ((h * 1.0e-9) * (h * 1.0e-9)) +
            (C * ((h * 1.0e-9) * (h * 1.0e-9))) * (C * ((h * 1.0e-9) * (h * 1.0e-9))) / 2)) h) ∧
    (∀ (A B C CB2 shift d : ℝ) (_ : B ≠ 0),
      evalSensitivitySquare.integrate A B C CB2 shift d =
        some (evalSensitivitySquare.primitive A B C CB2 shift d)) ∧
    (∀ (A C CB2 shift d : ℝ),
      evalSensitivitySquare.integrate A 0 C CB2 shift d = none) ∧
    (∀ (A B C K s : ℝ) (_ : B ≠ 0)
      (_ : K * B ^ 2 = C) (d : ℝ),
      HasStrictDerivAt (fun d => evalSensitivitySquare.primitive A B C K s d)
        (A * Real.cos (B * d + s) ^ 2 * (1 - C * (d * d) + (C * (d * d)) * (C * (d * d)) / 2)) d) ∧
    (∀ (V B C K s : ℝ) (_ : B ≠ 0)
      (_ : K * B ^ 2 = C) (h : ℝ),
      HasDerivAt (fun h => evalSensitivitySquare.primitive V B C K s (h * 1.0e-9) * 1e9)
        (V * Real.cos (B * (h * 1.0e-9) + s) ^ 2 *
          (1 - C * ((h * 1.0e-9) * (h * 1.0e-9)) +
            (C * ((h * 1.0e-9) * (h * 1.0e-9))) * (C * ((h * 1.0e-9) * (h * 1.0e-9))) / 2)) h) := by
  obtain ⟨fdiv_eq_some, -, -, -, -, -, -, -, -, -, -, -, -⟩ := checked_arithmetic
  -- The closure `integrate` returns `primitive` when `B ≠ 0`, and nothing when
  -- `B = 0`.
  have evalSensitivityMean_integrate_eq (A B C CB2 shift d : ℝ) (hB : B ≠ 0) :
      evalSensitivityMean.integrate A B C CB2 shift d =
        some (evalSensitivityMean.primitive A B C CB2 shift d) := by
    unfold evalSensitivityMean.integrate evalSensitivityMean.primitive
    simp only [fdiv_eq_some hB, Option.bind_eq_bind, Option.some_bind, pure]
  -- The derivative of `primitive` in `d`, when `CB2 * B ^ 2 = C`: the cosine with
  -- the envelope `1 - x + x ^ 2 / 2`, `x = C * d ^ 2`.
  have evalSensitivityMean_primitive_hasStrictDerivAt (A B C K s : ℝ) (hB : B ≠ 0)
      (hK : K * B ^ 2 = C) (d : ℝ) :
      HasStrictDerivAt (fun d => evalSensitivityMean.primitive A B C K s d)
        (A * Real.cos (B * d + s) * (1 - C * (d * d) + (C * (d * d)) * (C * (d * d)) / 2)) d := by
    unfold evalSensitivityMean.primitive sqr
    have hlin : HasStrictDerivAt (fun d : ℝ => B * d + s) B d := by
      simpa using ((hasStrictDerivAt_id d).const_mul B).add_const s
    have hsin := hlin.sin
    have hcos := hlin.cos
    have hid := hasStrictDerivAt_id d
    have hdd : HasStrictDerivAt (fun d : ℝ => C * (d * d)) (C * (2 * d)) d := by
      have := (hid.mul hid).const_mul C
      convert this using 1
      simp only [id]
      ring
    have hP : HasStrictDerivAt (fun d : ℝ => 1 + 2 * K + 12 * (K * K) +
        0.5 * ((C * (d * d)) * (C * (d * d))) - C * (d * d) - 6 * K * (C * (d * d)))
        (0.5 * (C * (2 * d) * (C * (d * d)) + C * (d * d) * (C * (2 * d))) - C * (2 * d) -
          6 * K * (C * (2 * d))) d := by
      have h1 := ((hdd.mul hdd).const_mul (0.5 : ℝ)).const_add (1 + 2 * K + 12 * (K * K))
      have h2 := (h1.sub hdd).sub (hdd.const_mul (6 * K))
      convert h2 using 1
    have hT1 := ((hsin.mul hP).div_const B)
    have hQ : HasStrictDerivAt (fun d : ℝ => C * (d * d) - 6 * K - 1) (C * (2 * d)) d := by
      simpa using (hdd.sub_const (6 * K)).sub_const 1
    have hT2 := (((hid.const_mul (2 * K)).mul hcos).mul hQ)
    have hF := (hT1.add hT2).const_mul A
    convert hF using 1
    simp only [id, Pi.mul_apply]
    subst hK
    field_simp
    ring
  -- One lobe of the sensitivity, in the height `h` (in nanometres): the derivative
  -- of `primitive (h * 1e-9) * 1e9` is the cosine with the Taylor envelope.
  have evalSensitivityMean_lobe_hasDerivAt (V B C K s : ℝ) (hB : B ≠ 0)
      (hK : K * B ^ 2 = C) (h : ℝ) :
      HasDerivAt (fun h => evalSensitivityMean.primitive V B C K s (h * 1.0e-9) * 1e9)
        (V * Real.cos (B * (h * 1.0e-9) + s) *
          (1 - C * ((h * 1.0e-9) * (h * 1.0e-9)) +
            (C * ((h * 1.0e-9) * (h * 1.0e-9))) * (C * ((h * 1.0e-9) * (h * 1.0e-9))) / 2)) h := by
    have h1 := (evalSensitivityMean_primitive_hasStrictDerivAt V B C K s hB hK
      (h * 1.0e-9)).hasDerivAt
    have h2 : HasDerivAt (fun h : ℝ => h * 1.0e-9) (1.0e-9 : ℝ) h := by
      simpa using (hasDerivAt_id h).mul_const (1.0e-9 : ℝ)
    have h3 := (h1.comp h h2).mul_const (1e9 : ℝ)
    convert h3 using 1
    ring
  -- The closure `integrate` of `evalSensitivitySquare` returns `primitive` when
  -- `B ≠ 0`.
  have evalSensitivitySquare_integrate_eq (A B C CB2 shift d : ℝ) (hB : B ≠ 0) :
      evalSensitivitySquare.integrate A B C CB2 shift d =
        some (evalSensitivitySquare.primitive A B C CB2 shift d) := by
    have h2 : 2 * B ≠ 0 := mul_ne_zero two_ne_zero hB
    have h4 : 4 * B ≠ 0 := mul_ne_zero four_ne_zero hB
    unfold evalSensitivitySquare.integrate evalSensitivitySquare.primitive
    simp only [fdiv_eq_some h2, fdiv_eq_some h4, Option.bind_eq_bind, Option.some_bind, pure]
  -- The closure `integrate` of `evalSensitivitySquare` has no value when
  -- `B = 0`: `shift / (2 * B)` divides by zero.
  have evalSensitivitySquare_integrate_zero (A C CB2 shift d : ℝ) :
      evalSensitivitySquare.integrate A 0 C CB2 shift d = none := by
    unfold evalSensitivitySquare.integrate
    dsimp only [fdiv]
    simp
  -- The derivative of `primitive` in `d`, when `CB2 * B ^ 2 = C`: the squared
  -- cosine with the envelope `1 - x + x ^ 2 / 2`, `x = C * d ^ 2`.
  have evalSensitivitySquare_primitive_hasStrictDerivAt (A B C K s : ℝ) (hB : B ≠ 0)
      (hK : K * B ^ 2 = C) (d : ℝ) :
      HasStrictDerivAt (fun d => evalSensitivitySquare.primitive A B C K s d)
        (A * Real.cos (B * d + s) ^ 2 * (1 - C * (d * d) + (C * (d * d)) * (C * (d * d)) / 2)) d := by
    unfold evalSensitivitySquare.primitive sqr
    have hlin : HasStrictDerivAt (fun d : ℝ => 2 * (B * d + s)) (2 * B) d := by
      simpa using (((hasStrictDerivAt_id d).const_mul B).add_const s).const_mul 2
    have hsin := hlin.sin
    have hcos := hlin.cos
    have hid := hasStrictDerivAt_id d
    have hdd : HasStrictDerivAt (fun d : ℝ => C * (d * d)) (C * (2 * d)) d := by
      have := (hid.mul hid).const_mul C
      convert this using 1
      simp only [id]
      ring
    have hpoly : HasStrictDerivAt (fun d : ℝ => d / 2 - C * (d * d) * d / 6 +
        (C * (d * d)) * (C * (d * d)) * d / 20 + s / (2 * B))
        (1 / 2 - (C * (2 * d) * d + C * (d * d) * 1) / 6 +
          ((C * (2 * d) * (C * (d * d)) + C * (d * d) * (C * (2 * d))) * d +
            (C * (d * d)) * (C * (d * d)) * 1) / 20) d := by
      have h1 := hid.div_const (2 : ℝ)
      have h2 := (hdd.mul hid).div_const (6 : ℝ)
      have h3 := ((hdd.mul hdd).mul hid).div_const (20 : ℝ)
      have h4 := ((h1.sub h2).add h3).add_const (s / (2 * B))
      convert h4 using 1
    have hP : HasStrictDerivAt (fun d : ℝ => 1 + 0.5 * K + 0.75 * (K * K) +
        0.5 * ((C * (d * d)) * (C * (d * d))) - C * (d * d) - 1.5 * K * (C * (d * d)))
        (0.5 * (C * (2 * d) * (C * (d * d)) + C * (d * d) * (C * (2 * d))) - C * (2 * d) -
          1.5 * K * (C * (2 * d))) d := by
      have h1 := ((hdd.mul hdd).const_mul (0.5 : ℝ)).const_add (1 + 0.5 * K + 0.75 * (K * K))
      have h2 := (h1.sub hdd).sub (hdd.const_mul (1.5 * K))
      convert h2 using 1
    have hT1 := ((hsin.mul hP).div_const (4 * B))
    have hQ : HasStrictDerivAt (fun d : ℝ => C * (d * d) - 1.5 * K - 1) (C * (2 * d)) d := by
      simpa using (hdd.sub_const (1.5 * K)).sub_const 1
    have hT2 := (((hid.const_mul (0.25 * K)).mul hcos).mul hQ)
    have hF := ((hpoly.add hT1).add hT2).const_mul A
    convert hF using 1
    simp only [id, Pi.mul_apply]
    have hc : Real.cos (B * d + s) ^ 2 = 1 / 2 + Real.cos (2 * (B * d + s)) / 2 :=
      Real.cos_sq (B * d + s)
    rw [hc]
    subst hK
    field_simp
    ring
  -- One lobe of the second moment, in the height `h` (in nanometres): the
  -- derivative of `primitive (h * 1e-9) * 1e9` is the squared cosine with the Taylor
  -- envelope.
  have evalSensitivitySquare_lobe_hasDerivAt (V B C K s : ℝ) (hB : B ≠ 0)
      (hK : K * B ^ 2 = C) (h : ℝ) :
      HasDerivAt (fun h => evalSensitivitySquare.primitive V B C K s (h * 1.0e-9) * 1e9)
        (V * Real.cos (B * (h * 1.0e-9) + s) ^ 2 *
          (1 - C * ((h * 1.0e-9) * (h * 1.0e-9)) +
            (C * ((h * 1.0e-9) * (h * 1.0e-9))) * (C * ((h * 1.0e-9) * (h * 1.0e-9))) / 2)) h := by
    have h1 := (evalSensitivitySquare_primitive_hasStrictDerivAt V B C K s hB hK
      (h * 1.0e-9)).hasDerivAt
    have h2 : HasDerivAt (fun h : ℝ => h * 1.0e-9) (1.0e-9 : ℝ) h := by
      simpa using (hasDerivAt_id h).mul_const (1.0e-9 : ℝ)
    have h3 := (h1.comp h h2).mul_const (1e9 : ℝ)
    convert h3 using 1
    ring
  exact ⟨@evalSensitivityMean_integrate_eq, @evalSensitivityMean_primitive_hasStrictDerivAt,
    @evalSensitivityMean_lobe_hasDerivAt, @evalSensitivitySquare_integrate_eq,
    @evalSensitivitySquare_integrate_zero, @evalSensitivitySquare_primitive_hasStrictDerivAt,
    @evalSensitivitySquare_lobe_hasDerivAt⟩

set_option maxHeartbeats 1000000 in
/-- Averages over the height interval: the average of a derivative, its limit as the
interval shrinks, and evalSensitivityMean, evalSensitivitySquare and IridescenceMean
as such averages. -/
theorem height_average_lemmas :
    (∀ (f G : ℝ → ℝ) (a b : ℝ)
      (_ : ∀ h, HasDerivAt G (f h) h) (_ : Continuous f),
      heightAverage f a b = (1 / (b - a)) * (G b - G a)) ∧
    (∀ (m : ℤ) (tao shift : Spectrum) (a b : ℝ)
      (_ : m ≠ 0) (_ : ∀ i, tao i ≠ 0) (_ : a ≠ b),
      evalSensitivityMean m tao shift a b = some (fun i =>
        heightAverage (fun h => evalSensitivityTaylor (fun j => m * tao j * h) shift i) a b)) ∧
    (∀ (f : ℝ → ℝ) (_ : Continuous f) (h0 : ℝ),
      Tendsto (fun p : ℝ × ℝ => heightAverage f p.1 p.2) (𝓝[{p : ℝ × ℝ | p.1 < p.2}] (h0, h0))
        (𝓝 (f h0))) ∧
    (∀ (h0 : ℝ), (𝓝[{p : ℝ × ℝ | p.1 < p.2}] (h0, h0)).NeBot) ∧
    (∀ (ct1 : ℝ) (params : IridescenceParams)
      (uninit : Fin 3 → InterfaceSample) (ifc : Fin 3 → InterfaceSample)
      (ph21 ph23 : Spectrum × Spectrum) (r123p r123s Rsp Rss : Spectrum)
      (_ : params.spectralAntialiasing = true)
      (_ : collectChannels (fun i => interfaceChannel ct1 (params.eta1 i) (params.eta2 i)
        (params.eta3 i) (params.kappa3 i) (uninit i)) = some ifc)
      (_ : fresnelPhaseExact (fun _ => ct1) (fun _ => 1) params.eta2 (fun _ => 0) = some ph21)
      (_ : fresnelPhaseExact (fun i => (ifc i).ct2) params.eta2 params.eta3 params.kappa3
        = some ph23)
      (_ : ∀ i, 0 ≤ (ifc i).R12p * (ifc i).R23p ∧
        r123p i = Real.sqrt ((ifc i).R12p * (ifc i).R23p))
      (_ : ∀ i, 0 ≤ (ifc i).R12s * (ifc i).R23s ∧
        r123s i = Real.sqrt ((ifc i).R12s * (ifc i).R23s))
      (_ : ∀ i, 1 - (ifc i).R12p * (ifc i).R23p ≠ 0 ∧
        Rsp i = sqr (ifc i).T121p * (ifc i).R23p / (1 - (ifc i).R12p * (ifc i).R23p))
      (_ : ∀ i, 1 - (ifc i).R12s * (ifc i).R23s ≠ 0 ∧
        Rss i = sqr (ifc i).T121s * (ifc i).R23s / (1 - (ifc i).R12s * (ifc i).R23s))
      (_ : ∀ i, 2 * params.eta2 i * (ifc i).ct2 ≠ 0) (a b : ℝ) (_ : a ≠ b),
      ∃ V, IridescenceMean ct1 params a b uninit = some (fun i => 0.5 * max 0
        ((((ifc i).R12p + Rsp i) + (Rsp i - (ifc i).T121p) * r123p i *
            (2 * heightAverage (fun h => evalSensitivityTaylor
              (fun j => 2 * params.eta2 j * (ifc j).ct2 * h)
              (fun j => ph23.1 j + (Real.pi - ph21.1 j)) i) a b)) +
          (((ifc i).R12s + Rss i) + (Rss i - (ifc i).T121s) * r123s i *
            (2 * heightAverage (fun h => evalSensitivityTaylor
              (fun j => 2 * params.eta2 j * (ifc j).ct2 * h)
              (fun j => ph23.2 j + (Real.pi - ph21.2 j)) i) a b))), V)) ∧
    (∀ (tao shift : Spectrum) (a b : ℝ)
      (_ : ∀ i, tao i ≠ 0) (_ : a ≠ b),
      evalSensitivitySquare tao shift a b = some (fun i =>
        heightAverage (fun h =>
          2 * Real.pi * _var i * (_val i / 1.0685e-7) * (_val i / 1.0685e-7) *
              Real.cos (2 * Real.pi * tao i * _pos i * (h * 1.0e-9) + shift i) ^ 2 *
              (1 - 4 * Real.pi ^ 2 * tao i ^ 2 * _var i * (h * 1.0e-9) ^ 2 +
                (4 * Real.pi ^ 2 * tao i ^ 2 * _var i * (h * 1.0e-9) ^ 2) ^ 2 / 2) +
            if i = 0 then
              2 * Real.pi * 9.0564e+09 * (6.8922e-14 / 1.0685e-7) * (6.8922e-14 / 1.0685e-7) *
                Real.cos (2 * Real.pi * tao 0 * 2.2399e+06 * (h * 1.0e-9) + shift 0) ^ 2 *
                (1 - 4 * Real.pi ^ 2 * tao 0 ^ 2 * 9.0564e+09 * (h * 1.0e-9) ^ 2 +
                  (4 * Real.pi ^ 2 * tao 0 ^ 2 * 9.0564e+09 * (h * 1.0e-9) ^ 2) ^ 2 / 2)
            else 0) a b)) := by
  obtain ⟨fdiv_eq_some, -, -, -, -, -, _pos_ne_zero, -, -, -, -, -, -⟩ := checked_arithmetic
  obtain ⟨-, -, -, -, -, evalSensitivityTaylor_continuous, -, -, -, -, -,
      evalSensitivitySquare_isSome⟩ := sensitivity_lemmas
  obtain ⟨-, -, -, -, -, -, -, -, IridescenceMean_antialiased_iff, -, -, -, -⟩ := antialiased_lemmas
  obtain ⟨evalSensitivityMean_integrate_eq, -, evalSensitivityMean_lobe_hasDerivAt,
      evalSensitivitySquare_integrate_eq, -, -,
      evalSensitivitySquare_lobe_hasDerivAt⟩ := primitive_lemmas
  -- The mean of a continuous function with an antiderivative `G`.
  have heightAverage_eq_of_hasDerivAt (f G : ℝ → ℝ) (a b : ℝ)
      (hG : ∀ h, HasDerivAt G (f h) h) (hf : Continuous f) :
      heightAverage f a b = (1 / (b - a)) * (G b - G a) := by
    unfold heightAverage
    rw [intervalIntegral.integral_eq_sub_of_hasDerivAt (fun x _ => hG x)
      (hf.intervalIntegrable a b)]
  -- The value of `evalSensitivityMean` on an interval of positive length, for a
  -- harmonic index and reduced thicknesses other than zero: the mean over the
  -- interval of the Taylor-truncated sensitivity.
  have evalSensitivityMean_eq_average (m : ℤ) (tao shift : Spectrum) (a b : ℝ)
      (hm : m ≠ 0) (ht : ∀ i, tao i ≠ 0) (hab : a ≠ b) :
      evalSensitivityMean m tao shift a b = some (fun i =>
        heightAverage (fun h => evalSensitivityTaylor (fun j => m * tao j * h) shift i) a b) := by
    have hmR : (m : ℝ) ≠ 0 := Int.cast_ne_zero.2 hm
    have hB : ∀ i, 2 * Real.pi * m * tao i * _pos i ≠ 0 := fun i =>
      mul_ne_zero (mul_ne_zero (mul_ne_zero (mul_ne_zero two_ne_zero Real.pi_ne_zero) hmR) (ht i))
        (_pos_ne_zero i)
    have hBx : 2 * Real.pi * m * tao 0 * 2.2399e+06 ≠ 0 :=
      mul_ne_zero (mul_ne_zero (mul_ne_zero (mul_ne_zero two_ne_zero Real.pi_ne_zero) hmR) (ht 0))
        (by norm_num)
    have hK : ∀ i, _var i / (2 * sqr (_pos i)) * (2 * Real.pi * m * tao i * _pos i) ^ 2 =
        Real.pi * m * tao i * (2 * (Real.pi * m * tao i) * _var i) := by
      intro i
      have := _pos_ne_zero i
      unfold sqr
      field_simp
      ring
    have hKx : (9.0564e+09 : ℝ) / (2 * sqr 2.2399e+06) * (2 * Real.pi * m * tao 0 * 2.2399e+06) ^ 2 =
        Real.pi * m * tao 0 * (2 * (Real.pi * m * tao 0) * 9.0564e+09) := by
      unfold sqr
      field_simp
      ring
    have hch : ∀ d : ℝ, (collectChannels fun i => evalSensitivityMean.integrate
        (_val i * Real.sqrt (2 * Real.pi * _var i) / 1.0685e-7) (2 * Real.pi * m * tao i * _pos i)
        (Real.pi * m * tao i * (2 * (Real.pi * m * tao i) * _var i)) (_var i / (2 * sqr (_pos i)))
        (shift i) d) = some (fun i => evalSensitivityMean.primitive
        (_val i * Real.sqrt (2 * Real.pi * _var i) / 1.0685e-7) (2 * Real.pi * m * tao i * _pos i)
        (Real.pi * m * tao i * (2 * (Real.pi * m * tao i) * _var i)) (_var i / (2 * sqr (_pos i)))
        (shift i) d) := fun d =>
      collectChannels_eq_some.2 (fun i => evalSensitivityMean_integrate_eq _ _ _ _ _ _ (hB i))
    unfold evalSensitivityMean
    simp only [hch, Option.bind_eq_bind, Option.some_bind,
      evalSensitivityMean_integrate_eq _ _ _ _ _ _ hBx, fdiv_eq_some (sub_ne_zero.2 hab.symm),
      pure, Option.some.injEq]
    funext i
    by_cases hi : i = 0
    · subst hi
      rw [heightAverage_eq_of_hasDerivAt _ _ a b
        (fun h => ((evalSensitivityMean_lobe_hasDerivAt _ _ _ _ (shift 0) (hB 0) (hK 0) h).add
          (evalSensitivityMean_lobe_hasDerivAt _ _ _ _ (shift 0) hBx hKx h)).congr_deriv ?_)
        (evalSensitivityTaylor_continuous _ _ _)]
      · simp only [Function.update_same, Pi.sub_apply]
        ring
      · unfold evalSensitivityTaylor
        simp only [Function.update_same]
        have e1 : _pos 0 * (2 * Real.pi * (m * tao 0 * h) * 1.0e-9) =
            2 * Real.pi * m * tao 0 * _pos 0 * (h * 1.0e-9) := by ring
        have e2 : 2.2399e+06 * (2 * Real.pi * (m * tao 0 * h) * 1.0e-9) =
            2 * Real.pi * m * tao 0 * 2.2399e+06 * (h * 1.0e-9) := by ring
        rw [e1, e2]
        ring
    · rw [heightAverage_eq_of_hasDerivAt _ _ a b
        (fun h => (evalSensitivityMean_lobe_hasDerivAt _ _ _ _ (shift i) (hB i) (hK i) h).congr_deriv
          ?_)
        (evalSensitivityTaylor_continuous _ _ _)]
      · simp only [Function.update_noteq hi, Pi.sub_apply]
        ring
      · unfold evalSensitivityTaylor
        simp only [Function.update_noteq hi]
        have e1 : _pos i * (2 * Real.pi * (m * tao i * h) * 1.0e-9) =
            2 * Real.pi * m * tao i * _pos i * (h * 1.0e-9) := by ring
        rw [e1]
        ring
  -- The mean of a continuous function over an interval that shrinks to `h0`
  -- tends to the value at `h0`.
  have heightAverage_tendsto (f : ℝ → ℝ) (hf : Continuous f) (h0 : ℝ) :
      Tendsto (fun p : ℝ × ℝ => heightAverage f p.1 p.2) (𝓝[{p : ℝ × ℝ | p.1 < p.2}] (h0, h0))
        (𝓝 (f h0)) := by
    have hG : HasStrictDerivAt (fun u => ∫ x in h0..u, f x) (f h0) h0 :=
      intervalIntegral.integral_hasStrictDerivAt_right (hf.intervalIntegrable _ _)
        (hf.stronglyMeasurableAtFilter MeasureTheory.volume (𝓝 h0)) hf.continuousAt
    have ho := hG.isLittleO.tendsto_div_nhds_zero
    have ho2 := ho.mono_left (@nhdsWithin_le_nhds _ _ (h0, h0) {p : ℝ × ℝ | p.1 < p.2})
    have key : ∀ p ∈ {p : ℝ × ℝ | p.1 < p.2},
        ((fun u => ∫ x in h0..u, f x) p.1 - (fun u => ∫ x in h0..u, f x) p.2 -
          (ContinuousLinearMap.smulRight (1 : ℝ →L[ℝ] ℝ) (f h0)) (p.1 - p.2)) / (p.1 - p.2) =
        heightAverage f p.1 p.2 - f h0 := by
      intro p hp
      have hne : p.1 - p.2 ≠ 0 := sub_ne_zero.2 (ne_of_lt hp)
      have hne2 : p.2 - p.1 ≠ 0 := sub_ne_zero.2 (ne_of_gt hp)
      have hint : (∫ x in p.1..p.2, f x) = (∫ x in h0..p.2, f x) - ∫ x in h0..p.1, f x :=
        (intervalIntegral.integral_interval_sub_left (hf.intervalIntegrable _ _)
          (hf.intervalIntegrable _ _)).symm
      unfold heightAverage
      simp only [hint, ContinuousLinearMap.smulRight_apply, ContinuousLinearMap.one_apply,
        smul_eq_mul]
      field_simp
      ring
    have ho3 := ho2.congr' (eventually_nhdsWithin_of_forall key)
    have := ho3.add_const (f h0)
    simpa using this
  -- The filter of the intervals with `minHeight < maxHeight` that shrink to `h0`
  -- is not trivial.
  have nhdsWithin_lt_neBot (h0 : ℝ) : (𝓝[{p : ℝ × ℝ | p.1 < p.2}] (h0, h0)).NeBot := by
    rw [← mem_closure_iff_nhdsWithin_neBot, Metric.mem_closure_iff]
    intro ε hε
    refine ⟨(h0 - ε / 2, h0), ?_, ?_⟩
    · show h0 - ε / 2 < h0
      linarith
    · rw [Prod.dist_eq]
      simp only [dist_self, Real.dist_eq]
      rw [max_eq_left (abs_nonneg _)]
      rw [show h0 - (h0 - ε / 2) = ε / 2 by ring, abs_of_pos (by linarith)]
      linarith
  -- On intervals of length other than zero, with `spectralAntialiasing` set, the
  -- interface set-up defined and no reduced thickness `2 * eta2 * ct2` equal to
  -- zero, `IridescenceMean` returns a value, whose mean is built from the harmonic 0
  -- and the mean of the Taylor-truncated sensitivity.
  have IridescenceMean_mean_eq (ct1 : ℝ) (params : IridescenceParams)
      (uninit : Fin 3 → InterfaceSample) (ifc : Fin 3 → InterfaceSample)
      (ph21 ph23 : Spectrum × Spectrum) (r123p r123s Rsp Rss : Spectrum)
      (hAA : params.spectralAntialiasing = true)
      (hifc : collectChannels (fun i => interfaceChannel ct1 (params.eta1 i) (params.eta2 i)
        (params.eta3 i) (params.kappa3 i) (uninit i)) = some ifc)
      (h21 : fresnelPhaseExact (fun _ => ct1) (fun _ => 1) params.eta2 (fun _ => 0) = some ph21)
      (h23 : fresnelPhaseExact (fun i => (ifc i).ct2) params.eta2 params.eta3 params.kappa3
        = some ph23)
      (hrp : ∀ i, 0 ≤ (ifc i).R12p * (ifc i).R23p ∧
        r123p i = Real.sqrt ((ifc i).R12p * (ifc i).R23p))
      (hrs : ∀ i, 0 ≤ (ifc i).R12s * (ifc i).R23s ∧
        r123s i = Real.sqrt ((ifc i).R12s * (ifc i).R23s))
      (hRsp : ∀ i, 1 - (ifc i).R12p * (ifc i).R23p ≠ 0 ∧
        Rsp i = sqr (ifc i).T121p * (ifc i).R23p / (1 - (ifc i).R12p * (ifc i).R23p))
      (hRss : ∀ i, 1 - (ifc i).R12s * (ifc i).R23s ≠ 0 ∧
        Rss i = sqr (ifc i).T121s * (ifc i).R23s / (1 - (ifc i).R12s * (ifc i).R23s))
      (htao : ∀ i, 2 * params.eta2 i * (ifc i).ct2 ≠ 0) (a b : ℝ) (hab : a ≠ b) :
      ∃ V, IridescenceMean ct1 params a b uninit = some (fun i => 0.5 * max 0
        ((((ifc i).R12p + Rsp i) + (Rsp i - (ifc i).T121p) * r123p i *
            (2 * heightAverage (fun h => evalSensitivityTaylor
              (fun j => 2 * params.eta2 j * (ifc j).ct2 * h)
              (fun j => ph23.1 j + (Real.pi - ph21.1 j)) i) a b)) +
          (((ifc i).R12s + Rss i) + (Rss i - (ifc i).T121s) * r123s i *
            (2 * heightAverage (fun h => evalSensitivityTaylor
              (fun j => 2 * params.eta2 j * (ifc j).ct2 * h)
              (fun j => ph23.2 j + (Real.pi - ph21.2 j)) i) a b))), V) := by
    obtain ⟨sqp, hsqp⟩ := evalSensitivitySquare_isSome (fun i => 2 * params.eta2 i * (ifc i).ct2)
      (fun i => ph23.1 i + (Real.pi - ph21.1 i)) a b htao hab
    obtain ⟨sqs, hsqs⟩ := evalSensitivitySquare_isSome (fun i => 2 * params.eta2 i * (ifc i).ct2)
      (fun i => ph23.2 i + (Real.pi - ph21.2 i)) a b htao hab
    have hmp := evalSensitivityMean_eq_average 1 (fun i => 2 * params.eta2 i * (ifc i).ct2)
      (fun i => ph23.1 i + (Real.pi - ph21.1 i)) a b one_ne_zero htao hab
    have hms := evalSensitivityMean_eq_average 1 (fun i => 2 * params.eta2 i * (ifc i).ct2)
      (fun i => ph23.2 i + (Real.pi - ph21.2 i)) a b one_ne_zero htao hab
    simp only [Int.cast_one, one_mul] at hmp hms
    exact ⟨_, (IridescenceMean_antialiased_iff ct1 params a b uninit _ _ hAA).2
      ⟨ifc, ph21, ph23, r123p, r123s, Rsp, Rss, _, sqp, _, sqs, hifc, h21, h23, hrp, hrs, hRsp,
        hRss, hmp, hsqp, hms, hsqs, rfl, rfl⟩⟩
  -- The value of `evalSensitivitySquare` on an interval of positive length, for
  -- reduced thicknesses other than zero: in every channel the mean over the interval
  -- of `A * cos(B * d + shift) ^ 2 * (1 - C * d ^ 2 + (C * d ^ 2) ^ 2 / 2)` at
  -- `d = h * 1e-9`, to which the first channel adds the same expression of the
  -- second lobe of `X`.
  have evalSensitivitySquare_eq_average (tao shift : Spectrum) (a b : ℝ)
      (ht : ∀ i, tao i ≠ 0) (hab : a ≠ b) :
      evalSensitivitySquare tao shift a b = some (fun i =>
        heightAverage (fun h =>
          2 * Real.pi * _var i * (_val i / 1.0685e-7) * (_val i / 1.0685e-7) *
              Real.cos (2 * Real.pi * tao i * _pos i * (h * 1.0e-9) + shift i) ^ 2 *
              (1 - 4 * Real.pi ^ 2 * tao i ^ 2 * _var i * (h * 1.0e-9) ^ 2 +
                (4 * Real.pi ^ 2 * tao i ^ 2 * _var i * (h * 1.0e-9) ^ 2) ^ 2 / 2) +
            if i = 0 then
              2 * Real.pi * 9.0564e+09 * (6.8922e-14 / 1.0685e-7) * (6.8922e-14 / 1.0685e-7) *
                Real.cos (2 * Real.pi * tao 0 * 2.2399e+06 * (h * 1.0e-9) + shift 0) ^ 2 *
                (1 - 4 * Real.pi ^ 2 * tao 0 ^ 2 * 9.0564e+09 * (h * 1.0e-9) ^ 2 +
                  (4 * Real.pi ^ 2 * tao 0 ^ 2 * 9.0564e+09 * (h * 1.0e-9) ^ 2) ^ 2 / 2)
            else 0) a b) := by
    have hB : ∀ i, 2 * Real.pi * tao i * _pos i ≠ 0 := fun i =>
      mul_ne_zero (mul_ne_zero (mul_ne_zero two_ne_zero Real.pi_ne_zero) (ht i)) (_pos_ne_zero i)
    have hBx : 2 * Real.pi * tao 0 * 2.2399e+06 ≠ 0 :=
      mul_ne_zero (mul_ne_zero (mul_ne_zero two_ne_zero Real.pi_ne_zero) (ht 0)) (by norm_num)
    have hK : ∀ i, _var i / sqr (_pos i) * (2 * Real.pi * tao i * _pos i) ^ 2 =
        Real.pi * tao i * (4 * (Real.pi * tao i) * _var i) := by
      intro i
      have := _pos_ne_zero i
      unfold sqr
      field_simp
      ring
    have hKx : (9.0564e+09 : ℝ) / sqr 2.2399e+06 * (2 * Real.pi * tao 0 * 2.2399e+06) ^ 2 =
        Real.pi * tao 0 * (4 * (Real.pi * tao 0) * 9.0564e+09) := by
      unfold sqr
      field_simp
      ring
    have hch : ∀ d : ℝ, (collectChannels fun i => evalSensitivitySquare.integrate
        (2 * Real.pi * _var i * (_val i / 1.0685e-7) * (_val i / 1.0685e-7))
        (2 * Real.pi * tao i * _pos i)
        (Real.pi * tao i * (4 * (Real.pi * tao i) * _var i)) (_var i / sqr (_pos i))
        (shift i) d) = some (fun i => evalSensitivitySquare.primitive
        (2 * Real.pi * _var i * (_val i / 1.0685e-7) * (_val i / 1.0685e-7))
        (2 * Real.pi * tao i * _pos i)
        (Real.pi * tao i * (4 * (Real.pi * tao i) * _var i)) (_var i / sqr (_pos i))
        (shift i) d) := fun d =>
      collectChannels_eq_some.2 (fun i => evalSensitivitySquare_integrate_eq _ _ _ _ _ _ (hB i))
    unfold evalSensitivitySquare
    simp only [hch, Option.bind_eq_bind, Option.some_bind,
      evalSensitivitySquare_integrate_eq _ _ _ _ _ _ hBx, fdiv_eq_some (sub_ne_zero.2 hab.symm),
      pure, Option.some.injEq]
    funext i
    by_cases hi : i = 0
    · subst hi
      rw [heightAverage_eq_of_hasDerivAt _ _ a b
        (fun h => ((evalSensitivitySquare_lobe_hasDerivAt _ _ _ _ (shift 0) (hB 0) (hK 0) h).add
          (evalSensitivitySquare_lobe_hasDerivAt _ _ _ _ (shift 0) hBx hKx h)).congr_deriv ?_)
        (by simp only [if_true]; fun_prop)]
      · simp only [Function.update_same, Pi.sub_apply]
        ring
      · simp only [if_true]
        ring
    · rw [heightAverage_eq_of_hasDerivAt _ _ a b
        (fun h => (evalSensitivitySquare_lobe_hasDerivAt _ _ _ _ (shift i) (hB i) (hK i) h).congr_deriv
          ?_)
        (by simp only [hi, if_false]; fun_prop)]
      · simp only [Function.update_noteq hi, Pi.sub_apply]
        ring
      · simp only [hi, if_false]
        ring
  exact ⟨@heightAverage_eq_of_hasDerivAt, @evalSensitivityMean_eq_average, @heightAverage_tendsto,
    @nhdsWithin_lt_neBot, @IridescenceMean_mean_eq, @evalSensitivitySquare_eq_average⟩

/-- With `m = 1`, `tao = 1` and no phase shift, the mean returned by
`evalSensitivityMean` over the heights `[0, 100]` is not the mean of the
Gaussian-fit `evalSensitivity`: the second channel is larger. -/
theorem evalSensitivityMean_not_gaussian_mean :
    (∀ h : ℝ, evalSensitivity (fun _ => ((1 : ℤ) : ℝ) * 1 * h) (fun _ => 0) true =
      some (evalSensitivity.gaussian (fun _ => ((1 : ℤ) : ℝ) * 1 * h) (fun _ => 0))) ∧
    evalSensitivityMean 1 (fun _ => 1) (fun _ => 0) 0 100 ≠
      some (fun i => heightAverage (fun h =>
        evalSensitivity.gaussian (fun _ => ((1 : ℤ) : ℝ) * 1 * h) (fun _ => 0) i) 0 100) := by
  obtain ⟨-, -, -, -, -, evalSensitivityTaylor_continuous, evalSensitivity_gaussian_continuous, -,
      evalSensitivity_gaussian_lt_taylor, -, -, -⟩ := sensitivity_lemmas
  obtain ⟨-, evalSensitivityMean_eq_average, -, -, -, -⟩ := height_average_lemmas
  refine ⟨fun h => rfl, ?_⟩
  rw [evalSensitivityMean_eq_average 1 _ _ 0 100 one_ne_zero (fun _ => one_ne_zero)
    (by norm_num)]
  intro heq
  have h1 := congrFun (Option.some.inj heq) 1
  unfold heightAverage at h1
  simp only [Int.cast_one, one_mul] at h1
  have hcT : Continuous fun h : ℝ => evalSensitivityTaylor (fun _ => h) (fun _ => 0) 1 := by
    simpa only [one_mul] using evalSensitivityTaylor_continuous (fun _ => 1) (fun _ => 0) 1
  have hcG : Continuous fun h : ℝ => evalSensitivity.gaussian (fun _ => h) (fun _ => 0) 1 := by
    simpa only [one_mul] using evalSensitivity_gaussian_continuous (fun _ => 1) (fun _ => 0) 1
  have hT : IntervalIntegrable (fun h : ℝ => evalSensitivityTaylor (fun _ => h) (fun _ => 0) 1)
      MeasureTheory.volume 0 100 := hcT.intervalIntegrable 0 100
  have hG : IntervalIntegrable (fun h : ℝ => evalSensitivity.gaussian (fun _ => h) (fun _ => 0) 1)
      MeasureTheory.volume 0 100 := hcG.intervalIntegrable 0 100
  have hpos := intervalIntegral.intervalIntegral_pos_of_pos_on (hT.sub hG)
    (fun x hx => sub_pos.2 (evalSensitivity_gaussian_lt_taylor x hx.1 hx.2.le)) (by norm_num)
  rw [intervalIntegral.integral_sub hT hG] at hpos
  have h2 : (∫ h in (0 : ℝ)..100, evalSensitivityTaylor (fun _ => h) (fun _ => 0) 1) =
      ∫ h in (0 : ℝ)..100, evalSensitivity.gaussian (fun _ => h) (fun _ => 0) 1 := by
    have h100 : (1 : ℝ) / (100 - 0) ≠ 0 := by norm_num
    exact mul_left_cancel₀ h100 h1
  linarith

/-- Claim C12, as the code has it: for `m ≥ 1`, `tao > 0`, every `shift` and
`minHeight < maxHeight`, `evalSensitivityMean` returns in every channel, exactly,
`1 / (maxHeight - minHeight)` times the integral over `[minHeight, maxHeight]`
of the Gaussian-fit sensitivity in which each envelope `exp (-x)` is replaced
by `1 - x + x ^ 2 / 2` (`evalSensitivityTaylor`). -/
theorem evalSensitivityMean_exact (m : ℤ) (tao shift : Spectrum) (minHeight maxHeight : ℝ)
    (hm : 1 ≤ m) (htao : ∀ i, 0 < tao i) (hlt : minHeight < maxHeight) :
    evalSensitivityMean m tao shift minHeight maxHeight = some (fun i =>
      heightAverage (fun h => evalSensitivityTaylor (fun j => m * tao j * h) shift i)
        minHeight maxHeight) := by
  obtain ⟨-, evalSensitivityMean_eq_average, -, -, -, -⟩ := height_average_lemmas
  exact
    evalSensitivityMean_eq_average m tao shift minHeight maxHeight (by omega)
      (fun i => (htao i).ne') hlt.ne

theorem evalSensitivityMean_exact_witness :
    evalSensitivityMean 1 (fun _ => 1) (fun _ => 0) 0 100 = some (fun i =>
      heightAverage (fun h => evalSensitivityTaylor (fun j => ((1 : ℤ) : ℝ) *
        (fun _ => 1 : Spectrum) j * h) (fun _ => 0) i) 0 100) :=
  evalSensitivityMean_exact 1 (fun _ => 1) (fun _ => 0) 0 100 (le_refl 1)
    (fun _ => one_pos) (by norm_num)

/-- At the height `100`, with `m = 1`, `tao = 1` and no phase shift, the second
channel of `evalSensitivityMean` does not converge to the Gaussian-fit
`evalSensitivity` as the interval shrinks to the height. -/
theorem evalSensitivityMean_limit_not_gaussian :
    ¬ Tendsto (fun p : ℝ × ℝ =>
        (evalSensitivityMean 1 (fun _ => 1) (fun _ => 0) p.1 p.2).getD 0 1)
      (𝓝[{p : ℝ × ℝ | p.1 < p.2}] (100, 100))
      (𝓝 (evalSensitivity.gaussian (fun _ => ((1 : ℤ) : ℝ) * 1 * 100) (fun _ => 0) 1)) := by
  obtain ⟨-, -, -, -, -, evalSensitivityTaylor_continuous, -, -, evalSensitivity_gaussian_lt_taylor,
      -, -, -⟩ := sensitivity_lemmas
  obtain ⟨-, evalSensitivityMean_eq_average, heightAverage_tendsto, nhdsWithin_lt_neBot, -,
      -⟩ := height_average_lemmas
  intro h
  have hT : Tendsto (fun p : ℝ × ℝ =>
        (evalSensitivityMean 1 (fun _ => 1) (fun _ => 0) p.1 p.2).getD 0 1)
      (𝓝[{p : ℝ × ℝ | p.1 < p.2}] (100, 100))
      (𝓝 (evalSensitivityTaylor (fun _ => ((1 : ℤ) : ℝ) * 1 * 100) (fun _ => 0) 1)) := by
    refine (heightAverage_tendsto _
      (evalSensitivityTaylor_continuous (fun _ => ((1 : ℤ) : ℝ) * 1) (fun _ => 0) 1) 100).congr' ?_
    refine eventually_nhdsWithin_of_forall fun p hp => ?_
    dsimp only
    rw [evalSensitivityMean_eq_average 1 _ _ p.1 p.2 one_ne_zero (fun _ => one_ne_zero)
      (ne_of_lt hp)]
    rfl
  haveI := nhdsWithin_lt_neBot 100
  have he := tendsto_nhds_unique h hT
  have hlt := evalSensitivity_gaussian_lt_taylor 100 (by norm_num) (le_refl _)
  simp only [Int.cast_one, one_mul] at he
  linarith

/-- Claim C13, as the code has it: for `m ≥ 1`, `tao > 0`, every `shift` and every
height `h0`, `evalSensitivityMean` returns a value whenever
`minHeight < maxHeight`, and as both tend to `h0` with `minHeight < maxHeight`
it converges in every channel to the Taylor-truncated sensitivity
`evalSensitivityTaylor` at `m * tao * h0`. -/
theorem evalSensitivityMean_tendsto (m : ℤ) (tao shift : Spectrum) (h0 : ℝ) (hm : 1 ≤ m)
    (htao : ∀ i, 0 < tao i) (i : Fin 3) :
    (∀ a b, a < b → ∃ v, evalSensitivityMean m tao shift a b = some v) ∧
    Tendsto (fun p : ℝ × ℝ => (evalSensitivityMean m tao shift p.1 p.2).getD 0 i)
      (𝓝[{p : ℝ × ℝ | p.1 < p.2}] (h0, h0))
      (𝓝 (evalSensitivityTaylor (fun j => m * tao j * h0) shift i)) := by
  obtain ⟨-, -, -, -, -, evalSensitivityTaylor_continuous, -, -, -, -, -, -⟩ := sensitivity_lemmas
  obtain ⟨-, evalSensitivityMean_eq_average, heightAverage_tendsto, -, -,
      -⟩ := height_average_lemmas
  have hm0 : m ≠ 0 := by omega
  refine ⟨fun a b hab => ⟨_, evalSensitivityMean_eq_average m tao shift a b hm0
    (fun i => (htao i).ne') hab.ne⟩, ?_⟩
  refine (heightAverage_tendsto _
    (evalSensitivityTaylor_continuous (fun j => m * tao j) shift i) h0).congr' ?_
  refine eventually_nhdsWithin_of_forall fun p hp => ?_
  dsimp only
  rw [evalSensitivityMean_eq_average m tao shift p.1 p.2 hm0 (fun i => (htao i).ne')
    (ne_of_lt hp)]
  rfl

theorem evalSensitivityMean_tendsto_witness :
    (∀ a b : ℝ, a < b → ∃ v, evalSensitivityMean 1 (fun _ => 1) (fun _ => 0) a b = some v) ∧
    Tendsto (fun p : ℝ × ℝ => (evalSensitivityMean 1 (fun _ => 1) (fun _ => 0) p.1 p.2).getD 0 1)
      (𝓝[{p : ℝ × ℝ | p.1 < p.2}] (100, 100))
      (𝓝 (evalSensitivityTaylor (fun j => ((1 : ℤ) : ℝ) * (fun _ => 1 : Spectrum) j * 100)
        (fun _ => 0) 1)) :=
  evalSensitivityMean_tendsto 1 (fun _ => 1) (fun _ => 0) 100 (le_refl 1) (fun _ => one_pos) 1

/-! ### The mean and the variance of the iridescence term -/

/-- Claim C14: when `params.spectralAntialiasing` is false, `IridescenceMean`
returns the zero spectrum for the mean and for the variance, whatever the other
inputs. -/
theorem IridescenceMean_not_antialiased (ct1 : ℝ) (params : IridescenceParams)
    (minHeight maxHeight : ℝ) (uninit : Fin 3 → InterfaceSample)
    (h : params.spectralAntialiasing = false) :
    IridescenceMean ct1 params minHeight maxHeight uninit = some (0, 0) := by
  unfold IridescenceMean
  simp only [h, Bool.false_eq_true, if_false, pure, Option.some.injEq, Prod.mk.injEq]
  constructor <;> (funext i; simp)

theorem IridescenceMean_not_antialiased_witness :
    IridescenceMean 1
      { height := fun _ => 400, eta1 := fun _ => 1, eta2 := fun _ => 1, eta3 := fun _ => 1,
        kappa3 := fun _ => 0, wavelengths := fun _ => 1, spectralAntialiasing := false,
        useGaussianFit := true }
      380 420 (fun _ => ⟨0, 0, 0, 0, 0, 0, 0⟩) = some (0, 0) :=
  IridescenceMean_not_antialiased 1 _ 380 420 _ rfl

/-! ### The antialiased branch of the iridescence term -/

/-- Claim C18: with `spectralAntialiasing` set, `IridescenceTerm` returns `v`
exactly when `v = 0.5 * clampNegative (M * I)`, where `M` is the fixed 3x3 matrix
of lines 444-448, applied before the clamp, and `I` is the sum over the two
polarizations of `(R12 + Rs) + (Rs - T121) * r123 ^ 1 * 2 * S1 +
(Rs - T121) * r123 ^ 2 * 2 * S2` with `Rs = T121 ^ 2 * R23 / (1 - R12 * R23)`,
`r123 = sqrt (R12 * R23)` and
`Sm = evalSensitivity (m * D) (m * (phi23 + phi21)) useGaussianFit`: the
harmonics 0, 1 and 2 and no others. -/
theorem IridescenceTerm_antialiased (ct1 : ℝ) (params : IridescenceParams)
    (uninit : Fin 3 → InterfaceSample) (v : Spectrum)
    (hAA : params.spectralAntialiasing = true) :
    IridescenceTerm ct1 params uninit = some v ↔
      ∃ (ifc : Fin 3 → InterfaceSample) (ph21 ph23 : Spectrum × Spectrum)
        (r123p r123s Rsp Rss S1p S2p S1s S2s : Spectrum),
        (collectChannels fun i => interfaceChannel ct1 (params.eta1 i) (params.eta2 i)
          (params.eta3 i) (params.kappa3 i) (uninit i)) = some ifc ∧
        fresnelPhaseExact (fun _ => ct1) (fun _ => 1) params.eta2 (fun _ => 0) = some ph21 ∧
        fresnelPhaseExact (fun i => (ifc i).ct2) params.eta2 params.eta3 params.kappa3 =
          some ph23 ∧
        (∀ i, 0 ≤ (ifc i).R12p * (ifc i).R23p ∧
          r123p i = Real.sqrt ((ifc i).R12p * (ifc i).R23p)) ∧
        (∀ i, 0 ≤ (ifc i).R12s * (ifc i).R23s ∧
          r123s i = Real.sqrt ((ifc i).R12s * (ifc i).R23s)) ∧
        (∀ i, 1 - (ifc i).R12p * (ifc i).R23p ≠ 0 ∧
          Rsp i = (ifc i).T121p ^ 2 * (ifc i).R23p / (1 - (ifc i).R12p * (ifc i).R23p)) ∧
        (∀ i, 1 - (ifc i).R12s * (ifc i).R23s ≠ 0 ∧
          Rss i = (ifc i).T121s ^ 2 * (ifc i).R23s / (1 - (ifc i).R12s * (ifc i).R23s)) ∧
        evalSensitivity (fun i => 1 * (2 * params.eta2 i * params.height 0 * (ifc i).ct2))
          (fun i => 1 * (ph23.1 i + (Real.pi - ph21.1 i))) params.useGaussianFit = some S1p ∧
        evalSensitivity (fun i => 2 * (2 * params.eta2 i * params.height 0 * (ifc i).ct2))
          (fun i => 2 * (ph23.1 i + (Real.pi - ph21.1 i))) params.useGaussianFit = some S2p ∧
        evalSensitivity (fun i => 1 * (2 * params.eta2 i * params.height 0 * (ifc i).ct2))
          (fun i => 1 * (ph23.2 i + (Real.pi - ph21.2 i))) params.useGaussianFit = some S1s ∧
        evalSensitivity (fun i => 2 * (2 * params.eta2 i * params.height 0 * (ifc i).ct2))
          (fun i => 2 * (ph23.2 i + (Real.pi - ph21.2 i))) params.useGaussianFit = some S2s ∧
        v = fun c => 0.5 * max 0 (Matrix.mulVec
          !![2.3646381, -0.8965361, -0.4680737;
             -0.5151664, 1.4264000, 0.0887608;
             0.0052037, -0.0144081, 1.0092106]
          (fun i =>
            (((ifc i).R12p + Rsp i) + (Rsp i - (ifc i).T121p) * r123p i ^ 1 * (2 * S1p i) +
              (Rsp i - (ifc i).T121p) * r123p i ^ 2 * (2 * S2p i)) +
            (((ifc i).R12s + Rss i) + (Rss i - (ifc i).T121s) * r123s i ^ 1 * (2 * S1s i) +
              (Rss i - (ifc i).T121s) * r123s i ^ 2 * (2 * S2s i))) c) := by
  obtain ⟨-, -, -, IridescenceTerm_harmonics_iff, -, -, -, -, -, -, -, -, -⟩ := antialiased_lemmas
  exact IridescenceTerm_harmonics_iff ct1 params uninit v hAA

/-! ### The mean and the variance on an interval of heights -/

/-- Claim C15: every channel of the mean and of the variance returned by
`IridescenceMean` is `≥ 0`; in antialiased mode the variance is
`0.5 * max(0, Vp + Vs)`, where for each polarization
`V = 4 * C1 * C1 * (meanSquare - mean * mean)` with `C1 = (Rs - T121) * r123`,
`mean = evalSensitivityMean(1, tao, phi23 + phi21, ..)` and
`meanSquare = evalSensitivitySquare(tao, phi23 + phi21, ..)` of that polarization. -/
theorem IridescenceMean_variance (ct1 : ℝ) (params : IridescenceParams)
    (minHeight maxHeight : ℝ) (uninit : Fin 3 → InterfaceSample) (I V : Spectrum)
    (h : IridescenceMean ct1 params minHeight maxHeight uninit = some (I, V)) :
    (∀ i, 0 ≤ I i ∧ 0 ≤ V i) ∧
    (params.spectralAntialiasing = true →
      ∃ (ifc : Fin 3 → InterfaceSample) (ph21 ph23 : Spectrum × Spectrum)
        (r123p r123s Rsp Rss meanp sqp means sqs : Spectrum),
        collectChannels (fun i => interfaceChannel ct1 (params.eta1 i) (params.eta2 i)
          (params.eta3 i) (params.kappa3 i) (uninit i)) = some ifc ∧
        fresnelPhaseExact (fun _ => ct1) (fun _ => 1) params.eta2 (fun _ => 0) = some ph21 ∧
        fresnelPhaseExact (fun i => (ifc i).ct2) params.eta2 params.eta3 params.kappa3
          = some ph23 ∧
        (∀ i, 0 ≤ (ifc i).R12p * (ifc i).R23p ∧
          r123p i = Real.sqrt ((ifc i).R12p * (ifc i).R23p)) ∧
        (∀ i, 0 ≤ (ifc i).R12s * (ifc i).R23s ∧
          r123s i = Real.sqrt ((ifc i).R12s * (ifc i).R23s)) ∧
        (∀ i, 1 - (ifc i).R12p * (ifc i).R23p ≠ 0 ∧
          Rsp i = sqr (ifc i).T121p * (ifc i).R23p / (1 - (ifc i).R12p * (ifc i).R23p)) ∧
        (∀ i, 1 - (ifc i).R12s * (ifc i).R23s ≠ 0 ∧
          Rss i = sqr (ifc i).T121s * (ifc i).R23s / (1 - (ifc i).R12s * (ifc i).R23s)) ∧
        evalSensitivityMean 1 (fun i => 2 * params.eta2 i * (ifc i).ct2)
          (fun i => ph23.1 i + (Real.pi - ph21.1 i)) minHeight maxHeight = some meanp ∧
        evalSensitivitySquare (fun i => 2 * params.eta2 i * (ifc i).ct2)
          (fun i => ph23.1 i + (Real.pi - ph21.1 i)) minHeight maxHeight = some sqp ∧
        evalSensitivityMean 1 (fun i => 2 * params.eta2 i * (ifc i).ct2)
          (fun i => ph23.2 i + (Real.pi - ph21.2 i)) minHeight maxHeight = some means ∧
        evalSensitivitySquare (fun i => 2 * params.eta2 i * (ifc i).ct2)
          (fun i => ph23.2 i + (Real.pi - ph21.2 i)) minHeight maxHeight = some sqs ∧
        ∀ i, V i = 0.5 * max 0
          (4 * ((Rsp i - (ifc i).T121p) * r123p i) * ((Rsp i - (ifc i).T121p) * r123p i) *
              (sqp i - meanp i * meanp i) +
            4 * ((Rss i - (ifc i).T121s) * r123s i) * ((Rss i - (ifc i).T121s) * r123s i) *
              (sqs i - means i * means i))) := by
  obtain ⟨-, -, -, -, -, -, -, -, IridescenceMean_antialiased_iff, -, -, -, -⟩ := antialiased_lemmas
  by_cases hAA : params.spectralAntialiasing = true
  · obtain ⟨ifc, ph21, ph23, r123p, r123s, Rsp, Rss, meanp, sqp, means, sqs, hifc, h21, h23,
      hrp, hrs, hRsp, hRss, hmp, hsp, hms, hss, rfl, rfl⟩ :=
      (IridescenceMean_antialiased_iff ct1 params minHeight maxHeight uninit I V hAA).1 h
    exact ⟨fun i => ⟨mul_nonneg (by norm_num) (le_max_left _ _),
        mul_nonneg (by norm_num) (le_max_left _ _)⟩,
      fun _ => ⟨ifc, ph21, ph23, r123p, r123s, Rsp, Rss, meanp, sqp, means, sqs, hifc, h21,
        h23, hrp, hrs, hRsp, hRss, hmp, hsp, hms, hss, fun _ => rfl⟩⟩
  · unfold IridescenceMean at h
    simp only [hAA, Bool.false_eq_true, if_false, pure, Option.some.injEq, Prod.mk.injEq] at h
    obtain ⟨rfl, rfl⟩ := h
    exact ⟨fun i => by simp, fun h' => absurd h' hAA⟩

theorem IridescenceMean_variance_witness :
    IridescenceMean 0
      { height := fun _ => 400, eta1 := fun _ => 2, eta2 := fun _ => 1, eta3 := fun _ => 1,
        kappa3 := fun _ => 0, wavelengths := fun _ => 1, spectralAntialiasing := true,
        useGaussianFit := true }
      380 420 (fun _ => ⟨0, 0, 0, 0, 0, 0, 1⟩) = some (fun _ => 1, fun _ => 0) ∧
    ∀ i : Fin 3, (0 : ℝ) ≤ (fun _ => 1 : Spectrum) i ∧ (0 : ℝ) ≤ (fun _ => 0 : Spectrum) i := by
  obtain ⟨-, -, -, -, -, -, -, -, -, -, IridescenceMean_tir_example, -, -⟩ := antialiased_lemmas
  exact
    ⟨IridescenceMean_tir_example,
      (IridescenceMean_variance 0 _ 380 420 _ _ _ IridescenceMean_tir_example).1⟩

theorem IridescenceTerm_antialiased_witness :
    IridescenceTerm 0
      { height := fun _ => 400, eta1 := fun _ => 2, eta2 := fun _ => 1, eta3 := fun _ => 1,
        kappa3 := fun _ => 0, wavelengths := fun _ => 1, spectralAntialiasing := true,
        useGaussianFit := true }
      (fun _ => ⟨0, 0, 0, 0, 0, 0, 1⟩) = some ![1.0000283, 0.9999944, 1.0000062] := by
  obtain ⟨-, -, -, -, evalSensitivity_gaussian, -, -, -, -, -, -, -⟩ := sensitivity_lemmas
  obtain ⟨-, -, -, -, -, tir_setup, -, -, -, -, -, -, -⟩ := antialiased_lemmas
  refine (IridescenceTerm_antialiased _ _ _ _ rfl).2
    ⟨fun _ => ⟨1, 0, 0, 1, 0, 0, 1⟩, (fun _ => 0, fun _ => 0), (fun _ => 0, fun _ => 0),
      fun _ => 0, fun _ => 0, fun _ => 0, fun _ => 0, _, _, _, _,
      tir_setup.1, tir_setup.2.1, tir_setup.2.2, ?_, ?_, ?_, ?_, evalSensitivity_gaussian _ _,
      evalSensitivity_gaussian _ _, evalSensitivity_gaussian _ _, evalSensitivity_gaussian _ _,
      ?_⟩
  · intro i; simp
  · intro i; simp
  · intro i; simp
  · intro i; simp
  · funext c
    fin_cases c <;>
      simp [Matrix.mulVec, Matrix.dotProduct, Fin.sum_univ_three] <;> norm_num

/-! ### The Airy summation -/

set_option maxHeartbeats 1000000 in
/-- The Airy branch of IridescenceTerm: the geometric series, the thin-film formula, the
per-channel interface data, the result under total internal reflection, and the
exchange of the two polarisations. -/
theorem airy_lemmas :
    (∀ (r p : ℝ) (_ : 0 ≤ r) (_ : r < 1),
      0 < 1 - 2 * r * Real.cos p + sqr r ∧
      HasSum (fun m : ℕ => r ^ (m + 1) * Real.cos (((m : ℝ) + 1) * p))
        ((r * Real.cos p - sqr r) / (1 - 2 * r * Real.cos p + sqr r))) ∧
    (∀ (ct1 : ℝ) (params : IridescenceParams)
      (uninit : Fin 3 → InterfaceSample),
      IridescenceTerm ct1 params uninit =
        (collectChannels fun i => interfaceChannel ct1 (params.eta1 i) (params.eta2 i)
          (params.eta3 i) (params.kappa3 i) (uninit i)).bind fun ifc =>
        (fresnelPhaseExact (fun _ => ct1) (fun _ => 1) params.eta2 (fun _ => 0)).bind fun ph21 =>
        (fresnelPhaseExact (fun i => (ifc i).ct2) params.eta2 params.eta3 params.kappa3).bind
          fun ph23 =>
        IridescenceTerm.combine params
          (fun i => 2 * params.eta2 i * params.height 0 * (ifc i).ct2)
          ⟨fun i => (ifc i).R12p, fun i => (ifc i).T121p, fun i => (ifc i).R23p,
            fun i => Real.pi - ph21.1 i, ph23.1⟩
          ⟨fun i => (ifc i).R12s, fun i => (ifc i).T121s, fun i => (ifc i).R23s,
            fun i => Real.pi - ph21.2 i, ph23.2⟩) ∧
    (∀ (R12 T121 R23 r123 D phi : Spectrum) (g : Bool) (I : Spectrum),
      harmonicTerm R12 T121 R23 r123 D phi g I =
        (harmonicTerm R12 T121 R23 r123 D phi g 0).map fun J => I + J) ∧
    (∀ (params : IridescenceParams) (D : Spectrum)
      (p s : Polarization),
      IridescenceTerm.combine params D p s = IridescenceTerm.combine params D s p) ∧
    (∀ (R12 R23 p : ℝ) (_ : 0 ≤ R12) (_ : R12 ≤ 1) (_ : 0 ≤ R23)
      (_ : R23 ≤ 1) (_ : R12 * R23 < 1),
      1 - R12 * R23 ≠ 0 ∧
      1 - 2 * Real.sqrt (R12 * R23) * Real.cos p + sqr (Real.sqrt (R12 * R23)) ≠ 0 ∧
      1 + R12 * R23 - 2 * Real.sqrt (R12 * R23) * Real.cos p ≠ 0 ∧
      R12 + sqr (1 - R12) * R23 / (1 - R12 * R23) +
          2 * (sqr (1 - R12) * R23 / (1 - R12 * R23) - (1 - R12)) *
            ((Real.sqrt (R12 * R23) * Real.cos p - sqr (Real.sqrt (R12 * R23))) /
              (1 - 2 * Real.sqrt (R12 * R23) * Real.cos p + sqr (Real.sqrt (R12 * R23)))) =
        (R12 + R23 - 2 * Real.sqrt (R12 * R23) * Real.cos p) /
          (1 + R12 * R23 - 2 * Real.sqrt (R12 * R23) * Real.cos p) ∧
      0 ≤ (R12 + R23 - 2 * Real.sqrt (R12 * R23) * Real.cos p) /
          (1 + R12 * R23 - 2 * Real.sqrt (R12 * R23) * Real.cos p) ∧
      (R12 + R23 - 2 * Real.sqrt (R12 * R23) * Real.cos p) /
          (1 + R12 * R23 - 2 * Real.sqrt (R12 * R23) * Real.cos p) ≤ 1) ∧
    (∀ (R12 T121 R23 r123 phase I : Spectrum),
      airyTerm R12 T121 R23 r123 phase = some I ↔
        ∃ Rs irid : Spectrum,
          (∀ i, 1 - R12 i * R23 i ≠ 0 ∧ Rs i = sqr (T121 i) * R23 i / (1 - R12 i * R23 i)) ∧
          (∀ i, 1 - 2 * r123 i * Real.cos (phase i) + sqr (r123 i) ≠ 0 ∧
            irid i = (r123 i * Real.cos (phase i) - sqr (r123 i)) /
              (1 - 2 * r123 i * Real.cos (phase i) + sqr (r123 i))) ∧
          I = fun i => R12 i + Rs i + 2 * (Rs i - T121 i) * irid i) ∧
    (∀ (ct1 : ℝ) (params : IridescenceParams)
      (uninit : Fin 3 → InterfaceSample) (v : Spectrum)
      (_ : params.spectralAntialiasing = false),
      IridescenceTerm ct1 params uninit = some v ↔
        ∃ (ifc : Fin 3 → InterfaceSample) (ph21 ph23 : Spectrum × Spectrum)
          (r123p r123s Dphi Ip Is : Spectrum),
          (collectChannels fun i => interfaceChannel ct1 (params.eta1 i) (params.eta2 i)
            (params.eta3 i) (params.kappa3 i) (uninit i)) = some ifc ∧
          fresnelPhaseExact (fun _ => ct1) (fun _ => 1) params.eta2 (fun _ => 0) = some ph21 ∧
          fresnelPhaseExact (fun i => (ifc i).ct2) params.eta2 params.eta3 params.kappa3 =
            some ph23 ∧
          (∀ i, 0 ≤ (ifc i).R12p * (ifc i).R23p ∧
            r123p i = Real.sqrt ((ifc i).R12p * (ifc i).R23p)) ∧
          (∀ i, 0 ≤ (ifc i).R12s * (ifc i).R23s ∧
            r123s i = Real.sqrt ((ifc i).R12s * (ifc i).R23s)) ∧
          (∀ i, params.wavelengths i ≠ 0 ∧
            Dphi i = 2 * Real.pi * (2 * params.eta2 i * params.height 0 * (ifc i).ct2) /
              params.wavelengths i) ∧
          airyTerm (fun i => (ifc i).R12p) (fun i => (ifc i).T121p) (fun i => (ifc i).R23p) r123p
            (fun i => Dphi i + ph23.1 i + (Real.pi - ph21.1 i)) = some Ip ∧
          airyTerm (fun i => (ifc i).R12s) (fun i => (ifc i).T121s) (fun i => (ifc i).R23s) r123s
            (fun i => Dphi i + ph23.2 i + (Real.pi - ph21.2 i)) = some Is ∧
          v = fun i => 0.5 * max 0 (Ip i + Is i)) ∧
    (∀ (ct1 eta1 eta2 eta3 kappa3 : ℝ) (u r : InterfaceSample)
      (_ : eta2 ≠ 0),
      (1 - (1 - sqr ct1) * sqr (eta1 / eta2) ≤ 0 →
        interfaceChannel ct1 eta1 eta2 eta3 kappa3 u = some ⟨1, 0, u.R23p, 1, 0, u.R23s, u.ct2⟩) ∧
      (0 < 1 - (1 - sqr ct1) * sqr (eta1 / eta2) →
        (interfaceChannel ct1 eta1 eta2 eta3 kappa3 u = some r ↔
          eta1 ≠ 0 ∧ ∃ r12 r23 : FresnelR,
            fresnelConductorExact ct1 (eta2 / eta1) 0 = some r12 ∧
            fresnelConductorExact (Real.sqrt (1 - (1 - sqr ct1) * sqr (eta1 / eta2)))
              (eta3 / eta2) (kappa3 / eta2) = some r23 ∧
            r = ⟨r12.Rp2, 1 - r12.Rp2, r23.Rp2, r12.Rs2, 1 - r12.Rs2, r23.Rs2,
              Real.sqrt (1 - (1 - sqr ct1) * sqr (eta1 / eta2))⟩))) ∧
    (∀ (ct1 : ℝ) (params : IridescenceParams)
      (uninit : Fin 3 → InterfaceSample) (i : Fin 3) (v : Spectrum)
      (_ : params.spectralAntialiasing = false) (_ : params.eta2 i ≠ 0)
      (_ : 1 - (1 - sqr ct1) * sqr (params.eta1 i / params.eta2 i) ≤ 0)
      (_ : IridescenceTerm ct1 params uninit = some v), v i = 1) ∧
    (∀ (ct1 : ℝ) (params : IridescenceParams)
      (uninit : Fin 3 → InterfaceSample) (_ : params.spectralAntialiasing = false)
      (_ : ∀ j, params.eta2 j ≠ 0 ∧
        1 - (1 - sqr ct1) * sqr (params.eta1 j / params.eta2 j) ≤ 0 ∧
        params.wavelengths j ≠ 0 ∧ 0 ≤ (uninit j).R23p ∧ (uninit j).R23p < 1 ∧
        0 ≤ (uninit j).R23s ∧ (uninit j).R23s < 1),
      IridescenceTerm ct1 params uninit = some (fun _ => 1)) ∧
    (∀ (ct1 eta1 eta2 eta3 kappa3 : ℝ) (u r : InterfaceSample)
      (_ : interfaceChannel ct1 eta1 eta2 eta3 kappa3 u = some r),
      r.T121p = 1 - r.R12p ∧ r.T121s = 1 - r.R12s) := by
  obtain ⟨fdiv_eq_some, fsqrt_eq_some, -, -, -, -, -, -, -, Spectrum_cdiv_eq_some_iff,
      Spectrum_csqrt_eq_some_iff, -, -⟩ := checked_arithmetic
  obtain ⟨-, -, -, -, -, -, -, -, fresnelPhaseExact_isSome, -, -⟩ := phase_lemmas
  -- The geometric series of multiple reflections: for `0 ≤ r < 1` the terms
  -- `r ^ m * cos (m * p)`, `m ≥ 1`, sum to the closed form of the Airy summation,
  -- whose denominator is positive.
  have airy_series (r p : ℝ) (h0 : 0 ≤ r) (h1 : r < 1) :
      0 < 1 - 2 * r * Real.cos p + sqr r ∧
      HasSum (fun m : ℕ => r ^ (m + 1) * Real.cos (((m : ℝ) + 1) * p))
        ((r * Real.cos p - sqr r) / (1 - 2 * r * Real.cos p + sqr r)) := by
    have hden : 0 < 1 - 2 * r * Real.cos p + sqr r := by
      unfold sqr
      nlinarith [Real.cos_le_one p, Real.neg_one_le_cos p, mul_nonneg h0 (sub_nonneg.2 (Real.cos_le_one p)), sq_nonneg (1 - r), mul_pos (sub_pos.2 h1) (sub_pos.2 h1)]
    refine ⟨hden, ?_⟩
    set z : ℂ := (r : ℂ) * Complex.exp ((p : ℂ) * Complex.I) with hz
    have hnorm : ‖z‖ < 1 := by
      rw [hz, norm_mul, Complex.norm_exp_ofReal_mul_I, mul_one, Complex.norm_real,
        Real.norm_of_nonneg h0]
      exact h1
    have hs := (hasSum_geometric_of_norm_lt_one hnorm).mul_left z
    have hre := (Complex.hasSum_iff _ _).1 hs
    have hterm : (fun m : ℕ => (z * z ^ m).re) =
        fun m : ℕ => r ^ (m + 1) * Real.cos (((m : ℝ) + 1) * p) := by
      funext m
      have : z * z ^ m = ((r ^ (m + 1) : ℝ) : ℂ) *
          Complex.exp (((((m : ℝ) + 1) * p : ℝ) : ℂ) * Complex.I) := by
        rw [← pow_succ', hz, mul_pow, ← Complex.exp_nat_mul]
        push_cast
        ring_nf
      rw [this, Complex.re_ofReal_mul, Complex.exp_ofReal_mul_I_re]
    have hzre : z.re = r * Real.cos p := by
      rw [hz, Complex.re_ofReal_mul, Complex.exp_ofReal_mul_I_re]
    have hzim : z.im = r * Real.sin p := by
      rw [hz, Complex.im_ofReal_mul, Complex.exp_ofReal_mul_I_im]
    have hval : (z * (1 - z)⁻¹).re =
        (r * Real.cos p - sqr r) / (1 - 2 * r * Real.cos p + sqr r) := by
      have hns : Complex.normSq (1 - z) = 1 - 2 * r * Real.cos p + sqr r := by
        rw [Complex.normSq_apply]
        dsimp only [sqr]
        simp only [Complex.sub_re, Complex.sub_im, Complex.one_re, Complex.one_im, hzre, hzim]
        nlinarith [Real.sin_sq_add_cos_sq p]
      rw [Complex.mul_re, Complex.inv_re, Complex.inv_im, hns]
      simp only [Complex.sub_re, Complex.sub_im, Complex.one_re, Complex.one_im, hzre, hzim]
      field_simp
      unfold sqr
      nlinarith [Real.sin_sq_add_cos_sq p]
    have h := hre.1
    rw [hval] at h
    rw [← hterm]
    exact h
  have IridescenceTerm_eq_combine (ct1 : ℝ) (params : IridescenceParams)
      (uninit : Fin 3 → InterfaceSample) :
      IridescenceTerm ct1 params uninit =
        (collectChannels fun i => interfaceChannel ct1 (params.eta1 i) (params.eta2 i)
          (params.eta3 i) (params.kappa3 i) (uninit i)).bind fun ifc =>
        (fresnelPhaseExact (fun _ => ct1) (fun _ => 1) params.eta2 (fun _ => 0)).bind fun ph21 =>
        (fresnelPhaseExact (fun i => (ifc i).ct2) params.eta2 params.eta3 params.kappa3).bind
          fun ph23 =>
        IridescenceTerm.combine params
          (fun i => 2 * params.eta2 i * params.height 0 * (ifc i).ct2)
          ⟨fun i => (ifc i).R12p, fun i => (ifc i).T121p, fun i => (ifc i).R23p,
            fun i => Real.pi - ph21.1 i, ph23.1⟩
          ⟨fun i => (ifc i).R12s, fun i => (ifc i).T121s, fun i => (ifc i).R23s,
            fun i => Real.pi - ph21.2 i, ph23.2⟩ := rfl
  have harmonicTerm_add (R12 T121 R23 r123 D phi : Spectrum) (g : Bool) (I : Spectrum) :
      harmonicTerm R12 T121 R23 r123 D phi g I =
        (harmonicTerm R12 T121 R23 r123 D phi g 0).map fun J => I + J := by
    unfold harmonicTerm
    simp only [Option.bind_eq_bind, pure]
    cases Spectrum.cdiv (fun i => sqr (T121 i) * R23 i) (1 - R12 * R23) with
    | none => rfl
    | some Rs =>
      simp only [Option.some_bind]
      cases evalSensitivity (fun i => 1 * D i) (fun i => 1 * phi i) g with
      | none => rfl
      | some S1 =>
        simp only [Option.some_bind]
        cases evalSensitivity (fun i => 2 * D i) (fun i => 2 * phi i) g with
        | none => rfl
        | some S2 =>
          simp only [Option.some_bind, Option.map_some', Option.some.injEq]
          funext i
          simp only [Pi.add_apply, Pi.mul_apply, Pi.zero_apply]
          ring
  -- The combination of the two polarizations does not depend on their order.
  have IridescenceTerm_combine_swap (params : IridescenceParams) (D : Spectrum)
      (p s : Polarization) :
      IridescenceTerm.combine params D p s = IridescenceTerm.combine params D s p := by
    unfold IridescenceTerm.combine
    simp only [Option.bind_eq_bind]
    cases hp : Spectrum.csqrt (p.R12 * p.R23) with
    | none =>
      cases hs : Spectrum.csqrt (s.R12 * s.R23) <;> simp
    | some r123p =>
      cases hs : Spectrum.csqrt (s.R12 * s.R23) with
      | none => simp
      | some r123s =>
        simp only [Option.some_bind]
        by_cases hAA : params.spectralAntialiasing = true
        · simp only [hAA, if_true]
          cases hJp : harmonicTerm p.R12 p.T121 p.R23 r123p D (p.phi23 + p.phi21)
              params.useGaussianFit 0 with
          | none =>
            cases hJs : harmonicTerm s.R12 s.T121 s.R23 r123s D (s.phi23 + s.phi21)
              params.useGaussianFit 0 with
            | none => rfl
            | some Js =>
              simp only [Option.some_bind, Option.none_bind]
              rw [harmonicTerm_add p.R12 p.T121 p.R23 r123p D _ _ Js, hJp]
              rfl
          | some Jp =>
            simp only [Option.some_bind]
            rw [harmonicTerm_add s.R12 s.T121 s.R23 r123s D _ _ Jp]
            cases hJs : harmonicTerm s.R12 s.T121 s.R23 r123s D (s.phi23 + s.phi21)
                params.useGaussianFit 0 with
            | none => rfl
            | some Js =>
              simp only [Option.some_bind, Option.map_some']
              rw [harmonicTerm_add p.R12 p.T121 p.R23 r123p D _ _ Js, hJp]
              simp only [Option.some_bind, Option.map_some', pure, add_comm Js Jp]
        · simp only [hAA, Bool.false_eq_true, if_false]
          cases Spectrum.cdiv (fun i => 2 * Real.pi * D i) params.wavelengths with
          | none => rfl
          | some Dphi =>
            simp only [Option.some_bind]
            cases airyTerm p.R12 p.T121 p.R23 r123p (Dphi + p.phi23 + p.phi21) with
            | none =>
              cases airyTerm s.R12 s.T121 s.R23 r123s (Dphi + s.phi23 + s.phi21) <;> simp
            | some Ip =>
              cases airyTerm s.R12 s.T121 s.R23 r123s (Dphi + s.phi23 + s.phi21) with
              | none => simp
              | some Is =>
                simp only [Option.some_bind, pure, Option.some.injEq]
                rw [add_comm Ip Is]
  -- The Airy value of one polarization and one channel is the classical
  -- thin-film reflectance, between 0 and 1: `T = 1 - R12`, `r = sqrt (R12 * R23)`.
  have airy_thin_film (R12 R23 p : ℝ) (h0 : 0 ≤ R12) (h1 : R12 ≤ 1) (h2 : 0 ≤ R23)
      (h3 : R23 ≤ 1) (h4 : R12 * R23 < 1) :
      1 - R12 * R23 ≠ 0 ∧
      1 - 2 * Real.sqrt (R12 * R23) * Real.cos p + sqr (Real.sqrt (R12 * R23)) ≠ 0 ∧
      1 + R12 * R23 - 2 * Real.sqrt (R12 * R23) * Real.cos p ≠ 0 ∧
      R12 + sqr (1 - R12) * R23 / (1 - R12 * R23) +
          2 * (sqr (1 - R12) * R23 / (1 - R12 * R23) - (1 - R12)) *
            ((Real.sqrt (R12 * R23) * Real.cos p - sqr (Real.sqrt (R12 * R23))) /
              (1 - 2 * Real.sqrt (R12 * R23) * Real.cos p + sqr (Real.sqrt (R12 * R23)))) =
        (R12 + R23 - 2 * Real.sqrt (R12 * R23) * Real.cos p) /
          (1 + R12 * R23 - 2 * Real.sqrt (R12 * R23) * Real.cos p) ∧
      0 ≤ (R12 + R23 - 2 * Real.sqrt (R12 * R23) * Real.cos p) /
          (1 + R12 * R23 - 2 * Real.sqrt (R12 * R23) * Real.cos p) ∧
      (R12 + R23 - 2 * Real.sqrt (R12 * R23) * Real.cos p) /
          (1 + R12 * R23 - 2 * Real.sqrt (R12 * R23) * Real.cos p) ≤ 1 := by
    have hq0 : 0 ≤ R12 * R23 := mul_nonneg h0 h2
    set r := Real.sqrt (R12 * R23) with hr
    have hr0 : 0 ≤ r := Real.sqrt_nonneg _
    have hrr : r * r = R12 * R23 := Real.mul_self_sqrt hq0
    have hr1 : r < 1 := by
      by_contra hc
      have : 1 ≤ r := not_lt.1 hc
      nlinarith
    have hc1 := Real.cos_le_one p
    have hc2 := Real.neg_one_le_cos p
    have hden : 0 < 1 + R12 * R23 - 2 * r * Real.cos p := by
      nlinarith [mul_nonneg hr0 (sub_nonneg.2 hc1), mul_pos (sub_pos.2 hr1) (sub_pos.2 hr1)]
    have hq : 1 - R12 * R23 ≠ 0 := by linarith
    have hden' : 1 - 2 * r * Real.cos p + sqr r ≠ 0 := by
      unfold sqr; rw [hrr]; linarith
    have hden'' : 1 + R12 * R23 - 2 * r * Real.cos p ≠ 0 := hden.ne'
    refine ⟨hq, hden', hden'', ?_, ?_, ?_⟩
    · have e : 1 - 2 * r * Real.cos p + sqr r = 1 + R12 * R23 - 2 * r * Real.cos p := by
        unfold sqr; rw [hrr]; ring
      rw [e]
      unfold sqr
      rw [hrr]
      field_simp
      ring
    · apply div_nonneg _ hden.le
      -- R12 + R23 ≥ 2 r
      have hamgm : 2 * r ≤ R12 + R23 := by
        nlinarith [sq_nonneg (R12 - R23), sq_nonneg (R12 + R23 - 2 * r), mul_nonneg h0 h2,
          add_nonneg h0 h2]
      nlinarith [mul_nonneg hr0 (sub_nonneg.2 hc1)]
    · rw [div_le_one hden]
      nlinarith [mul_nonneg (sub_nonneg.2 h1) (sub_nonneg.2 h3)]
  -- What `airyTerm` returns.
  have airyTerm_eq_some_iff (R12 T121 R23 r123 phase I : Spectrum) :
      airyTerm R12 T121 R23 r123 phase = some I ↔
        ∃ Rs irid : Spectrum,
          (∀ i, 1 - R12 i * R23 i ≠ 0 ∧ Rs i = sqr (T121 i) * R23 i / (1 - R12 i * R23 i)) ∧
          (∀ i, 1 - 2 * r123 i * Real.cos (phase i) + sqr (r123 i) ≠ 0 ∧
            irid i = (r123 i * Real.cos (phase i) - sqr (r123 i)) /
              (1 - 2 * r123 i * Real.cos (phase i) + sqr (r123 i))) ∧
          I = fun i => R12 i + Rs i + 2 * (Rs i - T121 i) * irid i := by
    unfold airyTerm
    simp only [Option.bind_eq_bind, Option.bind_eq_some, pure, Option.some.injEq,
      Spectrum_cdiv_eq_some_iff, Pi.sub_apply, Pi.mul_apply, Pi.one_apply]
    constructor
    · rintro ⟨Rs, hRs, irid, hirid, rfl⟩
      exact ⟨Rs, irid, hRs, hirid, by funext i; simp⟩
    · rintro ⟨Rs, irid, hRs, hirid, rfl⟩
      exact ⟨Rs, hRs, irid, hirid, by funext i; simp⟩
  -- What `IridescenceTerm` returns with `spectralAntialiasing` not set (the Airy
  -- summation).
  have IridescenceTerm_airy_iff (ct1 : ℝ) (params : IridescenceParams)
      (uninit : Fin 3 → InterfaceSample) (v : Spectrum)
      (hAA : params.spectralAntialiasing = false) :
      IridescenceTerm ct1 params uninit = some v ↔
        ∃ (ifc : Fin 3 → InterfaceSample) (ph21 ph23 : Spectrum × Spectrum)
          (r123p r123s Dphi Ip Is : Spectrum),
          (collectChannels fun i => interfaceChannel ct1 (params.eta1 i) (params.eta2 i)
            (params.eta3 i) (params.kappa3 i) (uninit i)) = some ifc ∧
          fresnelPhaseExact (fun _ => ct1) (fun _ => 1) params.eta2 (fun _ => 0) = some ph21 ∧
          fresnelPhaseExact (fun i => (ifc i).ct2) params.eta2 params.eta3 params.kappa3 =
            some ph23 ∧
          (∀ i, 0 ≤ (ifc i).R12p * (ifc i).R23p ∧
            r123p i = Real.sqrt ((ifc i).R12p * (ifc i).R23p)) ∧
          (∀ i, 0 ≤ (ifc i).R12s * (ifc i).R23s ∧
            r123s i = Real.sqrt ((ifc i).R12s * (ifc i).R23s)) ∧
          (∀ i, params.wavelengths i ≠ 0 ∧
            Dphi i = 2 * Real.pi * (2 * params.eta2 i * params.height 0 * (ifc i).ct2) /
              params.wavelengths i) ∧
          airyTerm (fun i => (ifc i).R12p) (fun i => (ifc i).T121p) (fun i => (ifc i).R23p) r123p
            (fun i => Dphi i + ph23.1 i + (Real.pi - ph21.1 i)) = some Ip ∧
          airyTerm (fun i => (ifc i).R12s) (fun i => (ifc i).T121s) (fun i => (ifc i).R23s) r123s
            (fun i => Dphi i + ph23.2 i + (Real.pi - ph21.2 i)) = some Is ∧
          v = fun i => 0.5 * max 0 (Ip i + Is i) := by
    unfold IridescenceTerm
    simp only [hAA, Bool.false_eq_true, if_false, Option.bind_eq_bind, Option.bind_eq_some, pure,
      Option.some.injEq, Spectrum_cdiv_eq_some_iff, Spectrum_csqrt_eq_some_iff, Pi.mul_apply]
    constructor
    · rintro ⟨ifc, hifc, ph21, h21, ph23, h23, r123p, hrp, r123s, hrs, Dphi, hD, Ip, hIp, Is, hIs,
        rfl⟩
      exact ⟨ifc, ph21, ph23, r123p, r123s, Dphi, Ip, Is, hifc, h21, h23, hrp, hrs, hD, hIp, hIs,
        rfl⟩
    · rintro ⟨ifc, ph21, ph23, r123p, r123s, Dphi, Ip, Is, hifc, h21, h23, hrp, hrs, hD, hIp, hIs,
        rfl⟩
      exact ⟨ifc, hifc, ph21, h21, ph23, h23, r123p, hrp, r123s, hrs, Dphi, hD, Ip, hIp, Is, hIs,
        rfl⟩
  -- The two branches of the loop body, for `eta2 ≠ 0`.
  have interfaceChannel_cases (ct1 eta1 eta2 eta3 kappa3 : ℝ) (u r : InterfaceSample)
      (heta2 : eta2 ≠ 0) :
      (1 - (1 - sqr ct1) * sqr (eta1 / eta2) ≤ 0 →
        interfaceChannel ct1 eta1 eta2 eta3 kappa3 u = some ⟨1, 0, u.R23p, 1, 0, u.R23s, u.ct2⟩) ∧
      (0 < 1 - (1 - sqr ct1) * sqr (eta1 / eta2) →
        (interfaceChannel ct1 eta1 eta2 eta3 kappa3 u = some r ↔
          eta1 ≠ 0 ∧ ∃ r12 r23 : FresnelR,
            fresnelConductorExact ct1 (eta2 / eta1) 0 = some r12 ∧
            fresnelConductorExact (Real.sqrt (1 - (1 - sqr ct1) * sqr (eta1 / eta2)))
              (eta3 / eta2) (kappa3 / eta2) = some r23 ∧
            r = ⟨r12.Rp2, 1 - r12.Rp2, r23.Rp2, r12.Rs2, 1 - r12.Rs2, r23.Rs2,
              Real.sqrt (1 - (1 - sqr ct1) * sqr (eta1 / eta2))⟩)) := by
    constructor
    · intro h
      unfold interfaceChannel
      simp only [fdiv_eq_some heta2, Option.bind_eq_bind, Option.some_bind, h, if_true, pure]
    · intro h
      have hn : ¬ (1 - (1 - sqr ct1) * sqr (eta1 / eta2) ≤ 0) := not_le.2 h
      unfold interfaceChannel
      simp only [fdiv_eq_some heta2, Option.bind_eq_bind, Option.some_bind, hn, if_false,
        fsqrt_eq_some h.le, pure]
      by_cases h1 : eta1 = 0
      · have : fdiv eta2 eta1 = none := by dsimp only [fdiv]; simp [h1]
        rw [this]
        simp [h1]
      · rw [fdiv_eq_some h1]
        simp only [Option.some_bind, Option.bind_eq_some, Option.some.injEq, ne_eq, h1,
          not_false_eq_true, true_and]
        constructor
        · rintro ⟨r12, hr12, r23, hr23, rfl⟩
          exact ⟨r12, r23, hr12, hr23, rfl⟩
        · rintro ⟨r12, r23, hr12, hr23, rfl⟩
          exact ⟨r12, hr12, r23, hr23, rfl⟩
  -- In a channel where the total-internal-reflection test holds, a value
  -- returned by the Airy branch of `IridescenceTerm` is `1`.
  have IridescenceTerm_tir_channel (ct1 : ℝ) (params : IridescenceParams)
      (uninit : Fin 3 → InterfaceSample) (i : Fin 3) (v : Spectrum)
      (hAA : params.spectralAntialiasing = false) (heta2 : params.eta2 i ≠ 0)
      (hTIR : 1 - (1 - sqr ct1) * sqr (params.eta1 i / params.eta2 i) ≤ 0)
      (h : IridescenceTerm ct1 params uninit = some v) : v i = 1 := by
    obtain ⟨ifc, ph21, ph23, r123p, r123s, Dphi, Ip, Is, hifc, -, -, -, -, -, hIp, hIs, rfl⟩ :=
      (IridescenceTerm_airy_iff ct1 params uninit v hAA).1 h
    have hi := collectChannels_eq_some.1 hifc i
    rw [(interfaceChannel_cases ct1 _ _ _ _ (uninit i) (uninit i) heta2).1 hTIR] at hi
    have hi' : ifc i = ⟨1, 0, (uninit i).R23p, 1, 0, (uninit i).R23s, (uninit i).ct2⟩ :=
      (Option.some.inj hi).symm
    obtain ⟨Rsp, iridp, hRsp, -, rfl⟩ := (airyTerm_eq_some_iff _ _ _ _ _ _).1 hIp
    obtain ⟨Rss, irids, hRss, -, rfl⟩ := (airyTerm_eq_some_iff _ _ _ _ _ _).1 hIs
    have e1 : Rsp i = 0 := by
      rw [(hRsp i).2, hi']; dsimp only [sqr]; simp
    have e2 : Rss i = 0 := by
      rw [(hRss i).2, hi']; dsimp only [sqr]; simp
    simp only [e1, e2, hi']
    norm_num
  -- When the total-internal-reflection test holds in every channel, with the
  -- uninitialised `R23p`, `R23s` in `[0, 1)` and no wavelength equal to zero, the
  -- Airy branch of `IridescenceTerm` returns `1` in every channel.
  have IridescenceTerm_tir_all (ct1 : ℝ) (params : IridescenceParams)
      (uninit : Fin 3 → InterfaceSample) (hAA : params.spectralAntialiasing = false)
      (hall : ∀ j, params.eta2 j ≠ 0 ∧
        1 - (1 - sqr ct1) * sqr (params.eta1 j / params.eta2 j) ≤ 0 ∧
        params.wavelengths j ≠ 0 ∧ 0 ≤ (uninit j).R23p ∧ (uninit j).R23p < 1 ∧
        0 ≤ (uninit j).R23s ∧ (uninit j).R23s < 1) :
      IridescenceTerm ct1 params uninit = some (fun _ => 1) := by
    have hifc : (collectChannels fun i => interfaceChannel ct1 (params.eta1 i) (params.eta2 i)
        (params.eta3 i) (params.kappa3 i) (uninit i)) =
        some (fun i => ⟨1, 0, (uninit i).R23p, 1, 0, (uninit i).R23s, (uninit i).ct2⟩) :=
      collectChannels_eq_some.2 fun i =>
        (interfaceChannel_cases ct1 _ _ _ _ (uninit i) (uninit i) (hall i).1).1 (hall i).2.1
    obtain ⟨ph21, h21⟩ := fresnelPhaseExact_isSome (fun _ => ct1) (fun _ => 1) params.eta2
      (fun _ => 0)
    obtain ⟨ph23, h23⟩ := fresnelPhaseExact_isSome (fun i => (uninit i).ct2) params.eta2
      params.eta3 params.kappa3
    have hsqrt : ∀ x : ℝ, 0 ≤ x → x < 1 → 0 ≤ Real.sqrt (1 * x) ∧ Real.sqrt (1 * x) < 1 := by
      intro x h0 h1
      rw [one_mul]
      refine ⟨Real.sqrt_nonneg _, ?_⟩
      rw [Real.sqrt_lt' one_pos]
      simpa using h1
    have hvalue : ∀ (R23 : Spectrum) (phase : Spectrum), (∀ i, 0 ≤ R23 i ∧ R23 i < 1) →
        airyTerm (fun _ => 1) (fun _ => 0) R23 (fun i => Real.sqrt (1 * R23 i)) phase =
          some (fun _ => 1) := by
      intro R23 phase hR
      refine (airyTerm_eq_some_iff _ _ _ _ _ _).2 ⟨fun _ => 0, _, fun i => ⟨?_, ?_⟩,
        fun i => ⟨?_, rfl⟩, ?_⟩
      · have := (hR i).2
        simp only [one_mul]
        linarith
      · dsimp only [sqr]
        simp
      · exact (airy_series _ (phase i) (hsqrt _ (hR i).1 (hR i).2).1
          (hsqrt _ (hR i).1 (hR i).2).2).1.ne'
      · funext i
        simp
    refine (IridescenceTerm_airy_iff ct1 params uninit _ hAA).2
      ⟨_, ph21, ph23, _, _, _, _, _, hifc, h21, h23, fun i => ⟨?_, rfl⟩, fun i => ⟨?_, rfl⟩,
        fun i => ⟨(hall i).2.2.1, rfl⟩,
        hvalue (fun i => (uninit i).R23p) _ (fun i => ⟨(hall i).2.2.2.1, (hall i).2.2.2.2.1⟩),
        hvalue (fun i => (uninit i).R23s) _
          (fun i => ⟨(hall i).2.2.2.2.2.1, (hall i).2.2.2.2.2.2⟩), ?_⟩
    · simpa using (hall i).2.2.2.1
    · simpa using (hall i).2.2.2.2.2.1
    · funext i
      norm_num
  -- The loop body returns `T121 = 1 - R12` for both polarizations.
  have interfaceChannel_T121 (ct1 eta1 eta2 eta3 kappa3 : ℝ) (u r : InterfaceSample)
      (h : interfaceChannel ct1 eta1 eta2 eta3 kappa3 u = some r) :
      r.T121p = 1 - r.R12p ∧ r.T121s = 1 - r.R12s := by
    have heta2 : eta2 ≠ 0 := by
      intro h0
      have : fdiv eta1 eta2 = none := by dsimp only [fdiv]; simp [h0]
      unfold interfaceChannel at h
      simp [this] at h
    rcases le_or_lt (1 - (1 - sqr ct1) * sqr (eta1 / eta2)) 0 with hc | hc
    · rw [(interfaceChannel_cases ct1 eta1 eta2 eta3 kappa3 u r heta2).1 hc] at h
      rw [← Option.some.inj h]
      norm_num
    · obtain ⟨-, r12, r23, -, -, rfl⟩ :=
        ((interfaceChannel_cases ct1 eta1 eta2 eta3 kappa3 u r heta2).2 hc).1 h
      exact ⟨rfl, rfl⟩
  exact ⟨@airy_series, @IridescenceTerm_eq_combine, @harmonicTerm_add,
    @IridescenceTerm_combine_swap, @airy_thin_film, @airyTerm_eq_some_iff,
    @IridescenceTerm_airy_iff, @interfaceChannel_cases, @IridescenceTerm_tir_channel,
    @IridescenceTerm_tir_all, @interfaceChannel_T121⟩

/-- Claim C17: for `0 ≤ r123 < 1` in every channel the Airy branch is defined
(given `R12 * R23 ≠ 1`) and its term
`irid = (r * cos p - r ^ 2) / (1 - 2 * r * cos p + r ^ 2)` is the sum of the
series of the terms `r ^ m * cos (m * p)` over `m ≥ 1` (indexed here by
`m + 1`, `m ≥ 0`). -/
theorem airyTerm_geometric_series (R12 T121 R23 r123 phase : Spectrum)
    (hr : ∀ i, 0 ≤ r123 i ∧ r123 i < 1) (hRs : ∀ i, 1 - R12 i * R23 i ≠ 0) :
    ∃ Rs irid : Spectrum,
      (∀ i, Rs i = sqr (T121 i) * R23 i / (1 - R12 i * R23 i)) ∧
      (∀ i, irid i = (r123 i * Real.cos (phase i) - sqr (r123 i)) /
        (1 - 2 * r123 i * Real.cos (phase i) + sqr (r123 i))) ∧
      (∀ i, HasSum (fun m : ℕ => r123 i ^ (m + 1) * Real.cos (((m : ℝ) + 1) * phase i))
        (irid i)) ∧
      airyTerm R12 T121 R23 r123 phase = some (R12 + Rs + 2 * (Rs - T121) * irid) := by
  obtain ⟨-, -, Spectrum_cdiv_eq_some, -, -, -, -, -, -, -, -, -, -⟩ := checked_arithmetic
  obtain ⟨airy_series, -, -, -, -, -, -, -, -, -, -⟩ := airy_lemmas
  refine ⟨_, _, fun i => rfl, fun i => rfl, fun i => (airy_series _ _ (hr i).1 (hr i).2).2, ?_⟩
  unfold airyTerm
  rw [Spectrum_cdiv_eq_some (by intro i; simpa using hRs i)]
  simp only [Option.bind_eq_bind, Option.some_bind]
  rw [Spectrum_cdiv_eq_some (by intro i; exact (airy_series _ _ (hr i).1 (hr i).2).1.ne')]
  simp only [Option.some_bind, pure, Pi.sub_apply, Pi.mul_apply, Pi.one_apply]

theorem airyTerm_geometric_series_witness :
    ∃ Rs irid : Spectrum,
      (∀ i, Rs i = sqr ((fun _ => 1 : Spectrum) i) * (fun _ => 0 : Spectrum) i /
        (1 - (fun _ => 0 : Spectrum) i * (fun _ => 0 : Spectrum) i)) ∧
      (∀ i, irid i = ((fun _ => 1 / 2 : Spectrum) i * Real.cos ((fun _ => 0 : Spectrum) i) -
          sqr ((fun _ => 1 / 2 : Spectrum) i)) /
        (1 - 2 * (fun _ => 1 / 2 : Spectrum) i * Real.cos ((fun _ => 0 : Spectrum) i) +
          sqr ((fun _ => 1 / 2 : Spectrum) i))) ∧
      (∀ i, HasSum (fun m : ℕ => (fun _ => 1 / 2 : Spectrum) i ^ (m + 1) *
          Real.cos (((m : ℝ) + 1) * (fun _ => 0 : Spectrum) i)) (irid i)) ∧
      airyTerm (fun _ => 0) (fun _ => 1) (fun _ => 0) (fun _ => 1 / 2) (fun _ => 0) =
        some ((fun _ => 0) + Rs + 2 * (Rs - fun _ => 1) * irid) :=
  airyTerm_geometric_series (fun _ => 0) (fun _ => 1) (fun _ => 0) (fun _ => 1 / 2)
    (fun _ => 0) (fun _ => by norm_num) (fun _ => by norm_num)

/-! ### The two polarizations -/

/-- Claim C19: in both modes the result of `IridescenceTerm` is unchanged when the
quantities of the parallel polarization (`R12p`, `T121p`, `R23p`, `phi21p`,
`phi23p`) are exchanged with those of the perpendicular one: the combination of
lines 403-480 is symmetric in the two polarizations, and `IridescenceTerm` is
that combination applied to the quantities computed by its set-up, in either
order. -/
theorem IridescenceTerm_polarization_swap (ct1 : ℝ) (params : IridescenceParams)
    (uninit : Fin 3 → InterfaceSample) :
    (∀ (D : Spectrum) (p s : Polarization),
      IridescenceTerm.combine params D p s = IridescenceTerm.combine params D s p) ∧
    IridescenceTerm ct1 params uninit =
      (collectChannels fun i => interfaceChannel ct1 (params.eta1 i) (params.eta2 i)
        (params.eta3 i) (params.kappa3 i) (uninit i)).bind fun ifc =>
      (fresnelPhaseExact (fun _ => ct1) (fun _ => 1) params.eta2 (fun _ => 0)).bind fun ph21 =>
      (fresnelPhaseExact (fun i => (ifc i).ct2) params.eta2 params.eta3 params.kappa3).bind
        fun ph23 =>
      IridescenceTerm.combine params
        (fun i => 2 * params.eta2 i * params.height 0 * (ifc i).ct2)
        ⟨fun i => (ifc i).R12s, fun i => (ifc i).T121s, fun i => (ifc i).R23s,
          fun i => Real.pi - ph21.2 i, ph23.2⟩
        ⟨fun i => (ifc i).R12p, fun i => (ifc i).T121p, fun i => (ifc i).R23p,
          fun i => Real.pi - ph21.1 i, ph23.1⟩ := by
  obtain ⟨-, IridescenceTerm_eq_combine, -, IridescenceTerm_combine_swap, -, -, -, -, -, -,
      -⟩ := airy_lemmas
  refine ⟨fun D p s => IridescenceTerm_combine_swap params D p s, ?_⟩
  rw [IridescenceTerm_eq_combine]
  simp only [IridescenceTerm_combine_swap params _
    ⟨fun i => (_ : Fin 3 → InterfaceSample) i |>.R12s, _, _, _, _⟩]

/-! ### The opening test and the side check of `sample` -/

set_option maxHeartbeats 1000000 in
/-- The Glittery BSDF: what sample returns below and at the horizon, the reflected
direction and its half-vector, sample and eval on a smooth configuration, and the
calls that reach sampleF with no facet. -/
theorem glittery_lemmas :
    (∀ {P D G : Type} (host : Host D G) (warp : Warp)
      (self : Glittery P) (bRec : BSDFSamplingRecord P) (pdf0 : ℝ) (sample : Vector2) (gen : G)
      (uninit : Fin 3 → InterfaceSample) (pixelArea0 : ℝ) (_ : Frame.cosTheta bRec.wi < 0),
      Glittery.sample host warp self bRec sample gen uninit pixelArea0 = some (0, bRec, gen) ∧
      Glittery.sampleWithPdf host warp self bRec pdf0 sample gen uninit pixelArea0 =
        some (0, bRec, gen, some pdf0)) ∧
    (∀ {P D G : Type} (host : Host D G) (warp : Warp)
      (self : Glittery P) (bRec : BSDFSamplingRecord P) (pdf0 : ℝ) (sample : Vector2) (gen : G)
      (uninit : Fin 3 → InterfaceSample) (pixelArea0 : ℝ)
      (_ : ¬ Glittery.sampleRejects host bRec)
      (_ : (host.sample (host.distribution self.m_type
        (2.0 * (self.m_alphaU bRec.its).average) (2.0 * (self.m_alphaV bRec.its).average)
        self.m_totalFacets self.m_sampleVisible) bRec.wi sample).2 ≠ 0)
      (_ : Frame.cosTheta (warp.toWorld (Glittery.reflect bRec.wi
        (host.sample (host.distribution self.m_type
          (2.0 * (self.m_alphaU bRec.its).average) (2.0 * (self.m_alphaV bRec.its).average)
          self.m_totalFacets self.m_sampleVisible) bRec.wi sample).1)
        (warp.squareToUniformCone (Real.cos self.m_queryRadius) sample)) ≤ 0),
      (∃ r, Glittery.sample host warp self bRec sample gen uninit pixelArea0 = some (0, r, gen)) ∧
      ∃ r p, Glittery.sampleWithPdf host warp self bRec pdf0 sample gen uninit pixelArea0 =
        some (0, r, gen, p)) ∧
    (∀ {P D G : Type} (host : Host D G) (warp : Warp)
      (self : Glittery P) (bRec : BSDFSamplingRecord P) (pdf0 : ℝ) (sample : Vector2) (gen : G)
      (uninit : Fin 3 → InterfaceSample) (pixelArea0 : ℝ)
      (_ : Frame.cosTheta bRec.wi = 0)
      (_ : ¬ ((bRec.component ≠ -1 ∧ bRec.component ≠ 0) ∨
        ¬ (bRec.typeMask &&& host.EGlossyReflection ≠ 0)))
      (_ : (host.sample (host.distribution self.m_type
        (2.0 * (self.m_alphaU bRec.its).average) (2.0 * (self.m_alphaV bRec.its).average)
        self.m_totalFacets self.m_sampleVisible) bRec.wi sample).2 ≠ 0)
      (_ : 0 < Frame.cosTheta (warp.toWorld (Glittery.reflect bRec.wi
        (host.sample (host.distribution self.m_type
          (2.0 * (self.m_alphaU bRec.its).average) (2.0 * (self.m_alphaV bRec.its).average)
          self.m_totalFacets self.m_sampleVisible) bRec.wi sample).1)
        (warp.squareToUniformCone (Real.cos self.m_queryRadius) sample))),
      Glittery.sample host warp self bRec sample gen uninit pixelArea0 = none ∧
      Glittery.sampleWithPdf host warp self bRec pdf0 sample gen uninit pixelArea0 = none) ∧
    (∀ (wi m : Vector3) (_ : dot m m = 1)
      (_ : 0 < dot wi m),
      normalize ((Glittery.reflect wi m).add wi) = some m ∧
      dot (Glittery.reflect wi m) m = dot wi m) ∧
    (∀ {P D G : Type} (host : Host D G) (warp : Warp)
      (self : Glittery P) (bRec : BSDFSamplingRecord P) (pdf0 : ℝ) (sample : Vector2) (gen : G)
      (uninit : Fin 3 → InterfaceSample) (pixelArea0 : ℝ) (m wo H : Vector3) (pdf : ℝ)
      (I0 : Spectrum)
      (_ : host.sample (host.distribution self.m_type
        (2.0 * (self.m_alphaU bRec.its).average) (2.0 * (self.m_alphaV bRec.its).average)
        self.m_totalFacets self.m_sampleVisible) bRec.wi sample = (m, pdf))
      (_ : warp.toWorld (Glittery.reflect bRec.wi m)
        (warp.squareToUniformCone (Real.cos self.m_queryRadius) sample) = wo)
      (_ : ¬ Glittery.sampleRejects host bRec) (_ : pdf ≠ 0)
      (_ : 0 < Frame.cosTheta wo) (_ : bRec.its.hasUVPartials = false)
      (_ : normalize (wo.add bRec.wi) = some H)
      (_ : IridescenceTerm (dot bRec.wi m)
        ⟨self.m_height bRec.its, self.m_eta1, self.m_eta2, self.m_eta, self.m_k bRec.its,
          self.m_wavelengths, self.m_spectralAntialiasing, self.m_useGaussianFit⟩ uninit = some I0)
      (_ : Frame.cosTheta bRec.wi ≠ 0),
      Glittery.sampleWithPdf host warp self bRec pdf0 sample gen uninit pixelArea0 = some
        (fun i => (I0 * self.m_specularReflectance bRec.its) i *
          (host.eval (host.distribution self.m_type
              (2.0 * (self.m_alphaU bRec.its).average) (2.0 * (self.m_alphaV bRec.its).average)
              self.m_totalFacets self.m_sampleVisible) H *
            host.smithG (host.distribution self.m_type
              (2.0 * (self.m_alphaU bRec.its).average) (2.0 * (self.m_alphaV bRec.its).average)
              self.m_totalFacets self.m_sampleVisible) bRec.wi wo m * dot bRec.wi m /
            (pdf * Frame.cosTheta bRec.wi)),
          { bRec with wo := wo, eta := 1.0, sampledComponent := 0,
                      sampledType := host.EGlossyReflection },
          gen, fdiv pdf (4.0 * dot wo m))) ∧
    (∀ {P D G : Type} (host : Host D G) (self : Glittery P)
      (bRec : BSDFSamplingRecord P) (gen : G) (uninit : Fin 3 → InterfaceSample)
      (pixelArea0 : ℝ) (H : Vector3) (I0 : Spectrum)
      (_ : ¬ Glittery.rejects host bRec EMeasure.ESolidAngle)
      (_ : bRec.its.hasUVPartials = false)
      (_ : normalize (bRec.wo.add bRec.wi) = some H)
      (_ : IridescenceTerm (dot bRec.wi H)
        ⟨self.m_height bRec.its, self.m_eta1, self.m_eta2, self.m_eta, self.m_k bRec.its,
          self.m_wavelengths, self.m_spectralAntialiasing, self.m_useGaussianFit⟩ uninit = some I0)
      (_ : Frame.cosTheta bRec.wi ≠ 0),
      Glittery.eval host self bRec EMeasure.ESolidAngle gen uninit pixelArea0 = some
        (fun i => (I0 * self.m_specularReflectance bRec.its) i *
          host.eval (host.distribution self.m_type (self.m_alphaU bRec.its).average
            (self.m_alphaV bRec.its).average self.m_totalFacets self.m_sampleVisible) H *
          host.smithG (host.distribution self.m_type (self.m_alphaU bRec.its).average
            (self.m_alphaV bRec.its).average self.m_totalFacets self.m_sampleVisible)
            bRec.wi bRec.wo H / (4.0 * Frame.cosTheta bRec.wi), gen)) ∧
    (Glittery.sampleWithPdf
        ({ EGlossyReflection := 8, distribution := fun _ aU _ _ _ => aU, eval := fun d _ => d,
           evalFootprint := fun _ _ _ _ _ _ => 1, smithG := fun _ _ _ _ => 1,
           smithG1 := fun _ _ _ => 1, pdf := fun _ _ _ => 1,
           sample := fun _ _ _ => (⟨0, 0, 1⟩, 1),
           standardNormal := fun g => (0, g) } : Host ℝ Unit)
        ({ squareToUniformCone := fun _ _ => ⟨0, 0, 1⟩, toWorld := fun n _ => n } : Warp)
        ({ m_type := 0, m_specularReflectance := fun _ => 1, m_alphaU := fun _ => 1,
           m_alphaV := fun _ => 1, m_totalFacets := 1, m_queryRadius := 1, m_sampleVisible := true,
           m_eta := fun _ => 1, m_k := fun _ => 0, m_height := fun _ => 400,
           m_eta1 := fun _ => 2, m_eta2 := fun _ => 1, m_wavelengths := fun _ => 500,
           m_heightRange := fun _ => 0, m_spectralAntialiasing := false,
           m_useGaussianFit := false, integrations := fun _ => none } : Glittery Unit)
        ({ its := ⟨(), false, ⟨0, 0⟩, 0, 0, 0, 0⟩, wi := ⟨3 / 5, 0, 4 / 5⟩, wo := ⟨0, 0, 1⟩,
           component := -1, typeMask := 8, sampler := none, eta := 1, sampledComponent := 0,
           sampledType := 0 } : BSDFSamplingRecord Unit)
        0 ⟨0, 0⟩ () (fun _ => ⟨0, 0, 0, 0, 0, 0, 0⟩) 0 = some (fun _ => 2,
        ({ its := ⟨(), false, ⟨0, 0⟩, 0, 0, 0, 0⟩, wi := ⟨3 / 5, 0, 4 / 5⟩,
           wo := ⟨-(3 / 5), 0, 4 / 5⟩, component := -1, typeMask := 8, sampler := none,
           eta := 1.0, sampledComponent := 0, sampledType := 8 } : BSDFSamplingRecord Unit), (), some (5 / 16)) ∧
      Glittery.eval
        ({ EGlossyReflection := 8, distribution := fun _ aU _ _ _ => aU, eval := fun d _ => d,
           evalFootprint := fun _ _ _ _ _ _ => 1, smithG := fun _ _ _ _ => 1,
           smithG1 := fun _ _ _ => 1, pdf := fun _ _ _ => 1,
           sample := fun _ _ _ => (⟨0, 0, 1⟩, 1),
           standardNormal := fun g => (0, g) } : Host ℝ Unit)
        ({ m_type := 0, m_specularReflectance := fun _ => 1, m_alphaU := fun _ => 1,
           m_alphaV := fun _ => 1, m_totalFacets := 1, m_queryRadius := 1, m_sampleVisible := true,
           m_eta := fun _ => 1, m_k := fun _ => 0, m_height := fun _ => 400,
           m_eta1 := fun _ => 2, m_eta2 := fun _ => 1, m_wavelengths := fun _ => 500,
           m_heightRange := fun _ => 0, m_spectralAntialiasing := false,
           m_useGaussianFit := false, integrations := fun _ => none } : Glittery Unit)
        ({ its := ⟨(), false, ⟨0, 0⟩, 0, 0, 0, 0⟩, wi := ⟨3 / 5, 0, 4 / 5⟩,
           wo := ⟨-(3 / 5), 0, 4 / 5⟩, component := -1, typeMask := 8, sampler := none,
           eta := 1.0, sampledComponent := 0, sampledType := 8 } : BSDFSamplingRecord Unit)
        EMeasure.ESolidAngle () (fun _ => ⟨0, 0, 0, 0, 0, 0, 0⟩) 0 = some (fun _ => 5 / 16, ()) ∧
      (2 : ℝ) * (5 / 16) ≠ 5 / 16) ∧
    (∀ {D G : Type} (host : Host D G) (mean variance : Spectrum)
      (gen : G), Glittery.sampleF host 0 mean variance gen = none) ∧
    (∀ {P D G : Type} (host : Host D G) (self : Glittery P)
      (bRec : BSDFSamplingRecord P) (gen : G) (uninit : Fin 3 → InterfaceSample)
      (pixelArea0 : ℝ) (H : Vector3) (D0 pixelArea : ℝ)
      (_ : ¬ Glittery.rejects host bRec EMeasure.ESolidAngle)
      (_ : normalize (bRec.wo.add bRec.wi) = some H)
      (_ : Glittery.evaluateD host self (host.distribution self.m_type
        (self.m_alphaU bRec.its).average (self.m_alphaV bRec.its).average self.m_totalFacets
        self.m_sampleVisible) bRec pixelArea0 = some (true, D0, pixelArea))
      (_ : D0 ≠ 0) (_ : truncToInt (D0 * self.m_totalFacets) = 0)
      (_ : (IridescenceMean (dot bRec.wi H)
        ⟨self.m_height bRec.its, self.m_eta1, self.m_eta2, self.m_eta, self.m_k bRec.its,
          self.m_wavelengths, self.m_spectralAntialiasing, self.m_useGaussianFit⟩
        (self.m_height bRec.its 0 - self.m_heightRange bRec.its 0)
        (self.m_height bRec.its 0 + self.m_heightRange bRec.its 0) uninit).isSome = true),
      Glittery.eval host self bRec EMeasure.ESolidAngle gen uninit pixelArea0 = none) ∧
    (∀ {P D G : Type} (host : Host D G) (warp : Warp)
      (self : Glittery P) (bRec : BSDFSamplingRecord P) (sample : Vector2) (gen : G)
      (uninit : Fin 3 → InterfaceSample) (pixelArea0 : ℝ) (m wo : Vector3) (pdf D0 pixelArea : ℝ)
      (_ : host.sample (host.distribution self.m_type
        (2.0 * (self.m_alphaU bRec.its).average) (2.0 * (self.m_alphaV bRec.its).average)
        self.m_totalFacets self.m_sampleVisible) bRec.wi sample = (m, pdf))
      (_ : warp.toWorld (Glittery.reflect bRec.wi m)
        (warp.squareToUniformCone (Real.cos self.m_queryRadius) sample) = wo)
      (_ : ¬ Glittery.sampleRejects host bRec) (_ : pdf ≠ 0)
      (_ : 0 < Frame.cosTheta wo)
      (_ : Glittery.evaluateD host self (host.distribution self.m_type
        (2.0 * (self.m_alphaU bRec.its).average) (2.0 * (self.m_alphaV bRec.its).average)
        self.m_totalFacets self.m_sampleVisible)
        { bRec with wo := wo, eta := 1.0, sampledComponent := 0,
                    sampledType := host.EGlossyReflection } pixelArea0 =
        some (true, D0, pixelArea))
      (_ : truncToInt (D0 * self.m_totalFacets) = 0)
      (_ : (IridescenceMean (dot bRec.wi m)
        ⟨self.m_height bRec.its, self.m_eta1, self.m_eta2, self.m_eta, self.m_k bRec.its,
          self.m_wavelengths, self.m_spectralAntialiasing, self.m_useGaussianFit⟩
        (self.m_height bRec.its 0 - self.m_heightRange bRec.its 0)
        (self.m_height bRec.its 0 + self.m_heightRange bRec.its 0) uninit).isSome = true),
      Glittery.sample host warp self bRec sample gen uninit pixelArea0 = none) ∧
    (∀ {P D G : Type} (host : Host D G) (self : Glittery P)
      (distr : D) (bRec : BSDFSamplingRecord P) (pixelArea0 : ℝ) (H : Vector3)
      (_ : normalize (bRec.wo.add bRec.wi) = some H) (_ : bRec.its.hasUVPartials = true),
      Glittery.evaluateD host self distr bRec pixelArea0 =
        some (true, host.evalFootprint distr H
          (Glittery.extentsToPoint ⟨bRec.its.uv.x, bRec.its.uv.y⟩ ⟨bRec.its.dudx, bRec.its.dvdx⟩
            ⟨bRec.its.dudy, bRec.its.dvdy⟩)
          ⟨bRec.wi, bRec.wo, self.m_queryRadius⟩ self.integrations
          (bRec.sampler.getD 1),
          2 * triangleArea
            (Glittery.extentsToPoint ⟨bRec.its.uv.x, bRec.its.uv.y⟩ ⟨bRec.its.dudx, bRec.its.dvdx⟩
              ⟨bRec.its.dudy, bRec.its.dvdy⟩ 0)
            (Glittery.extentsToPoint ⟨bRec.its.uv.x, bRec.its.uv.y⟩ ⟨bRec.its.dudx, bRec.its.dvdx⟩
              ⟨bRec.its.dudy, bRec.its.dvdy⟩ 2)
            (Glittery.extentsToPoint ⟨bRec.its.uv.x, bRec.its.uv.y⟩ ⟨bRec.its.dudx, bRec.its.dvdx⟩
              ⟨bRec.its.dudy, bRec.its.dvdy⟩ 1))) := by
  obtain ⟨fdiv_eq_some, -, -, -, -, -, -, -, -, -, -, -, -⟩ := checked_arithmetic
  obtain ⟨-, -, -, -, -, -, -, -, -, IridescenceTerm_tir_all, -⟩ := airy_lemmas
  -- An incident direction strictly below the horizon: both overloads of `sample`
  -- return the zero spectrum and leave the record as it is.
  have Glittery_sample_wi_below {P D G : Type} (host : Host D G) (warp : Warp)
      (self : Glittery P) (bRec : BSDFSamplingRecord P) (pdf0 : ℝ) (sample : Vector2) (gen : G)
      (uninit : Fin 3 → InterfaceSample) (pixelArea0 : ℝ) (h : Frame.cosTheta bRec.wi < 0) :
      Glittery.sample host warp self bRec sample gen uninit pixelArea0 = some (0, bRec, gen) ∧
      Glittery.sampleWithPdf host warp self bRec pdf0 sample gen uninit pixelArea0 =
        some (0, bRec, gen, some pdf0) := by
    have hr : Glittery.sampleRejects host bRec := Or.inl h
    constructor
    · unfold Glittery.sample
      rw [if_pos hr]; rfl
    · unfold Glittery.sampleWithPdf
      rw [if_pos hr]; rfl
  -- A sampled outgoing direction on or below the horizon (the side check): both
  -- overloads of `sample` return the zero spectrum.
  have Glittery_sample_wo_below {P D G : Type} (host : Host D G) (warp : Warp)
      (self : Glittery P) (bRec : BSDFSamplingRecord P) (pdf0 : ℝ) (sample : Vector2) (gen : G)
      (uninit : Fin 3 → InterfaceSample) (pixelArea0 : ℝ)
      (hr : ¬ Glittery.sampleRejects host bRec)
      (hpdf : (host.sample (host.distribution self.m_type
        (2.0 * (self.m_alphaU bRec.its).average) (2.0 * (self.m_alphaV bRec.its).average)
        self.m_totalFacets self.m_sampleVisible) bRec.wi sample).2 ≠ 0)
      (hwo : Frame.cosTheta (warp.toWorld (Glittery.reflect bRec.wi
        (host.sample (host.distribution self.m_type
          (2.0 * (self.m_alphaU bRec.its).average) (2.0 * (self.m_alphaV bRec.its).average)
          self.m_totalFacets self.m_sampleVisible) bRec.wi sample).1)
        (warp.squareToUniformCone (Real.cos self.m_queryRadius) sample)) ≤ 0) :
      (∃ r, Glittery.sample host warp self bRec sample gen uninit pixelArea0 = some (0, r, gen)) ∧
      ∃ r p, Glittery.sampleWithPdf host warp self bRec pdf0 sample gen uninit pixelArea0 =
        some (0, r, gen, p) := by
    constructor
    · unfold Glittery.sample
      rw [if_neg hr]
      simp only [hpdf, if_false, hwo, if_true, pure]
      exact ⟨_, rfl⟩
    · unfold Glittery.sampleWithPdf
      rw [if_neg hr]
      simp only [hpdf, if_false, hwo, if_true, pure]
      exact ⟨_, _, rfl⟩
  -- An incident direction on the horizon (`cosTheta wi = 0`) passes the opening
  -- test of `sample`; when the sampled direction passes the side check, the weight
  -- is a quotient with divisor `0` and neither overload returns a spectrum.
  have Glittery_sample_wi_grazing {P D G : Type} (host : Host D G) (warp : Warp)
      (self : Glittery P) (bRec : BSDFSamplingRecord P) (pdf0 : ℝ) (sample : Vector2) (gen : G)
      (uninit : Fin 3 → InterfaceSample) (pixelArea0 : ℝ)
      (hz : Frame.cosTheta bRec.wi = 0)
      (hc : ¬ ((bRec.component ≠ -1 ∧ bRec.component ≠ 0) ∨
        ¬ (bRec.typeMask &&& host.EGlossyReflection ≠ 0)))
      (hpdf : (host.sample (host.distribution self.m_type
        (2.0 * (self.m_alphaU bRec.its).average) (2.0 * (self.m_alphaV bRec.its).average)
        self.m_totalFacets self.m_sampleVisible) bRec.wi sample).2 ≠ 0)
      (hwo : 0 < Frame.cosTheta (warp.toWorld (Glittery.reflect bRec.wi
        (host.sample (host.distribution self.m_type
          (2.0 * (self.m_alphaU bRec.its).average) (2.0 * (self.m_alphaV bRec.its).average)
          self.m_totalFacets self.m_sampleVisible) bRec.wi sample).1)
        (warp.squareToUniformCone (Real.cos self.m_queryRadius) sample))) :
      Glittery.sample host warp self bRec sample gen uninit pixelArea0 = none ∧
      Glittery.sampleWithPdf host warp self bRec pdf0 sample gen uninit pixelArea0 = none := by
    have hr : ¬ Glittery.sampleRejects host bRec := by
      unfold Glittery.sampleRejects
      rw [hz]
      rintro (h | h)
      · exact lt_irrefl _ h
      · exact hc h
    have hd : ∀ x y : ℝ, fdiv x (y * Frame.cosTheta bRec.wi) = none := by
      intro x y
      dsimp only [fdiv]
      simp [hz]
    constructor
    · unfold Glittery.sample
      rw [if_neg hr]
      simp only [hpdf, if_false, not_le.2 hwo, Option.bind_eq_bind, hd, Option.none_bind,
        Option.bind_eq_none]
      intro dv _
      split
      · simp only [Option.bind_eq_none]
        intro mv _ F _
        simp
      · simp
    · unfold Glittery.sampleWithPdf
      rw [if_neg hr]
      simp only [hpdf, if_false, not_le.2 hwo, Option.bind_eq_bind, hd, Option.none_bind,
        Option.bind_eq_none]
      intro dv _
      split
      · simp only [Option.bind_eq_none]
        intro mv _ F _
        simp
      · simp
  -- The reflection of `wi` about a unit normal `m` with `dot wi m > 0`: the
  -- half-vector of `wi` and the reflected direction is `m`, and both directions make
  -- the same angle with `m`.
  have Glittery_reflect_half_vector (wi m : Vector3) (hunit : dot m m = 1)
      (hpos : 0 < dot wi m) :
      normalize ((Glittery.reflect wi m).add wi) = some m ∧
      dot (Glittery.reflect wi m) m = dot wi m := by
    have hsum : (Glittery.reflect wi m).add wi =
        ⟨2 * dot wi m * m.x, 2 * dot wi m * m.y, 2 * dot wi m * m.z⟩ := by
      dsimp only [Glittery.reflect, Vector3.add, Vector3.sub, Vector3.smul]
      simp
    have hlen : Real.sqrt (dot ((Glittery.reflect wi m).add wi) ((Glittery.reflect wi m).add wi)) =
        2 * dot wi m := by
      rw [hsum]
      have : dot (⟨2 * dot wi m * m.x, 2 * dot wi m * m.y, 2 * dot wi m * m.z⟩ : Vector3)
          ⟨2 * dot wi m * m.x, 2 * dot wi m * m.y, 2 * dot wi m * m.z⟩ =
          (2 * dot wi m) ^ 2 := by
        have h1 : m.x * m.x + m.y * m.y + m.z * m.z = 1 := hunit
        show 2 * dot wi m * m.x * (2 * dot wi m * m.x) + 2 * dot wi m * m.y * (2 * dot wi m * m.y) +
          2 * dot wi m * m.z * (2 * dot wi m * m.z) = (2 * dot wi m) ^ 2
        calc _ = (2 * dot wi m) ^ 2 * (m.x * m.x + m.y * m.y + m.z * m.z) := by ring
          _ = (2 * dot wi m) ^ 2 := by rw [h1, mul_one]
      rw [this, Real.sqrt_sq (by linarith)]
    have hne : 2 * dot wi m ≠ 0 := by linarith
    constructor
    · unfold normalize
      rw [hlen]
      simp only [hsum, fdiv_eq_some hne, Option.bind_eq_bind, Option.some_bind, pure,
        Option.some.injEq]
      have e : ∀ x : ℝ, 2 * dot wi m * x / (2 * dot wi m) = x := fun x => by field_simp
      simp only [e]
    · have h1 : m.x * m.x + m.y * m.y + m.z * m.z = 1 := hunit
      show (2 * dot wi m * m.x - wi.x) * m.x + (2 * dot wi m * m.y - wi.y) * m.y +
        (2 * dot wi m * m.z - wi.z) * m.z = dot wi m
      have : dot wi m = wi.x * m.x + wi.y * m.y + wi.z * m.z := rfl
      nlinarith
  -- The smooth case of `sample(bRec, pdf, sample)` (no UV partials) on an input
  -- that passes the opening test, the zero check and the side check, with the
  -- iridescence term defined: the spectrum is `I * weight` and the density is
  -- divided by `4 * dot(wo, m)`.
  have Glittery_sampleWithPdf_smooth {P D G : Type} (host : Host D G) (warp : Warp)
      (self : Glittery P) (bRec : BSDFSamplingRecord P) (pdf0 : ℝ) (sample : Vector2) (gen : G)
      (uninit : Fin 3 → InterfaceSample) (pixelArea0 : ℝ) (m wo H : Vector3) (pdf : ℝ)
      (I0 : Spectrum)
      (hs : host.sample (host.distribution self.m_type
        (2.0 * (self.m_alphaU bRec.its).average) (2.0 * (self.m_alphaV bRec.its).average)
        self.m_totalFacets self.m_sampleVisible) bRec.wi sample = (m, pdf))
      (hwo : warp.toWorld (Glittery.reflect bRec.wi m)
        (warp.squareToUniformCone (Real.cos self.m_queryRadius) sample) = wo)
      (hnr : ¬ Glittery.sampleRejects host bRec) (hpdf : pdf ≠ 0)
      (hside : 0 < Frame.cosTheta wo) (hsmooth : bRec.its.hasUVPartials = false)
      (hH : normalize (wo.add bRec.wi) = some H)
      (hI : IridescenceTerm (dot bRec.wi m)
        ⟨self.m_height bRec.its, self.m_eta1, self.m_eta2, self.m_eta, self.m_k bRec.its,
          self.m_wavelengths, self.m_spectralAntialiasing, self.m_useGaussianFit⟩ uninit = some I0)
      (hwi : Frame.cosTheta bRec.wi ≠ 0) :
      Glittery.sampleWithPdf host warp self bRec pdf0 sample gen uninit pixelArea0 = some
        (fun i => (I0 * self.m_specularReflectance bRec.its) i *
          (host.eval (host.distribution self.m_type
              (2.0 * (self.m_alphaU bRec.its).average) (2.0 * (self.m_alphaV bRec.its).average)
              self.m_totalFacets self.m_sampleVisible) H *
            host.smithG (host.distribution self.m_type
              (2.0 * (self.m_alphaU bRec.its).average) (2.0 * (self.m_alphaV bRec.its).average)
              self.m_totalFacets self.m_sampleVisible) bRec.wi wo m * dot bRec.wi m /
            (pdf * Frame.cosTheta bRec.wi)),
          { bRec with wo := wo, eta := 1.0, sampledComponent := 0,
                      sampledType := host.EGlossyReflection },
          gen, fdiv pdf (4.0 * dot wo m)) := by
    unfold Glittery.sampleWithPdf
    rw [if_neg hnr]
    simp only [hs, hpdf, if_false, hwo, not_le.2 hside]
    have hD : Glittery.evaluateD host self (host.distribution self.m_type
        (2.0 * (self.m_alphaU bRec.its).average) (2.0 * (self.m_alphaV bRec.its).average)
        self.m_totalFacets self.m_sampleVisible)
        { bRec with wo := wo, eta := 1.0, sampledComponent := 0,
                    sampledType := host.EGlossyReflection } pixelArea0 =
        some (false, host.eval (host.distribution self.m_type
          (2.0 * (self.m_alphaU bRec.its).average) (2.0 * (self.m_alphaV bRec.its).average)
          self.m_totalFacets self.m_sampleVisible) H, pixelArea0) := by
      unfold Glittery.evaluateD
      simp only [hH, hsmooth, Option.bind_eq_bind, Option.some_bind, Bool.not_false, if_true, pure]
    simp only [hD, hI, fdiv_eq_some (mul_ne_zero hpdf hwi), Option.bind_eq_bind, Option.some_bind,
      Bool.false_eq_true, if_false, pure]
  -- The smooth case of `eval` (no UV partials) on an input that passes the opening
  -- test, with the iridescence term defined.
  have Glittery_eval_smooth {P D G : Type} (host : Host D G) (self : Glittery P)
      (bRec : BSDFSamplingRecord P) (gen : G) (uninit : Fin 3 → InterfaceSample)
      (pixelArea0 : ℝ) (H : Vector3) (I0 : Spectrum)
      (hnr : ¬ Glittery.rejects host bRec EMeasure.ESolidAngle)
      (hsmooth : bRec.its.hasUVPartials = false)
      (hH : normalize (bRec.wo.add bRec.wi) = some H)
      (hI : IridescenceTerm (dot bRec.wi H)
        ⟨self.m_height bRec.its, self.m_eta1, self.m_eta2, self.m_eta, self.m_k bRec.its,
          self.m_wavelengths, self.m_spectralAntialiasing, self.m_useGaussianFit⟩ uninit = some I0)
      (hwi : Frame.cosTheta bRec.wi ≠ 0) :
      Glittery.eval host self bRec EMeasure.ESolidAngle gen uninit pixelArea0 = some
        (fun i => (I0 * self.m_specularReflectance bRec.its) i *
          host.eval (host.distribution self.m_type (self.m_alphaU bRec.its).average
            (self.m_alphaV bRec.its).average self.m_totalFacets self.m_sampleVisible) H *
          host.smithG (host.distribution self.m_type (self.m_alphaU bRec.its).average
            (self.m_alphaV bRec.its).average self.m_totalFacets self.m_sampleVisible)
            bRec.wi bRec.wo H / (4.0 * Frame.cosTheta bRec.wi), gen) := by
    unfold Glittery.eval
    rw [if_neg hnr]
    have hD : Glittery.evaluateD host self (host.distribution self.m_type
        (self.m_alphaU bRec.its).average (self.m_alphaV bRec.its).average self.m_totalFacets
        self.m_sampleVisible) bRec pixelArea0 =
        some (false, host.eval (host.distribution self.m_type (self.m_alphaU bRec.its).average
          (self.m_alphaV bRec.its).average self.m_totalFacets self.m_sampleVisible) H,
          pixelArea0) := by
      unfold Glittery.evaluateD
      simp only [hH, hsmooth, Option.bind_eq_bind, Option.some_bind, Bool.not_false, if_true, pure]
    have h4 : (4.0 : ℝ) * Frame.cosTheta bRec.wi ≠ 0 := mul_ne_zero (by norm_num) hwi
    simp only [hH, hD, Option.bind_eq_bind, Option.some_bind]
    split
    · rename_i hD0
      simp only [pure, Option.some.injEq, Prod.mk.injEq, and_true]
      funext i
      simp [hD0]
    · simp only [hI, Bool.false_eq_true, if_false, Option.some_bind,
        collectChannels_eq_some.2 (fun i => fdiv_eq_some h4), pure]
  -- The claim C21 fails where the roughness matters: on a host whose
  -- distribution value is its roughness `alphaU`, at `wi = (3/5, 0, 4/5)` with
  -- the sampled normal `m = (0, 0, 1)`, density `1`, the reflected direction
  -- `(-3/5, 0, 4/5)` left as it is and a total-internal-reflection film (iridescence
  -- term `1`), `sample` returns the weight `2` and the density `5/16`, while `eval`
  -- at the direction written into the record is `5/16`.
  have Glittery_sample_roughness_not_eval :
      Glittery.sampleWithPdf
        ({ EGlossyReflection := 8, distribution := fun _ aU _ _ _ => aU, eval := fun d _ => d,
           evalFootprint := fun _ _ _ _ _ _ => 1, smithG := fun _ _ _ _ => 1,
           smithG1 := fun _ _ _ => 1, pdf := fun _ _ _ => 1,
           sample := fun _ _ _ => (⟨0, 0, 1⟩, 1),
           standardNormal := fun g => (0, g) } : Host ℝ Unit)
        ({ squareToUniformCone := fun _ _ => ⟨0, 0, 1⟩, toWorld := fun n _ => n } : Warp)
        ({ m_type := 0, m_specularReflectance := fun _ => 1, m_alphaU := fun _ => 1,
           m_alphaV := fun _ => 1, m_totalFacets := 1, m_queryRadius := 1, m_sampleVisible := true,
           m_eta := fun _ => 1, m_k := fun _ => 0, m_height := fun _ => 400,
           m_eta1 := fun _ => 2, m_eta2 := fun _ => 1, m_wavelengths := fun _ => 500,
           m_heightRange := fun _ => 0, m_spectralAntialiasing := false,
           m_useGaussianFit := false, integrations := fun _ => none } : Glittery Unit)
        ({ its := ⟨(), false, ⟨0, 0⟩, 0, 0, 0, 0⟩, wi := ⟨3 / 5, 0, 4 / 5⟩, wo := ⟨0, 0, 1⟩,
           component := -1, typeMask := 8, sampler := none, eta := 1, sampledComponent := 0,
           sampledType := 0 } : BSDFSamplingRecord Unit)
        0 ⟨0, 0⟩ () (fun _ => ⟨0, 0, 0, 0, 0, 0, 0⟩) 0 = some (fun _ => 2,
        ({ its := ⟨(), false, ⟨0, 0⟩, 0, 0, 0, 0⟩, wi := ⟨3 / 5, 0, 4 / 5⟩,
           wo := ⟨-(3 / 5), 0, 4 / 5⟩, component := -1, typeMask := 8, sampler := none,
           eta := 1.0, sampledComponent := 0, sampledType := 8 } : BSDFSamplingRecord Unit), (), some (5 / 16)) ∧
      Glittery.eval
        ({ EGlossyReflection := 8, distribution := fun _ aU _ _ _ => aU, eval := fun d _ => d,
           evalFootprint := fun _ _ _ _ _ _ => 1, smithG := fun _ _ _ _ => 1,
           smithG1 := fun _ _ _ => 1, pdf := fun _ _ _ => 1,
           sample := fun _ _ _ => (⟨0, 0, 1⟩, 1),
           standardNormal := fun g => (0, g) } : Host ℝ Unit)
        ({ m_type := 0, m_specularReflectance := fun _ => 1, m_alphaU := fun _ => 1,
           m_alphaV := fun _ => 1, m_totalFacets := 1, m_queryRadius := 1, m_sampleVisible := true,
           m_eta := fun _ => 1, m_k := fun _ => 0, m_height := fun _ => 400,
           m_eta1 := fun _ => 2, m_eta2 := fun _ => 1, m_wavelengths := fun _ => 500,
           m_heightRange := fun _ => 0, m_spectralAntialiasing := false,
           m_useGaussianFit := false, integrations := fun _ => none } : Glittery Unit)
        ({ its := ⟨(), false, ⟨0, 0⟩, 0, 0, 0, 0⟩, wi := ⟨3 / 5, 0, 4 / 5⟩,
           wo := ⟨-(3 / 5), 0, 4 / 5⟩, component := -1, typeMask := 8, sampler := none,
           eta := 1.0, sampledComponent := 0, sampledType := 8 } : BSDFSamplingRecord Unit)
        EMeasure.ESolidAngle () (fun _ => ⟨0, 0, 0, 0, 0, 0, 0⟩) 0 = some (fun _ => 5 / 16, ()) ∧
      (2 : ℝ) * (5 / 16) ≠ 5 / 16 := by
    have hI := IridescenceTerm_tir_all (4 / 5)
      { height := fun _ => 400, eta1 := fun _ => 2, eta2 := fun _ => 1, eta3 := fun _ => 1,
        kappa3 := fun _ => 0, wavelengths := fun _ => 500, spectralAntialiasing := false,
        useGaussianFit := false } (fun _ => ⟨0, 0, 0, 0, 0, 0, 0⟩) rfl
      (fun _ => ⟨by norm_num, by dsimp only [sqr]; norm_num, by norm_num, by norm_num, by norm_num,
        by norm_num, by norm_num⟩)
    have hd : dot (⟨3 / 5, 0, 4 / 5⟩ : Vector3) ⟨0, 0, 1⟩ = 4 / 5 := by dsimp only [dot]; norm_num
    have hd2 : dot (⟨-(3 / 5), 0, 4 / 5⟩ : Vector3) ⟨0, 0, 1⟩ = 4 / 5 := by dsimp only [dot]; norm_num
    have hr : Glittery.reflect (⟨3 / 5, 0, 4 / 5⟩ : Vector3) ⟨0, 0, 1⟩ = ⟨-(3 / 5), 0, 4 / 5⟩ := by
      dsimp only [Glittery.reflect, Vector3.sub, Vector3.smul]
      simp only [hd]
      norm_num
    have hH : normalize (Vector3.add ⟨-(3 / 5), 0, 4 / 5⟩ ⟨3 / 5, 0, 4 / 5⟩) =
        some ⟨0, 0, 1⟩ := by
      have := (Glittery_reflect_half_vector ⟨3 / 5, 0, 4 / 5⟩ ⟨0, 0, 1⟩ (by dsimp only [dot]; norm_num)
        (by dsimp only [dot]; norm_num)).1
      rwa [hr] at this
    have hnr : ¬ Glittery.sampleRejects
        ({ EGlossyReflection := 8, distribution := fun _ aU _ _ _ => aU, eval := fun d _ => d,
           evalFootprint := fun _ _ _ _ _ _ => 1, smithG := fun _ _ _ _ => 1,
           smithG1 := fun _ _ _ => 1, pdf := fun _ _ _ => 1,
           sample := fun _ _ _ => (⟨0, 0, 1⟩, 1),
           standardNormal := fun g => (0, g) } : Host ℝ Unit)
        ({ its := ⟨(), false, ⟨0, 0⟩, 0, 0, 0, 0⟩, wi := ⟨3 / 5, 0, 4 / 5⟩, wo := ⟨0, 0, 1⟩,
           component := -1, typeMask := 8, sampler := none, eta := 1, sampledComponent := 0,
           sampledType := 0 } : BSDFSamplingRecord Unit) := by
      rintro (h | h)
      · dsimp only [Frame.cosTheta] at h
        norm_num at h
      · revert h; decide
    have hnr' : ¬ Glittery.rejects
        ({ EGlossyReflection := 8, distribution := fun _ aU _ _ _ => aU, eval := fun d _ => d,
           evalFootprint := fun _ _ _ _ _ _ => 1, smithG := fun _ _ _ _ => 1,
           smithG1 := fun _ _ _ => 1, pdf := fun _ _ _ => 1,
           sample := fun _ _ _ => (⟨0, 0, 1⟩, 1),
           standardNormal := fun g => (0, g) } : Host ℝ Unit)
        ({ its := ⟨(), false, ⟨0, 0⟩, 0, 0, 0, 0⟩, wi := ⟨3 / 5, 0, 4 / 5⟩,
           wo := ⟨-(3 / 5), 0, 4 / 5⟩, component := -1, typeMask := 8, sampler := none,
           eta := 1.0, sampledComponent := 0, sampledType := 8 } : BSDFSamplingRecord Unit) EMeasure.ESolidAngle := by
      rintro (h | h | h | h)
      · exact h rfl
      · dsimp only [Frame.cosTheta] at h
        norm_num at h
      · dsimp only [Frame.cosTheta] at h
        norm_num at h
      · revert h; decide
    refine ⟨?_, ?_, by norm_num⟩
    · rw [Glittery_sampleWithPdf_smooth _ _ _ _ 0 ⟨0, 0⟩ () _ 0 ⟨0, 0, 1⟩ ⟨-(3 / 5), 0, 4 / 5⟩
        ⟨0, 0, 1⟩ 1 (fun _ => 1) rfl hr hnr one_ne_zero (by dsimp only [Frame.cosTheta]; norm_num) rfl hH
        (by rw [hd]; exact hI) (by dsimp only [Frame.cosTheta]; norm_num)]
      dsimp only [Frame.cosTheta, Spectrum.average]
      simp only [hd, hd2, Option.some.injEq, Prod.mk.injEq, true_and, and_true]
      refine ⟨?_, ?_⟩
      · funext i
        norm_num
      · rw [fdiv_eq_some (by norm_num)]
        norm_num
    · rw [Glittery_eval_smooth _ _ _ () _ 0 ⟨0, 0, 1⟩ (fun _ => 1) hnr' rfl hH
        (by rw [hd]; exact hI) (by dsimp only [Frame.cosTheta]; norm_num)]
      dsimp only [Frame.cosTheta, Spectrum.average]
      simp only [Option.some.injEq, Prod.mk.injEq, and_true]
      funext i
      norm_num
  -- With the facet count `0` the function `sampleF` has no value: `variance[0] / n`
  -- divides by zero.
  have Glittery_sampleF_zero {D G : Type} (host : Host D G) (mean variance : Spectrum)
      (gen : G) : Glittery.sampleF host 0 mean variance gen = none := by
    unfold Glittery.sampleF
    dsimp only [fdiv]
    simp
  -- The discrete branch of `eval` with a facet count of `0`.
  have Glittery_eval_zero_facets {P D G : Type} (host : Host D G) (self : Glittery P)
      (bRec : BSDFSamplingRecord P) (gen : G) (uninit : Fin 3 → InterfaceSample)
      (pixelArea0 : ℝ) (H : Vector3) (D0 pixelArea : ℝ)
      (hnr : ¬ Glittery.rejects host bRec EMeasure.ESolidAngle)
      (hH : normalize (bRec.wo.add bRec.wi) = some H)
      (hd : Glittery.evaluateD host self (host.distribution self.m_type
        (self.m_alphaU bRec.its).average (self.m_alphaV bRec.its).average self.m_totalFacets
        self.m_sampleVisible) bRec pixelArea0 = some (true, D0, pixelArea))
      (hD : D0 ≠ 0) (hn : truncToInt (D0 * self.m_totalFacets) = 0)
      (hmv : (IridescenceMean (dot bRec.wi H)
        ⟨self.m_height bRec.its, self.m_eta1, self.m_eta2, self.m_eta, self.m_k bRec.its,
          self.m_wavelengths, self.m_spectralAntialiasing, self.m_useGaussianFit⟩
        (self.m_height bRec.its 0 - self.m_heightRange bRec.its 0)
        (self.m_height bRec.its 0 + self.m_heightRange bRec.its 0) uninit).isSome = true) :
      Glittery.eval host self bRec EMeasure.ESolidAngle gen uninit pixelArea0 = none := by
    obtain ⟨mv, hmv⟩ := Option.isSome_iff_exists.1 hmv
    unfold Glittery.eval
    simp only [hnr, if_false, hH, Option.bind_eq_bind, Option.some_bind, hd, hD, if_true, hmv, hn,
      Glittery_sampleF_zero, Option.none_bind]
  -- The discrete branch of `sample(bRec, sample)` with a facet count of `0`.
  have Glittery_sample_zero_facets {P D G : Type} (host : Host D G) (warp : Warp)
      (self : Glittery P) (bRec : BSDFSamplingRecord P) (sample : Vector2) (gen : G)
      (uninit : Fin 3 → InterfaceSample) (pixelArea0 : ℝ) (m wo : Vector3) (pdf D0 pixelArea : ℝ)
      (hs : host.sample (host.distribution self.m_type
        (2.0 * (self.m_alphaU bRec.its).average) (2.0 * (self.m_alphaV bRec.its).average)
        self.m_totalFacets self.m_sampleVisible) bRec.wi sample = (m, pdf))
      (hwo : warp.toWorld (Glittery.reflect bRec.wi m)
        (warp.squareToUniformCone (Real.cos self.m_queryRadius) sample) = wo)
      (hnr : ¬ Glittery.sampleRejects host bRec) (hpdf : pdf ≠ 0)
      (hside : 0 < Frame.cosTheta wo)
      (hd : Glittery.evaluateD host self (host.distribution self.m_type
        (2.0 * (self.m_alphaU bRec.its).average) (2.0 * (self.m_alphaV bRec.its).average)
        self.m_totalFacets self.m_sampleVisible)
        { bRec with wo := wo, eta := 1.0, sampledComponent := 0,
                    sampledType := host.EGlossyReflection } pixelArea0 =
        some (true, D0, pixelArea))
      (hn : truncToInt (D0 * self.m_totalFacets) = 0)
      (hmv : (IridescenceMean (dot bRec.wi m)
        ⟨self.m_height bRec.its, self.m_eta1, self.m_eta2, self.m_eta, self.m_k bRec.its,
          self.m_wavelengths, self.m_spectralAntialiasing, self.m_useGaussianFit⟩
        (self.m_height bRec.its 0 - self.m_heightRange bRec.its 0)
        (self.m_height bRec.its 0 + self.m_heightRange bRec.its 0) uninit).isSome = true) :
      Glittery.sample host warp self bRec sample gen uninit pixelArea0 = none := by
    obtain ⟨mv, hmv⟩ := Option.isSome_iff_exists.1 hmv
    unfold Glittery.sample
    simp only [hnr, if_false, hs, hpdf, hwo, not_le.2 hside, hd, Option.bind_eq_bind,
      Option.some_bind, if_true, hmv, hn, Glittery_sampleF_zero, Option.none_bind]
  -- With UV partials and a normalized sum of the two directions, `evaluateD`
  -- returns the flag `true`, the footprint density and the pixel area.
  have Glittery_evaluateD_footprint {P D G : Type} (host : Host D G) (self : Glittery P)
      (distr : D) (bRec : BSDFSamplingRecord P) (pixelArea0 : ℝ) (H : Vector3)
      (hH : normalize (bRec.wo.add bRec.wi) = some H) (hUV : bRec.its.hasUVPartials = true) :
      Glittery.evaluateD host self distr bRec pixelArea0 =
        some (true, host.evalFootprint distr H
          (Glittery.extentsToPoint ⟨bRec.its.uv.x, bRec.its.uv.y⟩ ⟨bRec.its.dudx, bRec.its.dvdx⟩
            ⟨bRec.its.dudy, bRec.its.dvdy⟩)
          ⟨bRec.wi, bRec.wo, self.m_queryRadius⟩ self.integrations
          (bRec.sampler.getD 1),
          2 * triangleArea
            (Glittery.extentsToPoint ⟨bRec.its.uv.x, bRec.its.uv.y⟩ ⟨bRec.its.dudx, bRec.its.dvdx⟩
              ⟨bRec.its.dudy, bRec.its.dvdy⟩ 0)
            (Glittery.extentsToPoint ⟨bRec.its.uv.x, bRec.its.uv.y⟩ ⟨bRec.its.dudx, bRec.its.dvdx⟩
              ⟨bRec.its.dudy, bRec.its.dvdy⟩ 2)
            (Glittery.extentsToPoint ⟨bRec.its.uv.x, bRec.its.uv.y⟩ ⟨bRec.its.dudx, bRec.its.dvdx⟩
              ⟨bRec.its.dudy, bRec.its.dvdy⟩ 1)) := by
    unfold Glittery.evaluateD
    simp only [hH, hUV, Option.bind_eq_bind, Option.some_bind, Bool.not_true, Bool.false_eq_true,
      if_false, pure]
    cases bRec.sampler <;> rfl
  exact ⟨@Glittery_sample_wi_below, @Glittery_sample_wo_below, @Glittery_sample_wi_grazing,
    @Glittery_reflect_half_vector, @Glittery_sampleWithPdf_smooth, @Glittery_eval_smooth,
    @Glittery_sample_roughness_not_eval, @Glittery_sampleF_zero, @Glittery_eval_zero_facets,
    @Glittery_sample_zero_facets, @Glittery_evaluateD_footprint⟩

/-- An evaluation of both overloads of `sample` at the incident direction
`wi = (1, 0, 0)` (on the horizon, `cosTheta wi = 0`), where the distribution
samples the normal `m = (3/5, 0, 4/5)` with density `1` and the cone sample
leaves the reflected direction `wo = (-7/25, 0, 24/25)` as it is: neither
overload returns a spectrum. -/
theorem Glittery.sample_grazing_example :
    Glittery.sample
      ({ EGlossyReflection := 8, distribution := fun _ _ _ _ _ => (), eval := fun _ _ => 1,
         evalFootprint := fun _ _ _ _ _ _ => 1, smithG := fun _ _ _ _ => 1,
         smithG1 := fun _ _ _ => 1, pdf := fun _ _ _ => 1,
         sample := fun _ _ _ => (⟨3 / 5, 0, 4 / 5⟩, 1),
         standardNormal := fun g => (0, g) } : Host Unit Unit)
      ({ squareToUniformCone := fun _ _ => ⟨0, 0, 1⟩, toWorld := fun n _ => n } : Warp)
      ({ m_type := 0, m_specularReflectance := fun _ => 1, m_alphaU := fun _ => 1,
         m_alphaV := fun _ => 1, m_totalFacets := 1, m_queryRadius := 1, m_sampleVisible := true,
         m_eta := 1, m_k := fun _ => 1, m_height := fun _ => 1, m_eta1 := 1, m_eta2 := 1,
         m_wavelengths := 1, m_heightRange := fun _ => 1, m_spectralAntialiasing := false,
         m_useGaussianFit := false, integrations := fun _ => none } : Glittery Unit)
      { its := ⟨(), false, ⟨0, 0⟩, 0, 0, 0, 0⟩, wi := ⟨1, 0, 0⟩, wo := ⟨0, 0, 1⟩,
        component := -1, typeMask := 8, sampler := none, eta := 1, sampledComponent := 0,
        sampledType := 0 }
      ⟨0, 0⟩ () (fun _ => ⟨0, 0, 0, 0, 0, 0, 0⟩) 0 = none ∧
    Glittery.sampleWithPdf
      ({ EGlossyReflection := 8, distribution := fun _ _ _ _ _ => (), eval := fun _ _ => 1,
         evalFootprint := fun _ _ _ _ _ _ => 1, smithG := fun _ _ _ _ => 1,
         smithG1 := fun _ _ _ => 1, pdf := fun _ _ _ => 1,
         sample := fun _ _ _ => (⟨3 / 5, 0, 4 / 5⟩, 1),
         standardNormal := fun g => (0, g) } : Host Unit Unit)
      ({ squareToUniformCone := fun _ _ => ⟨0, 0, 1⟩, toWorld := fun n _ => n } : Warp)
      ({ m_type := 0, m_specularReflectance := fun _ => 1, m_alphaU := fun _ => 1,
         m_alphaV := fun _ => 1, m_totalFacets := 1, m_queryRadius := 1, m_sampleVisible := true,
         m_eta := 1, m_k := fun _ => 1, m_height := fun _ => 1, m_eta1 := 1, m_eta2 := 1,
         m_wavelengths := 1, m_heightRange := fun _ => 1, m_spectralAntialiasing := false,
         m_useGaussianFit := false, integrations := fun _ => none } : Glittery Unit)
      { its := ⟨(), false, ⟨0, 0⟩, 0, 0, 0, 0⟩, wi := ⟨1, 0, 0⟩, wo := ⟨0, 0, 1⟩,
        component := -1, typeMask := 8, sampler := none, eta := 1, sampledComponent := 0,
        sampledType := 0 }
      0 ⟨0, 0⟩ () (fun _ => ⟨0, 0, 0, 0, 0, 0, 0⟩) 0 = none := by
  obtain ⟨-, -, Glittery_sample_wi_grazing, -, -, -, -, -, -, -, -⟩ := glittery_lemmas
  exact
    Glittery_sample_wi_grazing _ _ _ _ 0 ⟨0, 0⟩ () _ 0 rfl (by decide) (by norm_num)
      (by dsimp only [Frame.cosTheta, Glittery.reflect, Vector3.sub, Vector3.smul, dot]; norm_num)

/-! ### Phase shifts, the Airy value, total internal reflection and sampling -/

/-- Claim C24: at a non-absorbing boundary (`kappa2 = 0`) with
`eta2 ^ 2 ≥ eta1 ^ 2 * (1 - cost ^ 2)` (for every `cost`, in `[0, 1]` or not),
`fresnelPhaseExact` returns a value (its only division is by the literal `2.0`),
the auxiliary `V` is `0`, the first argument of both `atan2` is `0`, and each of
`phiS`, `phiP` is `0` or `π`; for `eta1 = eta2 = 1` and `kappa2 = 0` both phases
are `0`. -/
theorem fresnelPhaseExact1_nonabsorbing (cost eta1 eta2 : ℝ)
    (hA : sqr eta1 * (1 - sqr cost) ≤ sqr eta2) :
    (∃ B U : ℝ,
      fsqrt (sqr (sqr eta2 * (1 - sqr 0) - sqr eta1 * (1 - sqr cost)) +
        sqr (2 * sqr eta2 * 0)) = some B ∧
      fsqrt ((sqr eta2 * (1 - sqr 0) - sqr eta1 * (1 - sqr cost) + B) / 2.0) = some U ∧
      fsqrt ((B - (sqr eta2 * (1 - sqr 0) - sqr eta1 * (1 - sqr cost))) / 2.0) = some 0 ∧
      2 * eta1 * 0 * cost = 0 ∧
      2 * eta1 * sqr eta2 * cost * (2 * 0 * U - (1 - sqr 0) * 0) = 0 ∧
      fresnelPhaseExact1 cost eta1 eta2 0 = some
        ⟨atan2 0 (sqr (sqr eta2 * (1 + sqr 0) * cost) - sqr eta1 * (sqr U + sqr 0)),
          atan2 0 (sqr U + sqr 0 - sqr (eta1 * cost))⟩) ∧
    (∃ p : PhaseShift, fresnelPhaseExact1 cost eta1 eta2 0 = some p ∧
      (p.phiS = 0 ∨ p.phiS = Real.pi) ∧ (p.phiP = 0 ∨ p.phiP = Real.pi)) ∧
    fresnelPhaseExact1 cost 1 1 0 = some ⟨0, 0⟩ := by
  obtain ⟨-, -, -, -, -, -, -, -, fsqrt_eq_some_iff, -, -, -, -⟩ := checked_arithmetic
  obtain ⟨atan2_zero_of_nonneg, -, -, -, -, fresnelPhaseExact1_eq, atan2_zero_left, -, -, -,
      -⟩ := phase_lemmas
  have key : ∀ e1 e2 : ℝ, sqr e1 * (1 - sqr cost) ≤ sqr e2 →
      ∃ B U : ℝ,
      fsqrt (sqr (sqr e2 * (1 - sqr 0) - sqr e1 * (1 - sqr cost)) +
        sqr (2 * sqr e2 * 0)) = some B ∧
      fsqrt ((sqr e2 * (1 - sqr 0) - sqr e1 * (1 - sqr cost) + B) / 2.0) = some U ∧
      fsqrt ((B - (sqr e2 * (1 - sqr 0) - sqr e1 * (1 - sqr cost))) / 2.0) = some 0 ∧
      sqr U = sqr e2 - sqr e1 * (1 - sqr cost) ∧
      fresnelPhaseExact1 cost e1 e2 0 = some
        ⟨atan2 0 (sqr (sqr e2 * (1 + sqr 0) * cost) - sqr e1 * (sqr U + sqr 0)),
          atan2 0 (sqr U + sqr 0 - sqr (e1 * cost))⟩ := by
    intro e1 e2 h
    obtain ⟨B, U, V, hB, hU, hV, hB0, hU0, hV0, hsub, hmul, hres⟩ :=
      fresnelPhaseExact1_eq cost e1 e2 0
    have hAn : 0 ≤ sqr e2 * (1 - sqr 0) - sqr e1 * (1 - sqr cost) := by
      dsimp only [sqr] at h ⊢
      simp only [mul_zero, sub_zero, mul_one] at h ⊢
      linarith
    have hBA : B = sqr e2 * (1 - sqr 0) - sqr e1 * (1 - sqr cost) := by
      rw [fsqrt_eq_some_iff] at hB
      rw [hB.2]
      have : sqr (2 * sqr e2 * 0) = 0 := by dsimp only [sqr]; simp
      rw [this, add_zero]
      exact Real.sqrt_mul_self hAn
    have hV00 : V = 0 := by
      rw [fsqrt_eq_some_iff] at hV
      rw [hV.2, hBA]
      simp
    subst hV00
    refine ⟨B, U, hB, hU, hV, ?_, ?_⟩
    · have := hsub
      dsimp only [sqr] at this ⊢
      simp only [mul_zero, sub_zero, mul_one] at this ⊢
      linarith
    · rw [hres]
      simp
  obtain ⟨B, U, hB, hU, hV, hUU, hres⟩ := key eta1 eta2 hA
  refine ⟨⟨B, U, hB, hU, hV, by ring, by dsimp only [sqr]; simp, hres⟩,
    ⟨_, hres, atan2_zero_left _, atan2_zero_left _⟩, ?_⟩
  obtain ⟨B1, U1, -, -, -, hUU1, hres1⟩ := key 1 1 (by
    dsimp only [sqr]
    simp only [mul_one, one_mul]
    nlinarith [mul_self_nonneg cost])
  rw [hres1]
  have e1 : sqr (sqr 1 * (1 + sqr 0) * cost) - sqr 1 * (sqr U1 + sqr 0) = 0 := by
    rw [hUU1]; dsimp only [sqr]; ring
  have e2 : sqr U1 + sqr 0 - sqr (1 * cost) = 0 := by
    rw [hUU1]; dsimp only [sqr]; ring
  rw [e1, e2, atan2_zero_of_nonneg (le_refl 0)]

theorem fresnelPhaseExact1_nonabsorbing_witness :
    sqr 1 * (1 - sqr (1 / 2)) ≤ sqr 2 ∧
    ∃ p : PhaseShift, fresnelPhaseExact1 (1 / 2) 1 2 0 = some p ∧
      (p.phiS = 0 ∨ p.phiS = Real.pi) ∧ (p.phiP = 0 ∨ p.phiP = Real.pi) :=
  ⟨by dsimp only [sqr]; norm_num,
    (fresnelPhaseExact1_nonabsorbing (1 / 2) 1 2 (by dsimp only [sqr]; norm_num)).2.1⟩

/-- Claim C28: for all real inputs the radicand of each square root is `≥ 0`: in
`fresnelConductorExact` these are `temp1 ^ 2 + 4 * k ^ 2 * eta ^ 2` and
`0.5 * (a2pb2 + temp1)`, on which `safe_sqrt` is the plain square root; in
`fresnelPhaseExact` these are `A ^ 2 + (2 * eta2 ^ 2 * kappa2) ^ 2`, `(A + B) / 2`
and `(B - A) / 2`, so that each `std::sqrt` has a value and the function returns
one. -/
theorem sqrt_radicands_nonneg (cosThetaI eta k cost eta1 eta2 kappa2 : ℝ) :
    (0 ≤ (eta * eta - k * k - (1 - cosThetaI * cosThetaI)) *
        (eta * eta - k * k - (1 - cosThetaI * cosThetaI)) + 4 * k * k * eta * eta ∧
      safe_sqrt ((eta * eta - k * k - (1 - cosThetaI * cosThetaI)) *
          (eta * eta - k * k - (1 - cosThetaI * cosThetaI)) + 4 * k * k * eta * eta) =
        Real.sqrt ((eta * eta - k * k - (1 - cosThetaI * cosThetaI)) *
          (eta * eta - k * k - (1 - cosThetaI * cosThetaI)) + 4 * k * k * eta * eta) ∧
      0 ≤ 0.5 * (safe_sqrt ((eta * eta - k * k - (1 - cosThetaI * cosThetaI)) *
          (eta * eta - k * k - (1 - cosThetaI * cosThetaI)) + 4 * k * k * eta * eta) +
        (eta * eta - k * k - (1 - cosThetaI * cosThetaI))) ∧
      safe_sqrt (0.5 * (safe_sqrt ((eta * eta - k * k - (1 - cosThetaI * cosThetaI)) *
          (eta * eta - k * k - (1 - cosThetaI * cosThetaI)) + 4 * k * k * eta * eta) +
        (eta * eta - k * k - (1 - cosThetaI * cosThetaI)))) =
        Real.sqrt (0.5 * (safe_sqrt ((eta * eta - k * k - (1 - cosThetaI * cosThetaI)) *
          (eta * eta - k * k - (1 - cosThetaI * cosThetaI)) + 4 * k * k * eta * eta) +
        (eta * eta - k * k - (1 - cosThetaI * cosThetaI))))) ∧
    ∃ B U V : ℝ,
      0 ≤ sqr (sqr eta2 * (1 - sqr kappa2) - sqr eta1 * (1 - sqr cost)) +
        sqr (2 * sqr eta2 * kappa2) ∧
      fsqrt (sqr (sqr eta2 * (1 - sqr kappa2) - sqr eta1 * (1 - sqr cost)) +
        sqr (2 * sqr eta2 * kappa2)) = some B ∧
      0 ≤ (sqr eta2 * (1 - sqr kappa2) - sqr eta1 * (1 - sqr cost) + B) / 2.0 ∧
      fsqrt ((sqr eta2 * (1 - sqr kappa2) - sqr eta1 * (1 - sqr cost) + B) / 2.0) = some U ∧
      0 ≤ (B - (sqr eta2 * (1 - sqr kappa2) - sqr eta1 * (1 - sqr cost))) / 2.0 ∧
      fsqrt ((B - (sqr eta2 * (1 - sqr kappa2) - sqr eta1 * (1 - sqr cost))) / 2.0) = some V ∧
      ∃ p : PhaseShift, fresnelPhaseExact1 cost eta1 eta2 kappa2 = some p := by
  obtain ⟨-, -, -, -, -, -, -, -, fsqrt_eq_some_iff, -, -, -, -⟩ := checked_arithmetic
  obtain ⟨-, safe_sqrt_of_nonneg, -, fresnel_aux, -, -, -, -⟩ := sqrt_lemmas
  obtain ⟨-, -, -, -, -, fresnelPhaseExact1_eq, -, -, -, -, -⟩ := phase_lemmas
  constructor
  · have hq : 0 ≤ 4 * k * k * eta * eta := by nlinarith [mul_self_nonneg (k * eta)]
    have hrad : 0 ≤ (eta * eta - k * k - (1 - cosThetaI * cosThetaI)) *
        (eta * eta - k * k - (1 - cosThetaI * cosThetaI)) + 4 * k * k * eta * eta := by
      nlinarith [mul_self_nonneg (eta * eta - k * k - (1 - cosThetaI * cosThetaI))]
    obtain ⟨-, -, -, haa, -⟩ := fresnel_aux (eta * eta - k * k - (1 - cosThetaI * cosThetaI))
      (4 * k * k * eta * eta) hq
    have h2 : 0 ≤ 0.5 * (safe_sqrt ((eta * eta - k * k - (1 - cosThetaI * cosThetaI)) *
          (eta * eta - k * k - (1 - cosThetaI * cosThetaI)) + 4 * k * k * eta * eta) +
        (eta * eta - k * k - (1 - cosThetaI * cosThetaI))) := by
      rw [← haa]; exact mul_self_nonneg _
    exact ⟨hrad, safe_sqrt_of_nonneg hrad, h2, safe_sqrt_of_nonneg h2⟩
  · obtain ⟨B, U, V, hB, hU, hV, -, -, -, -, -, hres⟩ := fresnelPhaseExact1_eq cost eta1 eta2 kappa2
    exact ⟨B, U, V, (fsqrt_eq_some_iff.1 hB).1, hB, (fsqrt_eq_some_iff.1 hU).1, hU,
      (fsqrt_eq_some_iff.1 hV).1, hV, _, hres⟩

/-- Claim C29: in every channel of `fresnelPhaseExact`, for all real inputs, the
auxiliary terms satisfy `U ≥ 0`, `V ≥ 0`, `U ^ 2 - V ^ 2 = A` and
`U * V = eta2 ^ 2 * |kappa2|` with
`A = eta2 ^ 2 * (1 - kappa2 ^ 2) - eta1 ^ 2 * (1 - cost ^ 2)`: the number `U + i V`
has non-negative real and imaginary parts, its square is
`A + 2 i * eta2 ^ 2 * |kappa2|`, and it is the principal square root (the complex
power `1/2`) of that number. -/
theorem fresnelPhaseExact1_born_wolf (cost eta1 eta2 kappa2 : ℝ) :
    ∃ B U V : ℝ,
      fsqrt (sqr (sqr eta2 * (1 - sqr kappa2) - sqr eta1 * (1 - sqr cost)) +
        sqr (2 * sqr eta2 * kappa2)) = some B ∧
      fsqrt ((sqr eta2 * (1 - sqr kappa2) - sqr eta1 * (1 - sqr cost) + B) / 2.0) = some U ∧
      fsqrt ((B - (sqr eta2 * (1 - sqr kappa2) - sqr eta1 * (1 - sqr cost))) / 2.0) = some V ∧
      fresnelPhaseExact1 cost eta1 eta2 kappa2 = some
        ⟨atan2 (2 * eta1 * sqr eta2 * cost * (2 * kappa2 * U - (1 - sqr kappa2) * V))
            (sqr (sqr eta2 * (1 + sqr kappa2) * cost) - sqr eta1 * (sqr U + sqr V)),
          atan2 (2 * eta1 * V * cost) (sqr U + sqr V - sqr (eta1 * cost))⟩ ∧
      0 ≤ U ∧ 0 ≤ V ∧
      U ^ 2 - V ^ 2 = eta2 ^ 2 * (1 - kappa2 ^ 2) - eta1 ^ 2 * (1 - cost ^ 2) ∧
      U * V = eta2 ^ 2 * |kappa2| ∧
      ((U : ℂ) + (V : ℂ) * Complex.I) ^ 2 =
        ((eta2 ^ 2 * (1 - kappa2 ^ 2) - eta1 ^ 2 * (1 - cost ^ 2) : ℝ) : ℂ) +
          2 * ((eta2 ^ 2 * |kappa2| : ℝ) : ℂ) * Complex.I ∧
      (((eta2 ^ 2 * (1 - kappa2 ^ 2) - eta1 ^ 2 * (1 - cost ^ 2) : ℝ) : ℂ) +
          2 * ((eta2 ^ 2 * |kappa2| : ℝ) : ℂ) * Complex.I) ^ ((2 : ℂ)⁻¹) =
        (U : ℂ) + (V : ℂ) * Complex.I := by
  obtain ⟨-, -, -, -, -, fresnelPhaseExact1_eq, -, principal_sqrt_of_nonneg, -, -,
      -⟩ := phase_lemmas
  obtain ⟨B, U, V, hB, hU, hV, -, hU0, hV0, hsub, hmul, hres⟩ :=
    fresnelPhaseExact1_eq cost eta1 eta2 kappa2
  have hsub' : U ^ 2 - V ^ 2 = eta2 ^ 2 * (1 - kappa2 ^ 2) - eta1 ^ 2 * (1 - cost ^ 2) := by
    dsimp only [sqr] at hsub
    rw [pow_two, pow_two, hsub]; ring
  have hmul' : U * V = eta2 ^ 2 * |kappa2| := by
    dsimp only [sqr] at hmul
    rw [hmul]; ring
  have hsq : ((U : ℂ) + (V : ℂ) * Complex.I) ^ 2 =
      ((eta2 ^ 2 * (1 - kappa2 ^ 2) - eta1 ^ 2 * (1 - cost ^ 2) : ℝ) : ℂ) +
        2 * ((eta2 ^ 2 * |kappa2| : ℝ) : ℂ) * Complex.I := by
    rw [← hsub', ← hmul']
    apply Complex.ext
    · simp [pow_two]
    · simp [pow_two]
      ring
  refine ⟨B, U, V, hB, hU, hV, hres, hU0, hV0, hsub', hmul', hsq, ?_⟩
  rw [← hsq]
  exact principal_sqrt_of_nonneg U V hU0 hV0

/-- Claim C26: with `eta2 ≠ 0`, in a channel with
`cosThetaTSqr = 1 - (1 - ct1 ^ 2) * (eta1 / eta2) ^ 2 ≤ 0` the loop body sets
`R12p = R12s = 1` and `T121p = T121s = 0`, takes no square root and leaves
`R23p`, `R23s`, `ct2` as they were; in a channel with `cosThetaTSqr > 0` it
returns exactly when `eta1 ≠ 0` and both calls of `fresnelConductorExact`
return, with `ct2 = sqrt cosThetaTSqr` and `T121 = 1 - R12` for both
polarizations.  `IridescenceTerm`, and `IridescenceMean` in antialiased mode,
return only with the result of that loop body in every channel. -/
theorem interfaceChannel_branches (ct1 eta1 eta2 eta3 kappa3 : ℝ) (u : InterfaceSample)
    (heta2 : eta2 ≠ 0) :
    (1 - (1 - sqr ct1) * sqr (eta1 / eta2) ≤ 0 →
      interfaceChannel ct1 eta1 eta2 eta3 kappa3 u = some ⟨1, 0, u.R23p, 1, 0, u.R23s, u.ct2⟩) ∧
    (0 < 1 - (1 - sqr ct1) * sqr (eta1 / eta2) →
      ∀ r : InterfaceSample, interfaceChannel ct1 eta1 eta2 eta3 kappa3 u = some r ↔
        eta1 ≠ 0 ∧ ∃ r12 r23 : FresnelR,
          fresnelConductorExact ct1 (eta2 / eta1) 0 = some r12 ∧
          fresnelConductorExact (Real.sqrt (1 - (1 - sqr ct1) * sqr (eta1 / eta2)))
            (eta3 / eta2) (kappa3 / eta2) = some r23 ∧
          r = ⟨r12.Rp2, 1 - r12.Rp2, r23.Rp2, r12.Rs2, 1 - r12.Rs2, r23.Rs2,
            Real.sqrt (1 - (1 - sqr ct1) * sqr (eta1 / eta2))⟩) ∧
    (∀ (params : IridescenceParams) (uninit : Fin 3 → InterfaceSample) (v : Spectrum),
      IridescenceTerm ct1 params uninit = some v →
      ∃ ifc : Fin 3 → InterfaceSample, ∀ i, interfaceChannel ct1 (params.eta1 i)
        (params.eta2 i) (params.eta3 i) (params.kappa3 i) (uninit i) = some (ifc i)) ∧
    (∀ (params : IridescenceParams) (uninit : Fin 3 → InterfaceSample) (a b : ℝ)
      (r : Spectrum × Spectrum), params.spectralAntialiasing = true →
      IridescenceMean ct1 params a b uninit = some r →
      ∃ ifc : Fin 3 → InterfaceSample, ∀ i, interfaceChannel ct1 (params.eta1 i)
        (params.eta2 i) (params.eta3 i) (params.kappa3 i) (uninit i) = some (ifc i)) := by
  obtain ⟨-, -, -, -, -, -, -, -, IridescenceMean_antialiased_iff, -, -, -, -⟩ := antialiased_lemmas
  obtain ⟨-, IridescenceTerm_eq_combine, -, -, -, -, -, interfaceChannel_cases, -, -,
      -⟩ := airy_lemmas
  refine ⟨(interfaceChannel_cases ct1 eta1 eta2 eta3 kappa3 u u heta2).1,
    fun h r => (interfaceChannel_cases ct1 eta1 eta2 eta3 kappa3 u r heta2).2 h, ?_, ?_⟩
  · intro params uninit v h
    rw [IridescenceTerm_eq_combine] at h
    simp only [Option.bind_eq_some] at h
    obtain ⟨ifc, hifc, -⟩ := h
    exact ⟨ifc, collectChannels_eq_some.1 hifc⟩
  · intro params uninit a b r hAA h
    obtain ⟨ifc, ph21, ph23, r123p, r123s, Rsp, Rss, meanp, sqp, means, sqs, hifc, -⟩ :=
      (IridescenceMean_antialiased_iff ct1 params a b uninit r.1 r.2 hAA).1 h
    exact ⟨ifc, collectChannels_eq_some.1 hifc⟩

theorem interfaceChannel_branches_witness :
    (1 : ℝ) ≠ 0 ∧ (1 : ℝ) - (1 - sqr 0) * sqr (2 / 1) ≤ 0 ∧
    interfaceChannel 0 2 1 1 0 ⟨0, 0, 0, 0, 0, 0, 0⟩ = some ⟨1, 0, 0, 1, 0, 0, 0⟩ :=
  ⟨one_ne_zero, by dsimp only [sqr]; norm_num,
    (interfaceChannel_branches 0 2 1 1 0 ⟨0, 0, 0, 0, 0, 0, 0⟩ one_ne_zero).1
      (by dsimp only [sqr]; norm_num)⟩

/-- Claim C27: with `spectralAntialiasing` not set, in a channel where the
total-internal-reflection test holds a value returned by `IridescenceTerm` is
exactly `1`, whatever the uninitialised `R23p`, `R23s`, `ct2` hold; and when the
test holds in every channel, with `R23p`, `R23s` in `[0, 1)` and non-zero
wavelengths, `IridescenceTerm` does return `1` in every channel. -/
theorem IridescenceTerm_tir_one (ct1 : ℝ) (params : IridescenceParams)
    (uninit : Fin 3 → InterfaceSample) (i : Fin 3)
    (hAA : params.spectralAntialiasing = false) (heta2 : params.eta2 i ≠ 0)
    (hTIR : 1 - (1 - sqr ct1) * sqr (params.eta1 i / params.eta2 i) ≤ 0) :
    (∀ v, IridescenceTerm ct1 params uninit = some v → v i = 1) ∧
    ((∀ j, params.eta2 j ≠ 0 ∧
        1 - (1 - sqr ct1) * sqr (params.eta1 j / params.eta2 j) ≤ 0 ∧
        params.wavelengths j ≠ 0 ∧ 0 ≤ (uninit j).R23p ∧ (uninit j).R23p < 1 ∧
        0 ≤ (uninit j).R23s ∧ (uninit j).R23s < 1) →
      IridescenceTerm ct1 params uninit = some (fun _ => 1)) := by
  obtain ⟨-, -, -, -, -, -, -, -, IridescenceTerm_tir_channel, IridescenceTerm_tir_all,
      -⟩ := airy_lemmas
  exact
    ⟨fun v h => IridescenceTerm_tir_channel ct1 params uninit i v hAA heta2 hTIR h,
      fun hall => IridescenceTerm_tir_all ct1 params uninit hAA hall⟩

theorem IridescenceTerm_tir_one_witness :
    IridescenceTerm (4 / 5)
      { height := fun _ => 400, eta1 := fun _ => 2, eta2 := fun _ => 1, eta3 := fun _ => 1,
        kappa3 := fun _ => 0, wavelengths := fun _ => 500, spectralAntialiasing := false,
        useGaussianFit := false }
      (fun _ => ⟨0, 0, 1 / 2, 0, 0, 1 / 4, 3⟩) = some (fun _ => 1) :=
  (IridescenceTerm_tir_one (4 / 5) _ _ 0 rfl (by norm_num) (by dsimp only [sqr]; norm_num)).2
    (fun _ => ⟨by norm_num, by dsimp only [sqr]; norm_num, by norm_num, by norm_num, by norm_num,
      by norm_num, by norm_num⟩)

/-- Claim C25: for interface reflectances `R12`, `R23` in `[0, 1]` with
`R12 * R23 < 1` in both polarizations (and `T121 = 1 - R12`, which the loop
guarantees), the Airy value `R12 + Rs + 2 * (Rs - T121) * irid` of each
polarization equals the thin-film reflectance
`(R12 + R23 - 2 * r * cos p) / (1 + R12 * R23 - 2 * r * cos p)`, `r = sqrt(R12 * R23)`,
and lies in `[0, 1]`; the non-antialiased `IridescenceTerm` then returns half the
sum of the two values, at most `1` in every channel, and the clamp does not
change the sum. -/
theorem IridescenceTerm_airy_thin_film (ct1 : ℝ) (params : IridescenceParams)
    (uninit : Fin 3 → InterfaceSample) (ifc : Fin 3 → InterfaceSample)
    (ph21 ph23 : Spectrum × Spectrum)
    (hAA : params.spectralAntialiasing = false)
    (hifc : collectChannels (fun i => interfaceChannel ct1 (params.eta1 i) (params.eta2 i)
      (params.eta3 i) (params.kappa3 i) (uninit i)) = some ifc)
    (h21 : fresnelPhaseExact (fun _ => ct1) (fun _ => 1) params.eta2 (fun _ => 0) = some ph21)
    (h23 : fresnelPhaseExact (fun i => (ifc i).ct2) params.eta2 params.eta3 params.kappa3
      = some ph23)
    (hw : ∀ i, params.wavelengths i ≠ 0)
    (hp : ∀ i, 0 ≤ (ifc i).R12p ∧ (ifc i).R12p ≤ 1 ∧ 0 ≤ (ifc i).R23p ∧ (ifc i).R23p ≤ 1 ∧
      (ifc i).R12p * (ifc i).R23p < 1)
    (hs : ∀ i, 0 ≤ (ifc i).R12s ∧ (ifc i).R12s ≤ 1 ∧ 0 ≤ (ifc i).R23s ∧ (ifc i).R23s ≤ 1 ∧
      (ifc i).R12s * (ifc i).R23s < 1) :
    ∃ Ip Is : Spectrum,
      airyTerm (fun i => (ifc i).R12p) (fun i => (ifc i).T121p) (fun i => (ifc i).R23p)
        (fun i => Real.sqrt ((ifc i).R12p * (ifc i).R23p))
        (fun i => 2 * Real.pi * (2 * params.eta2 i * params.height 0 * (ifc i).ct2) /
          params.wavelengths i + ph23.1 i + (Real.pi - ph21.1 i)) = some Ip ∧
      airyTerm (fun i => (ifc i).R12s) (fun i => (ifc i).T121s) (fun i => (ifc i).R23s)
        (fun i => Real.sqrt ((ifc i).R12s * (ifc i).R23s))
        (fun i => 2 * Real.pi * (2 * params.eta2 i * params.height 0 * (ifc i).ct2) /
          params.wavelengths i + ph23.2 i + (Real.pi - ph21.2 i)) = some Is ∧
      (∀ i, Ip i = ((ifc i).R12p + (ifc i).R23p - 2 * Real.sqrt ((ifc i).R12p * (ifc i).R23p) *
            Real.cos (2 * Real.pi * (2 * params.eta2 i * params.height 0 * (ifc i).ct2) /
              params.wavelengths i + ph23.1 i + (Real.pi - ph21.1 i))) /
          (1 + (ifc i).R12p * (ifc i).R23p - 2 * Real.sqrt ((ifc i).R12p * (ifc i).R23p) *
            Real.cos (2 * Real.pi * (2 * params.eta2 i * params.height 0 * (ifc i).ct2) /
              params.wavelengths i + ph23.1 i + (Real.pi - ph21.1 i))) ∧
        0 ≤ Ip i ∧ Ip i ≤ 1) ∧
      (∀ i, Is i = ((ifc i).R12s + (ifc i).R23s - 2 * Real.sqrt ((ifc i).R12s * (ifc i).R23s) *
            Real.cos (2 * Real.pi * (2 * params.eta2 i * params.height 0 * (ifc i).ct2) /
              params.wavelengths i + ph23.2 i + (Real.pi - ph21.2 i))) /
          (1 + (ifc i).R12s * (ifc i).R23s - 2 * Real.sqrt ((ifc i).R12s * (ifc i).R23s) *
            Real.cos (2 * Real.pi * (2 * params.eta2 i * params.height 0 * (ifc i).ct2) /
              params.wavelengths i + ph23.2 i + (Real.pi - ph21.2 i))) ∧
        0 ≤ Is i ∧ Is i ≤ 1) ∧
      Spectrum.clampNegative (Ip + Is) = Ip + Is ∧
      IridescenceTerm ct1 params uninit = some (fun i => 0.5 * (Ip i + Is i)) ∧
      ∀ i, 0 ≤ 0.5 * (Ip i + Is i) ∧ 0.5 * (Ip i + Is i) ≤ 1 := by
  obtain ⟨-, -, -, -, airy_thin_film, airyTerm_eq_some_iff, IridescenceTerm_airy_iff, -, -, -,
      interfaceChannel_T121⟩ := airy_lemmas
  have hT := fun i => interfaceChannel_T121 ct1 _ _ _ _ _ _ (collectChannels_eq_some.1 hifc i)
  have key : ∀ (R12 T121 R23 phase : Spectrum), (∀ i, T121 i = 1 - R12 i) →
      (∀ i, 0 ≤ R12 i ∧ R12 i ≤ 1 ∧ 0 ≤ R23 i ∧ R23 i ≤ 1 ∧ R12 i * R23 i < 1) →
      ∃ I : Spectrum, airyTerm R12 T121 R23 (fun i => Real.sqrt (R12 i * R23 i)) phase = some I ∧
        ∀ i, I i = (R12 i + R23 i - 2 * Real.sqrt (R12 i * R23 i) * Real.cos (phase i)) /
          (1 + R12 i * R23 i - 2 * Real.sqrt (R12 i * R23 i) * Real.cos (phase i)) ∧
          0 ≤ I i ∧ I i ≤ 1 := by
    intro R12 T121 R23 phase hT hR
    have hf := fun i => airy_thin_film (R12 i) (R23 i) (phase i) (hR i).1 (hR i).2.1
      (hR i).2.2.1 (hR i).2.2.2.1 (hR i).2.2.2.2
    refine ⟨_, (airyTerm_eq_some_iff _ _ _ _ _ _).2 ⟨_, _, fun i => ⟨(hf i).1, rfl⟩,
      fun i => ⟨(hf i).2.1, rfl⟩, rfl⟩, fun i => ?_⟩
    obtain ⟨-, -, -, he, h0, h1⟩ := hf i
    have e : R12 i + sqr (T121 i) * R23 i / (1 - R12 i * R23 i) +
        2 * (sqr (T121 i) * R23 i / (1 - R12 i * R23 i) - T121 i) *
          ((Real.sqrt (R12 i * R23 i) * Real.cos (phase i) - sqr (Real.sqrt (R12 i * R23 i))) /
            (1 - 2 * Real.sqrt (R12 i * R23 i) * Real.cos (phase i) +
              sqr (Real.sqrt (R12 i * R23 i)))) =
        (R12 i + R23 i - 2 * Real.sqrt (R12 i * R23 i) * Real.cos (phase i)) /
          (1 + R12 i * R23 i - 2 * Real.sqrt (R12 i * R23 i) * Real.cos (phase i)) := by
      rw [hT i]; exact he
    exact ⟨e, e ▸ h0, e ▸ h1⟩
  obtain ⟨Ip, hIp, hIp'⟩ := key (fun i => (ifc i).R12p) (fun i => (ifc i).T121p)
    (fun i => (ifc i).R23p)
    (fun i => 2 * Real.pi * (2 * params.eta2 i * params.height 0 * (ifc i).ct2) /
      params.wavelengths i + ph23.1 i + (Real.pi - ph21.1 i)) (fun i => (hT i).1) hp
  obtain ⟨Is, hIs, hIs'⟩ := key (fun i => (ifc i).R12s) (fun i => (ifc i).T121s)
    (fun i => (ifc i).R23s)
    (fun i => 2 * Real.pi * (2 * params.eta2 i * params.height 0 * (ifc i).ct2) /
      params.wavelengths i + ph23.2 i + (Real.pi - ph21.2 i)) (fun i => (hT i).2) hs
  have hsum : ∀ i, 0 ≤ Ip i + Is i := fun i => add_nonneg (hIp' i).2.1 (hIs' i).2.1
  refine ⟨Ip, Is, hIp, hIs, hIp', hIs', ?_, ?_, fun i => ⟨?_, ?_⟩⟩
  · funext i
    simp only [Spectrum.clampNegative, Pi.add_apply]
    exact max_eq_right (hsum i)
  · refine (IridescenceTerm_airy_iff ct1 params uninit _ hAA).2
      ⟨ifc, ph21, ph23, _, _, _, Ip, Is, hifc, h21, h23,
        fun i => ⟨mul_nonneg (hp i).1 (hp i).2.2.1, rfl⟩,
        fun i => ⟨mul_nonneg (hs i).1 (hs i).2.2.1, rfl⟩, fun i => ⟨hw i, rfl⟩, hIp, hIs, ?_⟩
    funext i
    rw [max_eq_right (hsum i)]
  · have := hsum i
    linarith
  · have h1 := (hIp' i).2.2
    have h2 := (hIs' i).2.2
    linarith

theorem IridescenceTerm_airy_thin_film_witness :
    ∃ v : Spectrum,
      IridescenceTerm 1
        { height := fun _ => 400, eta1 := fun _ => 1, eta2 := fun _ => 2, eta3 := fun _ => 4,
          kappa3 := fun _ => 0, wavelengths := fun _ => 500, spectralAntialiasing := false,
          useGaussianFit := false }
        (fun _ => ⟨0, 0, 0, 0, 0, 0, 0⟩) = some v ∧
      ∀ i, 0 ≤ v i ∧ v i ≤ 1 := by
  obtain ⟨fdiv_eq_some, -, -, -, -, -, -, -, -, -, -, -, -⟩ := checked_arithmetic
  obtain ⟨-, fresnelPhaseExact_eq_some, -, -, -, -, -, -, -, fresnelConductorExact_normal,
      fresnelPhaseExact1_normal⟩ := phase_lemmas
  have hch : interfaceChannel 1 1 2 4 0 ⟨0, 0, 0, 0, 0, 0, 0⟩ =
      some ⟨1 / 9, 8 / 9, 1 / 9, 1 / 9, 8 / 9, 1 / 9, 1⟩ := by
    have h1 : fsqrt (1 - (1 - sqr 1) * sqr (1 / 2)) = some 1 := by
      have : (1 - (1 - sqr 1) * sqr (1 / 2) : ℝ) = 1 := by dsimp only [sqr]; norm_num
      unfold fsqrt
      rw [this, if_neg (by norm_num), Real.sqrt_one]
    have h2 : ¬ (1 - (1 - sqr 1) * sqr (1 / 2) : ℝ) ≤ 0 := by dsimp only [sqr]; norm_num
    have e1 : (2 : ℝ) / 1 = 2 := by norm_num
    have e2 : (4 : ℝ) / 2 = 2 := by norm_num
    have e3 : (0 : ℝ) / 2 = 0 := by norm_num
    unfold interfaceChannel
    rw [fdiv_eq_some (by norm_num)]
    simp only [Option.bind_eq_bind, Option.some_bind, h2, if_false, h1]
    rw [fdiv_eq_some (by norm_num), Option.some_bind, e1, fresnelConductorExact_normal,
      Option.some_bind, fdiv_eq_some (by norm_num), Option.some_bind,
      fdiv_eq_some (by norm_num), Option.some_bind, e2, e3, fresnelConductorExact_normal,
      Option.some_bind]
    simp only [pure, Option.some.injEq, TInterfaceSample.mk.injEq]
    norm_num
  obtain ⟨Ip, Is, -, -, -, -, -, hv, hb⟩ := IridescenceTerm_airy_thin_film 1
    { height := fun _ => 400, eta1 := fun _ => 1, eta2 := fun _ => 2, eta3 := fun _ => 4,
      kappa3 := fun _ => 0, wavelengths := fun _ => 500, spectralAntialiasing := false,
      useGaussianFit := false }
    (fun _ => ⟨0, 0, 0, 0, 0, 0, 0⟩) (fun _ => ⟨1 / 9, 8 / 9, 1 / 9, 1 / 9, 8 / 9, 1 / 9, 1⟩)
    (fun _ => 0, fun _ => 0) (fun _ => 0, fun _ => 0) rfl
    (collectChannels_eq_some.2 fun _ => hch)
    (@fresnelPhaseExact_eq_some (fun _ => 1) (fun _ => 1) (fun _ => 2) (fun _ => 0)
      (fun _ => ⟨0, 0⟩) (fun _ => by
        have := fresnelPhaseExact1_normal 1 one_pos
        rwa [mul_one] at this))
    (@fresnelPhaseExact_eq_some (fun _ => 1) (fun _ => 2) (fun _ => 4) (fun _ => 0)
      (fun _ => ⟨0, 0⟩) (fun _ => by
        have := fresnelPhaseExact1_normal 2 two_pos
        have e : (2 : ℝ) * 2 = 4 := by norm_num
        rwa [e] at this))
    (fun _ => by norm_num)
    (fun _ => by norm_num)
    (fun _ => by norm_num)
  exact ⟨_, hv, hb⟩

/-- Claim C30: in `evalSensitivityMean`, with `A`, `B`, `C`, `CB2` as the function
computes them in a channel and `B ≠ 0`, the helper `integrate` returns a value
`F d` for every `d`, and the derivative of `F` at `d` is
`A * cos(B * d + shift) * (1 - C * d ^ 2 + (C * d ^ 2) ^ 2 / 2)`, the cosine times
the second-order Taylor polynomial of `exp(-C * d ^ 2)`; the same holds for
`integrateX` with `Ax`, `Bx`, `Cx`, `CB2x` when `Bx ≠ 0`. -/
theorem evalSensitivityMean.integrate_hasDerivAt (m : ℤ) (tao shift : Spectrum) (i : Fin 3)
    (d : ℝ) (hB : 2 * Real.pi * m * tao i * _pos i ≠ 0)
    (hBx : 2 * Real.pi * m * tao 0 * 2.2399e+06 ≠ 0) :
    (∃ F : ℝ → ℝ,
      (∀ x, evalSensitivityMean.integrate
        (_val i * Real.sqrt (2 * Real.pi * _var i) / 1.0685e-7)
        (2 * Real.pi * m * tao i * _pos i)
        (Real.pi * m * tao i * (2 * (Real.pi * m * tao i) * _var i))
        (_var i / (2 * sqr (_pos i))) (shift i) x = some (F x)) ∧
      HasDerivAt F
        (_val i * Real.sqrt (2 * Real.pi * _var i) / 1.0685e-7 *
          Real.cos (2 * Real.pi * m * tao i * _pos i * d + shift i) *
          (1 - Real.pi * m * tao i * (2 * (Real.pi * m * tao i) * _var i) * d ^ 2 +
            (Real.pi * m * tao i * (2 * (Real.pi * m * tao i) * _var i) * d ^ 2) ^ 2 / 2)) d) ∧
    ∃ F : ℝ → ℝ,
      (∀ x, evalSensitivityMean.integrate
        (6.8922e-14 * Real.sqrt (2 * Real.pi * 9.0564e+09) / 1.0685e-7)
        (2 * Real.pi * m * tao 0 * 2.2399e+06)
        (Real.pi * m * tao 0 * (2 * (Real.pi * m * tao 0) * 9.0564e+09))
        (9.0564e+09 / (2 * sqr 2.2399e+06)) (shift 0) x = some (F x)) ∧
      HasDerivAt F
        (6.8922e-14 * Real.sqrt (2 * Real.pi * 9.0564e+09) / 1.0685e-7 *
          Real.cos (2 * Real.pi * m * tao 0 * 2.2399e+06 * d + shift 0) *
          (1 - Real.pi * m * tao 0 * (2 * (Real.pi * m * tao 0) * 9.0564e+09) * d ^ 2 +
            (Real.pi * m * tao 0 * (2 * (Real.pi * m * tao 0) * 9.0564e+09) * d ^ 2) ^ 2 / 2))
        d := by
  obtain ⟨-, -, -, -, -, -, _pos_ne_zero, -, -, -, -, -, -⟩ := checked_arithmetic
  obtain ⟨evalSensitivityMean_integrate_eq, evalSensitivityMean_primitive_hasStrictDerivAt, -, -, -,
      -, -⟩ := primitive_lemmas
  have hpos := _pos_ne_zero i
  have hK : _var i / (2 * sqr (_pos i)) * (2 * Real.pi * m * tao i * _pos i) ^ 2 =
      Real.pi * m * tao i * (2 * (Real.pi * m * tao i) * _var i) := by
    unfold sqr
    field_simp
    ring
  have hKx : (9.0564e+09 : ℝ) / (2 * sqr 2.2399e+06) * (2 * Real.pi * m * tao 0 * 2.2399e+06) ^ 2 =
      Real.pi * m * tao 0 * (2 * (Real.pi * m * tao 0) * 9.0564e+09) := by
    unfold sqr
    field_simp
    ring
  refine ⟨⟨_, fun x => evalSensitivityMean_integrate_eq _ _ _ _ _ x hB, ?_⟩,
    ⟨_, fun x => evalSensitivityMean_integrate_eq _ _ _ _ _ x hBx, ?_⟩⟩
  · have h := (evalSensitivityMean_primitive_hasStrictDerivAt
      (_val i * Real.sqrt (2 * Real.pi * _var i) / 1.0685e-7) _ _ _ (shift i) hB hK d).hasDerivAt
    convert h using 1
    ring
  · have h := (evalSensitivityMean_primitive_hasStrictDerivAt
      (6.8922e-14 * Real.sqrt (2 * Real.pi * 9.0564e+09) / 1.0685e-7) _ _ _ (shift 0) hBx hKx
      d).hasDerivAt
    convert h using 1
    ring

theorem evalSensitivityMean.integrate_hasDerivAt_witness :
    ∃ F : ℝ → ℝ,
      (∀ x, evalSensitivityMean.integrate
        (_val 1 * Real.sqrt (2 * Real.pi * _var 1) / 1.0685e-7)
        (2 * Real.pi * ((1 : ℤ) : ℝ) * (fun _ => 1 : Spectrum) 1 * _pos 1)
        (Real.pi * ((1 : ℤ) : ℝ) * (fun _ => 1 : Spectrum) 1 *
          (2 * (Real.pi * ((1 : ℤ) : ℝ) * (fun _ => 1 : Spectrum) 1) * _var 1))
        (_var 1 / (2 * sqr (_pos 1))) ((fun _ => 0 : Spectrum) 1) x = some (F x)) ∧
      HasDerivAt F
        (_val 1 * Real.sqrt (2 * Real.pi * _var 1) / 1.0685e-7 *
          Real.cos (2 * Real.pi * ((1 : ℤ) : ℝ) * (fun _ => 1 : Spectrum) 1 * _pos 1 * 0 +
            (fun _ => 0 : Spectrum) 1) *
          (1 - Real.pi * ((1 : ℤ) : ℝ) * (fun _ => 1 : Spectrum) 1 *
              (2 * (Real.pi * ((1 : ℤ) : ℝ) * (fun _ => 1 : Spectrum) 1) * _var 1) * 0 ^ 2 +
            (Real.pi * ((1 : ℤ) : ℝ) * (fun _ => 1 : Spectrum) 1 *
              (2 * (Real.pi * ((1 : ℤ) : ℝ) * (fun _ => 1 : Spectrum) 1) * _var 1) * 0 ^ 2) ^ 2 /
              2)) 0 := by
  obtain ⟨-, -, -, -, -, -, _pos_ne_zero, -, -, -, -, -, -⟩ := checked_arithmetic
  exact
    (evalSensitivityMean.integrate_hasDerivAt 1 (fun _ => 1) (fun _ => 0) 1 0
      (by
        have := _pos_ne_zero 1
        have := Real.pi_ne_zero
        simp [*])
      (by
        have := Real.pi_ne_zero
        norm_num
        exact this)).1

/-- Claim C22: whenever the density returned by `distr.sample` is `0`, both
overloads of `sample` return the zero spectrum, with the record as it was at
the call and before any division is evaluated (the result does not depend on
any checked operation). -/
theorem Glittery.sample_pdf_zero {P D G : Type} (host : Host D G) (warp : Warp)
    (self : Glittery P) (bRec : BSDFSamplingRecord P) (pdf0 : ℝ) (sample : Vector2) (gen : G)
    (uninit : Fin 3 → InterfaceSample) (pixelArea0 : ℝ)
    (hpdf : (host.sample (host.distribution self.m_type
      (2.0 * (self.m_alphaU bRec.its).average) (2.0 * (self.m_alphaV bRec.its).average)
      self.m_totalFacets self.m_sampleVisible) bRec.wi sample).2 = 0) :
    Glittery.sample host warp self bRec sample gen uninit pixelArea0 = some (0, bRec, gen) ∧
    ∃ p, Glittery.sampleWithPdf host warp self bRec pdf0 sample gen uninit pixelArea0 =
      some (0, bRec, gen, some p) := by
  constructor
  · unfold Glittery.sample
    split
    · rfl
    · simp only [hpdf, if_true]; rfl
  · unfold Glittery.sampleWithPdf
    split
    · exact ⟨pdf0, rfl⟩
    · simp only [hpdf, if_true]; exact ⟨0, rfl⟩

theorem Glittery.sample_pdf_zero_witness :
    Glittery.sample
      ({ EGlossyReflection := 8, distribution := fun _ _ _ _ _ => (), eval := fun _ _ => 1,
         evalFootprint := fun _ _ _ _ _ _ => 1, smithG := fun _ _ _ _ => 1,
         smithG1 := fun _ _ _ => 1, pdf := fun _ _ _ => 1,
         sample := fun _ _ _ => (⟨0, 0, 1⟩, 0),
         standardNormal := fun g => (0, g) } : Host Unit Unit)
      ({ squareToUniformCone := fun _ _ => ⟨0, 0, 1⟩, toWorld := fun n _ => n } : Warp)
      ({ m_type := 0, m_specularReflectance := fun _ => 1, m_alphaU := fun _ => 1,
         m_alphaV := fun _ => 1, m_totalFacets := 1, m_queryRadius := 1, m_sampleVisible := true,
         m_eta := 1, m_k := fun _ => 1, m_height := fun _ => 1, m_eta1 := 1, m_eta2 := 1,
         m_wavelengths := 1, m_heightRange := fun _ => 1, m_spectralAntialiasing := false,
         m_useGaussianFit := false, integrations := fun _ => none } : Glittery Unit)
      { its := ⟨(), false, ⟨0, 0⟩, 0, 0, 0, 0⟩, wi := ⟨0, 0, 1⟩, wo := ⟨0, 0, 1⟩,
        component := -1, typeMask := 8, sampler := none, eta := 1, sampledComponent := 0,
        sampledType := 0 }
      ⟨0, 0⟩ () (fun _ => ⟨0, 0, 0, 0, 0, 0, 0⟩) 0 =
    some (0,
      ({ its := ⟨(), false, ⟨0, 0⟩, 0, 0, 0, 0⟩, wi := ⟨0, 0, 1⟩, wo := ⟨0, 0, 1⟩,
         component := -1, typeMask := 8, sampler := none, eta := 1, sampledComponent := 0,
         sampledType := 0 } : BSDFSamplingRecord Unit), ()) :=
  (Glittery.sample_pdf_zero _ _ _ _ 0 ⟨0, 0⟩ () _ 0 rfl).1

/-- Claim C23: for variances `≥ 0`, `sampleF(n, mean, variance)` with `n ≥ 1`
returns the clamped conversion of the three draws
`mean[i] + sqrt(variance[i] / n) * z_i` (the `z_i` are the standard normal
deviates that the generator yields, the same for every `n`); as `n` tends to
infinity each standard deviation `sqrt(variance[i] / n)` tends to `0` and the
result converges to `clampNegative(M * mean)`. -/
theorem Glittery.sampleF_converges {D G : Type} (host : Host D G) (mean variance : Spectrum)
    (gen : G) (hv : ∀ i, 0 ≤ variance i) :
    (∀ n : ℕ, ∃ F : Spectrum,
      Glittery.sampleF host ((n + 1 : ℕ) : ℤ) mean variance gen = some
        (F, (host.standardNormal (host.standardNormal (host.standardNormal gen).2).2).2) ∧
      F = Spectrum.clampNegative
        ![2.3646381 * (mean 0 + Real.sqrt (variance 0 / (((n + 1 : ℕ) : ℤ) : ℝ)) *
              (host.standardNormal gen).1) -
            0.8965361 * (mean 1 + Real.sqrt (variance 1 / (((n + 1 : ℕ) : ℤ) : ℝ)) *
              (host.standardNormal (host.standardNormal gen).2).1) -
            0.4680737 * (mean 2 + Real.sqrt (variance 2 / (((n + 1 : ℕ) : ℤ) : ℝ)) *
              (host.standardNormal (host.standardNormal (host.standardNormal gen).2).2).1),
          -0.5151664 * (mean 0 + Real.sqrt (variance 0 / (((n + 1 : ℕ) : ℤ) : ℝ)) *
              (host.standardNormal gen).1) +
            1.4264000 * (mean 1 + Real.sqrt (variance 1 / (((n + 1 : ℕ) : ℤ) : ℝ)) *
              (host.standardNormal (host.standardNormal gen).2).1) +
            0.0887608 * (mean 2 + Real.sqrt (variance 2 / (((n + 1 : ℕ) : ℤ) : ℝ)) *
              (host.standardNormal (host.standardNormal (host.standardNormal gen).2).2).1),
          0.0052037 * (mean 0 + Real.sqrt (variance 0 / (((n + 1 : ℕ) : ℤ) : ℝ)) *
              (host.standardNormal gen).1) -
            0.0144081 * (mean 1 + Real.sqrt (variance 1 / (((n + 1 : ℕ) : ℤ) : ℝ)) *
              (host.standardNormal (host.standardNormal gen).2).1) +
            1.0092106 * (mean 2 + Real.sqrt (variance 2 / (((n + 1 : ℕ) : ℤ) : ℝ)) *
              (host.standardNormal (host.standardNormal (host.standardNormal gen).2).2).1)]) ∧
    (∀ i, Tendsto (fun n : ℕ => Real.sqrt (variance i / (((n + 1 : ℕ) : ℤ) : ℝ))) atTop (𝓝 0)) ∧
    ∀ i, Tendsto
      (fun n : ℕ =>
        ((Glittery.sampleF host ((n + 1 : ℕ) : ℤ) mean variance gen).getD (0, gen)).1 i)
      atTop
      (𝓝 (Spectrum.clampNegative
        ![2.3646381 * mean 0 - 0.8965361 * mean 1 - 0.4680737 * mean 2,
          -0.5151664 * mean 0 + 1.4264000 * mean 1 + 0.0887608 * mean 2,
          0.0052037 * mean 0 - 0.0144081 * mean 1 + 1.0092106 * mean 2] i)) := by
  obtain ⟨-, -, -, -, -, -, Glittery_sampleF_eq, sqrt_div_tendsto_zero⟩ := sqrt_lemmas
  have hpos : ∀ n : ℕ, (0 : ℤ) < ((n + 1 : ℕ) : ℤ) := fun n => by exact_mod_cast Nat.succ_pos n
  refine ⟨fun n => ⟨_, Glittery_sampleF_eq host _ mean variance gen (hpos n) hv, rfl⟩,
    fun i => sqrt_div_tendsto_zero (variance i), fun i => ?_⟩
  have hF : ∀ (j : Fin 3) (z : ℝ), Tendsto
      (fun n : ℕ => mean j + Real.sqrt (variance j / (((n + 1 : ℕ) : ℤ) : ℝ)) * z) atTop
      (𝓝 (mean j)) := by
    intro j z
    have := ((sqrt_div_tendsto_zero (variance j)).mul_const z).const_add (mean j)
    simpa using this
  have h0 := hF 0 (host.standardNormal gen).1
  have h1 := hF 1 (host.standardNormal (host.standardNormal gen).2).1
  have h2 := hF 2 (host.standardNormal (host.standardNormal (host.standardNormal gen).2).2).1
  have hmax : ∀ (f : ℕ → ℝ) (l : ℝ), Tendsto f atTop (𝓝 l) →
      Tendsto (fun n => max 0 (f n)) atTop (𝓝 (max 0 l)) := fun f l hf =>
    (tendsto_const_nhds : Tendsto (fun _ : ℕ => (0 : ℝ)) atTop (𝓝 0)).max hf
  have hval : ∀ n : ℕ,
      ((Glittery.sampleF host ((n + 1 : ℕ) : ℤ) mean variance gen).getD (0, gen)).1 =
      Spectrum.clampNegative
        ![2.3646381 * (mean 0 + Real.sqrt (variance 0 / (((n + 1 : ℕ) : ℤ) : ℝ)) *
              (host.standardNormal gen).1) -
            0.8965361 * (mean 1 + Real.sqrt (variance 1 / (((n + 1 : ℕ) : ℤ) : ℝ)) *
              (host.standardNormal (host.standardNormal gen).2).1) -
            0.4680737 * (mean 2 + Real.sqrt (variance 2 / (((n + 1 : ℕ) : ℤ) : ℝ)) *
              (host.standardNormal (host.standardNormal (host.standardNormal gen).2).2).1),
          -0.5151664 * (mean 0 + Real.sqrt (variance 0 / (((n + 1 : ℕ) : ℤ) : ℝ)) *
              (host.standardNormal gen).1) +
            1.4264000 * (mean 1 + Real.sqrt (variance 1 / (((n + 1 : ℕ) : ℤ) : ℝ)) *
              (host.standardNormal (host.standardNormal gen).2).1) +
            0.0887608 * (mean 2 + Real.sqrt (variance 2 / (((n + 1 : ℕ) : ℤ) : ℝ)) *
              (host.standardNormal (host.standardNormal (host.standardNormal gen).2).2).1),
          0.0052037 * (mean 0 + Real.sqrt (variance 0 / (((n + 1 : ℕ) : ℤ) : ℝ)) *
              (host.standardNormal gen).1) -
            0.0144081 * (mean 1 + Real.sqrt (variance 1 / (((n + 1 : ℕ) : ℤ) : ℝ)) *
              (host.standardNormal (host.standardNormal gen).2).1) +
            1.0092106 * (mean 2 + Real.sqrt (variance 2 / (((n + 1 : ℕ) : ℤ) : ℝ)) *
              (host.standardNormal (host.standardNormal (host.standardNormal gen).2).2).1)] := by
    intro n
    rw [Glittery_sampleF_eq host _ mean variance gen (hpos n) hv]
    rfl
  simp only [hval, Spectrum.clampNegative]
  fin_cases i
  · exact hmax _ _ (((h0.const_mul 2.3646381).sub (h1.const_mul 0.8965361)).sub
      (h2.const_mul 0.4680737))
  · exact hmax _ _ (((h0.const_mul (-0.5151664)).add (h1.const_mul 1.4264000)).add
      (h2.const_mul 0.0887608))
  · exact hmax _ _ (((h0.const_mul 0.0052037).sub (h1.const_mul 0.0144081)).add
      (h2.const_mul 1.0092106))

theorem Glittery.sampleF_converges_witness :
    Tendsto
      (fun n : ℕ =>
        ((Glittery.sampleF
          ({ EGlossyReflection := 8, distribution := fun _ _ _ _ _ => (), eval := fun _ _ => 1,
             evalFootprint := fun _ _ _ _ _ _ => 1, smithG := fun _ _ _ _ => 1,
             smithG1 := fun _ _ _ => 1, pdf := fun _ _ _ => 1,
             sample := fun _ _ _ => (⟨0, 0, 1⟩, 1),
             standardNormal := fun g => (1, g) } : Host Unit Unit)
          ((n + 1 : ℕ) : ℤ) (fun _ => 1) (fun _ => 1) ()).getD (0, ())).1 0)
      atTop
      (𝓝 (Spectrum.clampNegative
        ![2.3646381 * 1 - 0.8965361 * 1 - 0.4680737 * 1,
          -0.5151664 * 1 + 1.4264000 * 1 + 0.0887608 * 1,
          0.0052037 * 1 - 0.0144081 * 1 + 1.0092106 * 1] 0)) :=
  (Glittery.sampleF_converges
    ({ EGlossyReflection := 8, distribution := fun _ _ _ _ _ => (), eval := fun _ _ => 1,
       evalFootprint := fun _ _ _ _ _ _ => 1, smithG := fun _ _ _ _ => 1,
       smithG1 := fun _ _ _ => 1, pdf := fun _ _ _ => 1,
       sample := fun _ _ _ => (⟨0, 0, 1⟩, 1),
       standardNormal := fun g => (1, g) } : Host Unit Unit)
    (fun _ => 1) (fun _ => 1) () (fun _ => zero_le_one)).2.2 0

/-- Claim C31: in `evalSensitivitySquare`, with `A = 2π var (val / 1.0685e-7)²`,
`B = 2π tao pos ≠ 0`, `C = 4π² tao² var` and `CB2` as the function computes them
in a channel, the helper `integrate` returns a value `F d` for every `d`, and the
derivative of `F` at `d` is
`A * cos(B * d + shift) ^ 2 * (1 - C * d ^ 2 + (C * d ^ 2) ^ 2 / 2)`; the same
holds for `integrateX1` with `Ax`, `Bx ≠ 0`, `Cx`, `CB2x`; and when no `tao` is
zero and `minHeight ≠ maxHeight` the function returns, in every channel, the
mean over the interval of heights of that integrand at `d = h * 1e-9` (in the
first channel the sum of the integrands of the two lobes of `X`). -/
theorem evalSensitivitySquare_integrate_hasDerivAt (tao shift : Spectrum) (i : Fin 3) (d : ℝ)
    (hB : 2 * Real.pi * tao i * _pos i ≠ 0) (hBx : 2 * Real.pi * tao 0 * 2.2399e+06 ≠ 0) :
    (∃ F : ℝ → ℝ,
      (∀ x, evalSensitivitySquare.integrate
        (2 * Real.pi * _var i * (_val i / 1.0685e-7) * (_val i / 1.0685e-7))
        (2 * Real.pi * tao i * _pos i)
        (Real.pi * tao i * (4 * (Real.pi * tao i) * _var i))
        (_var i / sqr (_pos i)) (shift i) x = some (F x)) ∧
      HasDerivAt F
        (2 * Real.pi * _var i * (_val i / 1.0685e-7) ^ 2 *
          Real.cos (2 * Real.pi * tao i * _pos i * d + shift i) ^ 2 *
          (1 - 4 * Real.pi ^ 2 * tao i ^ 2 * _var i * d ^ 2 +
            (4 * Real.pi ^ 2 * tao i ^ 2 * _var i * d ^ 2) ^ 2 / 2)) d) ∧
    (∃ F : ℝ → ℝ,
      (∀ x, evalSensitivitySquare.integrate
        (2 * Real.pi * 9.0564e+09 * (6.8922e-14 / 1.0685e-7) * (6.8922e-14 / 1.0685e-7))
        (2 * Real.pi * tao 0 * 2.2399e+06)
        (Real.pi * tao 0 * (4 * (Real.pi * tao 0) * 9.0564e+09))
        (9.0564e+09 / sqr 2.2399e+06) (shift 0) x = some (F x)) ∧
      HasDerivAt F
        (2 * Real.pi * 9.0564e+09 * (6.8922e-14 / 1.0685e-7) ^ 2 *
          Real.cos (2 * Real.pi * tao 0 * 2.2399e+06 * d + shift 0) ^ 2 *
          (1 - 4 * Real.pi ^ 2 * tao 0 ^ 2 * 9.0564e+09 * d ^ 2 +
            (4 * Real.pi ^ 2 * tao 0 ^ 2 * 9.0564e+09 * d ^ 2) ^ 2 / 2)) d) ∧
    ((∀ j, tao j ≠ 0) → ∀ minHeight maxHeight : ℝ, minHeight ≠ maxHeight →
      evalSensitivitySquare tao shift minHeight maxHeight = some (fun j =>
        heightAverage (fun h =>
          2 * Real.pi * _var j * (_val j / 1.0685e-7) * (_val j / 1.0685e-7) *
              Real.cos (2 * Real.pi * tao j * _pos j * (h * 1.0e-9) + shift j) ^ 2 *
              (1 - 4 * Real.pi ^ 2 * tao j ^ 2 * _var j * (h * 1.0e-9) ^ 2 +
                (4 * Real.pi ^ 2 * tao j ^ 2 * _var j * (h * 1.0e-9) ^ 2) ^ 2 / 2) +
            if j = 0 then
              2 * Real.pi * 9.0564e+09 * (6.8922e-14 / 1.0685e-7) * (6.8922e-14 / 1.0685e-7) *
                Real.cos (2 * Real.pi * tao 0 * 2.2399e+06 * (h * 1.0e-9) + shift 0) ^ 2 *
                (1 - 4 * Real.pi ^ 2 * tao 0 ^ 2 * 9.0564e+09 * (h * 1.0e-9) ^ 2 +
                  (4 * Real.pi ^ 2 * tao 0 ^ 2 * 9.0564e+09 * (h * 1.0e-9) ^ 2) ^ 2 / 2)
            else 0) minHeight maxHeight)) := by
  obtain ⟨-, -, -, -, -, -, _pos_ne_zero, -, -, -, -, -, -⟩ := checked_arithmetic
  obtain ⟨-, -, -, evalSensitivitySquare_integrate_eq, -,
      evalSensitivitySquare_primitive_hasStrictDerivAt, -⟩ := primitive_lemmas
  obtain ⟨-, -, -, -, -, evalSensitivitySquare_eq_average⟩ := height_average_lemmas
  have hK : _var i / sqr (_pos i) * (2 * Real.pi * tao i * _pos i) ^ 2 =
      Real.pi * tao i * (4 * (Real.pi * tao i) * _var i) := by
    have := _pos_ne_zero i
    unfold sqr
    field_simp
    ring
  have hKx : (9.0564e+09 : ℝ) / sqr 2.2399e+06 * (2 * Real.pi * tao 0 * 2.2399e+06) ^ 2 =
      Real.pi * tao 0 * (4 * (Real.pi * tao 0) * 9.0564e+09) := by
    unfold sqr
    field_simp
    ring
  refine ⟨⟨_, fun x => evalSensitivitySquare_integrate_eq _ _ _ _ _ x hB, ?_⟩,
    ⟨_, fun x => evalSensitivitySquare_integrate_eq _ _ _ _ _ x hBx, ?_⟩,
    fun ht a b hab => evalSensitivitySquare_eq_average tao shift a b ht hab⟩
  · have h := (evalSensitivitySquare_primitive_hasStrictDerivAt
      (2 * Real.pi * _var i * (_val i / 1.0685e-7) * (_val i / 1.0685e-7)) _ _ _ (shift i)
      hB hK d).hasDerivAt
    convert h using 1
    ring
  · have h := (evalSensitivitySquare_primitive_hasStrictDerivAt
      (2 * Real.pi * 9.0564e+09 * (6.8922e-14 / 1.0685e-7) * (6.8922e-14 / 1.0685e-7)) _ _ _
      (shift 0) hBx hKx d).hasDerivAt
    convert h using 1
    ring

theorem evalSensitivitySquare_integrate_hasDerivAt_witness :
    ∃ v : Spectrum, evalSensitivitySquare (fun _ => 1) (fun _ => 0) 0 100 = some v ∧
      v 1 = heightAverage (fun h =>
        2 * Real.pi * _var 1 * (_val 1 / 1.0685e-7) * (_val 1 / 1.0685e-7) *
            Real.cos (2 * Real.pi * 1 * _pos 1 * (h * 1.0e-9) + 0) ^ 2 *
            (1 - 4 * Real.pi ^ 2 * 1 ^ 2 * _var 1 * (h * 1.0e-9) ^ 2 +
              (4 * Real.pi ^ 2 * 1 ^ 2 * _var 1 * (h * 1.0e-9) ^ 2) ^ 2 / 2) + 0) 0 100 := by
  obtain ⟨-, -, -, -, -, -, _pos_ne_zero, -, -, -, -, -, -⟩ := checked_arithmetic
  have h := (evalSensitivitySquare_integrate_hasDerivAt (fun _ => 1) (fun _ => 0) 1 0
    (by
      have := _pos_ne_zero 1
      have := Real.pi_ne_zero
      simp [*])
    (by
      have := Real.pi_ne_zero
      norm_num
      exact this)).2.2 (fun _ => one_ne_zero) 0 100 (by norm_num)
  refine ⟨_, h, ?_⟩
  simp only [one_ne_zero, if_false]

/-! ### The fields that `IridescenceMean` does not read -/

/-- Claim C32: two parameter sets that agree in `eta1`, `eta2`, `eta3`, `kappa3`
and `spectralAntialiasing` (they differ at most in `height`, `wavelengths` and
`useGaussianFit`) give the same result of `IridescenceMean`, mean and variance,
for the same `ct1`, `minHeight`, `maxHeight` and the same content of the
uninitialised spectra. -/
theorem IridescenceMean_ignores_fit_height_wavelengths (ct1 : ℝ) (p q : IridescenceParams)
    (minHeight maxHeight : ℝ) (uninit : Fin 3 → InterfaceSample)
    (h1 : p.eta1 = q.eta1) (h2 : p.eta2 = q.eta2) (h3 : p.eta3 = q.eta3)
    (hk : p.kappa3 = q.kappa3) (hAA : p.spectralAntialiasing = q.spectralAntialiasing) :
    IridescenceMean ct1 p minHeight maxHeight uninit =
      IridescenceMean ct1 q minHeight maxHeight uninit := by
  unfold IridescenceMean
  rw [h1, h2, h3, hk, hAA]

theorem IridescenceMean_ignores_fit_height_wavelengths_witness :
    IridescenceMean 0
      { height := fun _ => 400, eta1 := fun _ => 2, eta2 := fun _ => 1, eta3 := fun _ => 1,
        kappa3 := fun _ => 0, wavelengths := fun _ => 1, spectralAntialiasing := true,
        useGaussianFit := true }
      380 420 (fun _ => ⟨0, 0, 0, 0, 0, 0, 1⟩) = some (fun _ => 1, fun _ => 0) ∧
    IridescenceMean 0
      { height := fun _ => 250, eta1 := fun _ => 2, eta2 := fun _ => 1, eta3 := fun _ => 1,
        kappa3 := fun _ => 0, wavelengths := ![580, 550, 450], spectralAntialiasing := true,
        useGaussianFit := false }
      380 420 (fun _ => ⟨0, 0, 0, 0, 0, 0, 1⟩) = some (fun _ => 1, fun _ => 0) := by
  obtain ⟨-, -, -, -, -, -, -, -, -, -, IridescenceMean_tir_example, -, -⟩ := antialiased_lemmas
  exact
    ⟨IridescenceMean_tir_example,
      (IridescenceMean_ignores_fit_height_wavelengths 0 _ _ 380 420 _ rfl rfl rfl rfl rfl).symm.trans
        IridescenceMean_tir_example⟩

/-! ### The identifiers of the subdivision tree -/

section NodeKeys

variable {T V α : Type} [LinearOrderedField α] (ops : TriangleOps T V α) (distr : V → α)

/-- The split numbers `0..3` are written as one decimal digit. -/
theorem toString_splitNumber (i : Fin 4) :
    toString ((i : ℕ) : Int) = String.singleton (Nat.digitChar i) := by
  fin_cases i <;> rfl

/-- The identifier of a node is the identifier of the start followed by the
digits of the child indices. -/
theorem integrate.nodeId_eq (id : String) (path : List (Fin 4)) :
    integrate.nodeId id path =
      id ++ String.mk (path.map fun i : Fin 4 => Nat.digitChar i) := by
  induction path generalizing id with
  | nil =>
    show id = id ++ ""
    rw [String.append_empty]
  | cons i path ih =>
    show integrate.nodeId (id ++ toString ((i : ℕ) : Int)) path = _
    rw [ih, toString_splitNumber, String.append_assoc]
    rfl

/-- Distinct paths give distinct identifiers. -/
theorem integrate.nodeId_injective (id : String) :
    Function.Injective (integrate.nodeId id) := by
  intro p q h
  rw [integrate.nodeId_eq, integrate.nodeId_eq] at h
  have h1 := String.append_left_cancel h
  have h2 : (p.map fun i : Fin 4 => Nat.digitChar i) =
      q.map fun i : Fin 4 => Nat.digitChar i := by
    injection h1
  refine List.map_injective_iff.2 ?_ h2
  intro a b hab
  revert hab
  revert a b
  decide

/-- The identifier of a node lies under the identifier of the start. -/
theorem integrate.nodeId_keyUnder (id : String) (path : List (Fin 4)) :
    KeyUnder id (integrate.nodeId id path) := by
  rw [integrate.nodeId_eq]
  exact ⟨_, rfl⟩

/-- A call of `integrate` that descends to the node at `path` (every node on the
way is split) makes the call for that node with an `id` equal to
`nodeId (parentID ++ toString k) path`, and the map it returns holds under that
identifier the value that this call returned. -/
theorem integrate_node_cached : ∀ (path : List (Fin 4)) (fuel : ℕ) (tri : T)
    (parentID : String) (k : Int) (c c' : Cache α) (v : α),
    integrate ops distr fuel tri parentID k c = some (v, c') →
    (∀ q r : List (Fin 4), path = q ++ r → r ≠ [] →
      ¬ integrate.accepts ops distr (integrate.node ops tri q)) →
    ∃ (fuel' : ℕ) (p' : String) (k' : Int) (c1 c2 : Cache α) (w : α),
      integrate ops distr fuel' (integrate.node ops tri path) p' k' c1 = some (w, c2) ∧
      p' ++ toString k' = integrate.nodeId (parentID ++ toString k) path ∧
      c' (integrate.nodeId (parentID ++ toString k) path) = some w := by
  intro path
  induction path with
  | nil =>
    intro fuel tri parentID k c c' v hrun _
    exact ⟨fuel, parentID, k, c, c', v, hrun, rfl, integrate_returns_cached ops distr hrun⟩
  | cons i rest ih =>
    intro fuel tri parentID k c c' v hrun hsplit
    have hna : ¬ integrate.accepts ops distr tri := hsplit [] (i :: rest) rfl (by simp)
    have hrest : ∀ q r : List (Fin 4), rest = q ++ r → r ≠ [] →
        ¬ integrate.accepts ops distr (integrate.node ops (ops.split tri i) q) := by
      intro q r hqr hr
      exact hsplit (i :: q) r (by rw [hqr]; rfl) hr
    cases fuel with
    | zero => simp [integrate] at hrun
    | succ fuel =>
      obtain ⟨r0, r1, r2, r3, c1, c2, c3, c4, h0, h1, h2, h3, -, rfl⟩ :=
        integrate_split_calls ops distr hna hrun
      have hne : ∀ a : Char, ∀ key,
          KeyUnder (parentID ++ toString k ++ String.singleton a) key →
          key ≠ parentID ++ toString k := fun a key h => KeyUnder.ne_of_child h
      fin_cases i
      · obtain ⟨f, p, j, d1, d2, w, hcall, hid, hval⟩ := ih fuel _ _ _ _ _ _ h0 hrest
        have hku : KeyUnder (parentID ++ toString k ++ String.singleton '0')
            (integrate.nodeId (parentID ++ toString k ++ toString (0 : Int)) rest) :=
          integrate.nodeId_keyUnder _ _
        refine ⟨f, p, j, d1, d2, w, hcall, hid, ?_⟩
        show (c4.set _ _) (integrate.nodeId (parentID ++ toString k ++ toString (0 : Int)) rest) = _
        rw [Cache.set_of_ne _ _ (hne _ _ hku),
          integrate_frame ops distr _ _ _ _ _ _ _ h3 _ (KeyUnder.siblings (by decide) hku),
          integrate_frame ops distr _ _ _ _ _ _ _ h2 _ (KeyUnder.siblings (by decide) hku),
          integrate_frame ops distr _ _ _ _ _ _ _ h1 _ (KeyUnder.siblings (by decide) hku)]
        exact hval
      · obtain ⟨f, p, j, d1, d2, w, hcall, hid, hval⟩ := ih fuel _ _ _ _ _ _ h1 hrest
        have hku : KeyUnder (parentID ++ toString k ++ String.singleton '1')
            (integrate.nodeId (parentID ++ toString k ++ toString (1 : Int)) rest) :=
          integrate.nodeId_keyUnder _ _
        refine ⟨f, p, j, d1, d2, w, hcall, hid, ?_⟩
        show (c4.set _ _) (integrate.nodeId (parentID ++ toString k ++ toString (1 : Int)) rest) = _
        rw [Cache.set_of_ne _ _ (hne _ _ hku),
          integrate_frame ops distr _ _ _ _ _ _ _ h3 _ (KeyUnder.siblings (by decide) hku),
          integrate_frame ops distr _ _ _ _ _ _ _ h2 _ (KeyUnder.siblings (by decide) hku)]
        exact hval
      · obtain ⟨f, p, j, d1, d2, w, hcall, hid, hval⟩ := ih fuel _ _ _ _ _ _ h2 hrest
        have hku : KeyUnder (parentID ++ toString k ++ String.singleton '2')
            (integrate.nodeId (parentID ++ toString k ++ toString (2 : Int)) rest) :=
          integrate.nodeId_keyUnder _ _
        refine ⟨f, p, j, d1, d2, w, hcall, hid, ?_⟩
        show (c4.set _ _) (integrate.nodeId (parentID ++ toString k ++ toString (2 : Int)) rest) = _
        rw [Cache.set_of_ne _ _ (hne _ _ hku),
          integrate_frame ops distr _ _ _ _ _ _ _ h3 _ (KeyUnder.siblings (by decide) hku)]
        exact hval
      · obtain ⟨f, p, j, d1, d2, w, hcall, hid, hval⟩ := ih fuel _ _ _ _ _ _ h3 hrest
        have hku : KeyUnder (parentID ++ toString k ++ String.singleton '3')
            (integrate.nodeId (parentID ++ toString k ++ toString (3 : Int)) rest) :=
          integrate.nodeId_keyUnder _ _
        refine ⟨f, p, j, d1, d2, w, hcall, hid, ?_⟩
        show (c4.set _ _) (integrate.nodeId (parentID ++ toString k ++ toString (3 : Int)) rest) = _
        rw [Cache.set_of_ne _ _ (hne _ _ hku)]
        exact hval

end NodeKeys

/-- Claim C33: the `id` that `integrate` builds for the node reached from the
root `"0"` through the child indices `i1, ..., ik` is `"0"` followed by the
decimal digits `i1 ... ik`; distinct index paths have distinct identifiers; and
a call of `integrate` that descends to the node at `path` makes the call for
that node under this identifier and leaves its value in the map under it. -/
theorem integrate.nodeId_digits :
    (∀ path : List (Fin 4),
      integrate.nodeId "0" path = "0" ++ String.mk (path.map fun i : Fin 4 => Nat.digitChar i)) ∧
    Function.Injective (integrate.nodeId "0") ∧
    (∀ {T V α : Type} [LinearOrderedField α] (ops : TriangleOps T V α) (distr : V → α)
      (path : List (Fin 4)) (fuel : ℕ) (tri : T) (parentID : String) (k : Int)
      (c c' : Cache α) (v : α),
      integrate ops distr fuel tri parentID k c = some (v, c') →
      (∀ q r : List (Fin 4), path = q ++ r → r ≠ [] →
        ¬ integrate.accepts ops distr (integrate.node ops tri q)) →
      ∃ (fuel' : ℕ) (p' : String) (k' : Int) (c1 c2 : Cache α) (w : α),
        integrate ops distr fuel' (integrate.node ops tri path) p' k' c1 = some (w, c2) ∧
        p' ++ toString k' = integrate.nodeId (parentID ++ toString k) path ∧
        c' (integrate.nodeId (parentID ++ toString k) path) = some w) ∧
    (∀ (q : Fin 4) (path : List (Fin 4)),
      integrate.nodeId ("0" ++ toString ((q : ℕ) : Int)) path = integrate.nodeId "0" (q :: path)) ∧
    integrate.nodeId "0" [1, 3, 0, 2] = "01302" :=
  ⟨integrate.nodeId_eq "0", integrate.nodeId_injective "0",
    fun ops distr => integrate_node_cached ops distr, fun _ _ => rfl, by decide⟩

theorem integrate.nodeId_digits_witness :
    ∃ (v : ℚ) (c' : Cache ℚ),
      integrate bumpOps bumpDistr 2 0 "0" 0 (fun _ => none) = some (v, c') ∧
      c' "002" = some 1 := by
  obtain ⟨-, -, bump_rules, bump_accepts, bump_returns⟩ := spike_bump_lemmas
  obtain ⟨⟨v, c'⟩, h⟩ := bump_returns
  obtain ⟨f, p, j, d1, d2, w, hcall, -, hval⟩ :=
    integrate.nodeId_digits.2.2.1 bumpOps bumpDistr [2] 2 0 "0" 0 _ c' v h
      (by
        intro q r hqr hr
        cases q with
        | nil => exact bump_accepts.1
        | cons a q =>
          exfalso
          simp only [List.cons_append, List.cons.injEq] at hqr
          have := hqr.2.symm
          simp only [List.append_eq_nil] at this
          exact hr this.2)
  refine ⟨v, c', h, ?_⟩
  have hw : w = 1 := by
    cases f with
    | zero => simp [integrate] at hcall
    | succ f =>
      have hnode : integrate.node bumpOps (0 : ℕ) [2] = 1 := rfl
      rw [hnode, integrate_succ_accepts bumpOps bumpDistr f 1 p j d1 bump_accepts.2] at hcall
      simp only [Option.some.injEq, Prod.mk.injEq] at hcall
      rw [← hcall.1]
      exact bump_rules.2.2.2
  rw [← hw]
  exact hval

/-! ### The facet count passed to `sampleF` -/

/-- An evaluation with a footprint (UV partials `dudx = dvdy = 1`), `wi = wo =
(0, 0, 1)` and `m_totalFacets = 1`.  Where the footprint density is `D = 1/2` the
facet count is `trunc(1/2) = 0` and `eval` has no value (`sampleF` divides by
`0`); where it is `D = 0`, `eval` returns the zero spectrum by its test `D == 0`
while `sample`, which has no such test, calls `sampleF` with the facet count `0`
and has no value. -/
theorem Glittery.zero_facets_example :
    truncToInt ((1 / 2 : ℝ) * ((1 : ℕ) : ℝ)) = 0 ∧
    Glittery.eval
      ({ EGlossyReflection := 8, distribution := fun _ _ _ _ _ => (), eval := fun _ _ => 1,
         evalFootprint := fun _ _ _ _ _ _ => 1 / 2, smithG := fun _ _ _ _ => 1,
         smithG1 := fun _ _ _ => 1, pdf := fun _ _ _ => 1,
         sample := fun _ _ _ => (⟨0, 0, 1⟩, 1),
         standardNormal := fun g => (0, g) } : Host Unit Unit)
      ({ m_type := 0, m_specularReflectance := fun _ => 1, m_alphaU := fun _ => 1,
         m_alphaV := fun _ => 1, m_totalFacets := 1, m_queryRadius := 1, m_sampleVisible := true,
         m_eta := 1, m_k := fun _ => 1, m_height := fun _ => 1, m_eta1 := 1, m_eta2 := 1,
         m_wavelengths := 1, m_heightRange := fun _ => 1, m_spectralAntialiasing := false,
         m_useGaussianFit := false, integrations := fun _ => none } : Glittery Unit)
      ({ its := ⟨(), true, ⟨0, 0⟩, 1, 0, 0, 1⟩, wi := ⟨0, 0, 1⟩, wo := ⟨0, 0, 1⟩,
         component := -1, typeMask := 8, sampler := none, eta := 1, sampledComponent := 0,
         sampledType := 0 } : BSDFSamplingRecord Unit)
      EMeasure.ESolidAngle () (fun _ => ⟨0, 0, 0, 0, 0, 0, 0⟩) 0 = none ∧
    Glittery.eval
      ({ EGlossyReflection := 8, distribution := fun _ _ _ _ _ => (), eval := fun _ _ => 1,
         evalFootprint := fun _ _ _ _ _ _ => 0, smithG := fun _ _ _ _ => 1,
         smithG1 := fun _ _ _ => 1, pdf := fun _ _ _ => 1,
         sample := fun _ _ _ => (⟨0, 0, 1⟩, 1),
         standardNormal := fun g => (0, g) } : Host Unit Unit)
      ({ m_type := 0, m_specularReflectance := fun _ => 1, m_alphaU := fun _ => 1,
         m_alphaV := fun _ => 1, m_totalFacets := 1, m_queryRadius := 1, m_sampleVisible := true,
         m_eta := 1, m_k := fun _ => 1, m_height := fun _ => 1, m_eta1 := 1, m_eta2 := 1,
         m_wavelengths := 1, m_heightRange := fun _ => 1, m_spectralAntialiasing := false,
         m_useGaussianFit := false, integrations := fun _ => none } : Glittery Unit)
      ({ its := ⟨(), true, ⟨0, 0⟩, 1, 0, 0, 1⟩, wi := ⟨0, 0, 1⟩, wo := ⟨0, 0, 1⟩,
         component := -1, typeMask := 8, sampler := none, eta := 1, sampledComponent := 0,
         sampledType := 0 } : BSDFSamplingRecord Unit)
      EMeasure.ESolidAngle () (fun _ => ⟨0, 0, 0, 0, 0, 0, 0⟩) 0 = some (0, ()) ∧
    Glittery.sample
      ({ EGlossyReflection := 8, distribution := fun _ _ _ _ _ => (), eval := fun _ _ => 1,
         evalFootprint := fun _ _ _ _ _ _ => 0, smithG := fun _ _ _ _ => 1,
         smithG1 := fun _ _ _ => 1, pdf := fun _ _ _ => 1,
         sample := fun _ _ _ => (⟨0, 0, 1⟩, 1),
         standardNormal := fun g => (0, g) } : Host Unit Unit)
      ({ squareToUniformCone := fun _ _ => ⟨0, 0, 1⟩, toWorld := fun n _ => n } : Warp)
      ({ m_type := 0, m_specularReflectance := fun _ => 1, m_alphaU := fun _ => 1,
         m_alphaV := fun _ => 1, m_totalFacets := 1, m_queryRadius := 1, m_sampleVisible := true,
         m_eta := 1, m_k := fun _ => 1, m_height := fun _ => 1, m_eta1 := 1, m_eta2 := 1,
         m_wavelengths := 1, m_heightRange := fun _ => 1, m_spectralAntialiasing := false,
         m_useGaussianFit := false, integrations := fun _ => none } : Glittery Unit)
      ({ its := ⟨(), true, ⟨0, 0⟩, 1, 0, 0, 1⟩, wi := ⟨0, 0, 1⟩, wo := ⟨0, 0, 1⟩,
         component := -1, typeMask := 8, sampler := none, eta := 1, sampledComponent := 0,
         sampledType := 0 } : BSDFSamplingRecord Unit)
      ⟨0, 0⟩ () (fun _ => ⟨0, 0, 0, 0, 0, 0, 0⟩) 0 = none := by
  obtain ⟨fdiv_eq_some, -, -, -, -, -, -, -, -, -, -, -, truncToInt_eq_zero⟩ := checked_arithmetic
  obtain ⟨-, -, -, -, -, -, -, -, Glittery_eval_zero_facets, Glittery_sample_zero_facets,
      Glittery_evaluateD_footprint⟩ := glittery_lemmas
  have hH : normalize (Vector3.add ⟨0, 0, 1⟩ ⟨0, 0, 1⟩) = some ⟨0, 0, 1⟩ := by
    have hlen : Real.sqrt (dot (Vector3.add ⟨0, 0, 1⟩ ⟨0, 0, 1⟩)
        (Vector3.add ⟨0, 0, 1⟩ ⟨0, 0, 1⟩)) = 2 := by
      have : dot (Vector3.add ⟨0, 0, 1⟩ ⟨0, 0, 1⟩)
          (Vector3.add ⟨0, 0, 1⟩ ⟨0, 0, 1⟩) = 2 ^ 2 := by
        dsimp only [dot, Vector3.add]
        norm_num
      rw [this, Real.sqrt_sq (by norm_num)]
    unfold normalize
    rw [hlen]
    dsimp only [Vector3.add]
    simp only [fdiv_eq_some (by norm_num : (2 : ℝ) ≠ 0), Option.bind_eq_bind, Option.some_bind,
      pure, Option.some.injEq]
    norm_num
  have hr : Glittery.reflect ⟨0, 0, 1⟩ ⟨0, 0, 1⟩ = ⟨0, 0, 1⟩ := by
    dsimp only [Glittery.reflect, Vector3.sub, Vector3.smul, dot]
    norm_num
  have hnr : ¬ Glittery.rejects
      ({ EGlossyReflection := 8, distribution := fun _ _ _ _ _ => (), eval := fun _ _ => 1,
         evalFootprint := fun _ _ _ _ _ _ => 1 / 2, smithG := fun _ _ _ _ => 1,
         smithG1 := fun _ _ _ => 1, pdf := fun _ _ _ => 1,
         sample := fun _ _ _ => (⟨0, 0, 1⟩, 1),
         standardNormal := fun g => (0, g) } : Host Unit Unit)
      ({ its := ⟨(), true, ⟨0, 0⟩, 1, 0, 0, 1⟩, wi := ⟨0, 0, 1⟩, wo := ⟨0, 0, 1⟩,
         component := -1, typeMask := 8, sampler := none, eta := 1, sampledComponent := 0,
         sampledType := 0 } : BSDFSamplingRecord Unit) EMeasure.ESolidAngle := by
    rintro (h | h | h | h)
    · exact h rfl
    · dsimp only [Frame.cosTheta] at h
      norm_num at h
    · dsimp only [Frame.cosTheta] at h
      norm_num at h
    · revert h; decide
  have hnr0 : ¬ Glittery.rejects
      ({ EGlossyReflection := 8, distribution := fun _ _ _ _ _ => (), eval := fun _ _ => 1,
         evalFootprint := fun _ _ _ _ _ _ => 0, smithG := fun _ _ _ _ => 1,
         smithG1 := fun _ _ _ => 1, pdf := fun _ _ _ => 1,
         sample := fun _ _ _ => (⟨0, 0, 1⟩, 1),
         standardNormal := fun g => (0, g) } : Host Unit Unit)
      ({ its := ⟨(), true, ⟨0, 0⟩, 1, 0, 0, 1⟩, wi := ⟨0, 0, 1⟩, wo := ⟨0, 0, 1⟩,
         component := -1, typeMask := 8, sampler := none, eta := 1, sampledComponent := 0,
         sampledType := 0 } : BSDFSamplingRecord Unit) EMeasure.ESolidAngle := by
    rintro (h | h | h | h)
    · exact h rfl
    · dsimp only [Frame.cosTheta] at h
      norm_num at h
    · dsimp only [Frame.cosTheta] at h
      norm_num at h
    · revert h; decide
  have hnrs : ¬ Glittery.sampleRejects
      ({ EGlossyReflection := 8, distribution := fun _ _ _ _ _ => (), eval := fun _ _ => 1,
         evalFootprint := fun _ _ _ _ _ _ => 0, smithG := fun _ _ _ _ => 1,
         smithG1 := fun _ _ _ => 1, pdf := fun _ _ _ => 1,
         sample := fun _ _ _ => (⟨0, 0, 1⟩, 1),
         standardNormal := fun g => (0, g) } : Host Unit Unit)
      ({ its := ⟨(), true, ⟨0, 0⟩, 1, 0, 0, 1⟩, wi := ⟨0, 0, 1⟩, wo := ⟨0, 0, 1⟩,
         component := -1, typeMask := 8, sampler := none, eta := 1, sampledComponent := 0,
         sampledType := 0 } : BSDFSamplingRecord Unit) := by
    rintro (h | h)
    · dsimp only [Frame.cosTheta] at h
      norm_num at h
    · revert h; decide
  have hz : truncToInt ((1 / 2 : ℝ) * ((1 : ℕ) : ℝ)) = 0 :=
    truncToInt_eq_zero (by norm_num) (by norm_num)
  have hz0 : truncToInt ((0 : ℝ) * ((1 : ℕ) : ℝ)) = 0 :=
    truncToInt_eq_zero (by norm_num) (by norm_num)
  refine ⟨hz, ?_, ?_, ?_⟩
  · have hd := Glittery_evaluateD_footprint
      ({ EGlossyReflection := 8, distribution := fun _ _ _ _ _ => (), eval := fun _ _ => 1,
         evalFootprint := fun _ _ _ _ _ _ => 1 / 2, smithG := fun _ _ _ _ => 1,
         smithG1 := fun _ _ _ => 1, pdf := fun _ _ _ => 1,
         sample := fun _ _ _ => (⟨0, 0, 1⟩, 1),
         standardNormal := fun g => (0, g) } : Host Unit Unit)
      ({ m_type := 0, m_specularReflectance := fun _ => 1, m_alphaU := fun _ => 1,
         m_alphaV := fun _ => 1, m_totalFacets := 1, m_queryRadius := 1, m_sampleVisible := true,
         m_eta := 1, m_k := fun _ => 1, m_height := fun _ => 1, m_eta1 := 1, m_eta2 := 1,
         m_wavelengths := 1, m_heightRange := fun _ => 1, m_spectralAntialiasing := false,
         m_useGaussianFit := false, integrations := fun _ => none } : Glittery Unit) ()
      ({ its := ⟨(), true, ⟨0, 0⟩, 1, 0, 0, 1⟩, wi := ⟨0, 0, 1⟩, wo := ⟨0, 0, 1⟩,
         component := -1, typeMask := 8, sampler := none, eta := 1, sampledComponent := 0,
         sampledType := 0 } : BSDFSamplingRecord Unit) 0 ⟨0, 0, 1⟩ hH rfl
    exact Glittery_eval_zero_facets _ _ _ () _ 0 ⟨0, 0, 1⟩ (1 / 2) _ hnr hH hd
      (by norm_num) hz (by unfold IridescenceMean; simp)
  · have hd := Glittery_evaluateD_footprint
      ({ EGlossyReflection := 8, distribution := fun _ _ _ _ _ => (), eval := fun _ _ => 1,
         evalFootprint := fun _ _ _ _ _ _ => 0, smithG := fun _ _ _ _ => 1,
         smithG1 := fun _ _ _ => 1, pdf := fun _ _ _ => 1,
         sample := fun _ _ _ => (⟨0, 0, 1⟩, 1),
         standardNormal := fun g => (0, g) } : Host Unit Unit)
      ({ m_type := 0, m_specularReflectance := fun _ => 1, m_alphaU := fun _ => 1,
         m_alphaV := fun _ => 1, m_totalFacets := 1, m_queryRadius := 1, m_sampleVisible := true,
         m_eta := 1, m_k := fun _ => 1, m_height := fun _ => 1, m_eta1 := 1, m_eta2 := 1,
         m_wavelengths := 1, m_heightRange := fun _ => 1, m_spectralAntialiasing := false,
         m_useGaussianFit := false, integrations := fun _ => none } : Glittery Unit) ()
      ({ its := ⟨(), true, ⟨0, 0⟩, 1, 0, 0, 1⟩, wi := ⟨0, 0, 1⟩, wo := ⟨0, 0, 1⟩,
         component := -1, typeMask := 8, sampler := none, eta := 1, sampledComponent := 0,
         sampledType := 0 } : BSDFSamplingRecord Unit) 0 ⟨0, 0, 1⟩ hH rfl
    unfold Glittery.eval
    simp only [hnr0, if_false, hH, Option.bind_eq_bind, Option.some_bind, hd, if_true, pure]
  · have hd := Glittery_evaluateD_footprint
      ({ EGlossyReflection := 8, distribution := fun _ _ _ _ _ => (), eval := fun _ _ => 1,
         evalFootprint := fun _ _ _ _ _ _ => 0, smithG := fun _ _ _ _ => 1,
         smithG1 := fun _ _ _ => 1, pdf := fun _ _ _ => 1,
         sample := fun _ _ _ => (⟨0, 0, 1⟩, 1),
         standardNormal := fun g => (0, g) } : Host Unit Unit)
      ({ m_type := 0, m_specularReflectance := fun _ => 1, m_alphaU := fun _ => 1,
         m_alphaV := fun _ => 1, m_totalFacets := 1, m_queryRadius := 1, m_sampleVisible := true,
         m_eta := 1, m_k := fun _ => 1, m_height := fun _ => 1, m_eta1 := 1, m_eta2 := 1,
         m_wavelengths := 1, m_heightRange := fun _ => 1, m_spectralAntialiasing := false,
         m_useGaussianFit := false, integrations := fun _ => none } : Glittery Unit) ()
      ({ its := ⟨(), true, ⟨0, 0⟩, 1, 0, 0, 1⟩, wi := ⟨0, 0, 1⟩, wo := ⟨0, 0, 1⟩,
         component := -1, typeMask := 8, sampler := none, eta := 1.0, sampledComponent := 0,
         sampledType := 8 } : BSDFSamplingRecord Unit) 0 ⟨0, 0, 1⟩ hH rfl
    exact Glittery_sample_zero_facets _ _ _ _ ⟨0, 0⟩ () _ 0 ⟨0, 0, 1⟩ ⟨0, 0, 1⟩ 1 0 _
      rfl hr hnrs one_ne_zero (by dsimp only [Frame.cosTheta]; norm_num) hd hz0 (by unfold IridescenceMean; simp)

/-! ### Normal incidence -/

/-- Claim C35: at normal incidence (`cosThetaI = 1`), for every `eta > 0` and
every real `k`, `fresnelConductorExact` returns
`Rp2 = Rs2 = ((eta - 1) ^ 2 + k ^ 2) / ((eta + 1) ^ 2 + k ^ 2)`. -/
theorem fresnelConductorExact_at_normal_incidence (eta k : ℝ) (heta : 0 < eta) :
    fresnelConductorExact 1 eta k =
      some ⟨((eta - 1) ^ 2 + k ^ 2) / ((eta + 1) ^ 2 + k ^ 2),
        ((eta - 1) ^ 2 + k ^ 2) / ((eta + 1) ^ 2 + k ^ 2)⟩ := by
  obtain ⟨fdiv_eq_some, -, -, -, -, -, -, -, -, -, -, -, -⟩ := checked_arithmetic
  have hpos : 0 < eta ^ 2 + k ^ 2 := by positivity
  have e1 : safe_sqrt ((eta * eta - k * k - (1 - 1 * 1)) * (eta * eta - k * k - (1 - 1 * 1)) +
      4 * k * k * eta * eta) = eta ^ 2 + k ^ 2 := by
    have : (eta * eta - k * k - (1 - 1 * 1)) * (eta * eta - k * k - (1 - 1 * 1)) +
        4 * k * k * eta * eta = (eta ^ 2 + k ^ 2) ^ 2 := by ring
    unfold safe_sqrt
    rw [this, max_eq_right (by positivity), Real.sqrt_sq hpos.le]
  have e2 : safe_sqrt (0.5 * (eta ^ 2 + k ^ 2 + (eta * eta - k * k - (1 - 1 * 1)))) = eta := by
    have : (0.5 * (eta ^ 2 + k ^ 2 + (eta * eta - k * k - (1 - 1 * 1))) : ℝ) = eta ^ 2 := by
      ring
    unfold safe_sqrt
    rw [this, max_eq_right (by positivity), Real.sqrt_sq heta.le]
  have hd1 : eta ^ 2 + k ^ 2 + 1 * 1 + 2 * eta * 1 ≠ 0 := by positivity
  have hd1' : (eta + 1) ^ 2 + k ^ 2 ≠ 0 := by positivity
  have hd2 : (eta ^ 2 + k ^ 2) * (1 * 1) + (1 - 1 * 1) * (1 - 1 * 1) +
      2 * eta * 1 * (1 - 1 * 1) ≠ 0 := by
    have : (eta ^ 2 + k ^ 2) * (1 * 1) + (1 - 1 * 1) * (1 - 1 * 1) +
      2 * eta * 1 * (1 - 1 * 1) = eta ^ 2 + k ^ 2 := by ring
    rw [this]
    exact hpos.ne'
  unfold fresnelConductorExact
  simp only [e1, e2]
  rw [fdiv_eq_some hd1]
  simp only [Option.bind_eq_bind, Option.some_bind]
  rw [fdiv_eq_some hd2]
  simp only [Option.some_bind, pure, Option.some.injEq, TFresnelR.mk.injEq]
  have hp := hpos.ne'
  constructor
  · field_simp
    ring
  · field_simp
    ring

theorem fresnelConductorExact_at_normal_incidence_witness :
    (0 : ℝ) < 3 / 2 ∧
    fresnelConductorExact 1 (3 / 2) 2 =
      some ⟨((3 / 2 - 1) ^ 2 + 2 ^ 2) / ((3 / 2 + 1) ^ 2 + 2 ^ 2),
        ((3 / 2 - 1) ^ 2 + 2 ^ 2) / ((3 / 2 + 1) ^ 2 + 2 ^ 2)⟩ :=
  ⟨by norm_num, fresnelConductorExact_at_normal_incidence (3 / 2) 2 (by norm_num)⟩

/-! ### The two overloads of `sample` -/

/-- Claim C36: for every record, sample point and state of the generator,
`sample(bRec, pdf, sample)` returns exactly when `sample(bRec, sample)` does,
with the same spectrum, the same record (so the same `wo`, `eta`,
`sampledComponent` and `sampledType`) and the same state of the generator: the
result of the first without its `pdf` output is the result of the second. -/
theorem Glittery.sample_overloads_agree {P D G : Type} (host : Host D G) (warp : Warp)
    (self : Glittery P) (bRec : BSDFSamplingRecord P) (pdf0 : ℝ) (sample : Vector2) (gen : G)
    (uninit : Fin 3 → InterfaceSample) (pixelArea0 : ℝ) :
    (Glittery.sampleWithPdf host warp self bRec pdf0 sample gen uninit pixelArea0).map
        (fun r => (r.1, r.2.1, r.2.2.1)) =
      Glittery.sample host warp self bRec sample gen uninit pixelArea0 := by
  unfold Glittery.sampleWithPdf Glittery.sample
  by_cases hr : Glittery.sampleRejects host bRec
  · simp only [hr, if_true, pure, Option.map_some']
  · simp only [hr, if_false]
    split_ifs with h1 h2
    · simp only [pure, Option.map_some']
    · simp only [pure, Option.map_some']
    · cases hd : Glittery.evaluateD host self
        (host.distribution self.m_type (2.0 * (self.m_alphaU bRec.its).average)
          (2.0 * (self.m_alphaV bRec.its).average) self.m_totalFacets self.m_sampleVisible)
        { bRec with
          wo := warp.toWorld (Glittery.reflect bRec.wi (host.sample
            (host.distribution self.m_type (2.0 * (self.m_alphaU bRec.its).average)
              (2.0 * (self.m_alphaV bRec.its).average) self.m_totalFacets self.m_sampleVisible)
            bRec.wi sample).1) (warp.squareToUniformCone (Real.cos self.m_queryRadius) sample),
          eta := 1.0, sampledComponent := 0, sampledType := host.EGlossyReflection }
        pixelArea0 with
      | none => simp only [hd, Option.bind_eq_bind, Option.none_bind, Option.map_none']
      | some dv =>
        simp only [hd, Option.bind_eq_bind, Option.some_bind]
        split_ifs with h3
        · simp only [Option.map_bind, Function.comp_def, pure, Option.map_some']
        · simp only [Option.map_bind, Function.comp_def, pure, Option.map_some']

/-! ### The mirror reflection -/

/-- Claim C37: `reflect(wi, m)` is the mirror reflection of `wi` about `m`: for
every `wi` and every unit vector `m`, `wi + reflect(wi, m) = 2 * dot(wi, m) * m`,
`dot(reflect(wi, m), m) = dot(wi, m)`, the length of `reflect(wi, m)` is the
length of `wi`, and `reflect(reflect(wi, m), m) = wi`. -/
theorem Glittery.reflect_mirror (wi m : Vector3) (hunit : dot m m = 1) :
    wi.add (Glittery.reflect wi m) = Vector3.smul (2 * dot wi m) m ∧
    dot (Glittery.reflect wi m) m = dot wi m ∧
    dot (Glittery.reflect wi m) (Glittery.reflect wi m) = dot wi wi ∧
    Real.sqrt (dot (Glittery.reflect wi m) (Glittery.reflect wi m)) = Real.sqrt (dot wi wi) ∧
    Glittery.reflect (Glittery.reflect wi m) m = wi := by
  have h1 : m.x * m.x + m.y * m.y + m.z * m.z = 1 := hunit
  have hdot : dot (Glittery.reflect wi m) m = dot wi m := by
    dsimp only [Glittery.reflect, Vector3.sub, Vector3.smul, dot]
    linear_combination (2 * (wi.x * m.x + wi.y * m.y + wi.z * m.z)) * h1
  have hlen : dot (Glittery.reflect wi m) (Glittery.reflect wi m) = dot wi wi := by
    dsimp only [Glittery.reflect, Vector3.sub, Vector3.smul, dot]
    linear_combination (4 * (wi.x * m.x + wi.y * m.y + wi.z * m.z) ^ 2) * h1
  refine ⟨?_, hdot, hlen, by rw [hlen], ?_⟩
  · dsimp only [Glittery.reflect, Vector3.add, Vector3.sub, Vector3.smul]
    simp only [TVector3.mk.injEq]
    refine ⟨by ring, by ring, by ring⟩
  · have e : Glittery.reflect (Glittery.reflect wi m) m =
        (Vector3.smul (2 * dot (Glittery.reflect wi m) m) m).sub (Glittery.reflect wi m) := rfl
    rw [e, hdot]
    cases wi
    dsimp only [Glittery.reflect, Vector3.sub, Vector3.smul]
    simp only [TVector3.mk.injEq]
    refine ⟨by ring, by ring, by ring⟩

theorem Glittery.reflect_mirror_witness :
    dot (⟨3 / 5, 0, 4 / 5⟩ : Vector3) ⟨3 / 5, 0, 4 / 5⟩ = 1 ∧
    Glittery.reflect ⟨0, 0, 1⟩ ⟨3 / 5, 0, 4 / 5⟩ = ⟨24 / 25, 0, 7 / 25⟩ ∧
    Glittery.reflect (Glittery.reflect ⟨0, 0, 1⟩ ⟨3 / 5, 0, 4 / 5⟩) ⟨3 / 5, 0, 4 / 5⟩ =
      ⟨0, 0, 1⟩ :=
  ⟨by dsimp only [dot]; norm_num,
    by dsimp only [Glittery.reflect, Vector3.sub, Vector3.smul, dot]; norm_num,
    (Glittery.reflect_mirror ⟨0, 0, 1⟩ ⟨3 / 5, 0, 4 / 5⟩ (by dsimp only [dot]; norm_num)).2.2.2.2⟩

/-! ### The pixel footprint -/

/-- Claim C38: for every `center` and every pair of extents `U`, `V`,
`extentsToPoint` returns `p1 = center`, `p3 = center + U + V` and `p0`, `p2` the
points `center + U`, `center + V` in the order of the winding; the shoelace
signed area of the polygon `(p0, p1, p2, p3)` is `|U.x * V.y - U.y * V.x| ≥ 0`
(counter-clockwise order), and so is `2 * triangleArea(p0, p2, p1)`, the
`pixelArea` that `evaluateD` returns with the footprint of the record, whatever
the centre is. -/
theorem Glittery.extentsToPoint_area (center U V : Vector2) :
    Glittery.extentsToPoint center U V 1 = center ∧
    Glittery.extentsToPoint center U V 3 = ⟨center.x + U.x + V.x, center.y + U.y + V.y⟩ ∧
    ((U.x * V.y - U.y * V.x < 0 ∧
        Glittery.extentsToPoint center U V 0 = ⟨center.x + U.x, center.y + U.y⟩ ∧
        Glittery.extentsToPoint center U V 2 = ⟨center.x + V.x, center.y + V.y⟩) ∨
      (0 ≤ U.x * V.y - U.y * V.x ∧
        Glittery.extentsToPoint center U V 0 = ⟨center.x + V.x, center.y + V.y⟩ ∧
        Glittery.extentsToPoint center U V 2 = ⟨center.x + U.x, center.y + U.y⟩)) ∧
    (((Glittery.extentsToPoint center U V 0).x * (Glittery.extentsToPoint center U V 1).y -
        (Glittery.extentsToPoint center U V 1).x * (Glittery.extentsToPoint center U V 0).y) +
      ((Glittery.extentsToPoint center U V 1).x * (Glittery.extentsToPoint center U V 2).y -
        (Glittery.extentsToPoint center U V 2).x * (Glittery.extentsToPoint center U V 1).y) +
      ((Glittery.extentsToPoint center U V 2).x * (Glittery.extentsToPoint center U V 3).y -
        (Glittery.extentsToPoint center U V 3).x * (Glittery.extentsToPoint center U V 2).y) +
      ((Glittery.extentsToPoint center U V 3).x * (Glittery.extentsToPoint center U V 0).y -
        (Glittery.extentsToPoint center U V 0).x * (Glittery.extentsToPoint center U V 3).y)) / 2
      = |U.x * V.y - U.y * V.x| ∧
    0 ≤ |U.x * V.y - U.y * V.x| ∧
    2 * triangleArea (Glittery.extentsToPoint center U V 0) (Glittery.extentsToPoint center U V 2)
      (Glittery.extentsToPoint center U V 1) = |U.x * V.y - U.y * V.x| ∧
    ∀ {P D G : Type} (host : Host D G) (self : Glittery P) (distr : D)
      (bRec : BSDFSamplingRecord P) (pixelArea0 : ℝ) (H : Vector3),
      normalize (bRec.wo.add bRec.wi) = some H → bRec.its.hasUVPartials = true →
      center = ⟨bRec.its.uv.x, bRec.its.uv.y⟩ → U = ⟨bRec.its.dudx, bRec.its.dvdx⟩ →
      V = ⟨bRec.its.dudy, bRec.its.dvdy⟩ →
      ∃ value, Glittery.evaluateD host self distr bRec pixelArea0 =
        some (true, value, |U.x * V.y - U.y * V.x|) := by
  have harea : 2 * triangleArea (Glittery.extentsToPoint center U V 0)
      (Glittery.extentsToPoint center U V 2) (Glittery.extentsToPoint center U V 1) =
      |U.x * V.y - U.y * V.x| := by
    unfold Glittery.extentsToPoint triangleArea
    by_cases hw : U.x * V.y - U.y * V.x < 0
    · simp only [hw, if_true, Matrix.cons_val_zero, Matrix.cons_val_one, Matrix.head_cons,
        Matrix.cons_val_two, Matrix.tail_cons]
      have e : (center.x + U.x) * (center.y + V.y - center.y) +
          (center.x + V.x) * (center.y - (center.y + U.y)) +
          center.x * (center.y + U.y - (center.y + V.y)) = U.x * V.y - U.y * V.x := by ring
      rw [e]
      ring
    · simp only [hw, if_false, Matrix.cons_val_zero, Matrix.cons_val_one, Matrix.head_cons,
        Matrix.cons_val_two, Matrix.tail_cons]
      have e : (center.x + V.x) * (center.y + U.y - center.y) +
          (center.x + U.x) * (center.y - (center.y + V.y)) +
          center.x * (center.y + V.y - (center.y + U.y)) = -(U.x * V.y - U.y * V.x) := by ring
      rw [e, abs_neg]
      ring
  refine ⟨?_, ?_, ?_, ?_, abs_nonneg _, harea, ?_⟩
  · unfold Glittery.extentsToPoint
    by_cases hw : U.x * V.y - U.y * V.x < 0 <;> simp [hw]
  · unfold Glittery.extentsToPoint
    by_cases hw : U.x * V.y - U.y * V.x < 0 <;> simp [hw]
  · unfold Glittery.extentsToPoint
    by_cases hw : U.x * V.y - U.y * V.x < 0
    · left
      simp [hw]
    · right
      simp [hw, not_lt.1 hw]
  · unfold Glittery.extentsToPoint
    by_cases hw : U.x * V.y - U.y * V.x < 0
    · simp only [hw, if_true, Matrix.cons_val_zero, Matrix.cons_val_one, Matrix.head_cons,
        Matrix.cons_val_two, Matrix.tail_cons, Matrix.cons_val_three]
      rw [abs_of_neg hw]
      ring
    · simp only [hw, if_false, Matrix.cons_val_zero, Matrix.cons_val_one, Matrix.head_cons,
        Matrix.cons_val_two, Matrix.tail_cons, Matrix.cons_val_three]
      rw [abs_of_nonneg (not_lt.1 hw)]
      ring
  · intro P D G host self distr bRec pixelArea0 H hH hUV hc hU hV
    subst hc hU hV
    unfold Glittery.evaluateD
    simp only [hH, hUV, Option.bind_eq_bind, Option.some_bind, Bool.not_true, Bool.false_eq_true,
      if_false, pure, Option.some.injEq, Prod.mk.injEq, true_and]
    exact ⟨_, rfl, harea⟩

/-! ### The conversion from XYZ to RGB -/

/-- Claim C39: the conversion matrix applied to `(1, 1, 1)` gives three components
within `1e-4` of `1`; `sampleF` returns the clamped product of that matrix and
the three draws, and `IridescenceTerm` in antialiased mode half the clamped
product of the same matrix and the spectrum accumulated by the two
polarizations; on the white input (mean `1`, variance `0`) `sampleF` returns
`(1.0000283, 0.9999944, 1.0000062)`, and so does `IridescenceTerm` on a
total-internal-reflection input, where the accumulated spectrum is `(2, 2, 2)`. -/
theorem xyz_to_rgb_preserves_white :
    (∀ i : Fin 3, |Matrix.mulVec
        !![2.3646381, -0.8965361, -0.4680737;
           -0.5151664, 1.4264000, 0.0887608;
           0.0052037, -0.0144081, 1.0092106] (fun _ => (1 : ℝ)) i - 1| ≤ 1e-4) ∧
    (∀ {D G : Type} (host : Host D G) (n : ℤ) (mean variance : Spectrum) (gen : G),
      0 < n → (∀ i, 0 ≤ variance i) →
      Glittery.sampleF host n mean variance gen = some
        (Spectrum.clampNegative (Matrix.mulVec
          !![2.3646381, -0.8965361, -0.4680737;
             -0.5151664, 1.4264000, 0.0887608;
             0.0052037, -0.0144081, 1.0092106]
          ![mean 0 + Real.sqrt (variance 0 / n) * (host.standardNormal gen).1,
            mean 1 + Real.sqrt (variance 1 / n) *
              (host.standardNormal (host.standardNormal gen).2).1,
            mean 2 + Real.sqrt (variance 2 / n) *
              (host.standardNormal (host.standardNormal (host.standardNormal gen).2).2).1]),
          (host.standardNormal (host.standardNormal (host.standardNormal gen).2).2).2)) ∧
    (∀ (ct1 : ℝ) (params : IridescenceParams) (uninit : Fin 3 → InterfaceSample) (v : Spectrum),
      params.spectralAntialiasing = true → IridescenceTerm ct1 params uninit = some v →
      ∃ (ifc : Fin 3 → InterfaceSample) (ph21 ph23 : Spectrum × Spectrum)
        (r123p r123s Ip I : Spectrum),
        (collectChannels fun i => interfaceChannel ct1 (params.eta1 i) (params.eta2 i)
          (params.eta3 i) (params.kappa3 i) (uninit i)) = some ifc ∧
        fresnelPhaseExact (fun _ => ct1) (fun _ => 1) params.eta2 (fun _ => 0) = some ph21 ∧
        fresnelPhaseExact (fun i => (ifc i).ct2) params.eta2 params.eta3 params.kappa3 =
          some ph23 ∧
        Spectrum.csqrt ((fun i => (ifc i).R12p) * fun i => (ifc i).R23p) = some r123p ∧
        Spectrum.csqrt ((fun i => (ifc i).R12s) * fun i => (ifc i).R23s) = some r123s ∧
        harmonicTerm (fun i => (ifc i).R12p) (fun i => (ifc i).T121p) (fun i => (ifc i).R23p)
          r123p (fun i => 2 * params.eta2 i * params.height 0 * (ifc i).ct2)
          (ph23.1 + fun i => Real.pi - ph21.1 i) params.useGaussianFit 0 = some Ip ∧
        harmonicTerm (fun i => (ifc i).R12s) (fun i => (ifc i).T121s) (fun i => (ifc i).R23s)
          r123s (fun i => 2 * params.eta2 i * params.height 0 * (ifc i).ct2)
          (ph23.2 + fun i => Real.pi - ph21.2 i) params.useGaussianFit Ip = some I ∧
        v = fun c => 0.5 * Spectrum.clampNegative (Matrix.mulVec
          !![2.3646381, -0.8965361, -0.4680737;
             -0.5151664, 1.4264000, 0.0887608;
             0.0052037, -0.0144081, 1.0092106] ![I 0, I 1, I 2]) c) ∧
    (∀ {D G : Type} (host : Host D G) (gen : G),
      Glittery.sampleF host 1 (fun _ => 1) (fun _ => 0) gen = some
        (![1.0000283, 0.9999944, 1.0000062],
          (host.standardNormal (host.standardNormal (host.standardNormal gen).2).2).2)) ∧
    IridescenceTerm 0
      { height := fun _ => 400, eta1 := fun _ => 2, eta2 := fun _ => 1, eta3 := fun _ => 1,
        kappa3 := fun _ => 0, wavelengths := fun _ => 1, spectralAntialiasing := true,
        useGaussianFit := true }
      (fun _ => ⟨0, 0, 0, 0, 0, 0, 1⟩) = some ![1.0000283, 0.9999944, 1.0000062] := by
  obtain ⟨-, -, -, -, -, -, Glittery_sampleF_eq, -⟩ := sqrt_lemmas
  obtain ⟨-, -, -, -, -, -, IridescenceTerm_tir_antialiased, -, -, -, -, xyz_to_rgb_mulVec,
      IridescenceTerm_matrix⟩ := antialiased_lemmas
  refine ⟨?_, ?_, ?_, ?_, IridescenceTerm_tir_antialiased⟩
  · intro i
    fin_cases i <;>
      simp [Matrix.mulVec, Matrix.dotProduct, Fin.sum_univ_three] <;> norm_num [abs_le]
  · intro D G host n mean variance gen hn hv
    rw [Glittery_sampleF_eq host n mean variance gen hn hv, xyz_to_rgb_mulVec]
  · intro ct1 params uninit v hAA hv
    exact IridescenceTerm_matrix ct1 params uninit v hAA hv
  · intro D G host gen
    rw [Glittery_sampleF_eq host 1 (fun _ => 1) (fun _ => 0) gen one_pos (fun _ => le_refl _)]
    simp only [Int.cast_one, div_one, Real.sqrt_zero, zero_mul, add_zero, mul_one,
      Option.some.injEq, Prod.mk.injEq, and_true]
    funext c
    fin_cases c <;> simp [Spectrum.clampNegative] <;> norm_num

end Mitsuba
